import Mathlib

/-!
# MLX75322 SPI driver: packet codec, transport adapter, synchronous-mode check, continuous mode,
acquisition step, variable database

Shallow embedding of `spi_drv_com_tools.c` and `spi_drv_com.c`, of the configuration check, the
configuration read and the device order of `spi_drv_sync_mode.c`, of the broadcast functions of
`spi_drv_sync_com.c`, of the continuous-mode thread of `cont_mode_lib.c` with the device-level
stop, of `spiDriver_MakeSync` and the acquisition step `spiDriver_getSingleSyncStep` with its
ticks of `spi_drv_trace.c`, of `ReverseBytes16` of `spi_drv_tools.c` on bytes, and of the
variable lookup and the bit-field functions of `spi_drv_data.c` with `GetHashDjb2` of
`hash_lib.c`.

* C `uint16_t` buffers are maps from word index to value (`WordBuf`); machine
  integers are `Nat` (or `Int` for `int`) with the C truncations spelled out.
* The globals `diagDetails`, `pktWords` and `payload` are passed explicitly.
* The platform HAL (`spiDriver_PinWaitForReady`, `spiDriver_SpiWriteAndRead`)
  is a parameter acting on an explicit device state.
* Buffers that the code allocates are maps as well, with their indeterminate initial content
  as a parameter. Where a fault of the C code is modelled (a remainder modulo zero, a `memcpy`
  through `NULL` or with a negative length, the read of the layer at the cursor outside the
  array of layers), the result is `none`.
* Loops over the configured devices are folds over the device indices (`forIc`); the
  continuous-mode thread is a function of the messages it receives, and what it sends or
  calls is recorded in a list of actions.
-/

namespace Mlx75322

/-! ## Types and constants (`spi_drv_common_types.h`, `spi_drv_com_tools.h`) -/

/-- A `uint16_t*` buffer, indexed by word. -/
abbrev WordBuf := Nat → Nat

/-- The enum `FuncResult_e`; the driver combines its values with `|=`. -/
abbrev FuncResult_e := Nat

abbrev SPI_DRV_FUNC_RES_OK : FuncResult_e := 0
abbrev SPI_DRV_FUNC_RES_FAIL : FuncResult_e := 1
abbrev SPI_DRV_FUNC_RES_FAIL_MEMORY : FuncResult_e := 2
abbrev SPI_DRV_FUNC_RES_FAIL_INPUT_CFG : FuncResult_e := 3
abbrev SPI_DRV_FUNC_RES_FAIL_INPUT_DATA : FuncResult_e := 4
abbrev SPI_DRV_FUNC_RES_FAIL_COMM : FuncResult_e := 5
abbrev SPI_DRV_FUNC_RES_UNKNOWN : FuncResult_e := 127

/-- The enum `ComStat_e`. -/
abbrev ComStat_e := Nat

abbrev CS_SUCCESS : ComStat_e := 0x0000
abbrev CS_CRC : ComStat_e := 0x0001
abbrev CS_TYPE : ComStat_e := 0x0002
abbrev CS_SIZE : ComStat_e := 0x0004
abbrev CS_LEN : ComStat_e := 0x0008
abbrev CS_API_BAD_SIZE : ComStat_e := 0x0010
abbrev CS_API_BAD_ARGS : ComStat_e := 0x0020
abbrev CS_TIMEOUT : ComStat_e := 0x0040

/-- The struct `DiagDetailsPkt_t`: `int halStat; uint16_t comStat; uint32_t devStat`. -/
structure DiagDetailsPkt_t where
  halStat : Int
  comStat : Nat
  devStat : Nat
deriving DecidableEq, Repr

/-- The global `DiagDetailsPkt_t diagDetails[2]`. -/
abbrev DiagDetails := Fin 2 → DiagDetailsPkt_t

abbrev DEV_STAT_IGNORE_MASK : Nat := 0x80080001
abbrev MAX_PKT_PAYLOAD_WORDS : Nat := 1208
abbrev MAX_PKT_WORDS : Nat := MAX_PKT_PAYLOAD_WORDS + 1 + 1
abbrev MAX_RW_SIZE : Nat := 256

/-! The enum `PktType_e`. -/

abbrev READ : Nat := 0
abbrev WRITE : Nat := 1
abbrev FUNCTION : Nat := 2
abbrev STATUS_SHORT : Nat := 4
abbrev STATUS_LONG : Nat := 5
abbrev READ_DATA_RESP_SHORT : Nat := 6
abbrev READ_DATA_RESP_LONG : Nat := 7
abbrev WRITE_DATA_LONG : Nat := 8
abbrev ECHO_DATA_RESP : Nat := 12
abbrev RAW_DATA_RESP : Nat := 13
abbrev SYNC : Nat := 14
abbrev WRITE_PATCH : Nat := 15

/-- The table `crcTable` of `spi_drv_com.c`. -/
def crcTable : List Nat := [
  0x0000, 0x1021, 0x2042, 0x3063, 0x4084, 0x50A5, 0x60C6, 0x70E7,
  0x8108, 0x9129, 0xA14A, 0xB16B, 0xC18C, 0xD1AD, 0xE1CE, 0xF1EF,
  0x1231, 0x0210, 0x3273, 0x2252, 0x52B5, 0x4294, 0x72F7, 0x62D6,
  0x9339, 0x8318, 0xB37B, 0xA35A, 0xD3BD, 0xC39C, 0xF3FF, 0xE3DE,
  0x2462, 0x3443, 0x0420, 0x1401, 0x64E6, 0x74C7, 0x44A4, 0x5485,
  0xA56A, 0xB54B, 0x8528, 0x9509, 0xE5EE, 0xF5CF, 0xC5AC, 0xD58D,
  0x3653, 0x2672, 0x1611, 0x0630, 0x76D7, 0x66F6, 0x5695, 0x46B4,
  0xB75B, 0xA77A, 0x9719, 0x8738, 0xF7DF, 0xE7FE, 0xD79D, 0xC7BC,
  0x48C4, 0x58E5, 0x6886, 0x78A7, 0x0840, 0x1861, 0x2802, 0x3823,
  0xC9CC, 0xD9ED, 0xE98E, 0xF9AF, 0x8948, 0x9969, 0xA90A, 0xB92B,
  0x5AF5, 0x4AD4, 0x7AB7, 0x6A96, 0x1A71, 0x0A50, 0x3A33, 0x2A12,
  0xDBFD, 0xCBDC, 0xFBBF, 0xEB9E, 0x9B79, 0x8B58, 0xBB3B, 0xAB1A,
  0x6CA6, 0x7C87, 0x4CE4, 0x5CC5, 0x2C22, 0x3C03, 0x0C60, 0x1C41,
  0xEDAE, 0xFD8F, 0xCDEC, 0xDDCD, 0xAD2A, 0xBD0B, 0x8D68, 0x9D49,
  0x7E97, 0x6EB6, 0x5ED5, 0x4EF4, 0x3E13, 0x2E32, 0x1E51, 0x0E70,
  0xFF9F, 0xEFBE, 0xDFDD, 0xCFFC, 0xBF1B, 0xAF3A, 0x9F59, 0x8F78,
  0x9188, 0x81A9, 0xB1CA, 0xA1EB, 0xD10C, 0xC12D, 0xF14E, 0xE16F,
  0x1080, 0x00A1, 0x30C2, 0x20E3, 0x5004, 0x4025, 0x7046, 0x6067,
  0x83B9, 0x9398, 0xA3FB, 0xB3DA, 0xC33D, 0xD31C, 0xE37F, 0xF35E,
  0x02B1, 0x1290, 0x22F3, 0x32D2, 0x4235, 0x5214, 0x6277, 0x7256,
  0xB5EA, 0xA5CB, 0x95A8, 0x8589, 0xF56E, 0xE54F, 0xD52C, 0xC50D,
  0x34E2, 0x24C3, 0x14A0, 0x0481, 0x7466, 0x6447, 0x5424, 0x4405,
  0xA7DB, 0xB7FA, 0x8799, 0x97B8, 0xE75F, 0xF77E, 0xC71D, 0xD73C,
  0x26D3, 0x36F2, 0x0691, 0x16B0, 0x6657, 0x7676, 0x4615, 0x5634,
  0xD94C, 0xC96D, 0xF90E, 0xE92F, 0x99C8, 0x89E9, 0xB98A, 0xA9AB,
  0x5844, 0x4865, 0x7806, 0x6827, 0x18C0, 0x08E1, 0x3882, 0x28A3,
  0xCB7D, 0xDB5C, 0xEB3F, 0xFB1E, 0x8BF9, 0x9BD8, 0xABBB, 0xBB9A,
  0x4A75, 0x5A54, 0x6A37, 0x7A16, 0x0AF1, 0x1AD0, 0x2AB3, 0x3A92,
  0xFD2E, 0xED0F, 0xDD6C, 0xCD4D, 0xBDAA, 0xAD8B, 0x9DE8, 0x8DC9,
  0x7C26, 0x6C07, 0x5C64, 0x4C45, 0x3CA2, 0x2C83, 0x1CE0, 0x0CC1,
  0xEF1F, 0xFF3E, 0xCF5D, 0xDF7C, 0xAF9B, 0xBFBA, 0x8FD9, 0x9FF8,
  0x6E17, 0x7E36, 0x4E55, 0x5E74, 0x2E93, 0x3EB2, 0x0ED1, 0x1EF0
]

/-! ## `spi_drv_com_tools.c` -/

/-- The function `clearDiagDetails`: both slots are zeroed. -/
def clearDiagDetails : DiagDetails := fun _ => { halStat := 0, comStat := 0, devStat := 0 }

/-- One table step of `calcCrc`:
`idx = ((uint8_t)(crc >> 8) ^ byte) & 0xFF; crc = ((crc << 8) ^ crcTable[idx]) & 0xFFFF`. -/
def crcByte (crc byte : Nat) : Nat :=
  let idx := (((crc >>> 8) % 256) ^^^ byte) &&& 0xFF
  ((crc <<< 8) ^^^ crcTable.getD idx 0) &&& 0xFFFF

/-- The body of the `for` loop of `calcCrc` for one word: high byte, then low byte. -/
def crcWord (crc word : Nat) : Nat :=
  let byteHi := (word >>> 8) % 256
  let byteLo := (word &&& 0x00FF) % 256
  crcByte (crcByte crc byteHi) byteLo

/-- The value of `crc` in `calcCrc` after the first `ww` iterations of its loop. -/
def calcCrcLoop (wordBuf : WordBuf) : Nat → Nat
  | 0 => 0x0000
  | ww + 1 => crcWord (calcCrcLoop wordBuf ww) (wordBuf ww)

/-- The function `calcCrc(wordSizeOfCrcEnvelope, wordBuf)`. -/
def calcCrc (wordSizeOfCrcEnvelope : Nat) (wordBuf : WordBuf) : Nat :=
  calcCrcLoop wordBuf wordSizeOfCrcEnvelope

/-- The call `memcpy(&dst[dstOff], &src[srcOff], n * sizeof(uint16_t))` on word buffers. -/
def memcpyWords (dst : WordBuf) (dstOff : Nat) (src : WordBuf) (srcOff n : Nat) : WordBuf :=
  fun i => if dstOff ≤ i ∧ i < dstOff + n then src (srcOff + (i - dstOff)) else dst i

/-- The function `makeSpiPacket(ptype, sizeField, sizePayload, payload)`; the result is the
new content of the global `pktWords` (the C function always returns `SPI_DRV_FUNC_RES_OK`). -/
def makeSpiPacket (ptype sizeField sizePayload : Nat) (payload : WordBuf)
    (pktWords : WordBuf) : WordBuf :=
  let header :=
    if ptype = STATUS_SHORT ∨ ptype = STATUS_LONG then (ptype <<< 12) % 65536
    else ((ptype <<< 12) ||| sizeField) % 65536
  let pkt1 := Function.update pktWords 0 header
  let pkt2 := memcpyWords pkt1 1 payload 0 sizePayload
  let crc := calcCrc ((1 + sizePayload) % 65536) pkt2
  Function.update pkt2 (sizePayload + 1) crc

/-- The local `expectedSizeField` of `validatePkt`. -/
def expectedSizeField (expectedPtype xactSize : Nat) : Nat :=
  if expectedPtype = STATUS_SHORT ∨ expectedPtype = STATUS_LONG then 0 else xactSize

/-- The local `expectedLengthOfBuf` of `validatePkt` (a `uint16_t`). -/
def expectedLengthOfBuf (expectedPtype xactSize : Nat) : Nat :=
  if expectedPtype = READ ∨ expectedPtype = WRITE ∨ expectedPtype = FUNCTION
      ∨ expectedPtype = STATUS_SHORT ∨ expectedPtype = READ_DATA_RESP_SHORT
      ∨ expectedPtype = 9 ∨ expectedPtype = 10 ∨ expectedPtype = 11
      ∨ expectedPtype = SYNC ∨ expectedPtype = WRITE_PATCH then 4
  else (xactSize + 2) % 65536

/-- The value stored in `diagDetails[pktNum].devStat` by `validatePkt`: refreshed from words
1 and 2 of the buffer for the STATUS types, kept otherwise. -/
def validatedDevStat (expectedPtype : Nat) (validateBuf : WordBuf) (old : Nat) : Nat :=
  if expectedPtype = STATUS_SHORT ∨ expectedPtype = STATUS_LONG then
    ((validateBuf 1 <<< 16) % 4294967296) ||| validateBuf 2
  else old

/-- The `uint32_t` value `~DEV_STAT_IGNORE_MASK`. -/
def devStatCheckMask : Nat := 4294967295 - DEV_STAT_IGNORE_MASK

/-- The function `validatePkt(pktNum, expectedPtype, xactSize, validateBuf)`: returns the
result code and the new content of the global `diagDetails`.  The CRC word is read at index
`expectedLengthOfBuf - 1` and the envelope has `(uint16_t)(expectedLengthOfBuf - 1)` words. -/
def validatePkt (pktNum : Fin 2) (expectedPtype xactSize : Nat) (validateBuf : WordBuf)
    (diagDetails : DiagDetails) : FuncResult_e × DiagDetails :=
  let valBufPtype := validateBuf 0 >>> 12
  let valBufSizeField := validateBuf 0 &&& 0x0FFF
  let d0 := diagDetails pktNum
  let devStat := validatedDevStat expectedPtype validateBuf d0.devStat
  let len := expectedLengthOfBuf expectedPtype xactSize
  let valBufCrc := validateBuf (len - 1)
  let wordSizeOfCrcEnvelope := (len + 65535) % 65536
  let calculatedCrc := calcCrc wordSizeOfCrcEnvelope validateBuf
  let crcFail := valBufCrc ≠ calculatedCrc
  let statusValue1 := if crcFail then 0 ||| 0x0001 else 0
  let comStat1 := if crcFail then d0.comStat ||| CS_CRC else d0.comStat
  let typeFail := valBufPtype ≠ expectedPtype
  let statusValue2 := if typeFail then statusValue1 ||| 0x0002 else statusValue1
  let comStat2 := if typeFail then comStat1 ||| CS_TYPE else comStat1
  let sizeFail := valBufSizeField ≠ expectedSizeField expectedPtype xactSize
  let statusValue3 := if sizeFail then statusValue2 ||| 0x0004 else statusValue2
  let comStat3 := if sizeFail then comStat2 ||| CS_SIZE else comStat2
  let statusValue4 :=
    if d0.halStat < 0 ∨ comStat3 ≠ CS_SUCCESS ∨ (devStat &&& devStatCheckMask) ≠ 0 then
      statusValue3 ||| 0x0008
    else statusValue3
  let res := if statusValue4 = 0 then SPI_DRV_FUNC_RES_OK else SPI_DRV_FUNC_RES_FAIL_COMM
  (res, Function.update diagDetails pktNum
    { halStat := d0.halStat, comStat := comStat3, devStat := devStat })

/-- The `payload` argument of `makeSpiPacket` for a payload given as a list of words. -/
def payloadOf (payload : List Nat) : WordBuf := fun i => payload.getD i 0

/-- A zero-initialised buffer (the state of a C global array at program start). -/
def zeroBuf : WordBuf := fun _ => 0

/-! ## Transport (`spi_drv_hal_spidev.h`, `spi_drv_hal_gpio.h`, `spi_drv_tools.c`) -/

/-- The platform HAL, acting on a device state `σ`.  `spiDriver_SpiWriteAndRead(data, length)`
transmits from and receives into the one buffer `data`; it gets the buffer as the words it
holds in memory and returns the status, the received buffer and the new device state. -/
structure Hal (σ : Type) where
  spiDriver_PinWaitForReady : σ → ComStat_e × σ
  spiDriver_SpiWriteAndRead : σ → WordBuf → Nat → Int × WordBuf × σ

/-- The value of a 16-bit word after its two bytes have been exchanged. -/
def bswap16 (w : Nat) : Nat := (w % 256) * 256 + (w / 256) % 256

/-- The effect of `ReverseBytes16((uint8_t*)words, size)` on a `uint16_t` array: `size` is a
`uint16_t` whose bit 0 is cleared, and the bytes `2i`, `2i+1` of every word `i` with
`2i < size` are exchanged, which maps the word to `bswap16` of it on any host byte order. -/
def ReverseBytes16Words (buffer : WordBuf) (size : Nat) : WordBuf :=
  let size := (size % 65536) - (size % 65536) % 2
  fun i => if 2 * i < size then bswap16 (buffer i) else buffer i

/-- The globals of `spi_drv_com.c` together with the state of the attached device. -/
structure ComState (σ : Type) where
  diagDetails : DiagDetails
  pktWords : WordBuf
  payload : WordBuf
  dev : σ

/-- Ghost record of one packet exchange: the transaction it belongs to, the diagnostics slot,
the HAL status, and the result of `validatePkt` when the response was validated. -/
structure Exchange where
  xactNum : Nat
  slot : Fin 2
  halStat : Int
  validation : Option FuncResult_e
deriving DecidableEq, Repr

/-- The function `spiCom_WaitForReady`. -/
def spiCom_WaitForReady {σ : Type} (hal : Hal σ) (dev : σ) : ComStat_e × σ :=
  hal.spiDriver_PinWaitForReady dev

/-- The statements
`pktBytes = (uint8_t*)pktWords; ReverseBytes16(pktBytes, revSize);`
`diagDetails[slot].comStat |= spiCom_WaitForReady();`
`diagDetails[slot].halStat = spiDriver_SpiWriteAndRead(pktBytes, length);`. -/
def sendAndReceive {σ : Type} (hal : Hal σ) (slot : Fin 2) (revSize length : Nat)
    (st : ComState σ) : ComState σ :=
  let pktBytes := ReverseBytes16Words st.pktWords revSize
  let ready := spiCom_WaitForReady hal st.dev
  let d := st.diagDetails slot
  let xfer := hal.spiDriver_SpiWriteAndRead ready.2 pktBytes length
  { diagDetails := Function.update st.diagDetails slot
      { halStat := xfer.1, comStat := (d.comStat ||| ready.1) % 65536, devStat := d.devStat }
    pktWords := xfer.2.1
    payload := st.payload
    dev := xfer.2.2 }

/-- The locals shared by the response checks: the accumulated `res`, whether `misoWords` has
been set (it starts as `NULL` and afterwards points at `pktWords`), the globals, and the
ghost trace. -/
structure Checked (σ : Type) where
  res : FuncResult_e
  misoWords : Bool
  com : ComState σ
  trace : List Exchange

/-- The statement
`if (diagDetails[slot].halStat >= 0) { ReverseBytes16(pktBytes, revSize);`
`misoWords = (uint16_t*)pktBytes; res |= validatePkt(slot, expectedPtype, xactSize, misoWords); }`
`else { res |= SPI_DRV_FUNC_RES_FAIL_COMM; }`. -/
def checkResponse {σ : Type} (xactNum : Nat) (slot : Fin 2) (revSize expectedPtype xactSize : Nat)
    (c : Checked σ) : Checked σ :=
  if 0 ≤ (c.com.diagDetails slot).halStat then
    let misoWords := ReverseBytes16Words c.com.pktWords revSize
    let v := validatePkt slot expectedPtype xactSize misoWords c.com.diagDetails
    { res := c.res ||| v.1
      misoWords := true
      com := { diagDetails := v.2, pktWords := misoWords, payload := c.com.payload,
               dev := c.com.dev }
      trace := c.trace ++ [{ xactNum := xactNum, slot := slot,
                             halStat := (c.com.diagDetails slot).halStat,
                             validation := some v.1 }] }
  else
    { res := c.res ||| SPI_DRV_FUNC_RES_FAIL_COMM
      misoWords := c.misoWords
      com := c.com
      trace := c.trace ++ [{ xactNum := xactNum, slot := slot,
                             halStat := (c.com.diagDetails slot).halStat,
                             validation := none }] }

/-- The size of transaction `xactNum` in `spiCom_Read` and `spiCom_Write`. -/
def sizeXactOf (numXactFull numXactPartial sizeXactPartial xactNum : Nat) : Nat :=
  if xactNum > numXactFull ∧ numXactPartial = 1 then sizeXactPartial else MAX_RW_SIZE

/-- The count `numXactPartial` of `spiCom_Read` and `spiCom_Write`. -/
def numXactPartialOf (sizeXactPartial : Nat) : Nat :=
  if sizeXactPartial > 0 then 1 else 0

/-! ## `spiCom_Read` -/

/-- The locals of `spiCom_Read` that live across loop iterations, the caller's buffer
`readWords`, the globals, and the ghost trace. -/
structure ReadState (σ : Type) where
  res : FuncResult_e
  misoWords : Bool
  rptr : Nat
  offsetXact : Nat
  readWords : WordBuf
  com : ComState σ
  trace : List Exchange

/-- Packet 1 of one iteration of the loop of `spiCom_Read`: the READ command packet and the
check of its STATUS_SHORT response. -/
def spiCom_Read_packet1 {σ : Type} (hal : Hal σ) (xactNum sizeXact : Nat)
    (st : ReadState σ) : Checked σ :=
  let payload1 := Function.update (Function.update st.com.payload 0 st.offsetXact) 1 0
  let com1 : ComState σ :=
    { diagDetails := st.com.diagDetails
      pktWords := makeSpiPacket READ sizeXact 2 payload1 st.com.pktWords
      payload := payload1
      dev := st.com.dev }
  let com2 := sendAndReceive hal 0 8 8 com1
  checkResponse xactNum 0 8 STATUS_SHORT 2
    { res := st.res, misoWords := st.misoWords, com := com2, trace := st.trace }

/-- Packet 2 of one iteration of the loop of `spiCom_Read`: a STATUS_SHORT packet answered by
READ_DATA_RESP_SHORT when `sizeXact < 3`, a STATUS_LONG packet answered by
READ_DATA_RESP_LONG otherwise. -/
def spiCom_Read_packet2 {σ : Type} (hal : Hal σ) (xactNum sizeXact : Nat)
    (c2 : Checked σ) : Checked σ :=
  if sizeXact < 3 then
    let payload2 := Function.update (Function.update c2.com.payload 0 0) 1 0
    let com3 : ComState σ :=
      { diagDetails := c2.com.diagDetails
        pktWords := makeSpiPacket STATUS_SHORT 0 2 payload2 c2.com.pktWords
        payload := payload2
        dev := c2.com.dev }
    let com4 := sendAndReceive hal 1 8 8 com3
    checkResponse xactNum 1 8 READ_DATA_RESP_SHORT sizeXact
      { res := c2.res, misoWords := c2.misoWords, com := com4, trace := c2.trace }
  else
    let payload2 : WordBuf := fun i => if i < MAX_PKT_PAYLOAD_WORDS then 0 else c2.com.payload i
    let com3 : ComState σ :=
      { diagDetails := c2.com.diagDetails
        pktWords := makeSpiPacket STATUS_LONG 0 sizeXact payload2 c2.com.pktWords
        payload := payload2
        dev := c2.com.dev }
    let com4 := sendAndReceive hal 1 ((sizeXact + 2) * 2) ((sizeXact * 2) + 4) com3
    checkResponse xactNum 1 ((sizeXact + 2) * 2) READ_DATA_RESP_LONG sizeXact
      { res := c2.res, misoWords := c2.misoWords, com := com4, trace := c2.trace }

/-- The two packet exchanges of one iteration of the loop of `spiCom_Read`. -/
def spiCom_Read_exchanges {σ : Type} (hal : Hal σ) (xactNum sizeXact : Nat)
    (st : ReadState σ) : Checked σ :=
  spiCom_Read_packet2 hal xactNum sizeXact (spiCom_Read_packet1 hal xactNum sizeXact st)

/-- One iteration of the loop of `spiCom_Read`.  The final `memcpy` reads through `misoWords`;
when that pointer is still `NULL` the behaviour is undefined and the model yields `none`. -/
def spiCom_Read_body {σ : Type} (hal : Hal σ) (numXactFull numXactPartial sizeXactPartial : Nat)
    (xactNum : Nat) (st : ReadState σ) : Option (ReadState σ) :=
  let sizeXact := sizeXactOf numXactFull numXactPartial sizeXactPartial xactNum
  let c := spiCom_Read_exchanges hal xactNum sizeXact st
  if c.misoWords then
    some
      { res := c.res
        misoWords := c.misoWords
        rptr := st.rptr + sizeXact
        offsetXact := (st.offsetXact + MAX_RW_SIZE) % 65536
        readWords := memcpyWords st.readWords st.rptr c.com.pktWords 1 sizeXact
        com := c.com
        trace := c.trace }
  else none

/-- The state of `spiCom_Read` after the iterations `xactNum = 1 .. n` of its loop. -/
def spiCom_Read_loop {σ : Type} (hal : Hal σ) (numXactFull numXactPartial sizeXactPartial : Nat)
    (init : ReadState σ) : Nat → Option (ReadState σ)
  | 0 => some init
  | n + 1 =>
    (spiCom_Read_loop hal numXactFull numXactPartial sizeXactPartial init n).bind
      (spiCom_Read_body hal numXactFull numXactPartial sizeXactPartial (n + 1))

/-- The function `spiCom_Read(offset, wordSize, readWords)`, run on the globals and device
state `st`.  The loop runs for `xactNum = 1 .. numXactFull + numXactPartial`; the returned
state holds the result code `res`, the caller's buffer and the globals. -/
def spiCom_Read {σ : Type} (hal : Hal σ) (offset wordSize : Nat) (readWords : WordBuf)
    (st : ComState σ) : Option (ReadState σ) :=
  let totalSize := wordSize
  let numXactFull := totalSize / MAX_RW_SIZE
  let sizeXactPartial := totalSize % MAX_RW_SIZE
  let numXactPartial := numXactPartialOf sizeXactPartial
  spiCom_Read_loop hal numXactFull numXactPartial sizeXactPartial
    { res := SPI_DRV_FUNC_RES_OK
      misoWords := false
      rptr := 0
      offsetXact := offset
      readWords := readWords
      com := { diagDetails := clearDiagDetails, pktWords := st.pktWords,
               payload := st.payload, dev := st.dev }
      trace := [] }
    (numXactFull + numXactPartial)

/-! ## `spiCom_Write` and `spiCom_WritePatch` -/

/-- The locals of `spiCom_Write` that live across loop iterations, the globals, and the ghost
trace. -/
structure WriteState (σ : Type) where
  res : FuncResult_e
  misoWords : Bool
  offsetXact : Nat
  ptrWriteWords : Nat
  com : ComState σ
  trace : List Exchange

/-- One iteration of the loop of `spiCom_Write`; `writeWords` is the caller's buffer and
`ptrWriteWords` an index into it. -/
def spiCom_Write_body {σ : Type} (hal : Hal σ) (writeWords : WordBuf) (pkt1Type : Nat)
    (numXactFull numXactPartial sizeXactPartial : Nat) (xactNum : Nat) (st : WriteState σ) :
    WriteState σ :=
  let sizeXact := sizeXactOf numXactFull numXactPartial sizeXactPartial xactNum
  let sizeBytesXact := (sizeXact * 2) % 65536
  let c : Checked σ :=
    if sizeXact = 1 then
      let payload1 :=
        Function.update (Function.update st.com.payload 0 st.offsetXact) 1 (writeWords 0)
      let com1 : ComState σ :=
        { diagDetails := st.com.diagDetails
          pktWords := makeSpiPacket pkt1Type 1 2 payload1 st.com.pktWords
          payload := payload1
          dev := st.com.dev }
      let com2 := sendAndReceive hal 0 8 8 com1
      { res := st.res, misoWords := st.misoWords, com := com2,
        trace := st.trace ++ [{ xactNum := xactNum, slot := 0,
                                halStat := (com2.diagDetails 0).halStat,
                                validation := none }] }
    else
      let payload1 := Function.update (Function.update st.com.payload 0 st.offsetXact) 1 0
      let com1 : ComState σ :=
        { diagDetails := st.com.diagDetails
          pktWords := makeSpiPacket pkt1Type sizeXact 2 payload1 st.com.pktWords
          payload := payload1
          dev := st.com.dev }
      let com2 := sendAndReceive hal 0 8 8 com1
      let c2 := checkResponse xactNum 0 8 STATUS_SHORT 2
        { res := st.res, misoWords := st.misoWords, com := com2, trace := st.trace }
      -- Packet 2
      let com3 : ComState σ :=
        { diagDetails := c2.com.diagDetails
          pktWords := makeSpiPacket WRITE_DATA_LONG sizeXact sizeXact
            (fun i => writeWords (st.ptrWriteWords + i)) c2.com.pktWords
          payload := c2.com.payload
          dev := c2.com.dev }
      let com4 := sendAndReceive hal 1 ((sizeXact + 2) * 2) (sizeBytesXact + 4) com3
      checkResponse xactNum 1 (sizeBytesXact + 4) STATUS_LONG sizeXact
        { res := c2.res, misoWords := c2.misoWords, com := com4, trace := c2.trace }
  { res := c.res
    misoWords := c.misoWords
    offsetXact := (st.offsetXact + MAX_RW_SIZE) % 65536
    ptrWriteWords := st.ptrWriteWords + sizeXact
    com := c.com
    trace := c.trace }

/-- The state of `spiCom_Write` after the iterations `xactNum = 1 .. n` of its loop. -/
def spiCom_Write_loop {σ : Type} (hal : Hal σ) (writeWords : WordBuf) (pkt1Type : Nat)
    (numXactFull numXactPartial sizeXactPartial : Nat) (init : WriteState σ) :
    Nat → WriteState σ
  | 0 => init
  | n + 1 =>
    spiCom_Write_body hal writeWords pkt1Type numXactFull numXactPartial sizeXactPartial (n + 1)
      (spiCom_Write_loop hal writeWords pkt1Type numXactFull numXactPartial sizeXactPartial
        init n)

/-- The function `spiCom_Write(offset, wordSize, writeWords, patch)`, run on the globals and
device state `st`; the returned state holds the result code `res` and the globals. -/
def spiCom_Write {σ : Type} (hal : Hal σ) (offset wordSize : Nat) (writeWords : WordBuf)
    (patch : Bool) (st : ComState σ) : WriteState σ :=
  let totalSize := wordSize
  let pkt1Type := if patch = false then WRITE else WRITE_PATCH
  let numXactFull := totalSize / MAX_RW_SIZE
  let sizeXactPartial := totalSize % MAX_RW_SIZE
  let numXactPartial := numXactPartialOf sizeXactPartial
  spiCom_Write_loop hal writeWords pkt1Type numXactFull numXactPartial sizeXactPartial
    { res := SPI_DRV_FUNC_RES_OK
      misoWords := false
      offsetXact := offset
      ptrWriteWords := 0
      com := { diagDetails := clearDiagDetails, pktWords := st.pktWords,
               payload := st.payload, dev := st.dev }
      trace := [] }
    (numXactFull + numXactPartial)

/-- The function `spiCom_WritePatch(offset, size, dataBuf)`: `dataBuf` is the caller's byte
buffer seen as 16-bit words; the result is the returned code, the state left by the inner
`spiCom_Write`, and the caller's buffer after the byte reversal. -/
def spiCom_WritePatch {σ : Type} (hal : Hal σ) (offset size : Nat) (dataBuf : WordBuf)
    (st : ComState σ) : FuncResult_e × WriteState σ × WordBuf :=
  let res := SPI_DRV_FUNC_RES_OK
  let wordSize := (size >>> 1) % 65536
  let patchWords := ReverseBytes16Words dataBuf (wordSize * 2)
  let w := spiCom_Write hal (offset % 65536) wordSize patchWords true st
  (res, w, patchWords)

/-! ## Transports used to exercise the driver -/

/-- A transport whose every exchange fails with the negative status `-1` and leaves the
buffer untouched; the READY pin is always asserted. -/
def failingHal : Hal Unit where
  spiDriver_PinWaitForReady := fun s => (CS_SUCCESS, s)
  spiDriver_SpiWriteAndRead := fun s data _ => (-1, data, s)

/-- The default (weak) HAL of `hal_api`: `spiDriver_PinWaitForReady` returns `CS_SUCCESS` and
`spiDriver_SpiWriteAndRead` returns `SPI_DRV_FUNC_RES_OK` without touching the buffer. -/
def defaultHal : Hal Unit where
  spiDriver_PinWaitForReady := fun s => (CS_SUCCESS, s)
  spiDriver_SpiWriteAndRead := fun s data _ => (0, data, s)

/-- The words of a packet of `length` bytes as they travel on the wire, high byte first:
word `i` of the transmit buffer with its bytes put back in order. -/
def wireWords (data : WordBuf) (length : Nat) : List Nat :=
  (List.range (length / 2)).map (fun i => bswap16 (data i))

/-- A transport that records every packet it is given (as the list of its 16-bit words) and
otherwise behaves like `defaultHal`. -/
def recordingHal : Hal (List (List Nat)) where
  spiDriver_PinWaitForReady := fun s => (CS_SUCCESS, s)
  spiDriver_SpiWriteAndRead := fun s data length => (0, data, s ++ [wireWords data length])

/-- Initial globals: zero-initialised `pktWords` and `payload`, cleared diagnostics. -/
def initCom {σ : Type} (dev : σ) : ComState σ :=
  { diagDetails := clearDiagDetails, pktWords := zeroBuf, payload := zeroBuf, dev := dev }

/-- The data words that a recorded sequence of MOSI packets writes to the device, in order:
the single data word (word 2) of a WRITE or WRITE_PATCH packet whose size field is 1, and the
payload words of a WRITE_DATA_LONG packet; other packets carry no write data. -/
def wireDataWords (log : List (List Nat)) : List Nat :=
  (log.map (fun pkt =>
    let ptype := pkt.getD 0 0 >>> 12
    let size := pkt.getD 0 0 &&& 0x0FFF
    if (ptype = WRITE ∨ ptype = WRITE_PATCH) ∧ size = 1 then [pkt.getD 2 0]
    else if ptype = WRITE_DATA_LONG then (pkt.drop 1).take size
    else [])).flatten

/-- The device offsets addressed by a recorded sequence of MOSI packets: word 1 of every
WRITE or WRITE_PATCH command packet, in order. -/
def wireOffsets (log : List (List Nat)) : List Nat :=
  (log.filter (fun pkt =>
    decide (pkt.getD 0 0 >>> 12 = WRITE ∨ pkt.getD 0 0 >>> 12 = WRITE_PATCH))).map
    (fun pkt => pkt.getD 1 0)

/-- The simulated device of the chunking property of the spec.  It holds a
word-addressed memory with 16-bit addresses, remembers the offset and size of the last READ
command, and logs the READ transactions it has served. -/
structure SimDev where
  mem : Nat → Nat
  pendingOffset : Nat
  pendingSize : Nat
  log : List (Nat × Nat)

/-- The transport of the simulated device.  A READ command packet is
answered with a valid STATUS_SHORT packet (device status 0); the following status packet is
answered with a valid READ_DATA_RESP_SHORT (size below 3) or READ_DATA_RESP_LONG packet that
carries the words `mem[o .. o+s)` of the pending READ.  Packets travel high byte first.  With
`flipCrc` set, bit 0 of the trailing CRC word of every data response is inverted. -/
def simHal (flipCrc : Bool) : Hal SimDev where
  spiDriver_PinWaitForReady := fun s => (CS_SUCCESS, s)
  spiDriver_SpiWriteAndRead := fun s data length =>
    let mosi : WordBuf := fun i => bswap16 (data i)
    if mosi 0 >>> 12 = READ then
      let resp := makeSpiPacket STATUS_SHORT 0 2 zeroBuf zeroBuf
      (0, fun i => bswap16 (resp i),
        { mem := s.mem, pendingOffset := mosi 1, pendingSize := mosi 0 &&& 0x0FFF,
          log := s.log ++ [(mosi 1, mosi 0 &&& 0x0FFF)] })
    else
      let dataWords : WordBuf :=
        fun i => if i < s.pendingSize then s.mem ((s.pendingOffset + i) % 65536) else 0
      let resp :=
        if s.pendingSize < 3 then
          makeSpiPacket READ_DATA_RESP_SHORT s.pendingSize 2 dataWords zeroBuf
        else makeSpiPacket READ_DATA_RESP_LONG s.pendingSize s.pendingSize dataWords zeroBuf
      let sent :=
        if flipCrc then Function.update resp (length / 2 - 1) (resp (length / 2 - 1) ^^^ 1)
        else resp
      (0, fun i => bswap16 (sent i), s)

/-- A simulated device with memory `mem` that has served no transaction yet. -/
def simDev (mem : Nat → Nat) : SimDev :=
  { mem := mem, pendingOffset := 0, pendingSize := 0, log := [] }

/-- Specification side: the buffer a conceptual single transfer of `N` words from device
offset `offset` gives: `buf[i] = mem[offset + i]` for `i < N`, the rest of `buf` untouched. -/
def singleTransferRead (mem : Nat → Nat) (offset N : Nat) (buf : WordBuf) : WordBuf :=
  fun i => if i < N then mem ((offset + i) % 65536) else buf i

/-- Specification side: the READ transactions of a chunked transfer of `N` words from
`offset`: `N / 256` transactions of 256 words, then one of `N % 256` words if that is not 0. -/
def chunkList (offset N : Nat) : List (Nat × Nat) :=
  (List.range (N / MAX_RW_SIZE)).map (fun k => ((offset + MAX_RW_SIZE * k) % 65536, MAX_RW_SIZE))
    ++ (if N % MAX_RW_SIZE ≠ 0 then
          [((offset + MAX_RW_SIZE * (N / MAX_RW_SIZE)) % 65536, N % MAX_RW_SIZE)]
        else [])

/-- An exchange succeeded: the transport returned a non-negative status and the response
passed `validatePkt`. -/
def Exchange.passed (e : Exchange) : Prop :=
  0 ≤ e.halStat ∧ e.validation = some SPI_DRV_FUNC_RES_OK

/-- The accumulated result is `OK` or `FAIL_COMM`, and it is `OK` exactly when every exchange
recorded so far succeeded. -/
def TraceInv (res : FuncResult_e) (trace : List Exchange) : Prop :=
  (res = SPI_DRV_FUNC_RES_OK ∨ res = SPI_DRV_FUNC_RES_FAIL_COMM)
  ∧ (res = SPI_DRV_FUNC_RES_OK ↔ ∀ e ∈ trace, e.passed)

/-- The value of `rptr` (and of `ptrWriteWords`) after `n` transactions of a transfer of `N`
words. -/
def ptrAfter (N n : Nat) : Nat := if MAX_RW_SIZE * n ≤ N then MAX_RW_SIZE * n else N

/-- The READ transactions of the first `n` iterations of a chunked transfer of `N` words from
`offset`, as the loop of `spiCom_Read` issues them. -/
def chunkPrefix (offset N n : Nat) : List (Nat × Nat) :=
  (List.range n).map (fun k =>
    ((offset + MAX_RW_SIZE * k) % 65536,
      sizeXactOf (N / MAX_RW_SIZE) (numXactPartialOf (N % MAX_RW_SIZE)) (N % MAX_RW_SIZE)
        (k + 1)))

def crcIdxOfLow (v : Nat) : Nat :=
  let x := v ^^^ ((v <<< 5) &&& 0xFF)
  x ^^^ (x >>> 4)

/-- The index used by `crcByte`. -/
def crcIdx (crc byte : Nat) : Nat := (((crc >>> 8) % 256) ^^^ byte) &&& 0xFF

/-- The CRC check of `validatePkt` fails: `valBufCrc != calculatedCrc`. -/
def crcMismatch (expectedPtype xactSize : Nat) (validateBuf : WordBuf) : Prop :=
  validateBuf (expectedLengthOfBuf expectedPtype xactSize - 1)
    ≠ calcCrc ((expectedLengthOfBuf expectedPtype xactSize + 65535) % 65536) validateBuf

instance (expectedPtype xactSize : Nat) (validateBuf : WordBuf) :
    Decidable (crcMismatch expectedPtype xactSize validateBuf) := by
  unfold crcMismatch; infer_instance

/-- The type check of `validatePkt` fails: `valBufPtype != expectedPtype`. -/
def typeMismatch (expectedPtype : Nat) (validateBuf : WordBuf) : Prop :=
  validateBuf 0 >>> 12 ≠ expectedPtype

instance (expectedPtype : Nat) (validateBuf : WordBuf) :
    Decidable (typeMismatch expectedPtype validateBuf) := by
  unfold typeMismatch; infer_instance

/-- The size-field check of `validatePkt` fails: `valBufSizeField != expectedSizeField`. -/
def sizeMismatch (expectedPtype xactSize : Nat) (validateBuf : WordBuf) : Prop :=
  validateBuf 0 &&& 0x0FFF ≠ expectedSizeField expectedPtype xactSize

instance (expectedPtype xactSize : Nat) (validateBuf : WordBuf) :
    Decidable (sizeMismatch expectedPtype xactSize validateBuf) := by
  unfold sizeMismatch; infer_instance

/-- The header word written by `makeSpiPacket`. -/
def headerWord (ptype sizeField : Nat) : Nat :=
  if ptype = STATUS_SHORT ∨ ptype = STATUS_LONG then (ptype <<< 12) % 65536
  else ((ptype <<< 12) ||| sizeField) % 65536

/-! ## Synchronous-mode configuration check (`spi_drv_sync_mode.c`) -/

/-- Maximum number of layers in a scene order (`LAYERS_ORDER_MAX`). -/
abbrev LAYERS_ORDER_MAX : Nat := 32

/-- Maximum number of ICs (`MAX_IC_ID_NUMBER`). -/
abbrev MAX_IC_ID_NUMBER : Nat := 16

/-- The layer parameters taken into account in synchronous mode (`SyncLayerConfig_t`); every
field is a `uint16_t`. -/
structure SyncLayerConfig_t where
  layer_index : Nat
  averaging : Nat
  trigger_period : Nat
  sampling_mode : Nat
  dark_frame_en : Nat
  dark_averaging : Nat
  lsm_config : Nat
deriving DecidableEq

/-- The scene parameters taken into account in synchronous mode (`SyncSceneConfig_t`). The
array `layer_cfg[LAYERS_ORDER_MAX]` is a function of the index. -/
structure SyncSceneConfig_t where
  layer_cfg : Nat → SyncLayerConfig_t
  layer_count : Nat
  sync_mode : Nat
  recharge_led_en : Nat
  slave_mode : Nat

/-- The `if … else if …` chain in the loop body of `CompareSyncConfig`: the value `res` has
after the chain, for the reference layer `r` and the compared layer `s`. -/
def compareSyncLayer (r s : SyncLayerConfig_t) : Bool :=
  if r.averaging ≠ s.averaging then false
  else if r.trigger_period ≠ s.trigger_period then false
  else if r.sampling_mode ≠ s.sampling_mode then false
  else if r.dark_frame_en ≠ s.dark_frame_en then false
  else if r.lsm_config ≠ s.lsm_config then false
  else if r.dark_averaging ≠ s.dark_averaging ∧ r.dark_frame_en ≠ 0 then false
  else true

/-- The loop `while ((layer_ind < max_layer_ind) && res)` of `CompareSyncConfig`, entered with
`res = true`; the first argument is the number of iterations left, `max_layer_ind - layer_ind`.
A remainder modulo a zero layer count is undefined in C and gives `none`. -/
def CompareSyncConfig_loop (ref_config sync_config : SyncSceneConfig_t) :
    Nat → Nat → Option Bool
  | 0, _ => some true
  | left + 1, layer_ind =>
    if ref_config.layer_count = 0 ∨ sync_config.layer_count = 0 then none
    else if compareSyncLayer (ref_config.layer_cfg (layer_ind % ref_config.layer_count))
        (sync_config.layer_cfg (layer_ind % sync_config.layer_count)) then
      CompareSyncConfig_loop ref_config sync_config left (layer_ind + 1)
    else some false

/-- `CompareSyncConfig` of `spi_drv_sync_mode.c` (the check of the reference slave flag is
compiled out with `#if 0`). -/
def CompareSyncConfig (ref_config sync_config : SyncSceneConfig_t) : Option Bool :=
  if sync_config.slave_mode = 0 then some false
  else if ref_config.recharge_led_en ≠ sync_config.recharge_led_en then some false
  else if ref_config.sync_mode ≠ sync_config.sync_mode then some false
  else
    let max_layer_ind :=
      if ref_config.layer_count > sync_config.layer_count then ref_config.layer_count
      else sync_config.layer_count
    CompareSyncConfig_loop ref_config sync_config max_layer_ind 0

/-- The loop of `spiDriver_CheckSyncConfig` from device `ic` on: `icIndex` is
`spiDriver_currentState.params[ic].icIndex`, `ReadSyncConfig ic` is the result and the
configuration that `ReadSyncConfig` obtains from device `ic`; the first argument is the number
of devices left. Returns the result and the list of the devices read. -/
def spiDriver_CheckSyncConfig_loop (icIndex : Nat → Nat)
    (ReadSyncConfig : Nat → FuncResult_e × SyncSceneConfig_t) :
    Nat → Nat → FuncResult_e → SyncSceneConfig_t → List Nat → Option (FuncResult_e × List Nat)
  | 0, _, res, _, reads => some (res, reads)
  | left + 1, ic, res, ref_cfg, reads =>
    if icIndex ic ≥ MAX_IC_ID_NUMBER then some (SPI_DRV_FUNC_RES_FAIL_INPUT_DATA, reads)
    else if ic = 0 then
      let res1 := res ||| (ReadSyncConfig ic).1
      if res1 ≠ SPI_DRV_FUNC_RES_OK then some (res1, reads ++ [ic])
      else spiDriver_CheckSyncConfig_loop icIndex ReadSyncConfig left (ic + 1) res1
        (ReadSyncConfig ic).2 (reads ++ [ic])
    else
      let res1 := res ||| (ReadSyncConfig ic).1
      if res1 ≠ SPI_DRV_FUNC_RES_OK then some (res1, reads ++ [ic])
      else match CompareSyncConfig ref_cfg (ReadSyncConfig ic).2 with
        | none => none
        | some false => some (res1 ||| SPI_DRV_FUNC_RES_FAIL_INPUT_CFG, reads ++ [ic])
        | some true => spiDriver_CheckSyncConfig_loop icIndex ReadSyncConfig left (ic + 1) res1
            ref_cfg (reads ++ [ic])

/-- `spiDriver_CheckSyncConfig`: checks the IC ids and compares every device with device 0;
`ref_cfg` is the initial (indeterminate) content of the local reference configuration. -/
def spiDriver_CheckSyncConfig (icCount : Nat) (icIndex : Nat → Nat)
    (ReadSyncConfig : Nat → FuncResult_e × SyncSceneConfig_t) (ref_cfg : SyncSceneConfig_t) :
    Option (FuncResult_e × List Nat) :=
  if icCount ≥ 1 then
    spiDriver_CheckSyncConfig_loop icIndex ReadSyncConfig icCount 0 SPI_DRV_FUNC_RES_OK ref_cfg []
  else some (SPI_DRV_FUNC_RES_OK, [])

/-- The five per-layer fields that the specification lists for the consistency check. -/
inductive SyncField where
  | averaging
  | trigger_period
  | sampling_mode
  | dark_frame_en
  | lsm_config
deriving DecidableEq

/-- The value of a listed field of a layer. -/
def SyncField.get (f : SyncField) (l : SyncLayerConfig_t) : Nat :=
  match f with
  | .averaging => l.averaging
  | .trigger_period => l.trigger_period
  | .sampling_mode => l.sampling_mode
  | .dark_frame_en => l.dark_frame_en
  | .lsm_config => l.lsm_config

/-- The layer with one listed field replaced by `v`. -/
def SyncField.set (f : SyncField) (l : SyncLayerConfig_t) (v : Nat) : SyncLayerConfig_t :=
  match f with
  | .averaging => { l with averaging := v }
  | .trigger_period => { l with trigger_period := v }
  | .sampling_mode => { l with sampling_mode := v }
  | .dark_frame_en => { l with dark_frame_en := v }
  | .lsm_config => { l with lsm_config := v }

/-- The configuration with one listed field of layer `i` replaced by `v`. -/
def SyncSceneConfig_t.setField (c : SyncSceneConfig_t) (i : Nat) (f : SyncField) (v : Nat) :
    SyncSceneConfig_t :=
  { c with layer_cfg := Function.update c.layer_cfg i (f.set (c.layer_cfg i) v) }

/-- A configuration given by the list of its layers (layers past the list are all-zero). -/
def sceneOfLayers (layers : List SyncLayerConfig_t) (sync_mode recharge_led_en slave_mode : Nat) :
    SyncSceneConfig_t :=
  { layer_cfg := fun i => layers.getD i ⟨0, 0, 0, 0, 0, 0, 0⟩
    layer_count := layers.length
    sync_mode := sync_mode
    recharge_led_en := recharge_led_en
    slave_mode := slave_mode }

/-- A layer with `averaging = a` and every other field zero. -/
def layerAvg (a : Nat) : SyncLayerConfig_t := ⟨0, a, 0, 0, 0, 0, 0⟩

/-- Specification side: the two layers agree in the five listed fields, and in `dark_averaging`
when the reference layer uses the dark frame. -/
def SyncLayerMatch (r s : SyncLayerConfig_t) : Prop :=
  r.averaging = s.averaging ∧ r.trigger_period = s.trigger_period
  ∧ r.sampling_mode = s.sampling_mode ∧ r.dark_frame_en = s.dark_frame_en
  ∧ r.lsm_config = s.lsm_config
  ∧ (r.dark_frame_en ≠ 0 → r.dark_averaging = s.dark_averaging)

instance (r s : SyncLayerConfig_t) : Decidable (SyncLayerMatch r s) := by
  unfold SyncLayerMatch
  infer_instance

/-- Specification side: non-zero layer counts, compatible scene-level settings, and matching
layers at every compared step, each device's layers being indexed modulo its own layer count. -/
def SyncCompatible (ref_config sync_config : SyncSceneConfig_t) : Prop :=
  ref_config.layer_count ≠ 0 ∧ sync_config.layer_count ≠ 0
  ∧ sync_config.slave_mode ≠ 0
  ∧ ref_config.recharge_led_en = sync_config.recharge_led_en
  ∧ ref_config.sync_mode = sync_config.sync_mode
  ∧ ∀ n < max ref_config.layer_count sync_config.layer_count,
      SyncLayerMatch (ref_config.layer_cfg (n % ref_config.layer_count))
        (sync_config.layer_cfg (n % sync_config.layer_count))

instance (r s : SyncSceneConfig_t) : Decidable (SyncCompatible r s) := by
  unfold SyncCompatible
  infer_instance

/-- A one-layer reference configuration that uses the dark frame with `dark_averaging = 5`. -/
def darkRefConfig : SyncSceneConfig_t := sceneOfLayers [⟨0, 1, 1, 1, 1, 5, 0⟩] 1 0 0

/-- A one-layer slave configuration equal to `darkRefConfig` in the five listed fields, with
`dark_averaging = 6`. -/
def darkCmpConfig : SyncSceneConfig_t := sceneOfLayers [⟨0, 1, 1, 1, 1, 6, 0⟩] 1 0 1

/-- A master configuration with the two layers `A B` (averaging 1, 2). -/
def twoLayerRef : SyncSceneConfig_t := sceneOfLayers [layerAvg 1, layerAvg 2] 1 0 0

/-- A slave configuration with the three layers `A B A` (averaging 1, 2, 1). -/
def threeLayerCmp : SyncSceneConfig_t := sceneOfLayers [layerAvg 1, layerAvg 2, layerAvg 1] 1 0 1

/-- A slave configuration with the two layers `A B`. -/
def twoLayerCmp : SyncSceneConfig_t := sceneOfLayers [layerAvg 1, layerAvg 2] 1 0 1

/-! ## Continuous mode: types (`spi_drv_trace.h`, `cont_mode_lib.h`) -/

/-- The sentinel `CONT_MODE_MAX_PENDING`. -/
abbrev CONT_MODE_MAX_PENDING : Nat := 100

/-- Message type `CONT_MODE_CTRL` of `ContMessageType_e`. -/
abbrev CONT_MODE_CTRL : Nat := 1
/-- Message type `CONT_MODE_REQUEST_DATA` of `ContMessageType_e`. -/
abbrev CONT_MODE_REQUEST_DATA : Nat := 2
/-- Message type `CONT_MODE_DATA_READY` of `ContMessageType_e`. -/
abbrev CONT_MODE_DATA_READY : Nat := 3
/-- Message type `CONT_MODE_FEEDBACK` of `ContMessageType_e`. -/
abbrev CONT_MODE_FEEDBACK : Nat := 4

/-- Callback result `CB_RET_OK` of `ContModeCbRet_t`. -/
abbrev CB_RET_OK : Nat := 0
/-- Callback result `CB_RET_STOP` of `ContModeCbRet_t`. -/
abbrev CB_RET_STOP : Nat := 1
/-- Callback result `CB_RET_EXIT` of `ContModeCbRet_t`. -/
abbrev CB_RET_EXIT : Nat := 2

/-- Command and mode `CONT_MODE_IDLE` of `ContModeCmd_e`. -/
abbrev CONT_MODE_IDLE : Nat := 0
/-- Command and mode `CONT_MODE_WORK` of `ContModeCmd_e`. -/
abbrev CONT_MODE_WORK : Nat := 1
/-- Command and mode `CONT_MODE_STOP` of `ContModeCmd_e`. -/
abbrev CONT_MODE_STOP : Nat := 2
/-- Command and mode `CONT_MODE_ERROR` of `ContModeCmd_e`. -/
abbrev CONT_MODE_ERROR : Nat := 3
/-- Command and mode `CONT_MODE_EXIT` of `ContModeCmd_e`. -/
abbrev CONT_MODE_EXIT : Nat := 4
/-- Command and mode `CONT_MODE_NOT_INITED` of `ContModeCmd_e`. -/
abbrev CONT_MODE_NOT_INITED : Nat := 5

/-- Acquisition phase `CONT_MODE_STATE_IDLE` of `contModeState_e`. -/
abbrev CONT_MODE_STATE_IDLE : Nat := 0
/-- Acquisition phase `CONT_MODE_STATE_STARTED` of `contModeState_e`. -/
abbrev CONT_MODE_STATE_STARTED : Nat := 1
/-- Acquisition phase `CONT_MODE_STATE_WORKING` of `contModeState_e`. -/
abbrev CONT_MODE_STATE_WORKING : Nat := 2
/-- Acquisition phase `CONT_MODE_STATE_FINISHED` of `contModeState_e`. -/
abbrev CONT_MODE_STATE_FINISHED : Nat := 3

/-- Function id `SENSOR_STOP` of the FUNCTION packet. -/
abbrev SENSOR_STOP : Nat := 5

/-- The type `spiDriver_LayerConfig_t`. -/
structure spiDriver_LayerConfig_t where
  layer_nth : Nat
  ic_id : Nat
  isTrace : Bool
  samplingMode : Nat
  samplingSize : Nat
  nSamples : Nat
  skipSamples : Nat
  averaging : Nat
  gain : Nat
  echoThreshold : Nat
  continuousEnable : Bool
deriving DecidableEq

/-- The type `spiDriver_LayerCurrentConfig_t`. -/
structure spiDriver_LayerCurrentConfig_t where
  icId : Nat
  layerId : Nat
  isTrace : Bool
  nSamples : Nat
  format : Nat
deriving DecidableEq

/-- The type `SpiDriver_Params_t`; the array `layers[LAYERS_ORDER_MAX]` is a function of the
index. -/
structure SpiDriver_Params_t where
  icIndex : Nat
  sceneParam : Nat
  sceneLayersAmount : Nat
  sceneSyncMode : Nat
  layers : Nat → spiDriver_LayerCurrentConfig_t
  sceneCurrentLayer : Nat
  contState : Nat

/-- The type `SpiDriver_State_t` of the global `spiDriver_currentState`; the array
`params[MAX_IC_ID_NUMBER]` is a function of the index. -/
structure SpiDriver_State_t where
  params : Nat → SpiDriver_Params_t
  continuousMode : Bool

/-- The type `spiDriver_ChipData_t`: one record of a batch. The data and the metadata that the
record points to are given as lists of words. -/
structure spiDriver_ChipData_t where
  data : List Nat
  samples : Nat
  metaData : List Nat
  dataFormat : Nat
  status : FuncResult_e
  chip_id : Nat
deriving DecidableEq

/-- The type `ContModeCfg_t`; a `NULL` pointer is `none`. -/
structure ContModeCfg_t where
  callback : Option (List spiDriver_ChipData_t → Nat)
  layerConfigurations : Option (List spiDriver_LayerConfig_t)
  layerConfigCount : Nat
  useAsyncSequence : Bool
  layerOrder : Option (List Nat)
  layerCount : Nat

/-- What the continuous-mode thread does that other threads and the user observe, in order:
a message put on the queue (`msgsnd` with `mtype` and `cmd`), a call of
`spiDriver_UdpCallback`, a call of the user callback, and (ghost) the point
`"Cont thread: Stop IC"` reached after `spiDriver_StopContinuousModeInt(ic)` returned OK. -/
inductive ContAction where
  | msgsnd (mtype cmd : Nat)
  | udpCallback (chipData : List spiDriver_ChipData_t)
  | callback (chipData : List spiDriver_ChipData_t)
  | stopIssued (ic : Nat)
deriving DecidableEq

/-- The HAL together with its device-selection functions `spiDriver_SpiGetDev`,
`spiDriver_SpiSetDev` and `spiDriver_PinSetDev`. -/
structure DevHal (σ : Type) extends Hal σ where
  spiDriver_SpiGetDev : σ → Nat
  spiDriver_SpiSetDev : σ → Nat → FuncResult_e × σ
  spiDriver_PinSetDev : σ → Nat → FuncResult_e × σ

/-- The loop `for (uint16_t ic = 0u; ic < syncModeCfg.icCount; ic++) body`. -/
def forIc {α : Type} (icCount : Nat) (body : Nat → α → α) (s : α) : α :=
  (List.range icCount).foldl (fun s ic => body ic s) s

/-! ## Device-level stop (`spi_drv_com.c`, `spi_drv_trace.c`, `spi_drv_sync_com.c`) -/

/-- The function `spiCom_SetDev`. -/
def spiCom_SetDev {σ : Type} (hal : DevHal σ) (devId : Nat) (dev : σ) : FuncResult_e × σ :=
  let r1 := hal.spiDriver_SpiSetDev dev devId
  let r2 := hal.spiDriver_PinSetDev r1.2 devId
  (r1.1 ||| r2.1, r2.2)

/-- The function `spiCom_SensorStop`: a FUNCTION packet with the payload `SENSOR_STOP, 0`,
answered by a STATUS_SHORT packet. -/
def spiCom_SensorStop {σ : Type} (hal : Hal σ) (st : ComState σ) : Checked σ :=
  let payload1 := Function.update (Function.update st.payload 0 SENSOR_STOP) 1 0
  let com1 : ComState σ :=
    { diagDetails := clearDiagDetails
      pktWords := makeSpiPacket FUNCTION 0 2 payload1 st.pktWords
      payload := payload1
      dev := st.dev }
  let com2 := sendAndReceive hal 0 8 8 com1
  checkResponse 1 0 8 STATUS_SHORT 2
    { res := SPI_DRV_FUNC_RES_OK, misoWords := false, com := com2, trace := [] }

/-- The loop `while ((ic < syncModeCfg.icCount) && (params[ic].icIndex != chip_id)) ic++` of
`spiDriver_GetIcIndexById`; the first argument bounds the number of iterations. -/
def spiDriver_GetIcIndexById_loop (icCount : Nat) (drv : SpiDriver_State_t) (chip_id : Nat) :
    Nat → Nat → Nat
  | 0, ic => ic
  | left + 1, ic =>
    if ic < icCount ∧ (drv.params ic).icIndex ≠ chip_id then
      spiDriver_GetIcIndexById_loop icCount drv chip_id left (ic + 1)
    else ic

/-- The function `spiDriver_GetIcIndexById`. -/
def spiDriver_GetIcIndexById (icCount : Nat) (drv : SpiDriver_State_t) (chip_id : Nat) : Nat :=
  let ic := spiDriver_GetIcIndexById_loop icCount drv chip_id icCount 0
  if ic ≥ icCount then MAX_IC_ID_NUMBER else ic

/-- The function `spiDriver_StopContinuousModeInt`. -/
def spiDriver_StopContinuousModeInt {σ : Type} (hal : DevHal σ) (icIdx : Nat)
    (drv : SpiDriver_State_t) (com : ComState σ) :
    FuncResult_e × SpiDriver_State_t × ComState σ :=
  if (drv.params icIdx).contState = CONT_MODE_STATE_FINISHED then
    let prev_dev := hal.spiDriver_SpiGetDev com.dev
    let d1 := (spiCom_SetDev hal (drv.params icIdx).icIndex com.dev).2
    let c := spiCom_SensorStop hal.toHal
      { diagDetails := com.diagDetails, pktWords := com.pktWords, payload := com.payload,
        dev := d1 }
    let d2 := (spiCom_SetDev hal prev_dev c.com.dev).2
    let drv1 : SpiDriver_State_t :=
      if (drv.params icIdx).sceneLayersAmount > 1 then
        { params := drv.params, continuousMode := false }
      else drv
    (SPI_DRV_FUNC_RES_OK ||| c.res, drv1,
      { diagDetails := c.com.diagDetails, pktWords := c.com.pktWords,
        payload := c.com.payload, dev := d2 })
  else (SPI_DRV_FUNC_RES_FAIL_INPUT_DATA, drv, com)

/-! ## The continuous-mode thread (`contModeExecute` of `cont_mode_lib.c`) -/

/-- The variables of the continuous-mode thread: the globals `contModeThread` and
`contModePendingSteps`, the locals `lastRequest` and `looping`, the shared driver state
`spiDriver_currentState`, the globals of `spi_drv_com.c` with the attached devices, and the
actions performed so far. -/
structure ContModeState (σ : Type) where
  contModeThread : Nat → Nat
  contModePendingSteps : Nat → Nat
  lastRequest : Nat → Bool
  looping : Bool
  spiDriver_currentState : SpiDriver_State_t
  com : ComState σ
  out : List ContAction

/-- The function `ContModeWork`: some configured device has the mode `CONT_MODE_WORK`. -/
def ContModeWork (icCount : Nat) (contModeThread : Nat → Nat) : Bool :=
  (List.range icCount).any (fun ic => contModeThread ic = CONT_MODE_WORK)

/-- The loop "Update the pending flags when they're used" at the start of a data-ready event. -/
def contModeExecute_decrement (icCount : Nat) (contModePendingSteps : Nat → Nat) : Nat → Nat :=
  forIc icCount (fun ic p =>
    if p ic < CONT_MODE_MAX_PENDING then
      if p ic > 0 then Function.update p ic (p ic - 1) else p
    else p) contModePendingSteps

/-- The per-device stop of the `useAsyncSequence` branch, for the device `icIdx` of the
current record. -/
def contModeExecute_stopOne {σ : Type} (hal : DevHal σ) (icIdx : Nat) (s : ContModeState σ) :
    ContModeState σ :=
  if (s.spiDriver_currentState.params icIdx).contState = CONT_MODE_STATE_FINISHED then
    let r := spiDriver_StopContinuousModeInt hal icIdx s.spiDriver_currentState s.com
    if r.1 = SPI_DRV_FUNC_RES_OK then
      let pending := (r.2.1.params icIdx).sceneLayersAmount % 65536
      { contModeThread := s.contModeThread
        contModePendingSteps :=
          Function.update s.contModePendingSteps icIdx (if pending < 2 then 2 else pending)
        lastRequest := Function.update s.lastRequest icIdx false
        looping := s.looping
        spiDriver_currentState := r.2.1
        com := r.2.2
        out := s.out ++ [ContAction.stopIssued icIdx] }
    else
      { contModeThread := s.contModeThread
        contModePendingSteps := s.contModePendingSteps
        lastRequest := s.lastRequest
        looping := s.looping
        spiDriver_currentState := r.2.1
        com := r.2.2
        out := s.out }
  else s

/-- The body of the loop over all configured devices in the synchronized branch, for the
device `ic`; `icIdx` is the device of the current record. -/
def contModeExecute_stopAll_body {σ : Type} (hal : DevHal σ) (icIdx ic : Nat)
    (s : ContModeState σ) : ContModeState σ :=
  let r := spiDriver_StopContinuousModeInt hal ic s.spiDriver_currentState s.com
  if r.1 = SPI_DRV_FUNC_RES_OK then
    { contModeThread := s.contModeThread
      contModePendingSteps :=
        Function.update s.contModePendingSteps ic
          (if (r.2.1.params icIdx).sceneLayersAmount = 1 then 2 else 1)
      lastRequest := Function.update s.lastRequest ic false
      looping := s.looping
      spiDriver_currentState := { params := r.2.1.params, continuousMode := false }
      com := r.2.2
      out := s.out ++ [ContAction.stopIssued ic] }
  else
    { contModeThread := s.contModeThread
      contModePendingSteps := s.contModePendingSteps
      lastRequest := s.lastRequest
      looping := s.looping
      spiDriver_currentState := r.2.1
      com := r.2.2
      out := s.out }

/-- The stop of all devices at once in the synchronized branch, triggered by the record of
device `icIdx`: the loop over all configured devices and the statement after it. -/
def contModeExecute_stopAll {σ : Type} (hal : DevHal σ) (icCount icIdx : Nat)
    (s : ContModeState σ) : ContModeState σ :=
  let s1 := forIc icCount (contModeExecute_stopAll_body hal icIdx) s
  if (s1.spiDriver_currentState.params icIdx).sceneLayersAmount = 1 then
    { contModeThread := s1.contModeThread
      contModePendingSteps := Function.update s1.contModePendingSteps icIdx 1
      lastRequest := s1.lastRequest
      looping := s1.looping
      spiDriver_currentState := s1.spiDriver_currentState
      com := s1.com
      out := s1.out }
  else s1

/-- The loop over the records of the batch in a data-ready event; `rbufCmd` is the command of
the data-ready message. The Boolean is `newRequest`. The `break` of the synchronized branch
ends the loop. -/
def contModeExecute_records {σ : Type} (cfg : ContModeCfg_t) (hal : DevHal σ)
    (icCount rbufCmd : Nat) :
    List spiDriver_ChipData_t → Bool → ContModeState σ → Bool × ContModeState σ
  | [], newRequest, s => (newRequest, s)
  | chipDataIt :: rest, newRequest, s =>
    let icIdx := spiDriver_GetIcIndexById icCount s.spiDriver_currentState chipDataIt.chip_id
    if icIdx ≥ MAX_IC_ID_NUMBER then
      contModeExecute_records cfg hal icCount rbufCmd rest newRequest s
    else if rbufCmd = CONT_MODE_WORK then
      if s.contModeThread icIdx ≠ CONT_MODE_IDLE ∧ s.contModePendingSteps icIdx ≠ 0 then
        if s.lastRequest icIdx = false then
          contModeExecute_records cfg hal icCount rbufCmd rest true s
        else if cfg.useAsyncSequence then
          contModeExecute_records cfg hal icCount rbufCmd rest true
            (contModeExecute_stopOne hal icIdx s)
        else (true, contModeExecute_stopAll hal icCount icIdx s)
      else contModeExecute_records cfg hal icCount rbufCmd rest newRequest s
    else contModeExecute_records cfg hal icCount rbufCmd rest newRequest s

/-- The last loop of a data-ready event: every configured device whose pending-steps value
is 0 becomes idle. -/
def contModeExecute_idle {σ : Type} (icCount : Nat) (s : ContModeState σ) : ContModeState σ :=
  forIc icCount (fun ic (s : ContModeState σ) =>
    if s.contModePendingSteps ic = 0 then
      { contModeThread := Function.update s.contModeThread ic CONT_MODE_IDLE
        contModePendingSteps := Function.update s.contModePendingSteps ic CONT_MODE_MAX_PENDING
        lastRequest := s.lastRequest
        looping := s.looping
        spiDriver_currentState :=
          { params := Function.update s.spiDriver_currentState.params ic
              { icIndex := (s.spiDriver_currentState.params ic).icIndex
                sceneParam := (s.spiDriver_currentState.params ic).sceneParam
                sceneLayersAmount := (s.spiDriver_currentState.params ic).sceneLayersAmount
                sceneSyncMode := (s.spiDriver_currentState.params ic).sceneSyncMode
                layers := (s.spiDriver_currentState.params ic).layers
                sceneCurrentLayer := (s.spiDriver_currentState.params ic).sceneCurrentLayer
                contState := CONT_MODE_STATE_IDLE }
            continuousMode := s.spiDriver_currentState.continuousMode }
        com := s.com
        out := s.out ++ [ContAction.msgsnd CONT_MODE_FEEDBACK CONT_MODE_IDLE] }
    else s) s

/-- The first two loops of a data-ready event: the update of the pending-steps values and
the loop over the records of the batch, entered with `newRequest = false`. -/
def contModeExecute_dataReady_records {σ : Type} (cfg : ContModeCfg_t) (hal : DevHal σ)
    (icCount rbufCmd : Nat) (chipData : List spiDriver_ChipData_t) (s : ContModeState σ) :
    Bool × ContModeState σ :=
  contModeExecute_records cfg hal icCount rbufCmd chipData false
    { contModeThread := s.contModeThread
      contModePendingSteps := contModeExecute_decrement icCount s.contModePendingSteps
      lastRequest := s.lastRequest
      looping := s.looping
      spiDriver_currentState := s.spiDriver_currentState
      com := s.com
      out := s.out }

/-- A data-ready event up to and including the calls of the UDP forwarder and of the user
callback; the first component is the value of `cbRes`. -/
def contModeExecute_dataReady_callbacks {σ : Type} (cfg : ContModeCfg_t) (hal : DevHal σ)
    (icCount rbufCmd : Nat) (chipData : List spiDriver_ChipData_t) (s : ContModeState σ) :
    Nat × ContModeState σ :=
  let r := contModeExecute_dataReady_records cfg hal icCount rbufCmd chipData s
  let out1 :=
    if r.1 then r.2.out ++ [ContAction.msgsnd CONT_MODE_REQUEST_DATA CONT_MODE_WORK]
    else r.2.out
  let out2 := out1 ++ [ContAction.udpCallback chipData]
  let cb : Nat × List ContAction :=
    match cfg.callback with
    | some callback => (callback chipData, out2 ++ [ContAction.callback chipData])
    | none => (CB_RET_OK, out2)
  (cb.1,
    { contModeThread := r.2.contModeThread
      contModePendingSteps := r.2.contModePendingSteps
      lastRequest := r.2.lastRequest
      looping := r.2.looping
      spiDriver_currentState := r.2.spiDriver_currentState
      com := r.2.com
      out := cb.2 })

/-- The processing of one data-ready message (the body of
`if (msgrcv(…, CONT_MODE_DATA_READY, 0) >= 0)`); the first component is the value of `cbRes`
at `(void)cbRes`. -/
def contModeExecute_dataReady {σ : Type} (cfg : ContModeCfg_t) (hal : DevHal σ)
    (icCount rbufCmd : Nat) (chipData : List spiDriver_ChipData_t) (s : ContModeState σ) :
    Nat × ContModeState σ :=
  let r := contModeExecute_dataReady_callbacks cfg hal icCount rbufCmd chipData s
  (r.1, contModeExecute_idle icCount r.2)

/-- The `switch (ctrl_buf.cmd)` of the command branch and the loop after it that stores the
command as the mode of every configured device. -/
def contModeExecute_command {σ : Type} (icCount cmd : Nat) (s : ContModeState σ) :
    ContModeState σ :=
  let r : Nat × ContModeState σ :=
    if cmd = CONT_MODE_IDLE then (cmd, s)
    else if cmd = CONT_MODE_WORK then
      (cmd, { contModeThread := s.contModeThread
              contModePendingSteps := s.contModePendingSteps
              lastRequest := s.lastRequest
              looping := s.looping
              spiDriver_currentState := s.spiDriver_currentState
              com := s.com
              out := s.out ++ [ContAction.msgsnd CONT_MODE_REQUEST_DATA CONT_MODE_WORK] })
    else if cmd = CONT_MODE_STOP then
      (CONT_MODE_WORK,
        { contModeThread := s.contModeThread
          contModePendingSteps := s.contModePendingSteps
          lastRequest := forIc icCount (fun ic l => Function.update l ic true) s.lastRequest
          looping := s.looping
          spiDriver_currentState := s.spiDriver_currentState
          com := s.com
          out := s.out })
    else
      (cmd, { contModeThread := s.contModeThread
              contModePendingSteps := s.contModePendingSteps
              lastRequest := s.lastRequest
              looping := false
              spiDriver_currentState := s.spiDriver_currentState
              com := s.com
              out := s.out })
  { contModeThread := forIc icCount (fun ic m => Function.update m ic r.1) r.2.contModeThread
    contModePendingSteps := r.2.contModePendingSteps
    lastRequest := r.2.lastRequest
    looping := r.2.looping
    spiDriver_currentState := r.2.spiDriver_currentState
    com := r.2.com
    out := r.2.out }

/-- A data-ready message together with the batch `spiDriver_chipData` it announces. -/
structure DataReady where
  cmd : Nat
  chipData : List spiDriver_ChipData_t

/-- What one iteration of the loop of `contModeExecute` receives: the changes the other
threads made to `spiDriver_currentState` since the previous iteration, the command of the
control message (`none` when `msgrcv` returned a negative value) and the data-ready message
(`none` when that `msgrcv` returned a negative value). -/
structure ContModeInput where
  shared : SpiDriver_State_t → SpiDriver_State_t
  ctrl : Option Nat
  data : Option DataReady

/-- The state with `spiDriver_currentState` as the other threads left it. -/
def ContModeState.withShared {σ : Type} (s : ContModeState σ)
    (shared : SpiDriver_State_t → SpiDriver_State_t) : ContModeState σ :=
  { contModeThread := s.contModeThread
    contModePendingSteps := s.contModePendingSteps
    lastRequest := s.lastRequest
    looping := s.looping
    spiDriver_currentState := shared s.spiDriver_currentState
    com := s.com
    out := s.out }

/-- One iteration of the loop `while (looping)` of `contModeExecute`. -/
def contModeExecute_iteration {σ : Type} (cfg : ContModeCfg_t) (hal : DevHal σ) (icCount : Nat)
    (inp : ContModeInput) (s0 : ContModeState σ) : ContModeState σ :=
  let s := s0.withShared inp.shared
  match inp.ctrl with
  | none =>
    if ContModeWork icCount s.contModeThread then
      match inp.data with
      | some rbuf => (contModeExecute_dataReady cfg hal icCount rbuf.cmd rbuf.chipData s).2
      | none => s
    else
      { contModeThread :=
          forIc icCount (fun ic m => Function.update m ic CONT_MODE_IDLE) s.contModeThread
        contModePendingSteps := s.contModePendingSteps
        lastRequest := s.lastRequest
        looping := s.looping
        spiDriver_currentState := s.spiDriver_currentState
        com := s.com
        out := s.out }
  | some cmd => contModeExecute_command icCount cmd s

/-- The loop `while (looping)` of `contModeExecute` over the inputs the thread receives. -/
def contModeExecute_loop {σ : Type} (cfg : ContModeCfg_t) (hal : DevHal σ) (icCount : Nat) :
    List ContModeInput → ContModeState σ → ContModeState σ
  | [], s => s
  | inp :: rest, s =>
    if s.looping then
      contModeExecute_loop cfg hal icCount rest (contModeExecute_iteration cfg hal icCount inp s)
    else s

/-- The thread function `contModeExecute` run on the inputs it receives: the initialisation,
the loop, and, when the loop has ended, the final loop that sets every configured device to
`CONT_MODE_NOT_INITED`. When the inputs are used up and `looping` is still set, the thread is
waiting for a message and the state reached so far is returned. -/
def contModeExecute {σ : Type} (cfg : ContModeCfg_t) (hal : DevHal σ) (icCount : Nat)
    (inputs : List ContModeInput) (s0 : ContModeState σ) : ContModeState σ :=
  let s1 : ContModeState σ :=
    { contModeThread := s0.contModeThread
      contModePendingSteps :=
        forIc icCount (fun ic p => Function.update p ic CONT_MODE_MAX_PENDING)
          s0.contModePendingSteps
      lastRequest := fun _ => false
      looping := true
      spiDriver_currentState := s0.spiDriver_currentState
      com := s0.com
      out := s0.out }
  let s2 := contModeExecute_loop cfg hal icCount inputs s1
  if s2.looping then s2
  else
    { contModeThread :=
        forIc icCount (fun ic m => Function.update m ic CONT_MODE_NOT_INITED) s2.contModeThread
      contModePendingSteps := s2.contModePendingSteps
      lastRequest := s2.lastRequest
      looping := s2.looping
      spiDriver_currentState := s2.spiDriver_currentState
      com := s2.com
      out := s2.out }

/-- The data-ready events of a list processed one after the other, each after the changes
the other threads made to `spiDriver_currentState`. -/
def contModeExecute_events {σ : Type} (cfg : ContModeCfg_t) (hal : DevHal σ) (icCount : Nat) :
    List ((SpiDriver_State_t → SpiDriver_State_t) × DataReady) → ContModeState σ →
      ContModeState σ
  | [], s => s
  | ev :: rest, s =>
    contModeExecute_events cfg hal icCount rest
      (contModeExecute_dataReady cfg hal icCount ev.2.cmd ev.2.chipData (s.withShared ev.1)).2

/-- The function `spiDriver_RunContinuousMode`. The driver functions it calls act on the
driver and device state `ω`: `ReadSceneConfig` stands for `spiDriver_ReadSceneConfig` (it
returns the result and the configurations and count it stores), `StartContinuousMode` for
`spiDriver_StartContinuousMode`. Returns `res`, the configuration, the state and the messages
sent. -/
def spiDriver_RunContinuousMode {ω : Type}
    (ReadSceneConfig : ω → FuncResult_e × Option (List spiDriver_LayerConfig_t) × Nat × ω)
    (StartContinuousMode : Option (List spiDriver_LayerConfig_t) → Nat → Option (List Nat) →
      Nat → ω → FuncResult_e × ω)
    (contModeThread : Nat → Nat) (cfg : ContModeCfg_t) (w : ω) :
    Bool × ContModeCfg_t × ω × List ContAction :=
  if contModeThread 0 = CONT_MODE_IDLE then
    if cfg.layerConfigurations = none ∨ cfg.layerConfigCount = 0 then
      let rd := ReadSceneConfig w
      let res := decide (rd.1 = SPI_DRV_FUNC_RES_OK)
      let cfg1 : ContModeCfg_t :=
        { callback := cfg.callback
          layerConfigurations := rd.2.1
          layerConfigCount := rd.2.2.1
          useAsyncSequence := cfg.useAsyncSequence
          layerOrder := cfg.layerOrder
          layerCount := cfg.layerCount }
      let st := StartContinuousMode none 0 none 0 rd.2.2.2
      (res, cfg1, st.2, [ContAction.msgsnd CONT_MODE_CTRL CONT_MODE_WORK])
    else
      let st := StartContinuousMode cfg.layerConfigurations cfg.layerConfigCount
        cfg.layerOrder cfg.layerCount w
      (true, cfg, st.2, [ContAction.msgsnd CONT_MODE_CTRL CONT_MODE_WORK])
  else (false, cfg, w, [])

/-! ## Test doubles for the continuous mode -/

/-- The state of the simulated bus: the selected device and the packets sent, each with the
device that was selected when it was sent. -/
structure StopDev where
  sel : Nat
  log : List (Nat × List Nat)
deriving DecidableEq

/-- A bus on which every device is ready and answers every packet with a valid, all-zero
STATUS_SHORT packet; it records the packets it is given. -/
def stopHal : DevHal StopDev where
  spiDriver_PinWaitForReady := fun s => (CS_SUCCESS, s)
  spiDriver_SpiWriteAndRead := fun s data length =>
    (0, fun i => bswap16 (makeSpiPacket STATUS_SHORT 0 2 zeroBuf zeroBuf i),
      { sel := s.sel, log := s.log ++ [(s.sel, wireWords data length)] })
  spiDriver_SpiGetDev := fun s => s.sel
  spiDriver_SpiSetDev := fun s devId => (SPI_DRV_FUNC_RES_OK, { sel := devId, log := s.log })
  spiDriver_PinSetDev := fun s _ => (SPI_DRV_FUNC_RES_OK, s)

/-- The parameters of a device with the given id, layer count and acquisition phase; the
other fields are zero. -/
def paramsOf (icIndex sceneLayersAmount contState : Nat) : SpiDriver_Params_t :=
  { icIndex := icIndex
    sceneParam := 0
    sceneLayersAmount := sceneLayersAmount
    sceneSyncMode := 0
    layers := fun _ => ⟨0, 0, false, 0, 0⟩
    sceneCurrentLayer := 0
    contState := contState }

/-- A driver state in which every device has the given layer count and acquisition phase, and
device `ic` has the id `10 + ic`. -/
def driverStateOf (sceneLayersAmount contState : Nat) : SpiDriver_State_t :=
  { params := fun ic => paramsOf (10 + ic) sceneLayersAmount contState
    continuousMode := true }

/-- The effect of the acquisition thread that finishes the scene of every device. -/
def sceneFinished (drv : SpiDriver_State_t) : SpiDriver_State_t :=
  { params := fun ic =>
      paramsOf (drv.params ic).icIndex (drv.params ic).sceneLayersAmount CONT_MODE_STATE_FINISHED
    continuousMode := drv.continuousMode }

/-- The state of the continuous-mode thread when it is created after
`spiDriver_InitContinuousMode`: every mode is `CONT_MODE_IDLE`, nothing is pending. -/
def initContMode {σ : Type} (drv : SpiDriver_State_t) (dev : σ) : ContModeState σ :=
  { contModeThread := fun _ => CONT_MODE_IDLE
    contModePendingSteps := fun _ => 0
    lastRequest := fun _ => false
    looping := true
    spiDriver_currentState := drv
    com := initCom dev
    out := [] }

/-- A batch with one echo record of the device with id `chip_id`. -/
def batchOf (chip_id : Nat) : List spiDriver_ChipData_t :=
  [{ data := [], samples := 0, metaData := [], dataFormat := 0, status := SPI_DRV_FUNC_RES_OK,
     chip_id := chip_id }]

/-- A user callback that always asks to stop. -/
def stopCallback : List spiDriver_ChipData_t → Nat := fun _ => CB_RET_STOP

/-- A continuous-mode configuration with the callback `stopCallback`, no layer
configurations, and the given `useAsyncSequence`. -/
def contCfg (useAsyncSequence : Bool) : ContModeCfg_t :=
  { callback := some stopCallback
    layerConfigurations := none
    layerConfigCount := 0
    useAsyncSequence := useAsyncSequence
    layerOrder := none
    layerCount := 0 }

/-- A control message with the command `cmd`. -/
def ctrlInput (cmd : Nat) : ContModeInput := { shared := id, ctrl := some cmd, data := none }

/-- No control message and a data-ready message for a batch of device id `chip_id`, received
after the acquisition thread has finished the scene. -/
def dataInput (chip_id : Nat) : ContModeInput :=
  { shared := sceneFinished, ctrl := none,
    data := some { cmd := CONT_MODE_WORK, chipData := batchOf chip_id } }

/-- The number of calls of the user callback in a list of actions. -/
def callbackCount (out : List ContAction) : Nat :=
  (out.filter (fun a => match a with | ContAction.callback _ => true | _ => false)).length

/-- The actions that follow the first `stopIssued ic` in a list of actions. -/
def afterStop (ic : Nat) : List ContAction → List ContAction
  | [] => []
  | a :: rest => if a = ContAction.stopIssued ic then rest else afterStop ic rest

/-- The parameters of a device with the acquisition phase set to `CONT_MODE_STATE_IDLE`. -/
def SpiDriver_Params_t.idled (p : SpiDriver_Params_t) : SpiDriver_Params_t :=
  { icIndex := p.icIndex
    sceneParam := p.sceneParam
    sceneLayersAmount := p.sceneLayersAmount
    sceneSyncMode := p.sceneSyncMode
    layers := p.layers
    sceneCurrentLayer := p.sceneCurrentLayer
    contState := CONT_MODE_STATE_IDLE }

/-- The number of configured devices whose pending-steps value is 0. -/
def zeroPendingCount (icCount : Nat) (contModePendingSteps : Nat → Nat) : Nat :=
  ((List.range icCount).filter (fun ic => contModePendingSteps ic = 0)).length

/-- A list of actions that holds only (ghost) stop marks. -/
def OnlyStops (l : List ContAction) : Prop := ∀ a ∈ l, ∃ ic, a = ContAction.stopIssued ic

/-- A list of actions that holds only stop marks and queue messages: no call of the UDP
forwarder and no call of the user callback. -/
def NoCalls (l : List ContAction) : Prop :=
  ∀ a ∈ l, (∃ ic, a = ContAction.stopIssued ic) ∨ (∃ t c, a = ContAction.msgsnd t c)

/-- The configuration `cfg` with the callback replaced by `cb`. -/
def ContModeCfg_t.withCallback (cfg : ContModeCfg_t)
    (cb : Option (List spiDriver_ChipData_t → Nat)) : ContModeCfg_t :=
  { callback := cb
    layerConfigurations := cfg.layerConfigurations
    layerConfigCount := cfg.layerConfigCount
    useAsyncSequence := cfg.useAsyncSequence
    layerOrder := cfg.layerOrder
    layerCount := cfg.layerCount }

/-- A state of the thread in which both devices work, device 0 has one pending step left and
device 1 none scheduled. -/
def drainState : ContModeState StopDev :=
  { contModeThread := fun _ => CONT_MODE_WORK
    contModePendingSteps := fun ic => if ic = 0 then 1 else CONT_MODE_MAX_PENDING
    lastRequest := fun _ => false
    looping := true
    spiDriver_currentState := driverStateOf 2 CONT_MODE_STATE_WORKING
    com := initCom { sel := 0, log := [] }
    out := [] }

/-- A stand-in for `spiDriver_ReadSceneConfig` that fails with `SPI_DRV_FUNC_RES_FAIL_COMM`
and records its call as `1`. -/
def failingReadSceneConfig (w : List Nat) :
    FuncResult_e × Option (List spiDriver_LayerConfig_t) × Nat × List Nat :=
  (SPI_DRV_FUNC_RES_FAIL_COMM, none, 0, w ++ [1])

/-- A stand-in for `spiDriver_StartContinuousMode` that succeeds and records its call
as `2`. -/
def recordedStartContinuousMode (_ : Option (List spiDriver_LayerConfig_t)) (_ : Nat)
    (_ : Option (List Nat)) (_ : Nat) (w : List Nat) : FuncResult_e × List Nat :=
  (SPI_DRV_FUNC_RES_OK, w ++ [2])

/-- One device with id 10 and a scene of `L` layers: the thread receives the Work command, a
batch, the Stop command, and then three batches, each after the scene has finished. -/
def stopRun (useAsyncSequence : Bool) (L : Nat) : ContModeState StopDev :=
  contModeExecute (contCfg useAsyncSequence) stopHal 1
    [ctrlInput CONT_MODE_WORK, dataInput 10, ctrlInput CONT_MODE_STOP, dataInput 10,
      dataInput 10, dataInput 10]
    (initContMode (driverStateOf L CONT_MODE_STATE_STARTED) { sel := 3, log := [] })

/-- The pending-steps value that the per-device branch assigns when it stops a device whose
scene has `sceneLayersAmount` layers: the `uint16_t` value of the layer count, raised to 2. -/
def stopPending (sceneLayersAmount : Nat) : Nat :=
  if sceneLayersAmount % 65536 < 2 then 2 else sceneLayersAmount % 65536

/-- How the loop over the records relates the state `t` after it to the state `s` before it
in the per-device branch: the parameters, the modes and `looping` are the same, and every
device either keeps its last-request flag and its pending-steps value, or had the flag set
and now has it cleared with the value `stopPending` of its layer count. -/
def AsyncRel {σ : Type} (s t : ContModeState σ) : Prop :=
  t.spiDriver_currentState.params = s.spiDriver_currentState.params
  ∧ t.contModeThread = s.contModeThread
  ∧ t.looping = s.looping
  ∧ ∀ k, (t.lastRequest k = s.lastRequest k
          ∧ t.contModePendingSteps k = s.contModePendingSteps k)
      ∨ (s.lastRequest k = true ∧ t.lastRequest k = false
          ∧ t.contModePendingSteps k
            = stopPending (s.spiDriver_currentState.params k).sceneLayersAmount)

/-- The input is a command that ends the loop: a control message whose command is none of
`CONT_MODE_IDLE`, `CONT_MODE_WORK`, `CONT_MODE_STOP`. -/
def ContModeInput.terminates (inp : ContModeInput) : Bool :=
  match inp.ctrl with
  | some cmd => cmd ≠ CONT_MODE_IDLE && cmd ≠ CONT_MODE_WORK && cmd ≠ CONT_MODE_STOP
  | none => false

/-- Specification side: the number of data-ready events between the event in which a device
is stopped and the end of the event in which it becomes idle: `max(L, 2)` in the per-device
mode, 1 in the synchronized mode. -/
def drainCount (useAsyncSequence : Bool) (L : Nat) : Nat :=
  if useAsyncSequence then max L 2 else 1

/-- The last-request flags that let the pending steps of device `ic` run out undisturbed: in
the per-device mode the flag of `ic` is clear, in the synchronized mode the flags of all
configured devices are clear. -/
def DrainFlags {σ : Type} (cfg : ContModeCfg_t) (icCount ic : Nat) (u : ContModeState σ) :
    Prop :=
  (cfg.useAsyncSequence = true ∧ u.lastRequest ic = false)
  ∨ (cfg.useAsyncSequence = false ∧ ∀ k < icCount, u.lastRequest k = false)

/-- The state after the thread has received the Work command, a batch, the Stop command and
then `events` further batches, for one device with id 10 and a scene of `L` layers. -/
def stopRunAfter (useAsyncSequence : Bool) (L events : Nat) : ContModeState StopDev :=
  contModeExecute (contCfg useAsyncSequence) stopHal 1
    ([ctrlInput CONT_MODE_WORK, dataInput 10, ctrlInput CONT_MODE_STOP]
      ++ List.replicate events (dataInput 10))
    (initContMode (driverStateOf L CONT_MODE_STATE_STARTED) { sel := 3, log := [] })

/-- A state in which two working devices with scenes of three layers have finished their
scene and have the last-request flag set. -/
def stopRequested : ContModeState StopDev :=
  { contModeThread := fun _ => CONT_MODE_WORK
    contModePendingSteps := fun _ => CONT_MODE_MAX_PENDING
    lastRequest := fun _ => true
    looping := true
    spiDriver_currentState := driverStateOf 3 CONT_MODE_STATE_FINISHED
    com := initCom { sel := 0, log := [] }
    out := [] }

/-- A data-ready message for a batch with one record of each of the devices 10 and 11. -/
def twoDeviceBatch : DataReady :=
  { cmd := CONT_MODE_WORK, chipData := batchOf 10 ++ batchOf 11 }

/-- Device `k` has none of the problems that `spiDriver_CheckSyncConfig` looks for: its IC id
is below `MAX_IC_ID_NUMBER`, its configuration read succeeds and, when it is not device 0,
`CompareSyncConfig` accepts it against the configuration of device 0. -/
def SyncDeviceFine (icIndex : Nat → Nat) (ReadSyncConfig : Nat → FuncResult_e × SyncSceneConfig_t)
    (k : Nat) : Prop :=
  icIndex k < MAX_IC_ID_NUMBER
  ∧ (ReadSyncConfig k).1 = SPI_DRV_FUNC_RES_OK
  ∧ (0 < k → CompareSyncConfig (ReadSyncConfig 0).2 (ReadSyncConfig k).2 = some true)

/-- A read of the synchronous-mode configurations in which every device, device 0 included,
reports the slave configuration `twoLayerCmp`. -/
def allSlaveRead (_ : Nat) : FuncResult_e × SyncSceneConfig_t :=
  (SPI_DRV_FUNC_RES_OK, twoLayerCmp)

/-- A read in which device 0 reports the master configuration `A B`, device 1 the slave
configuration `A B`, device 2 a slave configuration `B B` and device 3 fails with
`SPI_DRV_FUNC_RES_FAIL_COMM`. -/
def mixedRead (ic : Nat) : FuncResult_e × SyncSceneConfig_t :=
  if ic = 0 then (SPI_DRV_FUNC_RES_OK, twoLayerRef)
  else if ic = 1 then (SPI_DRV_FUNC_RES_OK, twoLayerCmp)
  else if ic = 2 then (SPI_DRV_FUNC_RES_OK, sceneOfLayers [layerAvg 2, layerAvg 2] 1 0 1)
  else (SPI_DRV_FUNC_RES_FAIL_COMM, twoLayerCmp)

instance (icIndex : Nat → Nat) (ReadSyncConfig : Nat → FuncResult_e × SyncSceneConfig_t)
    (k : Nat) : Decidable (SyncDeviceFine icIndex ReadSyncConfig k) := by
  unfold SyncDeviceFine
  infer_instance

/-! ## Device order (`spiDriver_SetSyncIcOrder` of `spi_drv_sync_mode.c`) -/

/-- The device parameters with the field `icIndex` replaced. -/
def SpiDriver_Params_t.withIcIndex (p : SpiDriver_Params_t) (icIndex : Nat) :
    SpiDriver_Params_t :=
  { icIndex := icIndex
    sceneParam := p.sceneParam
    sceneLayersAmount := p.sceneLayersAmount
    sceneSyncMode := p.sceneSyncMode
    layers := p.layers
    sceneCurrentLayer := p.sceneCurrentLayer
    contState := p.contState }

/-- The function `spiDriver_SetSyncIcOrder`; a `NULL` pointer `icIds` is `none`. The arguments
`cfgIcCount` and `drv` are the globals `syncModeCfg.icCount` and `spiDriver_currentState`;
the result is the return value with the new values of the two globals. -/
def spiDriver_SetSyncIcOrder (icIds : Option WordBuf) (icCount : Nat) (cfgIcCount : Nat)
    (drv : SpiDriver_State_t) : FuncResult_e × Nat × SpiDriver_State_t :=
  if icIds.isSome ∨ icCount = 0 then
    if icCount < MAX_IC_ID_NUMBER then
      (SPI_DRV_FUNC_RES_OK, icCount,
        { params := forIc icCount (fun ic params =>
            Function.update params ic ((params ic).withIcIndex (icIds.getD (fun _ => 0) ic)))
            drv.params
          continuousMode := drv.continuousMode })
    else (SPI_DRV_FUNC_RES_FAIL_INPUT_CFG, cfgIcCount, drv)
  else (SPI_DRV_FUNC_RES_FAIL_INPUT_CFG, cfgIcCount, drv)

/-- An order of sixteen devices with the ids `20, 21, …`. -/
def sixteenIds : WordBuf := fun i => 20 + i

/-- An order of three devices with the pairwise distinct ids `7, 3, 5`. -/
def threeIds : WordBuf := fun i => if i = 0 then 7 else if i = 1 then 3 else 5

/-- A state of the continuous-mode thread with three working devices whose pending-steps
values are 5, 0 and `CONT_MODE_MAX_PENDING`, and no last-request flag set. -/
def pendingState : ContModeState StopDev :=
  { contModeThread := fun _ => CONT_MODE_WORK
    contModePendingSteps := fun k => if k = 0 then 5 else if k = 1 then 0 else 100
    lastRequest := fun _ => false
    looping := true
    spiDriver_currentState := driverStateOf 3 CONT_MODE_STATE_WORKING
    com := initCom { sel := 0, log := [] }
    out := [] }

/-- The HAL `hal` with a record of the packets given to `spiDriver_SpiWriteAndRead`, each as
the list of its words on the wire. -/
def loggedHal {σ : Type} (hal : Hal σ) : Hal (σ × List (List Nat)) where
  spiDriver_PinWaitForReady := fun s =>
    ((hal.spiDriver_PinWaitForReady s.1).1, ((hal.spiDriver_PinWaitForReady s.1).2, s.2))
  spiDriver_SpiWriteAndRead := fun s data length =>
    ((hal.spiDriver_SpiWriteAndRead s.1 data length).1,
      (hal.spiDriver_SpiWriteAndRead s.1 data length).2.1,
      ((hal.spiDriver_SpiWriteAndRead s.1 data length).2.2, s.2 ++ [wireWords data length]))

/-- The transaction is checked: the HAL status is tested, and the response is passed to
`validatePkt` when the status is not negative. -/
def Exchange.checked (e : Exchange) : Prop :=
  0 ≤ e.halStat → e.validation.isSome = true

/-- The locals of `spiCom_Write` at the start of its loop for the offset 0x1000, on the
default HAL with an empty record of packets. -/
def writeStart : WriteState (Unit × List (List Nat)) :=
  { res := SPI_DRV_FUNC_RES_OK
    misoWords := false
    offsetXact := 0x1000
    ptrWriteWords := 0
    com := initCom ((), [])
    trace := [] }

/-- The locals of `spiCom_Read` at the start of its loop for the offset 0x1000, on the
default HAL with an empty record of packets. -/
def readStart : ReadState (Unit × List (List Nat)) :=
  { res := SPI_DRV_FUNC_RES_OK
    misoWords := false
    rptr := 0
    offsetXact := 0x1000
    readWords := zeroBuf
    com := initCom ((), [])
    trace := [] }

/-! ## Commands of `spi_drv_com.c` and their broadcast over the devices
(`spi_drv_sync_com.c`, `spi_drv_sync_mode.c`, `spiDriver_MakeSync` of `spi_drv_trace.c`) -/

/-- Function id `ACQU_SYNC` of the FUNCTION packet. -/
abbrev ACQU_SYNC : Nat := 3
/-- Function id `SENSOR_START` of the FUNCTION packet. -/
abbrev SENSOR_START : Nat := 4
/-- Function id `SENSOR_STANDBY` of the FUNCTION packet. -/
abbrev SENSOR_STANDBY : Nat := 6
/-- Function id `APPLY_PATCH` of the FUNCTION packet. -/
abbrev APPLY_PATCH : Nat := 7

/-- Synchronisation mode `ACQU_SYNC_LAYER` of `AcquSyncMode`. -/
abbrev ACQU_SYNC_LAYER : Nat := 0
/-- Synchronisation mode `ACQU_SYNC_FRAME` of `AcquSyncMode`. -/
abbrev ACQU_SYNC_FRAME : Nat := 1
/-- Synchronisation mode `ACQU_SYNC_NONE` of `AcquSyncMode`. -/
abbrev ACQU_SYNC_NONE : Nat := 2

/-- The function `spiCom_ApplyPatch`: a FUNCTION packet with the payload `APPLY_PATCH, 0`,
answered by a STATUS_SHORT packet (`res = …` on the initial `res`, which is OK). -/
def spiCom_ApplyPatch {σ : Type} (hal : Hal σ) (st : ComState σ) : Checked σ :=
  let payload1 := Function.update (Function.update st.payload 0 APPLY_PATCH) 1 0
  let com1 : ComState σ :=
    { diagDetails := clearDiagDetails
      pktWords := makeSpiPacket FUNCTION 0 2 payload1 st.pktWords
      payload := payload1
      dev := st.dev }
  let com2 := sendAndReceive hal 0 8 8 com1
  checkResponse 1 0 8 STATUS_SHORT 2
    { res := SPI_DRV_FUNC_RES_OK, misoWords := false, com := com2, trace := [] }

/-- The function `spiCom_SensorStart`: a FUNCTION packet with the payload `SENSOR_START, 0`
and then a STATUS_SHORT packet, each answered by a STATUS_SHORT packet. -/
def spiCom_SensorStart {σ : Type} (hal : Hal σ) (st : ComState σ) : Checked σ :=
  let payload1 := Function.update (Function.update st.payload 0 SENSOR_START) 1 0
  let com1 : ComState σ :=
    { diagDetails := clearDiagDetails
      pktWords := makeSpiPacket FUNCTION 0 2 payload1 st.pktWords
      payload := payload1
      dev := st.dev }
  let com2 := sendAndReceive hal 0 8 8 com1
  let c2 := checkResponse 1 0 8 STATUS_SHORT 2
    { res := SPI_DRV_FUNC_RES_OK, misoWords := false, com := com2, trace := [] }
  let payload2 := Function.update (Function.update c2.com.payload 0 0) 1 0
  let com3 : ComState σ :=
    { diagDetails := c2.com.diagDetails
      pktWords := makeSpiPacket STATUS_SHORT 0 2 payload2 c2.com.pktWords
      payload := payload2
      dev := c2.com.dev }
  let com4 := sendAndReceive hal 1 8 8 com3
  checkResponse 1 1 8 STATUS_SHORT 2
    { res := c2.res, misoWords := c2.misoWords, com := com4, trace := c2.trace }

/-- The function `spiCom_AcquSync`: a FUNCTION packet with the payload `ACQU_SYNC, 0`,
answered by a STATUS_SHORT packet. -/
def spiCom_AcquSync {σ : Type} (hal : Hal σ) (st : ComState σ) : Checked σ :=
  let payload1 := Function.update (Function.update st.payload 0 ACQU_SYNC) 1 0
  let com1 : ComState σ :=
    { diagDetails := clearDiagDetails
      pktWords := makeSpiPacket FUNCTION 0 2 payload1 st.pktWords
      payload := payload1
      dev := st.dev }
  let com2 := sendAndReceive hal 0 8 8 com1
  checkResponse 1 0 8 STATUS_SHORT 2
    { res := SPI_DRV_FUNC_RES_OK, misoWords := false, com := com2, trace := [] }

/-- The function `spiCom_Sync`: a SYNC packet with the payload `0, 0`, answered by a SYNC
packet. -/
def spiCom_Sync {σ : Type} (hal : Hal σ) (st : ComState σ) : Checked σ :=
  let payload1 := Function.update (Function.update st.payload 0 0) 1 0
  let com1 : ComState σ :=
    { diagDetails := clearDiagDetails
      pktWords := makeSpiPacket SYNC 0 2 payload1 st.pktWords
      payload := payload1
      dev := st.dev }
  let com2 := sendAndReceive hal 0 8 8 com1
  checkResponse 1 0 8 SYNC 0
    { res := SPI_DRV_FUNC_RES_OK, misoWords := false, com := com2, trace := [] }

/-- The function `spiCom_SensorStandby`: a FUNCTION packet with the payload
`SENSOR_STANDBY, 0`, answered by a STATUS_SHORT packet. -/
def spiCom_SensorStandby {σ : Type} (hal : Hal σ) (st : ComState σ) : Checked σ :=
  let payload1 := Function.update (Function.update st.payload 0 SENSOR_STANDBY) 1 0
  let com1 : ComState σ :=
    { diagDetails := clearDiagDetails
      pktWords := makeSpiPacket FUNCTION 0 2 payload1 st.pktWords
      payload := payload1
      dev := st.dev }
  let com2 := sendAndReceive hal 0 8 8 com1
  checkResponse 1 0 8 STATUS_SHORT 2
    { res := SPI_DRV_FUNC_RES_OK, misoWords := false, com := com2, trace := [] }

/-- The call `spiCom_SetDev(devId)` as a step on the globals (its result is not used). -/
def ComState.selectDev {σ : Type} (hal : DevHal σ) (devId : Nat) (com : ComState σ) :
    ComState σ :=
  { diagDetails := com.diagDetails
    pktWords := com.pktWords
    payload := com.payload
    dev := (spiCom_SetDev hal devId com.dev).2 }

/-- The returned code and the globals after a command. -/
def Checked.result {σ : Type} (c : Checked σ) : FuncResult_e × ComState σ := (c.res, c.com)

/-- The loop that the broadcast functions of `spi_drv_sync_com.c` have in common, entered with
`res = SPI_DRV_FUNC_RES_OK`:
`for (ind = 0u; ind < syncModeCfg.icCount; ind++) { ic = syncModeCfg.icCount - ind - 1;`
`spiCom_SetDev(spiDriver_currentState.params[ic].icIndex); res = op(); }`.
The argument `select ic` is the call of `spiCom_SetDev` for the device of index `ic` and
`op ic` is the rest of the body, both on the state `α` that the function works on. -/
def syncLoop {α : Type} (icCount : Nat) (select : Nat → α → α)
    (op : Nat → α → FuncResult_e × α) (s : α) : FuncResult_e × α :=
  forIc icCount (fun ind r =>
    let ic := icCount - ind - 1
    op ic (select ic r.2)) (SPI_DRV_FUNC_RES_OK, s)

/-- The function `spiDriver_SetSyncByName`; `spiDriver_SetByName` is the call
`spiDriver_SetByName(varName, value, bitFieldName)` as a step on the globals. -/
def spiDriver_SetSyncByName {σ : Type} (hal : DevHal σ) (icCount : Nat)
    (drv : SpiDriver_State_t) (spiDriver_SetByName : ComState σ → FuncResult_e × ComState σ)
    (com : ComState σ) : FuncResult_e × ComState σ :=
  if icCount > 1 then
    syncLoop icCount (fun ic com => com.selectDev hal (drv.params ic).icIndex)
      (fun _ com => spiDriver_SetByName com) com
  else spiDriver_SetByName com

/-- The function `spiCom_WriteSyncPatch`; the state is the globals and the caller's buffer
`dataBuf`, which `spiCom_WritePatch` byte-reverses in place at every call. -/
def spiCom_WriteSyncPatch {σ : Type} (hal : DevHal σ) (icCount : Nat) (drv : SpiDriver_State_t)
    (offset size : Nat) (s : ComState σ × WordBuf) : FuncResult_e × ComState σ × WordBuf :=
  if icCount > 1 then
    syncLoop icCount (fun ic s => (s.1.selectDev hal (drv.params ic).icIndex, s.2))
      (fun _ s =>
        ((spiCom_WritePatch hal.toHal offset size s.2 s.1).1,
          (spiCom_WritePatch hal.toHal offset size s.2 s.1).2.1.com,
          (spiCom_WritePatch hal.toHal offset size s.2 s.1).2.2)) s
  else
    ((spiCom_WritePatch hal.toHal offset size s.2 s.1).1,
      (spiCom_WritePatch hal.toHal offset size s.2 s.1).2.1.com,
      (spiCom_WritePatch hal.toHal offset size s.2 s.1).2.2)

/-- The function `spiCom_ApplySyncPatch`. -/
def spiCom_ApplySyncPatch {σ : Type} (hal : DevHal σ) (icCount : Nat) (drv : SpiDriver_State_t)
    (com : ComState σ) : FuncResult_e × ComState σ :=
  if icCount > 1 then
    syncLoop icCount (fun ic com => com.selectDev hal (drv.params ic).icIndex)
      (fun _ com => (spiCom_ApplyPatch hal.toHal com).result) com
  else (spiCom_ApplyPatch hal.toHal com).result

/-- The statement `spiDriver_currentState.params[ic].sceneCurrentLayer = 0u`. -/
def SpiDriver_State_t.resetCurrentLayer (drv : SpiDriver_State_t) (ic : Nat) :
    SpiDriver_State_t :=
  { params := Function.update drv.params ic
      { icIndex := (drv.params ic).icIndex
        sceneParam := (drv.params ic).sceneParam
        sceneLayersAmount := (drv.params ic).sceneLayersAmount
        sceneSyncMode := (drv.params ic).sceneSyncMode
        layers := (drv.params ic).layers
        sceneCurrentLayer := 0
        contState := (drv.params ic).contState }
    continuousMode := drv.continuousMode }

/-- The function `spiCom_SensorSyncStart`; the state is `spiDriver_currentState` and the
globals. -/
def spiCom_SensorSyncStart {σ : Type} (hal : DevHal σ) (icCount : Nat)
    (s : SpiDriver_State_t × ComState σ) : FuncResult_e × SpiDriver_State_t × ComState σ :=
  if icCount > 1 then
    syncLoop icCount (fun ic s => (s.1, s.2.selectDev hal (s.1.params ic).icIndex))
      (fun ic s =>
        ((spiCom_SensorStart hal.toHal s.2).res,
          s.1.resetCurrentLayer ic, (spiCom_SensorStart hal.toHal s.2).com)) s
  else
    ((spiCom_SensorStart hal.toHal s.2).res,
      s.1.resetCurrentLayer 0, (spiCom_SensorStart hal.toHal s.2).com)

/-- The function `spiCom_SensorSyncStop`. -/
def spiCom_SensorSyncStop {σ : Type} (hal : DevHal σ) (icCount : Nat) (drv : SpiDriver_State_t)
    (com : ComState σ) : FuncResult_e × ComState σ :=
  if icCount > 1 then
    syncLoop icCount (fun ic com => com.selectDev hal (drv.params ic).icIndex)
      (fun _ com => (spiCom_SensorStop hal.toHal com).result) com
  else (spiCom_SensorStop hal.toHal com).result

/-- The function `spiCom_SensorSyncStandby`. -/
def spiCom_SensorSyncStandby {σ : Type} (hal : DevHal σ) (icCount : Nat)
    (drv : SpiDriver_State_t) (com : ComState σ) : FuncResult_e × ComState σ :=
  if icCount > 1 then
    syncLoop icCount (fun ic com => com.selectDev hal (drv.params ic).icIndex)
      (fun _ com => (spiCom_SensorStandby hal.toHal com).result) com
  else (spiCom_SensorStandby hal.toHal com).result

/-- The function `spiCom_AcquSyncSync`. -/
def spiCom_AcquSyncSync {σ : Type} (hal : DevHal σ) (icCount : Nat) (drv : SpiDriver_State_t)
    (com : ComState σ) : FuncResult_e × ComState σ :=
  if icCount > 1 then
    syncLoop icCount (fun ic com => com.selectDev hal (drv.params ic).icIndex)
      (fun _ com => (spiCom_AcquSync hal.toHal com).result) com
  else (spiCom_AcquSync hal.toHal com).result

/-- The function `spiCom_SyncSync`. -/
def spiCom_SyncSync {σ : Type} (hal : DevHal σ) (icCount : Nat) (drv : SpiDriver_State_t)
    (com : ComState σ) : FuncResult_e × ComState σ :=
  if icCount > 1 then
    syncLoop icCount (fun ic com => com.selectDev hal (drv.params ic).icIndex)
      (fun _ com => (spiCom_Sync hal.toHal com).result) com
  else (spiCom_Sync hal.toHal com).result

/-- The function `spiCom_WaitSyncForReady`, on the state of the devices. -/
def spiCom_WaitSyncForReady {σ : Type} (hal : DevHal σ) (icCount : Nat)
    (drv : SpiDriver_State_t) (dev : σ) : ComStat_e × σ :=
  if icCount > 1 then
    syncLoop icCount (fun ic dev => (spiCom_SetDev hal (drv.params ic).icIndex dev).2)
      (fun _ dev => spiCom_WaitForReady hal.toHal dev) dev
  else spiCom_WaitForReady hal.toHal dev

/-- The function `spiDriver_SyncPinWaitForReady`, on the state of the devices: the loop
`for (ic = 0u; (ic < syncModeCfg.icCount) && (res == SPI_DRV_FUNC_RES_OK); ic++)`. -/
def spiDriver_SyncPinWaitForReady {σ : Type} (hal : DevHal σ) (icCount : Nat)
    (drv : SpiDriver_State_t) (dev : σ) : FuncResult_e × σ :=
  forIc icCount (fun ic r =>
    if r.1 = SPI_DRV_FUNC_RES_OK then
      let d1 := (hal.spiDriver_SpiSetDev r.2 (drv.params ic).icIndex).2
      let w := hal.spiDriver_PinWaitForReady d1
      (if w.1 = CS_SUCCESS then SPI_DRV_FUNC_RES_OK else SPI_DRV_FUNC_RES_FAIL_COMM, w.2)
    else r) (SPI_DRV_FUNC_RES_OK, dev)

/-- The local `res` and the globals of `spiDriver_MakeSync`, with the layer ids that
`lightControlFunction` has been called with so far. -/
structure MakeSyncState (σ : Type) where
  res : FuncResult_e
  com : ComState σ
  lightCalls : List Nat

/-- The statement `if (syncModeCfg.icCount >= 2) { res |= spiCom_SetDev(params->icIndex); }`
of `spiDriver_MakeSync`. -/
def spiDriver_MakeSync_setDev {σ : Type} (hal : DevHal σ) (icCount devId : Nat)
    (s : MakeSyncState σ) : MakeSyncState σ :=
  if icCount ≥ 2 then
    { res := s.res ||| (spiCom_SetDev hal devId s.com.dev).1
      com := s.com.selectDev hal devId
      lightCalls := s.lightCalls }
  else s

/-- The body of the loop of `spiDriver_MakeSync(nth_part)` for the loop counter `ic`;
`lightControl` tells whether `lightControlFunction` is not `NULL`. The subtractions
`sceneLayersAmount - 1` are done in `uint32_t`. -/
def spiDriver_MakeSync_body {σ : Type} (hal : DevHal σ) (icCount : Nat)
    (drv : SpiDriver_State_t) (lightControl : Bool) (nth_part : Nat) (ic : Nat)
    (s : MakeSyncState σ) : MakeSyncState σ :=
  let params := drv.params (icCount - 1 - ic)
  let layerInd := params.sceneCurrentLayer
  if params.contState ≠ CONT_MODE_STATE_IDLE then
    let s1 := spiDriver_MakeSync_setDev hal icCount params.icIndex s
    if layerInd ≠ (params.sceneLayersAmount + 4294967295) % 4294967296
        ∨ drv.continuousMode = true then
      if params.sceneSyncMode = ACQU_SYNC_FRAME
          ∨ (params.sceneSyncMode = ACQU_SYNC_LAYER ∧ nth_part = 0) then
        let w := spiDriver_SyncPinWaitForReady hal icCount drv s1.com.dev
        let s2 : MakeSyncState σ :=
          { res := s1.res ||| w.1
            com := { diagDetails := s1.com.diagDetails, pktWords := s1.com.pktWords,
                     payload := s1.com.payload, dev := w.2 }
            lightCalls := s1.lightCalls }
        let s3 := spiDriver_MakeSync_setDev hal icCount params.icIndex s2
        let a := spiCom_AcquSync hal.toHal s3.com
        let s4 : MakeSyncState σ :=
          { res := s3.res ||| a.res, com := a.com, lightCalls := s3.lightCalls }
        let s5 : MakeSyncState σ :=
          if lightControl then
            { res := s4.res
              com := { diagDetails := s4.com.diagDetails, pktWords := s4.com.pktWords,
                       payload := s4.com.payload,
                       dev := (spiCom_WaitSyncForReady hal icCount drv s4.com.dev).2 }
              lightCalls := s4.lightCalls ++
                [if layerInd ≥ (params.sceneLayersAmount + 4294967295) % 4294967296 then
                  (params.layers 0).layerId
                else (params.layers (layerInd + 1)).layerId] }
          else s4
        let s6 := spiDriver_MakeSync_setDev hal icCount params.icIndex s5
        let y := spiCom_Sync hal.toHal s6.com
        { res := s6.res ||| y.res, com := y.com, lightCalls := s6.lightCalls }
      else s1
    else s1
  else s

/-- The function `spiDriver_MakeSync(nth_part)`. -/
def spiDriver_MakeSync {σ : Type} (hal : DevHal σ) (icCount : Nat) (drv : SpiDriver_State_t)
    (lightControl : Bool) (nth_part : Nat) (com : ComState σ) : MakeSyncState σ :=
  forIc icCount (spiDriver_MakeSync_body hal icCount drv lightControl nth_part)
    { res := SPI_DRV_FUNC_RES_OK, com := com, lightCalls := [] }

/-- Specification side: the devices with the indices of the list are visited one after the
other, each being selected (`select ic`) and then operated on (`op ic`); the result is the
result of the last operation. -/
def visitInOrder {α : Type} (select : Nat → α → α) (op : Nat → α → FuncResult_e × α) :
    List Nat → FuncResult_e × α → FuncResult_e × α
  | [], r => r
  | ic :: rest, r => visitInOrder select op rest (op ic (select ic r.2))

/-- The device of index `ic` takes part in the synchronisation of `spiDriver_MakeSync`: it is
not idle, it is not at its last layer or the driver is in continuous mode, and its
synchronisation mode asks for it in the part `nth_part` of the frame. -/
def makeSyncActive (drv : SpiDriver_State_t) (nth_part ic : Nat) : Bool :=
  decide ((drv.params ic).contState ≠ CONT_MODE_STATE_IDLE)
  && (decide ((drv.params ic).sceneCurrentLayer
        ≠ ((drv.params ic).sceneLayersAmount + 4294967295) % 4294967296)
      || drv.continuousMode)
  && (decide ((drv.params ic).sceneSyncMode = ACQU_SYNC_FRAME)
      || (decide ((drv.params ic).sceneSyncMode = ACQU_SYNC_LAYER) && decide (nth_part = 0)))

/-- The driver state after `spiDriver_SetSyncIcOrder` has stored the order `7, 3` of two
working devices: the device with id 7 is first (index 0), the device with id 3 is last. -/
def orderedState : SpiDriver_State_t :=
  (spiDriver_SetSyncIcOrder (some threeIds) 2 0
    (driverStateOf 2 CONT_MODE_STATE_WORKING)).2.2

/-- A state in which the working devices have scenes of one layer, have finished their scene
and have the last-request flag set; nothing is pending yet. -/
def oneLayerStopRequested : ContModeState StopDev :=
  { contModeThread := fun _ => CONT_MODE_WORK
    contModePendingSteps := fun _ => CONT_MODE_MAX_PENDING
    lastRequest := fun _ => true
    looping := true
    spiDriver_currentState := driverStateOf 1 CONT_MODE_STATE_FINISHED
    com := initCom { sel := 0, log := [] }
    out := [] }

/-! ## Byte order (`ReverseBytes16` of `spi_drv_tools.c`) -/

/-- A `uint8_t*` buffer, indexed by byte. -/
abbrev ByteBuf := Nat → Nat

/-- The loop `for (uint16_t ind = 0; ind < size; ind += 2)` of `ReverseBytes16` from the counter
`ind` on; the first argument bounds the number of iterations. -/
def ReverseBytes16_loop (size : Nat) : Nat → Nat → ByteBuf → ByteBuf
  | 0, _, buffer => buffer
  | left + 1, ind, buffer =>
    if ind < size then
      let tmpBuffer := buffer ind
      let buffer1 := Function.update buffer ind (buffer (ind + 1))
      let buffer2 := Function.update buffer1 (ind + 1) tmpBuffer
      ReverseBytes16_loop size left ((ind + 2) % 65536) buffer2
    else buffer

/-- The function `ReverseBytes16(buffer, size)` on the bytes of the buffer; `size` is a
`uint16_t`, and `size &= ~(uint16_t)1u` clears its bit 0. The loop runs at most 32767 times. -/
def ReverseBytes16 (buffer : ByteBuf) (size : Nat) : ByteBuf :=
  let size := (size % 65536) &&& 65534
  ReverseBytes16_loop size 32768 0 buffer

/-- The `uint16_t` words that a byte buffer holds on a little-endian host. -/
def wordsOfBytes (buffer : ByteBuf) : WordBuf := fun i => buffer (2 * i) + 256 * buffer (2 * i + 1)

/-- The byte buffer `1, 2, 3, 4, 5, 6, …`. -/
def countingBytes : ByteBuf := fun i => i + 1

/-! ## The variable database and its bit fields (`spi_drv_data.c`, `hash_lib.c`) -/

/-- The structure `FwFieldInfo_t`; a name is the list of its characters (without the final
zero), and the nested bit fields, which no function modelled here reads, are left out. -/
structure FwFieldInfo_t where
  fldNameHash : Nat
  fldName : List Nat
  fldAddr : Nat
  bitField : Bool
  bitOffset : Nat
  bitSize : Nat
  byteSize : Nat
  isSigned : Bool
  wordSize : Nat
  offset : Nat
  bitFieldCount : Nat
deriving DecidableEq, Repr

/-- The assignment `rev_offset = ((uint8_t)8 * byteSize) - bitOffset - bitSize`: the operands
are promoted to `int` and the difference is stored in a `uint8_t`. -/
def FwFieldInfo_t.rev_offset (fwField : FwFieldInfo_t) : Nat :=
  (((8 : Int) * fwField.byteSize - fwField.bitOffset - fwField.bitSize) % 256).toNat

/-- The function `spiDriver_GetBitByVar(fwField, value)`; `rev_mask` is a `uint32_t`. Shift
counts of 32 and more, which the widths of the C types do not cover, are shifts of natural
numbers here. -/
def spiDriver_GetBitByVar (fwField : FwFieldInfo_t) (value : Nat) : Nat :=
  let rev_offset := fwField.rev_offset
  let rev_mask := ((1 <<< fwField.bitSize) - 1) % 4294967296
  (value >>> rev_offset) &&& rev_mask

/-- The function `spiDriver_SetBitByVar(fwField, value, newValue)` with its `uint32_t`
arithmetic; `~rev_mask` is `4294967295 - rev_mask`. -/
def spiDriver_SetBitByVar (fwField : FwFieldInfo_t) (value newValue : Nat) : Nat :=
  let rev_offset := fwField.rev_offset
  let rev_mask := (((1 <<< fwField.bitSize) - 1) <<< rev_offset) % 4294967296
  (value &&& (4294967295 - rev_mask)) ||| (((newValue <<< rev_offset) % 4294967296) &&& rev_mask)

/-- A field of three bits at the bit offset 2 of a two-byte variable: the bits 11 to 13. -/
def threeBitField : FwFieldInfo_t :=
  { fldNameHash := 0, fldName := [], fldAddr := 0, bitField := true, bitOffset := 2,
    bitSize := 3, byteSize := 2, isSigned := false, wordSize := 1, offset := 0,
    bitFieldCount := 0 }

/-- The loop of `GetHashDjb2` over the characters that follow; it ends at the first zero
character, and the end of the list stands for the terminating zero. `hash` is a `uint32_t`. -/
def GetHashDjb2_loop : Nat → List Nat → Nat
  | hash, [] => hash
  | hash, c :: str =>
    if c % 256 = 0 then hash
    else GetHashDjb2_loop ((((hash <<< 5) % 4294967296 + hash) % 4294967296 + c % 256)
      % 4294967296) str

/-- The function `GetHashDjb2(str)` of `hash_lib.c`. -/
def GetHashDjb2 (str : List Nat) : Nat := GetHashDjb2_loop 5381 str

/-- The globals `fwFields`, `fwNameIdx` and `fwFieldsCount` of `spi_drv_data.c`. -/
structure FwDatabase where
  fwFields : Nat → FwFieldInfo_t
  fwNameIdx : Nat → Nat
  fwFieldsCount : Nat

/-- The loop `while (true)` of `qsearch` from the boards `l_board` and `r_board` on; the
result is the `int res`, and `none` stands for a loop that needs more iterations than the
first argument allows. -/
def qsearch_loop (db : FwDatabase) (hash : Nat) : Nat → Nat → Nat → Option Int
  | 0, _, _ => none
  | left + 1, l_board, r_board =>
    let l_hash := (db.fwFields (db.fwNameIdx l_board)).fldNameHash
    let r_hash := (db.fwFields (db.fwNameIdx r_board)).fldNameHash
    if hash = l_hash then some (db.fwNameIdx l_board : Int)
    else if hash = r_hash then some (db.fwNameIdx r_board : Int)
    else if (r_board + 4294967296 - l_board) % 4294967296 < 2 then some (-1)
    else
      let ind := ((r_board + l_board) % 4294967296) / 2
      if hash < (db.fwFields (db.fwNameIdx ind)).fldNameHash then
        qsearch_loop db hash left l_board ind
      else qsearch_loop db hash left ind r_board

/-- The function `qsearch(hash)`; `r_board` is the `uint32_t` value of `fwFieldsCount - 1`.
The loop gets one iteration more than the database has fields. -/
def qsearch (db : FwDatabase) (hash : Nat) : Option Int :=
  let r_board := (db.fwFieldsCount + 4294967295) % 4294967296
  let l_board := 0
  let l_hash := (db.fwFields (db.fwNameIdx l_board)).fldNameHash
  let r_hash := (db.fwFields (db.fwNameIdx r_board)).fldNameHash
  if l_hash ≤ hash ∧ hash ≤ r_hash then
    qsearch_loop db hash (db.fwFieldsCount + 1) l_board r_board
  else some (-1)

/-- The function `GetFwVariableByName(var_name)`: the outer `none` stands for a search that
does not end, `some none` for the result `NULL`, and `var_name = none` for a `NULL` name. -/
def GetFwVariableByName (db : FwDatabase) (var_name : Option (List Nat)) :
    Option (Option FwFieldInfo_t) :=
  match var_name with
  | some name =>
    if db.fwFieldsCount > 0 then
      let hash := GetHashDjb2 name
      match qsearch db hash with
      | none => none
      | some ind => if ind ≥ 0 then some (some (db.fwFields ind.toNat)) else some none
    else some none
  | none => some none

/-- A field of the database with the given name, stored with its hash as `ReadFwJson` does. -/
def fieldNamed (name : List Nat) (addr : Nat) : FwFieldInfo_t :=
  { fldNameHash := GetHashDjb2 name, fldName := name, fldAddr := addr, bitField := false,
    bitOffset := 0, bitSize := 16, byteSize := 2, isSigned := false, wordSize := 1, offset := 0,
    bitFieldCount := 0 }

/-- A database of the three variables `"Az"`, `"a"` and `"zz"` (in this order in `fwFields`),
whose hashes 5862176, 177670 and 5864057 are pairwise distinct; the index sorts them by
hash. -/
def smallDatabase : FwDatabase :=
  { fwFields := fun i =>
      if i = 0 then fieldNamed [65, 122] 100
      else if i = 1 then fieldNamed [97] 200
      else fieldNamed [122, 122] 300
    fwNameIdx := fun i => if i = 0 then 1 else if i = 1 then 0 else 2
    fwFieldsCount := 3 }

/-! ## A bus with one failing device -/

/-- A bus on which the transfers to the device with the id 11 fail (`spiDriver_SpiWriteAndRead`
returns -1 and leaves the buffer as it is); every other device answers a SYNC packet with a
valid SYNC packet and every other packet with a valid, all-zero STATUS_SHORT packet. The
packets are recorded as on `stopHal`. -/
def brokenHal : DevHal StopDev where
  spiDriver_PinWaitForReady := fun s => (CS_SUCCESS, s)
  spiDriver_SpiWriteAndRead := fun s data length =>
    if s.sel = 11 then
      (-1, data, { sel := s.sel, log := s.log ++ [(s.sel, wireWords data length)] })
    else if bswap16 (data 0) / 4096 = SYNC then
      (0, fun i => bswap16 (makeSpiPacket SYNC 0 2 zeroBuf zeroBuf i),
        { sel := s.sel, log := s.log ++ [(s.sel, wireWords data length)] })
    else
      (0, fun i => bswap16 (makeSpiPacket STATUS_SHORT 0 2 zeroBuf zeroBuf i),
        { sel := s.sel, log := s.log ++ [(s.sel, wireWords data length)] })
  spiDriver_SpiGetDev := fun s => s.sel
  spiDriver_SpiSetDev := fun s devId => (SPI_DRV_FUNC_RES_OK, { sel := devId, log := s.log })
  spiDriver_PinSetDev := fun s _ => (SPI_DRV_FUNC_RES_OK, s)

/-- A call `spiDriver_SetByName(varName, value, bitFieldName)` that fails with
`SPI_DRV_FUNC_RES_FAIL_COMM` on the device with the id 11 and succeeds on the others. -/
def setByNameBroken (com : ComState StopDev) : FuncResult_e × ComState StopDev :=
  (if com.dev.sel = 11 then SPI_DRV_FUNC_RES_FAIL_COMM else SPI_DRV_FUNC_RES_OK, com)

/-- The globals after `spiCom_SetDev(11)` on a fresh bus. -/
def selected11 : ComState StopDev := (initCom { sel := 0, log := [] }).selectDev brokenHal 11

/-! ## Reading the configuration of a device (`ReadSyncConfig` of `spi_drv_sync_mode.c`) -/

/-- The variables that `ReadSyncConfig` reads, in place of the names it builds with `sprintf`:
`"scene_layers_amount"`, `"scene_param"` with the bit fields `"scene_sync_mode"` and
`"scene_recharge_led_en"`, `"hws_PORT_HWS_CTRL"` with the bit field `"hws_slave"`,
`"scene_layers_order_<layer>"`, `"layer_<index>_averaging"`, `"layer_<index>_dark_averaging"`,
`"layer_<index>_trigger_period"`, `"layer_<index>_sampling_port_sampling_mode"` with the bit
field `"layer_<index>_sampling_mode"`, `"layer_<index>_param"` and
`"scene_reserved_scene_w_<k>"`. -/
inductive SyncVar where
  | scene_layers_amount
  | scene_sync_mode
  | scene_recharge_led_en
  | hws_slave
  | scene_layers_order (layer : Nat)
  | layer_averaging (layer_index : Nat)
  | layer_dark_averaging (layer_index : Nat)
  | layer_trigger_period (layer_index : Nat)
  | layer_sampling_mode (layer_index : Nat)
  | layer_param (layer_index : Nat)
  | scene_reserved_scene_w (k : Nat)
deriving DecidableEq

/-- One call `res |= spiDriver_GetByName(name, &u32_buf, bitFieldName)`: the call gets the
content of `u32_buf` and gives the result and the new content. -/
def readSyncVar (spiDriver_GetByName : SyncVar → Nat → FuncResult_e × Nat) (v : SyncVar)
    (s : FuncResult_e × Nat) : FuncResult_e × Nat :=
  (s.1 ||| (spiDriver_GetByName v s.2).1, (spiDriver_GetByName v s.2).2)

/-- The body of the loop over the layers in `ReadSyncConfig`, for the `uint8_t` counter
`layer`; the fields of `SyncLayerConfig_t` and `layer_index` are `uint16_t`. -/
def ReadSyncConfig_body (spiDriver_GetByName : SyncVar → Nat → FuncResult_e × Nat) (layer : Nat)
    (s : (FuncResult_e × Nat) × SyncSceneConfig_t) : (FuncResult_e × Nat) × SyncSceneConfig_t :=
  let r1 := readSyncVar spiDriver_GetByName (.scene_layers_order layer) s.1
  let layer_index := r1.2 % 65536
  let r2 := readSyncVar spiDriver_GetByName (.layer_averaging layer_index) r1
  let r3 := readSyncVar spiDriver_GetByName (.layer_dark_averaging layer_index) r2
  let r4 := readSyncVar spiDriver_GetByName (.layer_trigger_period layer_index) r3
  let r5 := readSyncVar spiDriver_GetByName (.layer_sampling_mode layer_index) r4
  let r6 := readSyncVar spiDriver_GetByName (.layer_param layer_index) r5
  let r7 := readSyncVar spiDriver_GetByName (.scene_reserved_scene_w (layer / 2 + 2)) r6
  let u32_buf := (r7.2 >>> (8 * (layer % 2))) % 256
  ((r7.1, u32_buf),
    { layer_cfg := Function.update s.2.layer_cfg layer
        { layer_index := layer_index
          averaging := r2.2 % 65536
          trigger_period := r4.2 % 65536
          sampling_mode := r5.2 % 65536
          dark_frame_en := r6.2 % 65536
          dark_averaging := r3.2 % 65536
          lsm_config := u32_buf }
      layer_count := s.2.layer_count
      sync_mode := s.2.sync_mode
      recharge_led_en := s.2.recharge_led_en
      slave_mode := s.2.slave_mode })

/-- The function `ReadSyncConfig(ic, sync_config)` for one device: `setDev` is the result of
`spiCom_SetDev`, `spiDriver_GetByName` reads a variable of the device, `u32_buf` is the
indeterminate initial content of the local buffer, and `sync_config` is the structure that
is filled (the stores into `spiDriver_currentState` are left out). The `uint16_t` fields keep
the low 16 bits of what was read. With a layer count above `LAYERS_ORDER_MAX` the loop writes
outside `layer_cfg`, which gives `none`. -/
def ReadSyncConfig (setDev : FuncResult_e)
    (spiDriver_GetByName : SyncVar → Nat → FuncResult_e × Nat) (u32_buf : Nat)
    (sync_config : SyncSceneConfig_t) : Option (FuncResult_e × SyncSceneConfig_t) :=
  let r1 := readSyncVar spiDriver_GetByName .scene_layers_amount (setDev, u32_buf)
  let r2 := readSyncVar spiDriver_GetByName .scene_sync_mode r1
  let r3 := readSyncVar spiDriver_GetByName .scene_recharge_led_en r2
  let r4 := readSyncVar spiDriver_GetByName .hws_slave r3
  let cfg : SyncSceneConfig_t :=
    { layer_cfg := sync_config.layer_cfg
      layer_count := r1.2 % 65536
      sync_mode := r2.2 % 65536
      recharge_led_en := r3.2 % 65536
      slave_mode := r4.2 % 65536 }
  if cfg.layer_count ≤ LAYERS_ORDER_MAX then
    let r := forIc cfg.layer_count (ReadSyncConfig_body spiDriver_GetByName) (r4, cfg)
    some (r.1.1, r.2)
  else none

/-- A device in slave mode that reports the given `scene_layers_amount`; every other variable
reads as zero, and every read succeeds. -/
def slaveReporting (scene_layers_amount : Nat) (v : SyncVar) (_ : Nat) : FuncResult_e × Nat :=
  match v with
  | .scene_layers_amount => (SPI_DRV_FUNC_RES_OK, scene_layers_amount)
  | .hws_slave => (SPI_DRV_FUNC_RES_OK, 1)
  | _ => (SPI_DRV_FUNC_RES_OK, 0)

/-- A configuration structure before it is filled. -/
def blankSyncConfig : SyncSceneConfig_t :=
  { layer_cfg := fun _ => ⟨0, 0, 0, 0, 0, 0, 0⟩, layer_count := 0, sync_mode := 0,
    recharge_led_en := 0, slave_mode := 0 }

/-- What `ReadSyncConfig` obtains from two devices of which the first reports two layers and
the second none. -/
def readTwoAndNone (ic : Nat) : FuncResult_e × SyncSceneConfig_t :=
  (ReadSyncConfig SPI_DRV_FUNC_RES_OK (slaveReporting (if ic = 0 then 2 else 0)) 0
    blankSyncConfig).getD (SPI_DRV_FUNC_RES_FAIL_INPUT_DATA, blankSyncConfig)

/-! ## One acquisition step (`spiCom_GetRaw` and `spiCom_GetEcho` of `spi_drv_com.c`, the
tick functions of `spi_drv_trace.c`) -/

/-- Function id `GET_ECHO` of the FUNCTION packet. -/
abbrev GET_ECHO : Nat := 1

/-- Function id `GET_RAW` of the FUNCTION packet. -/
abbrev GET_RAW : Nat := 2

/-- Total number of channels per layer (`N_CHANNELS`). -/
abbrev N_CHANNELS : Nat := 32

/-- Maximum number of samples in one channel (`MAX_SAMPLES_N`). -/
abbrev MAX_SAMPLES_N : Nat := 312

abbrev FMT_ECHO_FAST : Nat := 0
abbrev FMT_ECHO_9P : Nat := 1
abbrev FMT_ECHO_SHORT : Nat := 2
abbrev FMT_ECHO_DETAIL : Nat := 3

/-- Data format `CHIP_DATA_TRACE` of `ChipDataFormat_e`. -/
abbrev CHIP_DATA_TRACE : Nat := 4

/-- Data format `CHIP_DATA_META_ONLY` of `ChipDataFormat_e`. -/
abbrev CHIP_DATA_META_ONLY : Nat := 5

/-- The locals of `spiCom_GetRaw` and `spiCom_GetEcho`, the caller's two buffers and the
globals: `dptr` and `mptr` are the word offsets into the data and the metadata buffer. -/
structure DataState (σ : Type) where
  res : FuncResult_e
  com : ComState σ
  dptr : Nat
  mptr : Nat
  data : WordBuf
  metaData : WordBuf

/-- The check of the second response in `spiCom_GetRaw`:
`if (diagDetails[0].halStat >= 0) { ReverseBytes16(pktBytes, revSize);`
`res |= validatePkt(1, RAW_DATA_RESP, wordSize, misoWords); }`
`else { res |= SPI_DRV_FUNC_RES_FAIL_COMM; }`; the HAL status is kept in slot 0, the
validation writes slot 1. -/
def checkRawResponse {σ : Type} (xactNum revSize wordSize : Nat) (c : Checked σ) : Checked σ :=
  if 0 ≤ (c.com.diagDetails 0).halStat then
    let misoWords := ReverseBytes16Words c.com.pktWords revSize
    let v := validatePkt 1 RAW_DATA_RESP wordSize misoWords c.com.diagDetails
    { res := c.res ||| v.1
      misoWords := true
      com := { diagDetails := v.2, pktWords := misoWords, payload := c.com.payload,
               dev := c.com.dev }
      trace := c.trace ++ [{ xactNum := xactNum, slot := 0,
                             halStat := (c.com.diagDetails 0).halStat,
                             validation := some v.1 }] }
  else
    { res := c.res ||| SPI_DRV_FUNC_RES_FAIL_COMM
      misoWords := c.misoWords
      com := c.com
      trace := c.trace ++ [{ xactNum := xactNum, slot := 0,
                             halStat := (c.com.diagDetails 0).halStat,
                             validation := none }] }

/-- The final statements of an iteration of `spiCom_GetRaw` and of `spiCom_GetEcho`:
`memcpy(mptr, &pktBytes[2], 16); mptr += 8;`
`memcpy(dptr, &pktBytes[18], (wordSize - 8) * sizeof(uint16_t)); dptr += wordSize - 8;`. -/
def copyResponse {σ : Type} (wordSize : Nat) (s : DataState σ) (c : Checked σ) : DataState σ :=
  { res := c.res
    com := c.com
    dptr := s.dptr + (wordSize - 8)
    mptr := s.mptr + 8
    data := memcpyWords s.data s.dptr c.com.pktWords 9 (wordSize - 8)
    metaData := memcpyWords s.metaData s.mptr c.com.pktWords 1 8 }

/-- One iteration (channel `cc`) of the loop of `spiCom_GetRaw`. -/
def spiCom_GetRaw_body {σ : Type} (hal : Hal σ) (wordSize : Nat) (cc : Nat)
    (s : DataState σ) : DataState σ :=
  let payload1 := Function.update (Function.update s.com.payload 0 GET_RAW) 1 0
  let com1 : ComState σ :=
    { diagDetails := s.com.diagDetails
      pktWords := makeSpiPacket FUNCTION wordSize 2 payload1 s.com.pktWords
      payload := payload1
      dev := s.com.dev }
  let com2 := sendAndReceive hal 0 8 8 com1
  let c2 := checkResponse (cc + 1) 0 8 STATUS_SHORT 2
    { res := s.res, misoWords := false, com := com2, trace := [] }
  let payload2 : WordBuf := fun i => if i < MAX_PKT_PAYLOAD_WORDS then 0 else c2.com.payload i
  let com3 : ComState σ :=
    { diagDetails := c2.com.diagDetails
      pktWords := makeSpiPacket STATUS_LONG 0 wordSize payload2 c2.com.pktWords
      payload := payload2
      dev := c2.com.dev }
  let com4 := sendAndReceive hal 0 ((wordSize + 2) * 2) ((wordSize * 2) + 4) com3
  let c4 := checkRawResponse (cc + 1) ((wordSize + 2) * 2) wordSize
    { res := c2.res, misoWords := c2.misoWords, com := com4, trace := c2.trace }
  copyResponse wordSize s c4

/-- The function `spiCom_GetRaw(layersAndSamples, trace, rawMetaData)`: sixteen channels, each
fetched with a FUNCTION packet `GET_RAW` and a STATUS_LONG packet. The argument is a
`uint16_t`; below 8 the length `(wordSize - 8) * sizeof(uint16_t)` of the last `memcpy` is
negative, which gives `none`. -/
def spiCom_GetRaw {σ : Type} (hal : Hal σ) (layersAndSamples : Nat) (trace rawMetaData : WordBuf)
    (com : ComState σ) : Option (DataState σ) :=
  let wordSize := layersAndSamples % 65536
  if 8 ≤ wordSize then
    some (forIc 16 (spiCom_GetRaw_body hal wordSize)
      { res := SPI_DRV_FUNC_RES_OK
        com := { diagDetails := clearDiagDetails, pktWords := com.pktWords,
                 payload := com.payload, dev := com.dev }
        dptr := 0
        mptr := 0
        data := trace
        metaData := rawMetaData })
  else none

/-- The function `spiCom_GetEcho(echoByte, EchoesData, echoMetaData)`: one FUNCTION packet
`GET_ECHO` and one STATUS_LONG packet. The argument is a `uint16_t`; below 8 the length of
the last `memcpy` is negative, which gives `none`. -/
def spiCom_GetEcho {σ : Type} (hal : Hal σ) (echoByte : Nat) (EchoesData echoMetaData : WordBuf)
    (com : ComState σ) : Option (DataState σ) :=
  let wordSize := echoByte % 65536
  if 8 ≤ wordSize then
    let payload1 := Function.update (Function.update com.payload 0 GET_ECHO) 1 0
    let com1 : ComState σ :=
      { diagDetails := clearDiagDetails
        pktWords := makeSpiPacket FUNCTION wordSize 2 payload1 com.pktWords
        payload := payload1
        dev := com.dev }
    let com2 := sendAndReceive hal 0 8 8 com1
    let c2 := checkResponse 1 0 8 STATUS_SHORT 2
      { res := SPI_DRV_FUNC_RES_OK, misoWords := false, com := com2, trace := [] }
    let payload2 : WordBuf := fun i => if i < MAX_PKT_PAYLOAD_WORDS then 0 else c2.com.payload i
    let com3 : ComState σ :=
      { diagDetails := c2.com.diagDetails
        pktWords := makeSpiPacket STATUS_LONG 0 wordSize payload2 c2.com.pktWords
        payload := payload2
        dev := c2.com.dev }
    let com4 := sendAndReceive hal 1 ((wordSize + 2) * 2) ((wordSize + 2) * 2) com3
    let c4 := checkResponse 1 1 ((wordSize + 2) * 2) ECHO_DATA_RESP wordSize
      { res := c2.res, misoWords := c2.misoWords, com := com4, trace := c2.trace }
    some (copyResponse wordSize
      { res := SPI_DRV_FUNC_RES_OK, com := com, dptr := 0, mptr := 0, data := EchoesData,
        metaData := echoMetaData } c4)
  else none

/-- The function `spiDriver_GetEchoSize(echoFormat)`: `sizeof(EchoData_t)` is 2416 bytes and
`sizeof(EchoShortData_t) + sizeof(Metadata_t)` is 736 bytes. -/
def spiDriver_GetEchoSize (echoFormat : Nat) : Nat :=
  if echoFormat = FMT_ECHO_FAST then 1208
  else if echoFormat = FMT_ECHO_9P then 1208
  else if echoFormat = FMT_ECHO_SHORT then 368
  else if echoFormat = FMT_ECHO_DETAIL then 1208
  else 0

/-- The locals of `spiDriver_AppendChipData`: the array of records, and the word offsets that
the pointers `data8bit` and `metaData` have reached. -/
structure AppendState where
  chipDataArray : List spiDriver_ChipData_t
  data8bit : Nat
  metaData : Nat

/-- The size in bytes `dataSize` (a `uint16_t`) that `spiDriver_AppendChipData` copies for a
record of the given format; `sizeof(spiDriver_TraceData_t)` is 628 bytes. -/
def chipDataSize (dataFormat : Nat) : Nat :=
  if dataFormat = CHIP_DATA_META_ONLY then 0
  else if dataFormat = CHIP_DATA_TRACE then ((MAX_SAMPLES_N + 2) * 2 * N_CHANNELS) % 65536
  else (spiDriver_GetEchoSize dataFormat * 2) % 65536

/-- The body of the loop of `spiDriver_AppendChipData` for the counter `ic`. A record gets a
copy of `dataSize` bytes of `data` (no data, `NULL`, for `CHIP_DATA_META_ONLY`) and a copy of
one `Metadata_t`, which is eight words. -/
def spiDriver_AppendChipData_body (params : SpiDriver_Params_t) (dataFormat : Nat)
    (data : WordBuf) (layerInd : Nat) (metaData : WordBuf) (status : Nat → FuncResult_e)
    (ic : Nat) (s : AppendState) : AppendState :=
  let samples := (params.layers (layerInd + ic)).nSamples
  let dataSize := chipDataSize dataFormat
  { chipDataArray := s.chipDataArray ++
      [{ data := (List.range (dataSize / 2)).map (fun i => data (s.data8bit + i))
         samples := samples
         metaData := (List.range 8).map (fun i => metaData (s.metaData + i))
         dataFormat := dataFormat
         status := status ic
         chip_id := params.icIndex }]
    data8bit := s.data8bit + dataSize / 2
    metaData := s.metaData + 8 }

/-- The function `spiDriver_AppendChipData(params, &chipDataArray, &size, dataFormat, data,`
`layerInd, metaData, status, icCount)`: the array is the list of its `size` records, the
buffers are read as far as the sizes say, and the result is the array with the new records
at its end. For `CHIP_DATA_META_ONLY` the argument `data` is not read. -/
def spiDriver_AppendChipData (params : SpiDriver_Params_t)
    (chipDataArray : List spiDriver_ChipData_t) (dataFormat : Nat) (data : WordBuf)
    (layerInd : Nat) (metaData : WordBuf) (status : Nat → FuncResult_e) (icCount : Nat) :
    List spiDriver_ChipData_t :=
  (forIc icCount (spiDriver_AppendChipData_body params dataFormat data layerInd metaData status)
    { chipDataArray := chipDataArray, data8bit := 0, metaData := 0 }).chipDataArray

/-- The body of the inner loop of `spiDriver_CombineTraces` for one channel pair; the state is
the offset `offs` and the buffer `traceData`, and `sizeToCopy` is a `uint16_t` count of
bytes. -/
def spiDriver_CombineTraces_body (nSamples : Nat) (evenTraceData oddTraceData : WordBuf)
    (_ : Nat) (s : Nat × WordBuf) : Nat × WordBuf :=
  let sizeToCopy := (nSamples * 2) % 65536
  let t1 := memcpyWords s.2 (2 * s.1) evenTraceData s.1 (sizeToCopy / 2)
  let t2 := memcpyWords t1 (2 * s.1 + nSamples) oddTraceData
    ((s.1 + nSamples) % ((N_CHANNELS / 2) * nSamples)) (sizeToCopy / 2)
  ((s.1 + nSamples) % 4294967296, t2)

/-- The function `spiDriver_CombineTraces(params, evenTraceData, oddTraceData, traceData,`
`layerInd, icCount)`; the result is the new content of `traceData`. With a layer of no
samples the remainder is taken modulo zero, which gives `none`. -/
def spiDriver_CombineTraces (params : SpiDriver_Params_t)
    (evenTraceData oddTraceData traceData : WordBuf) (layerInd icCount : Nat) :
    Option WordBuf :=
  (forIc icCount (fun ic (r : Option (Nat × WordBuf)) =>
    r.bind (fun s =>
      let nSamples := (params.layers (layerInd + ic)).nSamples
      if nSamples = 0 then none
      else some (forIc (N_CHANNELS / 2)
        (spiDriver_CombineTraces_body nSamples evenTraceData oddTraceData) s)))
    (some (0, traceData))).map Prod.snd

/-- The buffers that `malloc` returns during one tick, with the indeterminate content they
have then. The buffers are read and written as far as the code says, without a bound. -/
structure TickHeap where
  evenEchoMetadata : WordBuf
  oddEchoMetadata : WordBuf
  evenTraceData : WordBuf
  oddTraceData : WordBuf
  traceData : WordBuf
  oddStatus : Nat → FuncResult_e
  evenStatus : Nat → FuncResult_e
  echoMetadata : WordBuf
  echoesData : WordBuf
  echoStatus : Nat → FuncResult_e

/-- The state that an acquisition step works on: the global `spiDriver_currentState`, the
globals of `spi_drv_com.c` with the devices, the batch `spiDriver_chipDataTmp` (a list of
`spiDriver_chipDataSizeTmp` records), the layer ids that `lightControlFunction` has been
called with, and (ghost) the indices of the devices for which a tick has been made. -/
structure StepState (σ : Type) where
  spiDriver_currentState : SpiDriver_State_t
  com : ComState σ
  chipData : List spiDriver_ChipData_t
  lightCalls : List Nat
  ticked : List Nat

/-- The statement `if (syncModeCfg.icCount >= 2) { res |= spiCom_SetDev(params->icIndex); }`
of the tick functions, on the local `res` and the globals. -/
def tickSetDev {σ : Type} (hal : DevHal σ) (icCount devId : Nat)
    (r : FuncResult_e × ComState σ) : FuncResult_e × ComState σ :=
  if icCount ≥ 2 then (r.1 ||| (spiCom_SetDev hal devId r.2.dev).1, r.2.selectDev hal devId)
  else r

/-- The statement `if (icInd == 0u) { spiDriver_MakeSync(nth_part); }` of the tick functions;
the result of `spiDriver_MakeSync` is not used. -/
def tickMakeSync {σ : Type} (hal : DevHal σ) (icCount : Nat) (lightControl : Bool)
    (icInd nth_part : Nat) (s : StepState σ) : StepState σ :=
  if icInd = 0 then
    { spiDriver_currentState := s.spiDriver_currentState
      com := (spiDriver_MakeSync hal icCount s.spiDriver_currentState lightControl nth_part
        s.com).com
      chipData := s.chipData
      lightCalls := s.lightCalls ++
        (spiDriver_MakeSync hal icCount s.spiDriver_currentState lightControl nth_part
          s.com).lightCalls
      ticked := s.ticked }
  else s

/-- The globals of a step with the globals of `spi_drv_com.c` replaced. -/
def StepState.withCom {σ : Type} (s : StepState σ) (com : ComState σ) : StepState σ :=
  { spiDriver_currentState := s.spiDriver_currentState
    com := com
    chipData := s.chipData
    lightCalls := s.lightCalls
    ticked := s.ticked }

/-- The globals of a step with the batch replaced. -/
def StepState.withChipData {σ : Type} (s : StepState σ) (chipData : List spiDriver_ChipData_t) :
    StepState σ :=
  { spiDriver_currentState := s.spiDriver_currentState
    com := s.com
    chipData := chipData
    lightCalls := s.lightCalls
    ticked := s.ticked }

/-- The function `spiDriver_GetSingleTrace(icInd, params, ...)` with
`params = &spiDriver_currentState.params[icInd]`: the even half and the odd half of the
channels are fetched with `spiCom_GetRaw`, combined, and appended as a `CHIP_DATA_TRACE`
record and a `CHIP_DATA_META_ONLY` record. The results of the two transfers are stored at the
index `params->icIndex` of the status arrays. -/
def spiDriver_GetSingleTrace {σ : Type} (hal : DevHal σ) (icCount : Nat) (lightControl : Bool)
    (heap : TickHeap) (icInd : Nat) (s : StepState σ) : Option (FuncResult_e × StepState σ) :=
  let params := s.spiDriver_currentState.params icInd
  let layerInd := params.sceneCurrentLayer
  let r1 := tickSetDev hal icCount params.icIndex (SPI_DRV_FUNC_RES_OK, s.com)
  (spiCom_GetRaw hal.toHal ((params.layers layerInd).nSamples + 8) heap.evenTraceData
    heap.evenEchoMetadata r1.2).bind (fun even =>
  let evenStatus := Function.update heap.evenStatus params.icIndex even.res
  let s2 := tickMakeSync hal icCount lightControl icInd 0 (s.withCom even.com)
  let r3 := tickSetDev hal icCount params.icIndex (r1.1, s2.com)
  (spiCom_GetRaw hal.toHal ((params.layers layerInd).nSamples + 8) heap.oddTraceData
    heap.oddEchoMetadata r3.2).bind (fun odd =>
  let oddStatus := Function.update heap.oddStatus params.icIndex odd.res
  (spiDriver_CombineTraces params even.data odd.data heap.traceData layerInd 1).bind
    (fun traceData =>
  let s4 := tickMakeSync hal icCount lightControl icInd 1 (s2.withCom odd.com)
  let chipData1 := spiDriver_AppendChipData params s4.chipData CHIP_DATA_TRACE traceData
    layerInd even.metaData evenStatus 1
  let chipData2 := spiDriver_AppendChipData params chipData1 CHIP_DATA_META_ONLY zeroBuf
    0 odd.metaData oddStatus 1
  some (r3.1, s4.withChipData chipData2))))

/-- The function `spiDriver_GetSingleEcho(icInd, params, ...)` with
`params = &spiDriver_currentState.params[icInd]`: the echoes are fetched with `spiCom_GetEcho`
and appended as one record in the echo format of the layer. -/
def spiDriver_GetSingleEcho {σ : Type} (hal : DevHal σ) (icCount : Nat) (lightControl : Bool)
    (heap : TickHeap) (icInd : Nat) (s : StepState σ) : Option (FuncResult_e × StepState σ) :=
  let params := s.spiDriver_currentState.params icInd
  let layerInd := params.sceneCurrentLayer
  let layerEchoFormat := (params.layers layerInd).format
  let s1 := tickMakeSync hal icCount lightControl icInd 0 s
  let s2 := tickMakeSync hal icCount lightControl icInd 1 s1
  let r3 := tickSetDev hal icCount params.icIndex (SPI_DRV_FUNC_RES_OK, s2.com)
  (spiCom_GetEcho hal.toHal (params.layers layerInd).nSamples heap.echoesData
    heap.echoMetadata r3.2).bind (fun echo =>
  let echoStatus := Function.update heap.echoStatus params.icIndex echo.res
  let chipData := spiDriver_AppendChipData params s2.chipData layerEchoFormat echo.data
    layerInd echo.metaData echoStatus 1
  some (r3.1, (s2.withCom echo.com).withChipData chipData))

/-- The statement `spiDriver_currentState.params[ic] = p`. -/
def StepState.setParams {σ : Type} (s : StepState σ) (ic : Nat) (p : SpiDriver_Params_t) :
    StepState σ :=
  { spiDriver_currentState :=
      { params := Function.update s.spiDriver_currentState.params ic p
        continuousMode := s.spiDriver_currentState.continuousMode }
    com := s.com
    chipData := s.chipData
    lightCalls := s.lightCalls
    ticked := s.ticked }

/-- The parameters with the acquisition phase `contState` replaced. -/
def SpiDriver_Params_t.withContState (p : SpiDriver_Params_t) (contState : Nat) :
    SpiDriver_Params_t :=
  { icIndex := p.icIndex
    sceneParam := p.sceneParam
    sceneLayersAmount := p.sceneLayersAmount
    sceneSyncMode := p.sceneSyncMode
    layers := p.layers
    sceneCurrentLayer := p.sceneCurrentLayer
    contState := contState }

/-- The parameters with the layer cursor `sceneCurrentLayer` replaced. -/
def SpiDriver_Params_t.withCurrentLayer (p : SpiDriver_Params_t) (sceneCurrentLayer : Nat) :
    SpiDriver_Params_t :=
  { icIndex := p.icIndex
    sceneParam := p.sceneParam
    sceneLayersAmount := p.sceneLayersAmount
    sceneSyncMode := p.sceneSyncMode
    layers := p.layers
    sceneCurrentLayer := sceneCurrentLayer
    contState := p.contState }

/-- The statement
`if ((params->contState == CONT_MODE_STATE_STARTED) || (params->contState == CONT_MODE_STATE_FINISHED))`
`{ params->contState = CONT_MODE_STATE_WORKING; }`. -/
def SpiDriver_Params_t.startWorking (p : SpiDriver_Params_t) : SpiDriver_Params_t :=
  if p.contState = CONT_MODE_STATE_STARTED ∨ p.contState = CONT_MODE_STATE_FINISHED then
    p.withContState CONT_MODE_STATE_WORKING
  else p

/-- The function `spiDriver_MakeSingleTick(icIdx, params, ...)` with
`params = &spiDriver_currentState.params[icIdx]`. The flag `isTrace` is read from
`params->layers[layerInd]` first; an index outside the array of `LAYERS_ORDER_MAX` layers
gives `none`. -/
def spiDriver_MakeSingleTick {σ : Type} (hal : DevHal σ) (icCount : Nat) (lightControl : Bool)
    (heap : TickHeap) (icIdx : Nat) (s : StepState σ) : Option (FuncResult_e × StepState σ) :=
  let layerInd := (s.spiDriver_currentState.params icIdx).sceneCurrentLayer
  if layerInd < LAYERS_ORDER_MAX then
    let isTrace := ((s.spiDriver_currentState.params icIdx).layers layerInd).isTrace
    let s1 := s.setParams icIdx (s.spiDriver_currentState.params icIdx).startWorking
    if (s1.spiDriver_currentState.params icIdx).contState = CONT_MODE_STATE_WORKING then
      if isTrace then spiDriver_GetSingleTrace hal icCount lightControl heap icIdx s1
      else spiDriver_GetSingleEcho hal icCount lightControl heap icIdx s1
    else some (SPI_DRV_FUNC_RES_OK, s1)
  else none

/-- The statements after the tick in the loop of `spiDriver_getSingleSyncStep`:
`params->sceneCurrentLayer++;` (a `uint16_t`) and
`if (params->sceneCurrentLayer >= params->sceneLayersAmount)`
`{ params->sceneCurrentLayer = 0u; params->contState = CONT_MODE_STATE_FINISHED; }`. -/
def SpiDriver_Params_t.nextLayer (p : SpiDriver_Params_t) : SpiDriver_Params_t :=
  let p1 := p.withCurrentLayer ((p.sceneCurrentLayer + 1) % 65536)
  if p1.sceneCurrentLayer ≥ p1.sceneLayersAmount then
    (p1.withCurrentLayer 0).withContState CONT_MODE_STATE_FINISHED
  else p1

/-- The body of the loop of `spiDriver_getSingleSyncStep` for the device of index `ic`, which
is entered with `res == SPI_DRV_FUNC_RES_OK`; `heap` holds the buffers that the tick gets. -/
def spiDriver_getSingleSyncStep_body {σ : Type} (hal : DevHal σ) (icCount : Nat)
    (lightControl : Bool) (heap : TickHeap) (ic : Nat) (s : StepState σ) :
    Option (FuncResult_e × StepState σ) :=
  let s1 := s.setParams ic (s.spiDriver_currentState.params ic).startWorking
  if (s1.spiDriver_currentState.params ic).contState = CONT_MODE_STATE_WORKING then
    (spiDriver_MakeSingleTick hal icCount lightControl heap ic s1).map (fun t =>
      (t.1,
        { spiDriver_currentState :=
            (t.2.setParams ic (t.2.spiDriver_currentState.params ic).nextLayer
              ).spiDriver_currentState
          com := t.2.com
          chipData := t.2.chipData
          lightCalls := t.2.lightCalls
          ticked := t.2.ticked ++ [ic] }))
  else some (SPI_DRV_FUNC_RES_OK, s1)

/-- The function `spiDriver_getSingleSyncStep`: the loop
`for (ic = 0u; (ic < syncModeCfg.icCount) && (res == SPI_DRV_FUNC_RES_OK); ic++)`;
`heap ic` holds the buffers that the tick of the device `ic` gets. -/
def spiDriver_getSingleSyncStep {σ : Type} (hal : DevHal σ) (icCount : Nat)
    (lightControl : Bool) (heap : Nat → TickHeap) (s : StepState σ) :
    Option (FuncResult_e × StepState σ) :=
  forIc icCount (fun ic (r : Option (FuncResult_e × StepState σ)) =>
    r.bind (fun t =>
      if t.1 = SPI_DRV_FUNC_RES_OK then
        spiDriver_getSingleSyncStep_body hal icCount lightControl (heap ic) ic t.2
      else some t)) (some (SPI_DRV_FUNC_RES_OK, s))

/-- The device of index `ic` is in one of the phases in which a tick is made for it: Started,
Working or Finished. -/
def tickActive (drv : SpiDriver_State_t) (ic : Nat) : Prop :=
  (drv.params ic).contState = CONT_MODE_STATE_STARTED
  ∨ (drv.params ic).contState = CONT_MODE_STATE_WORKING
  ∨ (drv.params ic).contState = CONT_MODE_STATE_FINISHED

instance (drv : SpiDriver_State_t) (ic : Nat) : Decidable (tickActive drv ic) := by
  unfold tickActive
  infer_instance

/-- The layer at the cursor of the device of index `ic`. -/
def currentLayer (drv : SpiDriver_State_t) (ic : Nat) : spiDriver_LayerCurrentConfig_t :=
  (drv.params ic).layers (drv.params ic).sceneCurrentLayer

/-- The tick of the device of index `ic` runs without a fault: the cursor is inside the array
of layers, and the layer asks for at least one sample and for at most 65527 in trace mode,
and for 8 to 65535 words (modulo 65536) in echo mode. -/
def tickDefined (drv : SpiDriver_State_t) (ic : Nat) : Prop :=
  (drv.params ic).sceneCurrentLayer < LAYERS_ORDER_MAX
  ∧ (if (currentLayer drv ic).isTrace = true then
      (currentLayer drv ic).nSamples ≠ 0 ∧ 8 ≤ ((currentLayer drv ic).nSamples + 8) % 65536
    else 8 ≤ (currentLayer drv ic).nSamples % 65536)

instance (drv : SpiDriver_State_t) (ic : Nat) : Decidable (tickDefined drv ic) := by
  unfold tickDefined
  infer_instance

/-- A scene of two layers: the layer 0 is a trace layer of 10 samples, the layer 1 an echo
layer in the format `FMT_ECHO_SHORT` that asks for 16 words. -/
def twoLayers (k : Nat) : spiDriver_LayerCurrentConfig_t :=
  if k = 0 then { icId := 0, layerId := 0, isTrace := true, nSamples := 10, format := 0 }
  else { icId := 0, layerId := 1, isTrace := false, nSamples := 16, format := FMT_ECHO_SHORT }

/-- Three devices with the ids 10, 11 and 12 and the scene `twoLayers`: the device 0 is
working at the layer 0, the device 1 is idle, the device 2 has finished a scene before and is
at the layer 1 when `cursor2` is 1. -/
def threeDevices (cursor2 : Nat) : SpiDriver_State_t :=
  { params := fun ic =>
      { icIndex := 10 + ic
        sceneParam := 0
        sceneLayersAmount := 2
        sceneSyncMode := ACQU_SYNC_NONE
        layers := twoLayers
        sceneCurrentLayer := if ic = 2 then cursor2 else 0
        contState :=
          if ic = 0 then CONT_MODE_STATE_WORKING
          else if ic = 1 then CONT_MODE_STATE_IDLE
          else CONT_MODE_STATE_WORKING }
    continuousMode := true }

/-- The state before a step on the devices `threeDevices 1` and the bus `hal`, with an empty
batch. -/
def stepStart (dev : StopDev) : StepState StopDev :=
  { spiDriver_currentState := threeDevices 1
    com := initCom dev
    chipData := []
    lightCalls := []
    ticked := [] }

/-- Buffers that hold zeros when they are allocated. -/
def zeroHeap : TickHeap :=
  { evenEchoMetadata := zeroBuf, oddEchoMetadata := zeroBuf, evenTraceData := zeroBuf,
    oddTraceData := zeroBuf, traceData := zeroBuf, oddStatus := fun _ => 0,
    evenStatus := fun _ => 0, echoMetadata := zeroBuf, echoesData := zeroBuf,
    echoStatus := fun _ => 0 }

/-- The number of records that a tick at the layer appends: two in trace mode, one in echo
mode. -/
def tickRecords (l : spiDriver_LayerCurrentConfig_t) : Nat := if l.isTrace = true then 2 else 1

/-- The step of `spiDriver_getSingleSyncStep` on the bus `hal` from the state `stepStart`,
with zeroed buffers; when the step faults the start state stands in. -/
def stepResult (hal : DevHal StopDev) : FuncResult_e × StepState StopDev :=
  (spiDriver_getSingleSyncStep hal 3 false (fun _ => zeroHeap)
    (stepStart { sel := 0, log := [] })).getD
    (SPI_DRV_FUNC_RES_OK, stepStart { sel := 0, log := [] })

/-! ## Theorems -/

theorem xor_mod_two_pow_eq (a b n : Nat) : (a ^^^ b) % 2 ^ n = (a % 2 ^ n) ^^^ (b % 2 ^ n) := by
  apply Nat.eq_of_testBit_eq
  intro i
  simp only [Nat.testBit_mod_two_pow, Nat.testBit_xor]
  by_cases h : i < n <;> simp [h]

theorem and_or_absorb (a m : Nat) : (a &&& m) ||| m = m := by
  apply Nat.eq_of_testBit_eq
  intro i
  simp only [Nat.testBit_or, Nat.testBit_and]
  cases a.testBit i <;> cases m.testBit i <;> rfl

theorem and_0xFF (x : Nat) : x &&& 0xFF = x % 256 := Nat.and_pow_two_sub_one_eq_mod x 8

theorem and_0xFFFF (x : Nat) : x &&& 0xFFFF = x % 65536 := Nat.and_pow_two_sub_one_eq_mod x 16

theorem and_0x0FFF (x : Nat) : x &&& 0x0FFF = x % 4096 := Nat.and_pow_two_sub_one_eq_mod x 12

theorem xor_mod_256 (a b : Nat) : (a ^^^ b) % 256 = (a % 256) ^^^ (b % 256) :=
  xor_mod_two_pow_eq a b 8

theorem xor_mod_65536 (a b : Nat) : (a ^^^ b) % 65536 = (a % 65536) ^^^ (b % 65536) :=
  xor_mod_two_pow_eq a b 16

theorem xor_lt_256 {a b : Nat} (ha : a < 256) (hb : b < 256) : a ^^^ b < 256 :=
  Nat.xor_lt_two_pow (n := 8) ha hb

set_option maxRecDepth 100000 in
theorem crcIdxOfLow_table : ∀ i < 256, crcIdxOfLow (crcTable.getD i 0 % 256) = i := by decide

set_option maxRecDepth 100000 in
theorem crcTable_lt : ∀ i < 256, crcTable.getD i 0 < 65536 := by decide

theorem crcIdx_lt (s b : Nat) : crcIdx s b < 256 := by
  unfold crcIdx
  rw [and_0xFF]
  exact Nat.mod_lt _ (by norm_num)

theorem crcIdx_eq (s b : Nat) (hb : b < 256) : crcIdx s b = ((s >>> 8) % 256) ^^^ b := by
  unfold crcIdx
  rw [and_0xFF]
  exact Nat.mod_eq_of_lt (xor_lt_256 (Nat.mod_lt _ (by norm_num)) hb)

theorem crcByte_eq (s b : Nat) :
    crcByte s b = ((s % 256) * 256) ^^^ crcTable.getD (crcIdx s b) 0 := by
  have ht := crcTable_lt (crcIdx s b) (crcIdx_lt s b)
  show ((s <<< 8) ^^^ crcTable.getD (crcIdx s b) 0) &&& 0xFFFF = _
  rw [and_0xFFFF, xor_mod_65536, Nat.mod_eq_of_lt ht, Nat.shiftLeft_eq]
  congr 1
  omega

theorem crcByte_lt (s b : Nat) : crcByte s b < 65536 := by
  show ((s <<< 8) ^^^ crcTable.getD (crcIdx s b) 0) &&& 0xFFFF < _
  rw [and_0xFFFF]
  exact Nat.mod_lt _ (by norm_num)

theorem crcByte_low (s b : Nat) :
    crcByte s b % 256 = crcTable.getD (crcIdx s b) 0 % 256 := by
  rw [crcByte_eq, xor_mod_256]
  have : s % 256 * 256 % 256 = 0 := by omega
  rw [this, Nat.zero_xor]

theorem crcIdx_of_crcByte_eq {s1 b1 s2 b2 : Nat} (h : crcByte s1 b1 = crcByte s2 b2) :
    crcIdx s1 b1 = crcIdx s2 b2 := by
  have h1 := crcIdxOfLow_table _ (crcIdx_lt s1 b1)
  have h2 := crcIdxOfLow_table _ (crcIdx_lt s2 b2)
  rw [← crcByte_low] at h1 h2
  rw [← h1, ← h2, h]

theorem crcByte_inj_byte {s b1 b2 : Nat} (h1 : b1 < 256) (h2 : b2 < 256)
    (h : crcByte s b1 = crcByte s b2) : b1 = b2 := by
  have hi := crcIdx_of_crcByte_eq h
  rw [crcIdx_eq s b1 h1, crcIdx_eq s b2 h2] at hi
  exact Nat.xor_right_inj.mp hi

theorem crcByte_inj_state {s1 s2 b : Nat} (h1 : s1 < 65536) (h2 : s2 < 65536) (hb : b < 256)
    (h : crcByte s1 b = crcByte s2 b) : s1 = s2 := by
  have hi := crcIdx_of_crcByte_eq h
  have hh := hi
  rw [crcIdx_eq s1 b hb, crcIdx_eq s2 b hb] at hh
  have hhi : (s1 >>> 8) % 256 = (s2 >>> 8) % 256 := Nat.xor_left_inj.mp hh
  rw [crcByte_eq, crcByte_eq, hi] at h
  have hlo : s1 % 256 * 256 = s2 % 256 * 256 := Nat.xor_left_inj.mp h
  rw [Nat.shiftRight_eq_div_pow, Nat.shiftRight_eq_div_pow] at hhi
  norm_num at hhi
  omega

theorem crcWord_lt (s w : Nat) : crcWord s w < 65536 := crcByte_lt _ _

theorem calcCrcLoop_lt (buf : WordBuf) (n : Nat) : calcCrcLoop buf n < 65536 := by
  cases n with
  | zero => show (0 : Nat) < 65536; norm_num
  | succ n => exact crcWord_lt _ _

theorem crcWord_inj_state {s1 s2 w : Nat} (h1 : s1 < 65536) (h2 : s2 < 65536)
    (h : crcWord s1 w = crcWord s2 w) : s1 = s2 := by
  unfold crcWord at h
  have hlo : (w &&& 0x00FF) % 256 < 256 := Nat.mod_lt _ (by norm_num)
  have hhi : (w >>> 8) % 256 < 256 := Nat.mod_lt _ (by norm_num)
  have := crcByte_inj_state (crcByte_lt _ _) (crcByte_lt _ _) hlo h
  exact crcByte_inj_state h1 h2 hhi this

theorem shiftRight_xor_eq (a b n : Nat) : (a ^^^ b) >>> n = (a >>> n) ^^^ (b >>> n) := by
  apply Nat.eq_of_testBit_eq
  intro i
  simp only [Nat.testBit_shiftRight, Nat.testBit_xor]

theorem bit_split (k : Nat) (hk : k < 16) :
    (((2 ^ k) >>> 8) % 256 ≠ 0 ∧ (2 ^ k) % 256 = 0) ∨
    (((2 ^ k) >>> 8) % 256 = 0 ∧ (2 ^ k) % 256 ≠ 0) := by
  interval_cases k <;> decide

theorem crcWord_flip_ne (s w k : Nat) (hk : k < 16) :
    crcWord s (w ^^^ 2 ^ k) ≠ crcWord s w := by
  intro h
  unfold crcWord at h
  simp only [and_0xFF, Nat.mod_mod, shiftRight_xor_eq, xor_mod_256] at h
  have hlo : w % 256 < 256 := Nat.mod_lt _ (by norm_num)
  have hhi : (w >>> 8) % 256 < 256 := Nat.mod_lt _ (by norm_num)
  have hlo2 : 2 ^ k % 256 < 256 := Nat.mod_lt _ (by norm_num)
  have hhi2 : (2 ^ k >>> 8) % 256 < 256 := Nat.mod_lt _ (by norm_num)
  rcases bit_split k hk with ⟨h1, h2⟩ | ⟨h1, h2⟩
  · rw [h2, Nat.xor_zero] at h
    have h3 := crcByte_inj_state (crcByte_lt _ _) (crcByte_lt _ _) hlo h
    have h4 := crcByte_inj_byte (xor_lt_256 hhi hhi2) hhi h3
    have h5 : (w >>> 8) % 256 ^^^ (2 ^ k >>> 8) % 256 = (w >>> 8) % 256 ^^^ 0 := by
      rw [h4, Nat.xor_zero]
    exact h1 (Nat.xor_right_inj.mp h5)
  · rw [h1, Nat.xor_zero] at h
    have h4 := crcByte_inj_byte (xor_lt_256 hlo hlo2) hlo h
    have h5 : w % 256 ^^^ 2 ^ k % 256 = w % 256 ^^^ 0 := by
      rw [h4, Nat.xor_zero]
    exact h2 (Nat.xor_right_inj.mp h5)

theorem calcCrcLoop_congr (buf1 buf2 : WordBuf) (n : Nat) (h : ∀ i < n, buf1 i = buf2 i) :
    calcCrcLoop buf1 n = calcCrcLoop buf2 n := by
  induction n with
  | zero => rfl
  | succ n ih =>
    show crcWord (calcCrcLoop buf1 n) (buf1 n) = crcWord (calcCrcLoop buf2 n) (buf2 n)
    rw [ih (fun i hi => h i (Nat.lt_succ_of_lt hi)), h n (Nat.lt_succ_self n)]

theorem calcCrcLoop_flip_ne (buf : WordBuf) (i k n : Nat) (hk : k < 16) (hi : i < n) :
    calcCrcLoop (Function.update buf i (buf i ^^^ 2 ^ k)) n ≠ calcCrcLoop buf n := by
  induction n with
  | zero => omega
  | succ n ih =>
    show crcWord (calcCrcLoop _ n) (Function.update buf i (buf i ^^^ 2 ^ k) n)
      ≠ crcWord (calcCrcLoop buf n) (buf n)
    by_cases hin : i = n
    · subst hin
      have hpre : calcCrcLoop (Function.update buf i (buf i ^^^ 2 ^ k)) i = calcCrcLoop buf i := by
        apply calcCrcLoop_congr
        intro j hj
        exact Function.update_noteq (Nat.ne_of_lt hj) _ _
      rw [hpre, Function.update_same]
      exact crcWord_flip_ne _ _ _ hk
    · have hlt : i < n := by omega
      have hne := ih hlt
      rw [Function.update_noteq (Ne.symm hin)]
      intro h
      exact hne (crcWord_inj_state (calcCrcLoop_lt _ _) (calcCrcLoop_lt _ _) h)

/-- Single-bit error detection of `calcCrc`, for an envelope of any length. -/
theorem calcCrc_flip_ne (buf : WordBuf) (i k n : Nat) (hk : k < 16) (hi : i < n) :
    calcCrc n (Function.update buf i (buf i ^^^ 2 ^ k)) ≠ calcCrc n buf :=
  calcCrcLoop_flip_ne buf i k n hk hi

theorem or_bits_eq_zero_iff (a b c d : Prop) [Decidable a] [Decidable b] [Decidable c]
    [Decidable d] :
    (let s1 := if a then 0 ||| 0x0001 else 0
     let s2 := if b then s1 ||| 0x0002 else s1
     let s3 := if c then s2 ||| 0x0004 else s2
     let s4 := if d then s3 ||| 0x0008 else s3
     s4 = 0) ↔ ¬ (a ∨ b ∨ c ∨ d) := by
  by_cases ha : a <;> by_cases hb : b <;> by_cases hc : c <;> by_cases hd : d <;>
    simp [ha, hb, hc, hd]

theorem validatePkt_comStat (pktNum : Fin 2) (expectedPtype xactSize : Nat)
    (validateBuf : WordBuf) (diagDetails : DiagDetails) :
    ((validatePkt pktNum expectedPtype xactSize validateBuf diagDetails).2 pktNum).comStat =
      (diagDetails pktNum).comStat
        ||| (if crcMismatch expectedPtype xactSize validateBuf then CS_CRC else 0)
        ||| (if typeMismatch expectedPtype validateBuf then CS_TYPE else 0)
        ||| (if sizeMismatch expectedPtype xactSize validateBuf then CS_SIZE else 0) := by
  unfold validatePkt crcMismatch typeMismatch sizeMismatch
  simp only [Function.update_same]
  split_ifs <;> simp

theorem validatePkt_devStat (pktNum : Fin 2) (expectedPtype xactSize : Nat)
    (validateBuf : WordBuf) (diagDetails : DiagDetails) :
    ((validatePkt pktNum expectedPtype xactSize validateBuf diagDetails).2 pktNum).devStat =
      validatedDevStat expectedPtype validateBuf (diagDetails pktNum).devStat := by
  unfold validatePkt
  simp only [Function.update_same]

theorem validatePkt_halStat (pktNum : Fin 2) (expectedPtype xactSize : Nat)
    (validateBuf : WordBuf) (diagDetails : DiagDetails) :
    ((validatePkt pktNum expectedPtype xactSize validateBuf diagDetails).2 pktNum).halStat =
      (diagDetails pktNum).halStat := by
  unfold validatePkt
  simp only [Function.update_same]

theorem validatePkt_other (pktNum q : Fin 2) (expectedPtype xactSize : Nat)
    (validateBuf : WordBuf) (diagDetails : DiagDetails) (h : q ≠ pktNum) :
    (validatePkt pktNum expectedPtype xactSize validateBuf diagDetails).2 q = diagDetails q := by
  unfold validatePkt
  simp only [Function.update_noteq h]

theorem validatePkt_res (pktNum : Fin 2) (expectedPtype xactSize : Nat)
    (validateBuf : WordBuf) (diagDetails : DiagDetails) :
    (validatePkt pktNum expectedPtype xactSize validateBuf diagDetails).1 =
      if crcMismatch expectedPtype xactSize validateBuf
          ∨ typeMismatch expectedPtype validateBuf
          ∨ sizeMismatch expectedPtype xactSize validateBuf
          ∨ ((diagDetails pktNum).halStat < 0
            ∨ ((validatePkt pktNum expectedPtype xactSize validateBuf diagDetails).2
                pktNum).comStat ≠ CS_SUCCESS
            ∨ ((validatePkt pktNum expectedPtype xactSize validateBuf diagDetails).2
                pktNum).devStat &&& devStatCheckMask ≠ 0)
      then SPI_DRV_FUNC_RES_FAIL_COMM else SPI_DRV_FUNC_RES_OK := by
  unfold validatePkt crcMismatch typeMismatch sizeMismatch
  simp only [Function.update_same]
  have h := or_bits_eq_zero_iff
    (validateBuf (expectedLengthOfBuf expectedPtype xactSize - 1)
      ≠ calcCrc ((expectedLengthOfBuf expectedPtype xactSize + 65535) % 65536) validateBuf)
    (validateBuf 0 >>> 12 ≠ expectedPtype)
    (validateBuf 0 &&& 0x0FFF ≠ expectedSizeField expectedPtype xactSize)
  simp only [] at h
  split_ifs <;> simp_all
  omega

theorem or_and_bit (a b m : Nat) : (a ||| b) &&& m = (a &&& m) ||| (b &&& m) := by
  apply Nat.eq_of_testBit_eq
  intro i
  simp only [Nat.testBit_or, Nat.testBit_and]
  cases a.testBit i <;> cases b.testBit i <;> cases m.testBit i <;> rfl

theorem lor_eq_zero (a b : Nat) : a ||| b = 0 ↔ a = 0 ∧ b = 0 := by
  constructor
  · intro h
    have hb : ∀ i, (a.testBit i || b.testBit i) = false := by
      intro i
      rw [← Nat.testBit_or, h, Nat.zero_testBit]
    constructor <;> apply Nat.eq_of_testBit_eq <;> intro i <;> have := hb i <;>
      simp only [Bool.or_eq_false_iff] at this <;> simp [this]
  · rintro ⟨rfl, rfl⟩
    rfl

theorem or_absorb_inner (A B C H P D : Prop) :
    (A ∨ B ∨ C ∨ H ∨ (A ∨ B ∨ C ∨ P) ∨ D) ↔ (A ∨ B ∨ C ∨ H ∨ P ∨ D) := by
  tauto

theorem ite_fail_comm_iff (X : Prop) [Decidable X] :
    (if X then SPI_DRV_FUNC_RES_FAIL_COMM else SPI_DRV_FUNC_RES_OK)
      = SPI_DRV_FUNC_RES_FAIL_COMM ↔ X := by
  by_cases h : X <;> simp [h]

theorem ite_ok_iff (X : Prop) [Decidable X] :
    (if X then SPI_DRV_FUNC_RES_FAIL_COMM else SPI_DRV_FUNC_RES_OK)
      = SPI_DRV_FUNC_RES_OK ↔ ¬ X := by
  by_cases h : X <;> simp [h]

theorem comStat_flags_ne_zero_iff (A B C : Prop) [Decidable A] [Decidable B] [Decidable C]
    (pre : Nat) :
    (pre ||| (if A then CS_CRC else 0) ||| (if B then CS_TYPE else 0)
        ||| (if C then CS_SIZE else 0)) ≠ 0 ↔ (A ∨ B ∨ C ∨ pre ≠ 0) := by
  by_cases ha : A <;> by_cases hb : B <;> by_cases hc : C <;>
    simp [ha, hb, hc, lor_eq_zero]

theorem comStat_flags_bits (A B C : Prop) [Decidable A] [Decidable B] [Decidable C]
    (pre : Nat) :
    ((pre ||| (if A then 1 else 0) ||| (if B then 2 else 0)
        ||| (if C then 4 else 0)) &&& 1 = 1 ↔ (A ∨ pre &&& 1 = 1))
    ∧ ((pre ||| (if A then 1 else 0) ||| (if B then 2 else 0)
        ||| (if C then 4 else 0)) &&& 2 = 2 ↔ (B ∨ pre &&& 2 = 2))
    ∧ ((pre ||| (if A then 1 else 0) ||| (if B then 2 else 0)
        ||| (if C then 4 else 0)) &&& 4 = 4 ↔ (C ∨ pre &&& 4 = 4))
    := by
  have e11 : (1 : Nat) &&& 1 = 1 := by decide
  have e21 : (2 : Nat) &&& 1 = 0 := by decide
  have e41 : (4 : Nat) &&& 1 = 0 := by decide
  have e12 : (1 : Nat) &&& 2 = 0 := by decide
  have e22 : (2 : Nat) &&& 2 = 2 := by decide
  have e42 : (4 : Nat) &&& 2 = 0 := by decide
  have e14 : (1 : Nat) &&& 4 = 0 := by decide
  have e24 : (2 : Nat) &&& 4 = 0 := by decide
  have e44 : (4 : Nat) &&& 4 = 4 := by decide
  by_cases ha : A <;> by_cases hb : B <;> by_cases hc : C <;>
    simp only [ha, hb, hc, if_true, if_false, or_and_bit, e11, e21, e41, e12, e22, e42, e14,
      e24, e44, Nat.zero_and, Nat.or_zero, and_or_absorb, true_or, false_or, true_and, and_self]

/-- C3. `validatePkt` returns `SPI_DRV_FUNC_RES_FAIL_COMM` exactly when the trailing CRC word
differs from the recomputed CRC, or the header type differs from the expected type, or the size
field differs from the expected size field, or the slot's HAL status is negative, or its
communication status (as stored by the call; equivalently, as it was before the call) is
non-zero, or its device status (refreshed from the packet for the STATUS types) has a bit
outside `DEV_STAT_IGNORE_MASK`; it returns `SPI_DRV_FUNC_RES_OK` in every other case. -/
theorem validatePkt_fail_comm_iff (pktNum : Fin 2) (expectedPtype xactSize : Nat)
    (validateBuf : WordBuf) (diagDetails : DiagDetails) :
    ((validatePkt pktNum expectedPtype xactSize validateBuf diagDetails).1
        = SPI_DRV_FUNC_RES_FAIL_COMM ↔
      (validateBuf (expectedLengthOfBuf expectedPtype xactSize - 1)
          ≠ calcCrc ((expectedLengthOfBuf expectedPtype xactSize + 65535) % 65536) validateBuf
        ∨ validateBuf 0 >>> 12 ≠ expectedPtype
        ∨ validateBuf 0 &&& 0x0FFF
            ≠ (if expectedPtype = STATUS_SHORT ∨ expectedPtype = STATUS_LONG then 0 else xactSize)
        ∨ (diagDetails pktNum).halStat < 0
        ∨ ((validatePkt pktNum expectedPtype xactSize validateBuf diagDetails).2
            pktNum).comStat ≠ 0
        ∨ ((validatePkt pktNum expectedPtype xactSize validateBuf diagDetails).2
            pktNum).devStat &&& (0xFFFFFFFF - DEV_STAT_IGNORE_MASK) ≠ 0))
    ∧ ((validatePkt pktNum expectedPtype xactSize validateBuf diagDetails).1
        = SPI_DRV_FUNC_RES_FAIL_COMM ↔
      (validateBuf (expectedLengthOfBuf expectedPtype xactSize - 1)
          ≠ calcCrc ((expectedLengthOfBuf expectedPtype xactSize + 65535) % 65536) validateBuf
        ∨ validateBuf 0 >>> 12 ≠ expectedPtype
        ∨ validateBuf 0 &&& 0x0FFF
            ≠ (if expectedPtype = STATUS_SHORT ∨ expectedPtype = STATUS_LONG then 0 else xactSize)
        ∨ (diagDetails pktNum).halStat < 0
        ∨ (diagDetails pktNum).comStat ≠ 0
        ∨ ((validatePkt pktNum expectedPtype xactSize validateBuf diagDetails).2
            pktNum).devStat &&& (0xFFFFFFFF - DEV_STAT_IGNORE_MASK) ≠ 0))
    ∧ ((validatePkt pktNum expectedPtype xactSize validateBuf diagDetails).1
          = SPI_DRV_FUNC_RES_OK
        ∨ (validatePkt pktNum expectedPtype xactSize validateBuf diagDetails).1
          = SPI_DRV_FUNC_RES_FAIL_COMM) := by
  have hres := validatePkt_res pktNum expectedPtype xactSize validateBuf diagDetails
  have hcs := validatePkt_comStat pktNum expectedPtype xactSize validateBuf diagDetails
  have hne := comStat_flags_ne_zero_iff (crcMismatch expectedPtype xactSize validateBuf)
    (typeMismatch expectedPtype validateBuf) (sizeMismatch expectedPtype xactSize validateBuf)
    (diagDetails pktNum).comStat
  rw [← hcs] at hne
  have h1 := hres ▸ ite_fail_comm_iff _
  refine ⟨h1, ?_, ?_⟩
  · refine h1.trans ?_
    show _ ↔ (crcMismatch expectedPtype xactSize validateBuf
      ∨ typeMismatch expectedPtype validateBuf ∨ sizeMismatch expectedPtype xactSize validateBuf
      ∨ _ ∨ _ ∨ _)
    unfold CS_SUCCESS
    rw [hne]
    exact or_absorb_inner _ _ _ _ _ _
  · rw [hres]
    split_ifs with h
    · exact Or.inr rfl
    · exact Or.inl rfl

/-- C4. After `validatePkt(pktNum, ...)` the slot's `comStat` is its value before the call
OR-ed with `CS_CRC` exactly when the CRC check failed, with `CS_TYPE` exactly when the type
check failed and with `CS_SIZE` exactly when the size-field check failed; hence each of the
three bits reads back as set exactly when its check failed or the bit was already set. -/
theorem validatePkt_comStat_flags (pktNum : Fin 2) (expectedPtype xactSize : Nat)
    (validateBuf : WordBuf) (diagDetails : DiagDetails) :
    ((validatePkt pktNum expectedPtype xactSize validateBuf diagDetails).2 pktNum).comStat =
        (diagDetails pktNum).comStat
          ||| (if validateBuf (expectedLengthOfBuf expectedPtype xactSize - 1)
                ≠ calcCrc ((expectedLengthOfBuf expectedPtype xactSize + 65535) % 65536)
                    validateBuf then CS_CRC else 0)
          ||| (if validateBuf 0 >>> 12 ≠ expectedPtype then CS_TYPE else 0)
          ||| (if validateBuf 0 &&& 0x0FFF
                ≠ (if expectedPtype = STATUS_SHORT ∨ expectedPtype = STATUS_LONG then 0
                    else xactSize) then CS_SIZE else 0)
    ∧ (((validatePkt pktNum expectedPtype xactSize validateBuf diagDetails).2 pktNum).comStat
          &&& CS_CRC = CS_CRC ↔
        (validateBuf (expectedLengthOfBuf expectedPtype xactSize - 1)
            ≠ calcCrc ((expectedLengthOfBuf expectedPtype xactSize + 65535) % 65536) validateBuf
          ∨ (diagDetails pktNum).comStat &&& CS_CRC = CS_CRC))
    ∧ (((validatePkt pktNum expectedPtype xactSize validateBuf diagDetails).2 pktNum).comStat
          &&& CS_TYPE = CS_TYPE ↔
        (validateBuf 0 >>> 12 ≠ expectedPtype
          ∨ (diagDetails pktNum).comStat &&& CS_TYPE = CS_TYPE))
    ∧ (((validatePkt pktNum expectedPtype xactSize validateBuf diagDetails).2 pktNum).comStat
          &&& CS_SIZE = CS_SIZE ↔
        (validateBuf 0 &&& 0x0FFF
            ≠ (if expectedPtype = STATUS_SHORT ∨ expectedPtype = STATUS_LONG then 0
                else xactSize)
          ∨ (diagDetails pktNum).comStat &&& CS_SIZE = CS_SIZE)) := by
  have hcs := validatePkt_comStat pktNum expectedPtype xactSize validateBuf diagDetails
  have hb := comStat_flags_bits (crcMismatch expectedPtype xactSize validateBuf)
    (typeMismatch expectedPtype validateBuf) (sizeMismatch expectedPtype xactSize validateBuf)
    (diagDetails pktNum).comStat
  rw [← hcs] at hb
  exact ⟨hcs, hb⟩

theorem header_fields (ptype sizeField : Nat) (ht : ptype < 16) (hs : sizeField < 4096) :
    (((ptype <<< 12) ||| sizeField) % 65536) >>> 12 = ptype
    ∧ (((ptype <<< 12) ||| sizeField) % 65536) &&& 0x0FFF = sizeField := by
  have h := Nat.mul_add_lt_is_or (i := 12) (b := sizeField) (by norm_num; exact hs) ptype
  rw [Nat.shiftLeft_eq, Nat.mul_comm ptype, ← h, and_0x0FFF, Nat.shiftRight_eq_div_pow]
  norm_num
  omega

theorem header_status_fields (ptype : Nat) (ht : ptype < 16) :
    ((ptype <<< 12) % 65536) >>> 12 = ptype ∧ ((ptype <<< 12) % 65536) &&& 0x0FFF = 0 := by
  rw [Nat.shiftLeft_eq, and_0x0FFF, Nat.shiftRight_eq_div_pow]
  norm_num
  omega

theorem makeSpiPacket_header (ptype sizeField sizePayload : Nat) (payload pktWords : WordBuf) :
    makeSpiPacket ptype sizeField sizePayload payload pktWords 0 = headerWord ptype sizeField := by
  unfold makeSpiPacket headerWord memcpyWords
  simp

theorem makeSpiPacket_payload (ptype sizeField sizePayload : Nat) (payload pktWords : WordBuf)
    (i : Nat) (hi : i < sizePayload) :
    makeSpiPacket ptype sizeField sizePayload payload pktWords (i + 1) = payload i := by
  unfold makeSpiPacket memcpyWords
  have h1 : i + 1 ≠ sizePayload + 1 := by omega
  simp only [Function.update_noteq h1]
  have h2 : 1 ≤ i + 1 ∧ i + 1 < 1 + sizePayload := by omega
  simp [h2]

theorem makeSpiPacket_crc (ptype sizeField sizePayload : Nat) (payload pktWords : WordBuf)
    (hn : sizePayload + 1 < 65536) :
    makeSpiPacket ptype sizeField sizePayload payload pktWords (sizePayload + 1)
      = calcCrc (sizePayload + 1)
          (makeSpiPacket ptype sizeField sizePayload payload pktWords) := by
  have hm : (1 + sizePayload) % 65536 = sizePayload + 1 := by omega
  unfold makeSpiPacket
  simp only [Function.update_same, hm]
  unfold calcCrc
  apply calcCrcLoop_congr
  intro j hj
  rw [Function.update_noteq (Nat.ne_of_lt hj)]

theorem makeSpiPacket_frame (ptype sizeField sizePayload : Nat) (payload pktWords : WordBuf)
    (i : Nat) (hi : sizePayload + 1 < i) :
    makeSpiPacket ptype sizeField sizePayload payload pktWords i = pktWords i := by
  unfold makeSpiPacket memcpyWords
  have h1 : i ≠ sizePayload + 1 := by omega
  have h0 : i ≠ 0 := by omega
  simp only [Function.update_noteq h1]
  have h2 : ¬ (1 ≤ i ∧ i < 1 + sizePayload) := by omega
  simp [h2, Function.update_noteq h0]

theorem expectedLengthOfBuf_lt (expectedPtype xactSize : Nat) :
    expectedLengthOfBuf expectedPtype xactSize < 65536 := by
  unfold expectedLengthOfBuf
  split_ifs <;> omega

/-- Flipping one bit of a word of the validated span of an accepted buffer is reported as a
CRC mismatch, whatever the diagnostics held before. -/
theorem validatePkt_flip_detected (pktNum : Fin 2) (expectedPtype xactSize : Nat)
    (buf : WordBuf) (diag diag2 : DiagDetails) (i k : Nat)
    (hacc : (validatePkt pktNum expectedPtype xactSize buf diag).1 = SPI_DRV_FUNC_RES_OK)
    (hi : i < expectedLengthOfBuf expectedPtype xactSize) (hk : k < 16) :
    (validatePkt pktNum expectedPtype xactSize (Function.update buf i (buf i ^^^ 2 ^ k))
        diag2).1 = SPI_DRV_FUNC_RES_FAIL_COMM
    ∧ ((validatePkt pktNum expectedPtype xactSize (Function.update buf i (buf i ^^^ 2 ^ k))
        diag2).2 pktNum).comStat &&& CS_CRC = CS_CRC := by
  have hlen := expectedLengthOfBuf_lt expectedPtype xactSize
  have hm : (expectedLengthOfBuf expectedPtype xactSize + 65535) % 65536
      = expectedLengthOfBuf expectedPtype xactSize - 1 := by omega
  have hok : ¬ crcMismatch expectedPtype xactSize buf := by
    intro hmm
    rw [validatePkt_res, if_pos (Or.inl hmm)] at hacc
    exact absurd hacc (by decide)
  have hbad : crcMismatch expectedPtype xactSize (Function.update buf i (buf i ^^^ 2 ^ k)) := by
    unfold crcMismatch at hok ⊢
    rw [hm] at hok ⊢
    simp only [ne_eq, not_not] at hok
    have hiL : i ≤ expectedLengthOfBuf expectedPtype xactSize - 1 := by omega
    generalize expectedLengthOfBuf expectedPtype xactSize - 1 = L at hok hiL ⊢
    by_cases hlast : i = L
    · subst hlast
      have hc : calcCrc i (Function.update buf i (buf i ^^^ 2 ^ k)) = calcCrc i buf := by
        apply calcCrcLoop_congr
        intro j hj
        exact Function.update_noteq (Nat.ne_of_lt hj) _ _
      rw [Function.update_same, hc, ← hok]
      intro hx
      have h0 : buf i ^^^ 2 ^ k = buf i ^^^ 0 := by rw [hx, Nat.xor_zero]
      have h1 : 2 ^ k = 0 := Nat.xor_right_inj.mp h0
      exact absurd h1 (by positivity)
    · have hlt : i < L := by omega
      rw [Function.update_noteq (Ne.symm hlast), hok]
      exact (calcCrc_flip_ne buf i k _ hk hlt).symm
  constructor
  · rw [validatePkt_res, if_pos (Or.inl hbad)]
  · rw [validatePkt_comStat, if_pos hbad]
    have h := ((comStat_flags_bits True (typeMismatch expectedPtype
      (Function.update buf i (buf i ^^^ 2 ^ k))) (sizeMismatch expectedPtype xactSize
      (Function.update buf i (buf i ^^^ 2 ^ k))) (diag2 pktNum).comStat).1).mpr (Or.inl trivial)
    rw [if_pos trivial] at h
    exact h

/-- C1 (counterexample). The round trip fails for a STATUS_SHORT packet whose payload carries a
device-status bit outside the ignore mask, and for a READ packet with a three-word payload
(the CRC written at word 4 is not the word `validatePkt` reads at index 3). -/
theorem makeSpiPacket_validatePkt_roundtrip_fails :
    (validatePkt 0 STATUS_SHORT 0
        (makeSpiPacket STATUS_SHORT 0 2 (payloadOf [2, 0]) zeroBuf) clearDiagDetails).1
      = SPI_DRV_FUNC_RES_FAIL_COMM
    ∧ (validatePkt 0 READ 0
        (makeSpiPacket READ 0 3 (payloadOf [1, 0, 0]) zeroBuf) clearDiagDetails).1
      = SPI_DRV_FUNC_RES_FAIL_COMM := by
  decide

/-- C1 (amended). For every packet type below 16, every size field below 4096 and every payload
of at most 1208 words whose length is the one `validatePkt` expects for the type (two words for
the short and command types, `sizeField` words for the others) and, for the two STATUS types,
whose device-status words (words 1 and 2 of the built packet) have no bit outside
`DEV_STAT_IGNORE_MASK`: `validatePkt`, run on cleared diagnostics over the words built by
`makeSpiPacket`, returns `SPI_DRV_FUNC_RES_OK`, and words 1..len of the packet are the
payload. -/
theorem makeSpiPacket_validatePkt_roundtrip (pktNum : Fin 2) (ptype sizeField : Nat)
    (payload : List Nat) (pktWords : WordBuf)
    (ht : ptype < 16) (hs : sizeField < 4096) (hl : payload.length ≤ MAX_PKT_PAYLOAD_WORDS)
    (hlen : payload.length + 2 = expectedLengthOfBuf ptype sizeField)
    (hdev : (ptype = STATUS_SHORT ∨ ptype = STATUS_LONG) →
      ((((makeSpiPacket ptype sizeField payload.length (payloadOf payload) pktWords 1) <<< 16)
          % 4294967296)
        ||| makeSpiPacket ptype sizeField payload.length (payloadOf payload) pktWords 2)
        &&& (0xFFFFFFFF - DEV_STAT_IGNORE_MASK) = 0) :
    (validatePkt pktNum ptype sizeField
        (makeSpiPacket ptype sizeField payload.length (payloadOf payload) pktWords)
        clearDiagDetails).1 = SPI_DRV_FUNC_RES_OK
    ∧ ∀ i < payload.length,
        makeSpiPacket ptype sizeField payload.length (payloadOf payload) pktWords (i + 1)
          = payload.getD i 0 := by
  constructor
  · have hl2 : payload.length ≤ 1208 := hl
    have hcrc : ¬ crcMismatch ptype sizeField
        (makeSpiPacket ptype sizeField payload.length (payloadOf payload) pktWords) := by
      unfold crcMismatch
      rw [← hlen]
      have h1 : payload.length + 2 - 1 = payload.length + 1 := by omega
      have h2 : (payload.length + 2 + 65535) % 65536 = payload.length + 1 := by omega
      rw [h1, h2]
      simp only [ne_eq, not_not]
      exact makeSpiPacket_crc _ _ _ _ _ (by omega)
    have htype : ¬ typeMismatch ptype
        (makeSpiPacket ptype sizeField payload.length (payloadOf payload) pktWords) := by
      unfold typeMismatch
      rw [makeSpiPacket_header]
      unfold headerWord
      simp only [ne_eq, not_not]
      split_ifs
      · exact (header_status_fields ptype ht).1
      · exact (header_fields ptype sizeField ht hs).1
    have hsize : ¬ sizeMismatch ptype sizeField
        (makeSpiPacket ptype sizeField payload.length (payloadOf payload) pktWords) := by
      unfold sizeMismatch expectedSizeField
      rw [makeSpiPacket_header]
      unfold headerWord
      simp only [ne_eq, not_not]
      split_ifs
      · exact (header_status_fields ptype ht).2
      · exact (header_fields ptype sizeField ht hs).2
    rw [validatePkt_res, if_neg]
    rw [validatePkt_comStat, validatePkt_devStat, if_neg hcrc, if_neg htype, if_neg hsize]
    intro h
    rcases h with h | h | h | h | h | h
    · exact hcrc h
    · exact htype h
    · exact hsize h
    · exact absurd (show (0 : Int) < 0 from h) (by decide)
    · exact h (show (0 ||| 0 ||| 0 ||| 0 : Nat) = 0 from rfl)
    · apply h
      unfold validatedDevStat
      split_ifs with hst
      · exact hdev hst
      · exact Nat.zero_and _
  · intro i hi
    exact makeSpiPacket_payload _ _ _ _ _ i hi

/-- C1 (witness). A READ_DATA_RESP_LONG packet with three payload words. -/
theorem makeSpiPacket_validatePkt_roundtrip_witness :
    (validatePkt 1 READ_DATA_RESP_LONG 3
        (makeSpiPacket READ_DATA_RESP_LONG 3 [0x1234, 0x5678, 0x9ABC].length
          (payloadOf [0x1234, 0x5678, 0x9ABC]) zeroBuf)
        clearDiagDetails).1 = SPI_DRV_FUNC_RES_OK
    ∧ ∀ i < [0x1234, 0x5678, 0x9ABC].length,
        makeSpiPacket READ_DATA_RESP_LONG 3 [0x1234, 0x5678, 0x9ABC].length
          (payloadOf [0x1234, 0x5678, 0x9ABC]) zeroBuf (i + 1)
          = [0x1234, 0x5678, 0x9ABC].getD i 0 :=
  makeSpiPacket_validatePkt_roundtrip 1 READ_DATA_RESP_LONG 3 [0x1234, 0x5678, 0x9ABC] zeroBuf
    (by decide) (by decide) (by decide) (by decide) (by decide)

/-- C2 (counterexample). A READ packet built with a four-word all-zero payload is accepted by
`validatePkt`, and it is still accepted, with no CRC flag, after bit 0 of its last payload word
(word 4, outside the four words `validatePkt` reads) is flipped. -/
theorem validatePkt_misses_flip_outside_span :
    (validatePkt 0 READ 0
        (makeSpiPacket READ 0 4 (payloadOf [0, 0, 0, 0]) zeroBuf) clearDiagDetails).1
      = SPI_DRV_FUNC_RES_OK
    ∧ (validatePkt 0 READ 0
        (Function.update (makeSpiPacket READ 0 4 (payloadOf [0, 0, 0, 0]) zeroBuf) 4
          (makeSpiPacket READ 0 4 (payloadOf [0, 0, 0, 0]) zeroBuf 4 ^^^ 2 ^ 0))
        clearDiagDetails).1 = SPI_DRV_FUNC_RES_OK
    ∧ ((validatePkt 0 READ 0
        (Function.update (makeSpiPacket READ 0 4 (payloadOf [0, 0, 0, 0]) zeroBuf) 4
          (makeSpiPacket READ 0 4 (payloadOf [0, 0, 0, 0]) zeroBuf 4 ^^^ 2 ^ 0))
        clearDiagDetails).2 0).comStat &&& CS_CRC = 0 := by
  decide

/-- C2 (amended). For every packet built by `makeSpiPacket` that `validatePkt` accepts,
flipping any single bit of its header word or of a payload word that lies among the words
`validatePkt` reads (index below `expectedLengthOfBuf`: 4 for the short and command types,
`xactSize + 2` for the others; the same holds for every word of that span) makes
`validatePkt` set `CS_CRC` in the slot's `comStat` and return `SPI_DRV_FUNC_RES_FAIL_COMM`,
whatever the diagnostics held before; and `calcCrc` detects every single-bit error in an
envelope of any length. -/
theorem validatePkt_detects_bit_flip (pktNum : Fin 2) (ptype sizeField sizePayload : Nat)
    (payload pktWords : WordBuf) (expectedPtype xactSize : Nat) (diag diag2 : DiagDetails)
    (i k : Nat)
    (hacc : (validatePkt pktNum expectedPtype xactSize
        (makeSpiPacket ptype sizeField sizePayload payload pktWords) diag).1
      = SPI_DRV_FUNC_RES_OK)
    (hspan : i < expectedLengthOfBuf expectedPtype xactSize) (hk : k < 16) :
    (validatePkt pktNum expectedPtype xactSize
        (Function.update (makeSpiPacket ptype sizeField sizePayload payload pktWords) i
          (makeSpiPacket ptype sizeField sizePayload payload pktWords i ^^^ 2 ^ k)) diag2).1
      = SPI_DRV_FUNC_RES_FAIL_COMM
    ∧ ((validatePkt pktNum expectedPtype xactSize
        (Function.update (makeSpiPacket ptype sizeField sizePayload payload pktWords) i
          (makeSpiPacket ptype sizeField sizePayload payload pktWords i ^^^ 2 ^ k)) diag2).2
        pktNum).comStat &&& CS_CRC = CS_CRC
    ∧ ∀ (buf : WordBuf) (n j b : Nat), j < n → b < 16 →
        calcCrc n (Function.update buf j (buf j ^^^ 2 ^ b)) ≠ calcCrc n buf :=
  ⟨(validatePkt_flip_detected pktNum expectedPtype xactSize _ diag diag2 i k hacc hspan hk).1,
    (validatePkt_flip_detected pktNum expectedPtype xactSize _ diag diag2 i k hacc hspan hk).2,
    fun buf n j b hj hb => calcCrc_flip_ne buf j b n hb hj⟩

/-- C2 (witness). Bit 5 of payload word 2 of a READ_DATA_RESP_LONG packet. -/
theorem validatePkt_detects_bit_flip_witness :
    (validatePkt 1 READ_DATA_RESP_LONG 3
        (makeSpiPacket READ_DATA_RESP_LONG 3 3 (payloadOf [0x1234, 0x5678, 0x9ABC]) zeroBuf)
        clearDiagDetails).1 = SPI_DRV_FUNC_RES_OK
    ∧ (validatePkt 1 READ_DATA_RESP_LONG 3
        (Function.update
          (makeSpiPacket READ_DATA_RESP_LONG 3 3 (payloadOf [0x1234, 0x5678, 0x9ABC]) zeroBuf) 2
          (makeSpiPacket READ_DATA_RESP_LONG 3 3 (payloadOf [0x1234, 0x5678, 0x9ABC]) zeroBuf 2
            ^^^ 2 ^ 5)) clearDiagDetails).1
      = SPI_DRV_FUNC_RES_FAIL_COMM
    ∧ ((validatePkt 1 READ_DATA_RESP_LONG 3
        (Function.update
          (makeSpiPacket READ_DATA_RESP_LONG 3 3 (payloadOf [0x1234, 0x5678, 0x9ABC]) zeroBuf) 2
          (makeSpiPacket READ_DATA_RESP_LONG 3 3 (payloadOf [0x1234, 0x5678, 0x9ABC]) zeroBuf 2
            ^^^ 2 ^ 5)) clearDiagDetails).2 1).comStat &&& CS_CRC = CS_CRC
    ∧ ∀ (buf : WordBuf) (n j b : Nat), j < n → b < 16 →
        calcCrc n (Function.update buf j (buf j ^^^ 2 ^ b)) ≠ calcCrc n buf :=
  ⟨by decide,
    validatePkt_detects_bit_flip 1 READ_DATA_RESP_LONG 3 3 (payloadOf [0x1234, 0x5678, 0x9ABC])
      zeroBuf READ_DATA_RESP_LONG 3 clearDiagDetails clearDiagDetails 2 5
      (by decide) (by decide) (by decide)⟩

set_option maxRecDepth 100000 in
/-- C6 (failing input). `spiCom_Write(0x1000, 257, w, false)` with `w[i] = i + 1`: the two
transactions are addressed at 0x1000 and 0x1100, and the data words on the wire are
`w[0], ..., w[255]` followed by `w[0] = 1`; the last word `w[256] = 257` is never sent, so the
wire data differ from `w[0..257)`. -/
theorem spiCom_Write_257_sends_first_word_again :
    wireDataWords
        (spiCom_Write recordingHal 0x1000 257 (fun i => i + 1) false (initCom [])).com.dev
      = (List.range 256).map (fun i => i + 1) ++ [1]
    ∧ wireDataWords
        (spiCom_Write recordingHal 0x1000 257 (fun i => i + 1) false (initCom [])).com.dev
      ≠ (List.range 257).map (fun i => i + 1)
    ∧ wireOffsets
        (spiCom_Write recordingHal 0x1000 257 (fun i => i + 1) false (initCom [])).com.dev
      = [0x1000, 0x1000 + 256] := by
  decide

/-- C9 (failing input). A single-word `spiCom_Write` over a transport whose exchange fails with
status `-1` records that status in `diagDetails[0].halStat` and still returns
`SPI_DRV_FUNC_RES_OK`, for `patch = false` and for `patch = true`; the two-word write, which
takes the two-packet path, returns `SPI_DRV_FUNC_RES_FAIL_COMM` over the same transport. -/
theorem spiCom_Write_single_word_ignores_failure :
    (spiCom_Write failingHal 0x1000 1 (fun i => i + 1) false (initCom ())).res
      = SPI_DRV_FUNC_RES_OK
    ∧ ((spiCom_Write failingHal 0x1000 1 (fun i => i + 1) false (initCom ())).com.diagDetails
        0).halStat = -1
    ∧ (spiCom_Write failingHal 0x1000 1 (fun i => i + 1) true (initCom ())).res
      = SPI_DRV_FUNC_RES_OK
    ∧ ((spiCom_Write failingHal 0x1000 1 (fun i => i + 1) true (initCom ())).com.diagDetails
        0).halStat = -1
    ∧ (spiCom_Write failingHal 0x1000 2 (fun i => i + 1) false (initCom ())).res
      = SPI_DRV_FUNC_RES_FAIL_COMM := by
  decide

/-- C10 (failing input). Uploading a four-byte patch over a failing transport: the inner
`spiCom_Write(offset, 2, patchWords, 1)` ends with `SPI_DRV_FUNC_RES_FAIL_COMM`, yet
`spiCom_WritePatch` returns `SPI_DRV_FUNC_RES_OK`. -/
theorem spiCom_WritePatch_drops_failure :
    (spiCom_WritePatch failingHal 0 4 (fun i => i + 1) (initCom ())).2.1.res
      = SPI_DRV_FUNC_RES_FAIL_COMM
    ∧ (spiCom_WritePatch failingHal 0 4 (fun i => i + 1) (initCom ())).1
      = SPI_DRV_FUNC_RES_OK := by
  decide

/-- C8 (counterexample). A one-word read from a simulated device whose data response has a
corrupted trailing CRC word: the first response validates, the data response fails
validation, `spiCom_Read` returns `SPI_DRV_FUNC_RES_FAIL_COMM`, and word 0 of the caller's
buffer, which belongs to the failing transaction, has changed from 0 to the received
0xBEEF. -/
theorem spiCom_Read_copies_failed_chunk :
    (spiCom_Read (simHal true) 0x1000 1 zeroBuf (initCom (simDev (fun _ => 0xBEEF)))).map
        (fun s => (s.res, s.readWords 0, s.trace))
      = some (SPI_DRV_FUNC_RES_FAIL_COMM, 0xBEEF,
          [{ xactNum := 1, slot := 0, halStat := 0, validation := some SPI_DRV_FUNC_RES_OK },
           { xactNum := 1, slot := 1, halStat := 0,
             validation := some SPI_DRV_FUNC_RES_FAIL_COMM }])
    ∧ zeroBuf 0 = 0 := by
  decide

theorem validatePkt_res_cases (pktNum : Fin 2) (expectedPtype xactSize : Nat)
    (validateBuf : WordBuf) (diagDetails : DiagDetails) :
    (validatePkt pktNum expectedPtype xactSize validateBuf diagDetails).1 = SPI_DRV_FUNC_RES_OK
    ∨ (validatePkt pktNum expectedPtype xactSize validateBuf diagDetails).1
        = SPI_DRV_FUNC_RES_FAIL_COMM := by
  rw [validatePkt_res]
  split_ifs
  · exact Or.inr rfl
  · exact Or.inl rfl

theorem or_res_cases {a b : Nat} (ha : a = 0 ∨ a = 5) (hb : b = 0 ∨ b = 5) :
    (a ||| b = 0 ∨ a ||| b = 5) ∧ (a ||| b = 0 ↔ a = 0 ∧ b = 0) := by
  rcases ha with rfl | rfl <;> rcases hb with rfl | rfl <;> decide

theorem TraceInv_append {res : FuncResult_e} {trace : List Exchange} (h : TraceInv res trace)
    (e : Exchange) (r : FuncResult_e)
    (hr : r = SPI_DRV_FUNC_RES_OK ∨ r = SPI_DRV_FUNC_RES_FAIL_COMM)
    (he : r = SPI_DRV_FUNC_RES_OK ↔ e.passed) :
    TraceInv (res ||| r) (trace ++ [e]) := by
  obtain ⟨h1, h2⟩ := h
  have hc := or_res_cases h1 hr
  refine ⟨hc.1, ?_⟩
  rw [hc.2, h2, he]
  constructor
  · rintro ⟨ha, hb⟩ x hx
    rcases List.mem_append.mp hx with hx | hx
    · exact ha x hx
    · rw [List.mem_singleton.mp hx]
      exact hb
  · intro hall
    exact ⟨fun x hx => hall x (List.mem_append.mpr (Or.inl hx)),
      hall e (List.mem_append.mpr (Or.inr (List.mem_singleton.mpr rfl)))⟩

theorem checkResponse_TraceInv {σ : Type} (xactNum : Nat) (slot : Fin 2)
    (revSize expectedPtype xactSize : Nat) (c : Checked σ) (h : TraceInv c.res c.trace) :
    TraceInv (checkResponse xactNum slot revSize expectedPtype xactSize c).res
      (checkResponse xactNum slot revSize expectedPtype xactSize c).trace := by
  unfold checkResponse
  split_ifs with hh
  · apply TraceInv_append h
    · exact validatePkt_res_cases _ _ _ _ _
    · unfold Exchange.passed
      simp only [hh, true_and, Option.some.injEq]
  · apply TraceInv_append h
    · exact Or.inr rfl
    · unfold Exchange.passed
      simp only [hh, false_and, iff_false]
      decide

theorem checkResponse_misoWords {σ : Type} (xactNum : Nat) (slot : Fin 2)
    (revSize expectedPtype xactSize : Nat) (c : Checked σ) :
    (checkResponse xactNum slot revSize expectedPtype xactSize c).misoWords
      = (decide (0 ≤ (c.com.diagDetails slot).halStat) || c.misoWords) := by
  unfold checkResponse
  split_ifs with hh <;> simp [hh]

theorem sendAndReceive_halStat {σ : Type} (hal : Hal σ) (slot : Fin 2) (revSize length : Nat)
    (st : ComState σ) :
    ((sendAndReceive hal slot revSize length st).diagDetails slot).halStat
      = (hal.spiDriver_SpiWriteAndRead (spiCom_WaitForReady hal st.dev).2
          (ReverseBytes16Words st.pktWords revSize) length).1 := by
  unfold sendAndReceive
  simp only [Function.update_same]

theorem spiCom_Read_exchanges_TraceInv {σ : Type} (hal : Hal σ) (xactNum sizeXact : Nat)
    (st : ReadState σ) (h : TraceInv st.res st.trace) :
    TraceInv (spiCom_Read_exchanges hal xactNum sizeXact st).res
      (spiCom_Read_exchanges hal xactNum sizeXact st).trace := by
  unfold spiCom_Read_exchanges spiCom_Read_packet2 spiCom_Read_packet1
  simp only []
  split_ifs
  · apply checkResponse_TraceInv
    exact checkResponse_TraceInv _ _ _ _ _ _ h
  · apply checkResponse_TraceInv
    exact checkResponse_TraceInv _ _ _ _ _ _ h

theorem spiCom_Read_exchanges_misoWords {σ : Type} (hal : Hal σ) (xactNum sizeXact : Nat)
    (st : ReadState σ)
    (hhal : ∀ s d l, 0 ≤ (hal.spiDriver_SpiWriteAndRead s d l).1) :
    (spiCom_Read_exchanges hal xactNum sizeXact st).misoWords = true := by
  unfold spiCom_Read_exchanges spiCom_Read_packet2 spiCom_Read_packet1
  simp only []
  split_ifs <;>
    rw [checkResponse_misoWords, sendAndReceive_halStat] <;>
    simp [hhal]

theorem ptrAfter_succ (N n : Nat)
    (hn : n < N / MAX_RW_SIZE + numXactPartialOf (N % MAX_RW_SIZE)) :
    ptrAfter N (n + 1) = ptrAfter N n
      + sizeXactOf (N / MAX_RW_SIZE) (numXactPartialOf (N % MAX_RW_SIZE)) (N % MAX_RW_SIZE)
          (n + 1) := by
  unfold ptrAfter sizeXactOf numXactPartialOf MAX_RW_SIZE at *
  split_ifs at hn ⊢ <;> omega

theorem ptrAfter_total (N : Nat) :
    ptrAfter N (N / MAX_RW_SIZE + numXactPartialOf (N % MAX_RW_SIZE)) = N := by
  unfold ptrAfter numXactPartialOf MAX_RW_SIZE
  split_ifs <;> omega

theorem ptrAfter_le (N n : Nat) : ptrAfter N n ≤ N := by
  unfold ptrAfter
  split_ifs <;> omega

theorem memcpyWords_outside (dst : WordBuf) (dstOff : Nat) (src : WordBuf) (srcOff n i : Nat)
    (h : i < dstOff ∨ dstOff + n ≤ i) : memcpyWords dst dstOff src srcOff n i = dst i := by
  unfold memcpyWords
  have : ¬ (dstOff ≤ i ∧ i < dstOff + n) := by omega
  simp [this]

theorem memcpyWords_inside (dst : WordBuf) (dstOff : Nat) (src : WordBuf) (srcOff n i : Nat)
    (h1 : dstOff ≤ i) (h2 : i < dstOff + n) :
    memcpyWords dst dstOff src srcOff n i = src (srcOff + (i - dstOff)) := by
  unfold memcpyWords
  simp [h1, h2]

theorem spiCom_Read_body_eq {σ : Type} (hal : Hal σ)
    (numXactFull numXactPartial sizeXactPartial xactNum : Nat) (st : ReadState σ)
    (hm : (spiCom_Read_exchanges hal xactNum
      (sizeXactOf numXactFull numXactPartial sizeXactPartial xactNum) st).misoWords = true) :
    spiCom_Read_body hal numXactFull numXactPartial sizeXactPartial xactNum st
      = some
        { res := (spiCom_Read_exchanges hal xactNum
            (sizeXactOf numXactFull numXactPartial sizeXactPartial xactNum) st).res
          misoWords := (spiCom_Read_exchanges hal xactNum
            (sizeXactOf numXactFull numXactPartial sizeXactPartial xactNum) st).misoWords
          rptr := st.rptr + sizeXactOf numXactFull numXactPartial sizeXactPartial xactNum
          offsetXact := (st.offsetXact + MAX_RW_SIZE) % 65536
          readWords := memcpyWords st.readWords st.rptr
            (spiCom_Read_exchanges hal xactNum
              (sizeXactOf numXactFull numXactPartial sizeXactPartial xactNum) st).com.pktWords 1
            (sizeXactOf numXactFull numXactPartial sizeXactPartial xactNum)
          com := (spiCom_Read_exchanges hal xactNum
            (sizeXactOf numXactFull numXactPartial sizeXactPartial xactNum) st).com
          trace := (spiCom_Read_exchanges hal xactNum
            (sizeXactOf numXactFull numXactPartial sizeXactPartial xactNum) st).trace } := by
  unfold spiCom_Read_body
  simp only [hm, if_true]

theorem spiCom_Read_loop_succ {σ : Type} (hal : Hal σ)
    (numXactFull numXactPartial sizeXactPartial : Nat) (init st : ReadState σ) (n : Nat)
    (h : spiCom_Read_loop hal numXactFull numXactPartial sizeXactPartial init n = some st) :
    spiCom_Read_loop hal numXactFull numXactPartial sizeXactPartial init (n + 1)
      = spiCom_Read_body hal numXactFull numXactPartial sizeXactPartial (n + 1) st := by
  show (spiCom_Read_loop hal _ _ _ init n).bind _ = _
  rw [h]
  rfl

/-- The loop of `spiCom_Read` over a transport that delivers every response: it runs to the
end, keeps `TraceInv`, advances `rptr` by the transaction sizes and leaves the caller's
buffer untouched from `rptr` on. -/
theorem spiCom_Read_loop_inv {σ : Type} (hal : Hal σ) (N : Nat) (init : ReadState σ)
    (hhal : ∀ s d l, 0 ≤ (hal.spiDriver_SpiWriteAndRead s d l).1)
    (hinit : TraceInv init.res init.trace) (hptr : init.rptr = 0) (n : Nat)
    (hn : n ≤ N / MAX_RW_SIZE + numXactPartialOf (N % MAX_RW_SIZE)) :
    ∃ st, spiCom_Read_loop hal (N / MAX_RW_SIZE) (numXactPartialOf (N % MAX_RW_SIZE))
        (N % MAX_RW_SIZE) init n = some st
      ∧ TraceInv st.res st.trace
      ∧ st.rptr = ptrAfter N n
      ∧ ∀ i, st.rptr ≤ i → st.readWords i = init.readWords i := by
  induction n with
  | zero =>
    refine ⟨init, rfl, hinit, ?_, fun _ _ => rfl⟩
    rw [hptr]
    unfold ptrAfter
    simp
  | succ n ih =>
    obtain ⟨st, hst, hinv, hrptr, hframe⟩ := ih (by omega)
    have hlt : n < N / MAX_RW_SIZE + numXactPartialOf (N % MAX_RW_SIZE) := by omega
    have hm := spiCom_Read_exchanges_misoWords hal (n + 1)
      (sizeXactOf (N / MAX_RW_SIZE) (numXactPartialOf (N % MAX_RW_SIZE)) (N % MAX_RW_SIZE)
        (n + 1)) st hhal
    refine ⟨_, (spiCom_Read_loop_succ hal _ _ _ init st n hst).trans
      (spiCom_Read_body_eq hal _ _ _ (n + 1) st hm), ?_, ?_, ?_⟩
    · exact spiCom_Read_exchanges_TraceInv hal _ _ st hinv
    · show st.rptr + _ = _
      rw [hrptr, ptrAfter_succ N n hlt]
    · intro i hi
      show memcpyWords st.readWords st.rptr _ 1 _ i = _
      have hi2 : st.rptr + sizeXactOf (N / MAX_RW_SIZE) (numXactPartialOf (N % MAX_RW_SIZE))
          (N % MAX_RW_SIZE) (n + 1) ≤ i := hi
      rw [memcpyWords_outside _ _ _ _ _ _ (Or.inr hi2)]
      exact hframe i (by omega)

theorem simHal_status (flipCrc : Bool) (s : SimDev) (d : WordBuf) (l : Nat) :
    ((simHal flipCrc).spiDriver_SpiWriteAndRead s d l).1 = 0 := by
  unfold simHal
  simp only []
  split_ifs <;> rfl

theorem TraceInv_nil : TraceInv SPI_DRV_FUNC_RES_OK [] :=
  ⟨Or.inl rfl, ⟨fun _ e he => absurd he (List.not_mem_nil e), fun _ => rfl⟩⟩

/-- C8 (amended). Over a transport that delivers every response (non-negative HAL status),
`spiCom_Read` returns; when the response of some transaction fails validation it returns
`SPI_DRV_FUNC_RES_FAIL_COMM`; and the caller's buffer differs from its content before the
call only in the positions of the transactions (indices below `N`), those of the failing
transaction and of the transactions after it included. -/
theorem spiCom_Read_validation_failure {σ : Type} (hal : Hal σ) (offset N : Nat)
    (readWords : WordBuf) (st : ComState σ)
    (hhal : ∀ s d l, 0 ≤ (hal.spiDriver_SpiWriteAndRead s d l).1) :
    ∃ out, spiCom_Read hal offset N readWords st = some out
      ∧ ((∃ e ∈ out.trace, e.validation ≠ some SPI_DRV_FUNC_RES_OK) →
          out.res = SPI_DRV_FUNC_RES_FAIL_COMM)
      ∧ ∀ i, N ≤ i → out.readWords i = readWords i := by
  obtain ⟨out, hout, hinv, hrptr, hframe⟩ := spiCom_Read_loop_inv hal N
    { res := SPI_DRV_FUNC_RES_OK, misoWords := false, rptr := 0, offsetXact := offset,
      readWords := readWords,
      com := { diagDetails := clearDiagDetails, pktWords := st.pktWords,
               payload := st.payload, dev := st.dev },
      trace := [] }
    hhal TraceInv_nil rfl (N / MAX_RW_SIZE + numXactPartialOf (N % MAX_RW_SIZE)) (le_refl _)
  refine ⟨out, hout, ?_, ?_⟩
  · rintro ⟨e, he, hv⟩
    rcases hinv.1 with h0 | h5
    · exact absurd ((hinv.2.mp h0) e he).2 hv
    · exact h5
  · intro i hi
    rw [ptrAfter_total] at hrptr
    exact hframe i (by omega)

/-- C8 (witness). The one-word read from the simulated device with corrupted data CRC. -/
theorem spiCom_Read_validation_failure_witness :
    (∀ s d l, 0 ≤ ((simHal true).spiDriver_SpiWriteAndRead s d l).1)
    ∧ ∃ out, spiCom_Read (simHal true) 0x1000 1 zeroBuf (initCom (simDev (fun _ => 0xBEEF)))
          = some out
        ∧ ((∃ e ∈ out.trace, e.validation ≠ some SPI_DRV_FUNC_RES_OK) →
            out.res = SPI_DRV_FUNC_RES_FAIL_COMM)
        ∧ ∀ i, 1 ≤ i → out.readWords i = zeroBuf i :=
  ⟨fun s d l => le_of_eq (simHal_status true s d l).symm,
    spiCom_Read_validation_failure (simHal true) 0x1000 1 zeroBuf
      (initCom (simDev (fun _ => 0xBEEF)))
      (fun s d l => le_of_eq (simHal_status true s d l).symm)⟩

theorem bswap16_bswap16 (w : Nat) (h : w < 65536) : bswap16 (bswap16 w) = w := by
  unfold bswap16
  have hb : w / 256 % 256 = w / 256 := Nat.mod_eq_of_lt (by omega)
  have h1 : (w % 256 * 256 + w / 256) % 256 = w / 256 := by omega
  have h2 : (w % 256 * 256 + w / 256) / 256 = w % 256 := by omega
  rw [hb, h1, h2]
  omega

theorem bswap16_lt (w : Nat) : bswap16 w < 65536 := by
  unfold bswap16
  omega

theorem ReverseBytes16Words_swapped (buffer : WordBuf) (size i : Nat) (hs : size < 65536)
    (hi : 2 * i + 1 < size) : ReverseBytes16Words buffer size i = bswap16 (buffer i) := by
  unfold ReverseBytes16Words
  have : 2 * i < size % 65536 - size % 65536 % 2 := by omega
  simp only [this, if_true]

/-- A received buffer that holds the words `resp` high byte first reads back as `resp` after
the driver has reversed the bytes of its first `size / 2` words. -/
theorem ReverseBytes16Words_wire (resp : WordBuf) (size i : Nat) (hs : size < 65536)
    (hi : 2 * i + 1 < size) (hw : resp i < 65536) :
    ReverseBytes16Words (fun j => bswap16 (resp j)) size i = resp i := by
  rw [ReverseBytes16Words_swapped _ _ _ hs hi]
  exact bswap16_bswap16 _ hw

theorem headerWord_lt (ptype sizeField : Nat) : headerWord ptype sizeField < 65536 := by
  unfold headerWord
  split_ifs <;> exact Nat.mod_lt _ (by norm_num)

theorem calcCrc_lt (n : Nat) (buf : WordBuf) : calcCrc n buf < 65536 :=
  calcCrcLoop_lt buf n

theorem makeSpiPacket_word_lt (ptype sizeField sizePayload : Nat) (payload pktWords : WordBuf)
    (hp : ∀ j < sizePayload, payload j < 65536) (i : Nat) (hi : i ≤ sizePayload + 1) :
    makeSpiPacket ptype sizeField sizePayload payload pktWords i < 65536 := by
  by_cases h0 : i = 0
  · subst h0
    rw [makeSpiPacket_header]
    exact headerWord_lt _ _
  · by_cases h1 : i = sizePayload + 1
    · subst h1
      unfold makeSpiPacket
      simp only [Function.update_same]
      exact calcCrc_lt _ _
    · obtain ⟨j, rfl⟩ : ∃ j, i = j + 1 := ⟨i - 1, by omega⟩
      rw [makeSpiPacket_payload _ _ _ _ _ j (by omega)]
      exact hp j (by omega)

theorem calcCrc_congr (n : Nat) (buf1 buf2 : WordBuf) (h : ∀ i < n, buf1 i = buf2 i) :
    calcCrc n buf1 = calcCrc n buf2 :=
  calcCrcLoop_congr buf1 buf2 n h

/-- The outcome of `validatePkt` depends only on the words of the validated span. -/
theorem validatePkt_congr (pktNum : Fin 2) (expectedPtype xactSize : Nat)
    (buf1 buf2 : WordBuf) (diag : DiagDetails)
    (hlen : 3 ≤ expectedLengthOfBuf expectedPtype xactSize)
    (h : ∀ i < expectedLengthOfBuf expectedPtype xactSize, buf1 i = buf2 i) :
    validatePkt pktNum expectedPtype xactSize buf1 diag
      = validatePkt pktNum expectedPtype xactSize buf2 diag := by
  have hl := expectedLengthOfBuf_lt expectedPtype xactSize
  have h0 : buf1 0 = buf2 0 := h 0 (by omega)
  have h1 : buf1 1 = buf2 1 := h 1 (by omega)
  have h2 : buf1 2 = buf2 2 := h 2 (by omega)
  have h3 : buf1 (expectedLengthOfBuf expectedPtype xactSize - 1)
      = buf2 (expectedLengthOfBuf expectedPtype xactSize - 1) := h _ (by omega)
  have hc : calcCrc ((expectedLengthOfBuf expectedPtype xactSize + 65535) % 65536) buf1
      = calcCrc ((expectedLengthOfBuf expectedPtype xactSize + 65535) % 65536) buf2 := by
    apply calcCrc_congr
    intro i hi
    exact h i (by omega)
  unfold validatePkt validatedDevStat
  simp only [h0, h1, h2, h3, hc]

/-- A packet built by `makeSpiPacket` with the payload length `validatePkt` expects passes
`validatePkt` in a slot whose HAL status is non-negative, whose communication status is 0 and
whose device status after the call has no bit outside the ignore mask. -/
theorem validatePkt_makeSpiPacket_ok (pktNum : Fin 2) (ptype sizeField n : Nat)
    (payload pktWords : WordBuf) (diag : DiagDetails)
    (ht : ptype < 16) (hs : sizeField < 4096) (hn : n + 1 < 65536)
    (hlen : n + 2 = expectedLengthOfBuf ptype sizeField)
    (hhal : 0 ≤ (diag pktNum).halStat) (hcom : (diag pktNum).comStat = 0)
    (hdev : validatedDevStat ptype (makeSpiPacket ptype sizeField n payload pktWords)
      (diag pktNum).devStat &&& devStatCheckMask = 0) :
    (validatePkt pktNum ptype sizeField (makeSpiPacket ptype sizeField n payload pktWords)
        diag).1 = SPI_DRV_FUNC_RES_OK
    ∧ ((validatePkt pktNum ptype sizeField (makeSpiPacket ptype sizeField n payload pktWords)
        diag).2 pktNum).comStat = 0 := by
  have hcrc : ¬ crcMismatch ptype sizeField
      (makeSpiPacket ptype sizeField n payload pktWords) := by
    unfold crcMismatch
    rw [← hlen]
    have h1 : n + 2 - 1 = n + 1 := by omega
    have h2 : (n + 2 + 65535) % 65536 = n + 1 := by omega
    rw [h1, h2]
    simp only [ne_eq, not_not]
    exact makeSpiPacket_crc _ _ _ _ _ hn
  have htype : ¬ typeMismatch ptype (makeSpiPacket ptype sizeField n payload pktWords) := by
    unfold typeMismatch
    rw [makeSpiPacket_header]
    unfold headerWord
    simp only [ne_eq, not_not]
    split_ifs
    · exact (header_status_fields ptype ht).1
    · exact (header_fields ptype sizeField ht hs).1
  have hsize : ¬ sizeMismatch ptype sizeField
      (makeSpiPacket ptype sizeField n payload pktWords) := by
    unfold sizeMismatch expectedSizeField
    rw [makeSpiPacket_header]
    unfold headerWord
    simp only [ne_eq, not_not]
    split_ifs
    · exact (header_status_fields ptype ht).2
    · exact (header_fields ptype sizeField ht hs).2
  have hcs : ((validatePkt pktNum ptype sizeField
      (makeSpiPacket ptype sizeField n payload pktWords) diag).2 pktNum).comStat = 0 := by
    rw [validatePkt_comStat, if_neg hcrc, if_neg htype, if_neg hsize, hcom]
    rfl
  refine ⟨?_, hcs⟩
  rw [validatePkt_res, if_neg]
  rw [hcs, validatePkt_devStat]
  intro h
  rcases h with h | h | h | h | h | h
  · exact hcrc h
  · exact htype h
  · exact hsize h
  · omega
  · exact h rfl
  · exact h hdev

theorem wire_decode (pkt : WordBuf) (size i : Nat) (hs : size < 65536) (hi : 2 * i + 1 < size)
    (hw : pkt i < 65536) : bswap16 (ReverseBytes16Words pkt size i) = pkt i := by
  rw [ReverseBytes16Words_swapped _ _ _ hs hi]
  exact bswap16_bswap16 _ hw

/-- What `checkResponse` does with a received buffer that holds, high byte first, a packet
built by `makeSpiPacket` with the expected type, size field and payload length. -/
theorem checkResponse_valid {σ : Type} (xactNum : Nat) (slot : Fin 2) (ptype sizeField n : Nat)
    (payload pw : WordBuf) (revSize : Nat) (c : Checked σ) (hrev : revSize = (n + 2) * 2)
    (hpk : c.com.pktWords = fun i => bswap16 (makeSpiPacket ptype sizeField n payload pw i))
    (ht : ptype < 16) (hs : sizeField < 4096) (hn1 : 1 ≤ n) (hn : n ≤ 1208)
    (hlen : n + 2 = expectedLengthOfBuf ptype sizeField)
    (hp : ∀ j < n, payload j < 65536)
    (hhal : 0 ≤ (c.com.diagDetails slot).halStat) (hcom : (c.com.diagDetails slot).comStat = 0)
    (hdev : validatedDevStat ptype (makeSpiPacket ptype sizeField n payload pw)
      (c.com.diagDetails slot).devStat &&& devStatCheckMask = 0) :
    (checkResponse xactNum slot revSize ptype sizeField c).res = c.res
    ∧ (checkResponse xactNum slot revSize ptype sizeField c).misoWords = true
    ∧ (checkResponse xactNum slot revSize ptype sizeField c).com.dev = c.com.dev
    ∧ (checkResponse xactNum slot revSize ptype sizeField c).com.payload = c.com.payload
    ∧ (∀ i < n + 2, (checkResponse xactNum slot revSize ptype sizeField c).com.pktWords i
        = makeSpiPacket ptype sizeField n payload pw i)
    ∧ ((checkResponse xactNum slot revSize ptype sizeField c).com.diagDetails
        slot).comStat = 0
    ∧ ((checkResponse xactNum slot revSize ptype sizeField c).com.diagDetails
        slot).devStat = validatedDevStat ptype (makeSpiPacket ptype sizeField n payload pw)
          (c.com.diagDetails slot).devStat
    ∧ (∀ q, q ≠ slot →
        (checkResponse xactNum slot revSize ptype sizeField c).com.diagDetails q
          = c.com.diagDetails q) := by
  subst hrev
  have hagree : ∀ i < n + 2, ReverseBytes16Words c.com.pktWords ((n + 2) * 2) i
      = makeSpiPacket ptype sizeField n payload pw i := by
    intro i hi
    rw [hpk]
    exact ReverseBytes16Words_wire _ _ _ (by omega) (by omega)
      (makeSpiPacket_word_lt _ _ _ _ _ hp i (by omega))
  have hv : validatePkt slot ptype sizeField
      (ReverseBytes16Words c.com.pktWords ((n + 2) * 2)) c.com.diagDetails
      = validatePkt slot ptype sizeField (makeSpiPacket ptype sizeField n payload pw)
          c.com.diagDetails := by
    apply validatePkt_congr
    · omega
    · rw [← hlen]
      exact hagree
  have hok := validatePkt_makeSpiPacket_ok slot ptype sizeField n payload pw c.com.diagDetails
    ht hs (by omega) hlen hhal hcom hdev
  unfold checkResponse
  rw [if_pos hhal]
  simp only [hv]
  refine ⟨?_, trivial, trivial, trivial, hagree, hok.2, ?_, ?_⟩
  · rw [hok.1]
    exact Nat.or_zero _
  · exact validatePkt_devStat _ _ _ _ _
  · intro q hq
    exact validatePkt_other _ _ _ _ _ _ hq

theorem sendAndReceive_comStat {σ : Type} (hal : Hal σ) (slot : Fin 2) (revSize length : Nat)
    (st : ComState σ) :
    ((sendAndReceive hal slot revSize length st).diagDetails slot).comStat
      = ((st.diagDetails slot).comStat ||| (spiCom_WaitForReady hal st.dev).1) % 65536 := by
  unfold sendAndReceive
  simp only [Function.update_same]

theorem sendAndReceive_devStat {σ : Type} (hal : Hal σ) (slot : Fin 2) (revSize length : Nat)
    (st : ComState σ) :
    ((sendAndReceive hal slot revSize length st).diagDetails slot).devStat
      = (st.diagDetails slot).devStat := by
  unfold sendAndReceive
  simp only [Function.update_same]

theorem sendAndReceive_other {σ : Type} (hal : Hal σ) (slot q : Fin 2) (revSize length : Nat)
    (st : ComState σ) (h : q ≠ slot) :
    (sendAndReceive hal slot revSize length st).diagDetails q = st.diagDetails q := by
  unfold sendAndReceive
  simp only [Function.update_noteq h]

theorem sendAndReceive_payload {σ : Type} (hal : Hal σ) (slot : Fin 2) (revSize length : Nat)
    (st : ComState σ) :
    (sendAndReceive hal slot revSize length st).payload = st.payload := rfl

theorem sendAndReceive_pktWords {σ : Type} (hal : Hal σ) (slot : Fin 2) (revSize length : Nat)
    (st : ComState σ) :
    (sendAndReceive hal slot revSize length st).pktWords
      = (hal.spiDriver_SpiWriteAndRead (spiCom_WaitForReady hal st.dev).2
          (ReverseBytes16Words st.pktWords revSize) length).2.1 := rfl

theorem sendAndReceive_dev {σ : Type} (hal : Hal σ) (slot : Fin 2) (revSize length : Nat)
    (st : ComState σ) :
    (sendAndReceive hal slot revSize length st).dev
      = (hal.spiDriver_SpiWriteAndRead (spiCom_WaitForReady hal st.dev).2
          (ReverseBytes16Words st.pktWords revSize) length).2.2 := rfl

/-- The simulated device on a READ command packet. -/
theorem simHal_command (flipCrc : Bool) (s : SimDev) (pkt : WordBuf) (length : Nat)
    (hty : pkt 0 >>> 12 = READ) (hw0 : pkt 0 < 65536) (hw1 : pkt 1 < 65536) :
    (simHal flipCrc).spiDriver_SpiWriteAndRead s (ReverseBytes16Words pkt 8) length
      = (0, fun i => bswap16 (makeSpiPacket STATUS_SHORT 0 2 zeroBuf zeroBuf i),
          { mem := s.mem, pendingOffset := pkt 1, pendingSize := pkt 0 &&& 0x0FFF,
            log := s.log ++ [(pkt 1, pkt 0 &&& 0x0FFF)] }) := by
  have h0 := wire_decode pkt 8 0 (by norm_num) (by norm_num) hw0
  have h1 := wire_decode pkt 8 1 (by norm_num) (by norm_num) hw1
  unfold simHal
  simp only [h0, h1, hty, if_true]

/-- The simulated device on the packet that follows a READ command. -/
theorem simHal_data (s : SimDev) (pkt : WordBuf) (revSize length : Nat)
    (hty : pkt 0 >>> 12 ≠ READ) (hw0 : pkt 0 < 65536) (hr : 2 ≤ revSize)
    (hr2 : revSize < 65536) :
    (simHal false).spiDriver_SpiWriteAndRead s (ReverseBytes16Words pkt revSize) length
      = (0, fun i => bswap16
            ((if s.pendingSize < 3 then
                makeSpiPacket READ_DATA_RESP_SHORT s.pendingSize 2
                  (fun i => if i < s.pendingSize then s.mem ((s.pendingOffset + i) % 65536)
                    else 0) zeroBuf
              else makeSpiPacket READ_DATA_RESP_LONG s.pendingSize s.pendingSize
                  (fun i => if i < s.pendingSize then s.mem ((s.pendingOffset + i) % 65536)
                    else 0) zeroBuf) i), s) := by
  have h0 := wire_decode pkt revSize 0 hr2 (by omega) hw0
  unfold simHal
  simp only [h0, hty, if_false]
  rfl

theorem makeSpiPacket_status_sizeField (ptype sf1 sf2 n : Nat) (payload pw : WordBuf)
    (h : ptype = STATUS_SHORT ∨ ptype = STATUS_LONG) :
    makeSpiPacket ptype sf1 n payload pw = makeSpiPacket ptype sf2 n payload pw := by
  unfold makeSpiPacket
  simp only [h, if_true]

theorem headerWord_read (sizeField : Nat) (hs : sizeField < 4096) :
    headerWord READ sizeField >>> 12 = READ ∧ headerWord READ sizeField &&& 0x0FFF = sizeField
    := by
  have h := header_fields READ sizeField (by decide) hs
  unfold headerWord
  rw [if_neg (by decide)]
  exact h

/-- Packet 1 of a read transaction against the simulated device: the response validates, the
device has noted the offset and size of the READ, and both slots stay clean. -/
theorem spiCom_Read_packet1_sim (xactNum sizeXact : Nat) (st : ReadState SimDev)
    (hsz : sizeXact ≤ 256) (hoff : st.offsetXact < 65536)
    (hdiag : ∀ q, (st.com.diagDetails q).comStat = 0 ∧ (st.com.diagDetails q).devStat = 0) :
    (spiCom_Read_packet1 (simHal false) xactNum sizeXact st).res = st.res
    ∧ (spiCom_Read_packet1 (simHal false) xactNum sizeXact st).misoWords = true
    ∧ (spiCom_Read_packet1 (simHal false) xactNum sizeXact st).com.dev
        = { mem := st.com.dev.mem, pendingOffset := st.offsetXact, pendingSize := sizeXact,
            log := st.com.dev.log ++ [(st.offsetXact, sizeXact)] }
    ∧ (∀ q, ((spiCom_Read_packet1 (simHal false) xactNum sizeXact st).com.diagDetails q).comStat
          = 0
        ∧ ((spiCom_Read_packet1 (simHal false) xactNum sizeXact st).com.diagDetails q).devStat
          = 0) := by
  have hw0 : makeSpiPacket READ sizeXact 2
      (Function.update (Function.update st.com.payload 0 st.offsetXact) 1 0) st.com.pktWords 0
      = headerWord READ sizeXact := makeSpiPacket_header _ _ _ _ _
  have hw1 : makeSpiPacket READ sizeXact 2
      (Function.update (Function.update st.com.payload 0 st.offsetXact) 1 0) st.com.pktWords 1
      = st.offsetXact := by
    rw [makeSpiPacket_payload _ _ _ _ _ 0 (by norm_num)]
    simp
  have hhdr := headerWord_read sizeXact (by omega)
  have hcmd := simHal_command false st.com.dev
    (makeSpiPacket READ sizeXact 2
      (Function.update (Function.update st.com.payload 0 st.offsetXact) 1 0) st.com.pktWords) 8
    (by rw [hw0]; exact hhdr.1) (by rw [hw0]; exact headerWord_lt _ _) (by rw [hw1]; exact hoff)
  rw [hw0, hw1, hhdr.2] at hcmd
  have hstat : makeSpiPacket STATUS_SHORT 0 2 zeroBuf zeroBuf
      = makeSpiPacket STATUS_SHORT 2 2 zeroBuf zeroBuf :=
    makeSpiPacket_status_sizeField _ _ _ _ _ _ (Or.inl rfl)
  have hv := checkResponse_valid xactNum 0 STATUS_SHORT 2 2 zeroBuf zeroBuf 8
    { res := st.res, misoWords := st.misoWords,
      com := sendAndReceive (simHal false) 0 8 8
        { diagDetails := st.com.diagDetails
          pktWords := makeSpiPacket READ sizeXact 2
            (Function.update (Function.update st.com.payload 0 st.offsetXact) 1 0)
            st.com.pktWords
          payload := Function.update (Function.update st.com.payload 0 st.offsetXact) 1 0
          dev := st.com.dev },
      trace := st.trace } rfl
    (by
      show (sendAndReceive _ _ _ _ _).pktWords = _
      rw [sendAndReceive_pktWords]
      show ((simHal false).spiDriver_SpiWriteAndRead st.com.dev _ 8).2.1 = _
      rw [hcmd, hstat])
    (by decide) (by decide) (by decide) (by decide) (by decide)
    (fun j _ => by show (0 : Nat) < 65536; norm_num)
    (by
      show 0 ≤ ((sendAndReceive _ _ _ _ _).diagDetails 0).halStat
      rw [sendAndReceive_halStat, simHal_status])
    (by
      show ((sendAndReceive _ _ _ _ _).diagDetails 0).comStat = 0
      rw [sendAndReceive_comStat]
      show ((st.com.diagDetails 0).comStat ||| 0) % 65536 = 0
      rw [(hdiag 0).1]
      rfl)
    (by
      unfold validatedDevStat
      rw [if_pos (Or.inl rfl), makeSpiPacket_payload _ _ _ _ _ 0 (by norm_num),
        makeSpiPacket_payload _ _ _ _ _ 1 (by norm_num)]
      rfl)
  obtain ⟨h1, h2, h3, -, -, h6, h7, h8⟩ := hv
  unfold spiCom_Read_packet1
  refine ⟨h1, h2, ?_, ?_⟩
  · rw [h3]
    show (sendAndReceive _ _ _ _ _).dev = _
    rw [sendAndReceive_dev]
    show ((simHal false).spiDriver_SpiWriteAndRead st.com.dev _ 8).2.2 = _
    rw [hcmd]
  · intro q
    by_cases hq : q = 0
    · subst hq
      refine ⟨h6, ?_⟩
      rw [h7]
      unfold validatedDevStat
      rw [if_pos (Or.inl rfl), makeSpiPacket_payload _ _ _ _ _ 0 (by norm_num),
        makeSpiPacket_payload _ _ _ _ _ 1 (by norm_num)]
      rfl
    · rw [h8 q hq]
      show ((sendAndReceive _ _ _ _ _).diagDetails q).comStat = 0
        ∧ ((sendAndReceive _ _ _ _ _).diagDetails q).devStat = 0
      rw [sendAndReceive_other _ _ _ _ _ _ hq]
      exact hdiag q

theorem simData_lt (s : SimDev) (hmem : ∀ a, s.mem a < 65536) (j : Nat) :
    (if j < s.pendingSize then s.mem ((s.pendingOffset + j) % 65536) else 0) < 65536 := by
  split_ifs
  · exact hmem _
  · norm_num

theorem spiCom_Read_packet2_short {σ : Type} (hal : Hal σ) (c2 : Checked σ)
    (xactNum sizeXact : Nat) (h3 : sizeXact < 3) :
    spiCom_Read_packet2 hal xactNum sizeXact c2
      = checkResponse xactNum 1 8 READ_DATA_RESP_SHORT sizeXact
      { res := c2.res, misoWords := c2.misoWords,
        com := sendAndReceive hal 1 8 8
          { diagDetails := c2.com.diagDetails
            pktWords := makeSpiPacket STATUS_SHORT 0 2
              (Function.update (Function.update c2.com.payload 0 0) 1 0) c2.com.pktWords
            payload := Function.update (Function.update c2.com.payload 0 0) 1 0
            dev := c2.com.dev },
        trace := c2.trace } := by
  unfold spiCom_Read_packet2
  rw [if_pos h3]

theorem spiCom_Read_packet2_long {σ : Type} (hal : Hal σ) (c2 : Checked σ)
    (xactNum sizeXact : Nat) (h3 : ¬ sizeXact < 3) :
    spiCom_Read_packet2 hal xactNum sizeXact c2
      = checkResponse xactNum 1 ((sizeXact + 2) * 2) READ_DATA_RESP_LONG sizeXact
      { res := c2.res, misoWords := c2.misoWords,
        com := sendAndReceive hal 1 ((sizeXact + 2) * 2) ((sizeXact * 2) + 4)
          { diagDetails := c2.com.diagDetails
            pktWords := makeSpiPacket STATUS_LONG 0 sizeXact
              (fun i => if i < MAX_PKT_PAYLOAD_WORDS then 0 else c2.com.payload i)
              c2.com.pktWords
            payload := fun i => if i < MAX_PKT_PAYLOAD_WORDS then 0 else c2.com.payload i
            dev := c2.com.dev },
        trace := c2.trace } := by
  unfold spiCom_Read_packet2
  rw [if_neg h3]

/-- Packet 2 of a read transaction against the simulated device: the data response
validates and words `1 .. sizeXact` of the packet buffer are the requested device words. -/
theorem spiCom_Read_packet2_sim (xactNum sizeXact : Nat) (c2 : Checked SimDev)
    (hsz1 : 1 ≤ sizeXact) (hsz : sizeXact ≤ 256)
    (hps : c2.com.dev.pendingSize = sizeXact) (hmem : ∀ a, c2.com.dev.mem a < 65536)
    (hdiag : ∀ q, (c2.com.diagDetails q).comStat = 0 ∧ (c2.com.diagDetails q).devStat = 0) :
    (spiCom_Read_packet2 (simHal false) xactNum sizeXact c2).res = c2.res
    ∧ (spiCom_Read_packet2 (simHal false) xactNum sizeXact c2).misoWords = true
    ∧ (spiCom_Read_packet2 (simHal false) xactNum sizeXact c2).com.dev = c2.com.dev
    ∧ (∀ j < sizeXact,
        (spiCom_Read_packet2 (simHal false) xactNum sizeXact c2).com.pktWords (j + 1)
          = c2.com.dev.mem ((c2.com.dev.pendingOffset + j) % 65536))
    ∧ (∀ q, ((spiCom_Read_packet2 (simHal false) xactNum sizeXact c2).com.diagDetails q).comStat
          = 0
        ∧ ((spiCom_Read_packet2 (simHal false) xactNum sizeXact c2).com.diagDetails q).devStat
          = 0) := by
  by_cases h3 : sizeXact < 3
  · rw [spiCom_Read_packet2_short _ _ _ _ h3]
    have hw0 : makeSpiPacket STATUS_SHORT 0 2
        (Function.update (Function.update c2.com.payload 0 0) 1 0) c2.com.pktWords 0
        = headerWord STATUS_SHORT 0 := makeSpiPacket_header _ _ _ _ _
    have hdata := simHal_data c2.com.dev
      (makeSpiPacket STATUS_SHORT 0 2
        (Function.update (Function.update c2.com.payload 0 0) 1 0) c2.com.pktWords) 8 8
      (by rw [hw0]; decide) (by rw [hw0]; exact headerWord_lt _ _) (by norm_num) (by norm_num)
    rw [hps, if_pos h3] at hdata
    have hv := checkResponse_valid xactNum 1 READ_DATA_RESP_SHORT sizeXact 2
      (fun i => if i < sizeXact then c2.com.dev.mem ((c2.com.dev.pendingOffset + i) % 65536)
        else 0) zeroBuf 8
      { res := c2.res, misoWords := c2.misoWords,
        com := sendAndReceive (simHal false) 1 8 8
          { diagDetails := c2.com.diagDetails
            pktWords := makeSpiPacket STATUS_SHORT 0 2
              (Function.update (Function.update c2.com.payload 0 0) 1 0) c2.com.pktWords
            payload := Function.update (Function.update c2.com.payload 0 0) 1 0
            dev := c2.com.dev },
        trace := c2.trace } rfl
      (by
        show (sendAndReceive _ _ _ _ _).pktWords = _
        rw [sendAndReceive_pktWords]
        show ((simHal false).spiDriver_SpiWriteAndRead c2.com.dev _ 8).2.1 = _
        rw [hdata])
      (by decide) (by omega) (by decide) (by decide) rfl
      (fun j _ => by
        have := simData_lt c2.com.dev hmem j
        rw [hps] at this
        exact this)
      (by
        show 0 ≤ ((sendAndReceive _ _ _ _ _).diagDetails 1).halStat
        rw [sendAndReceive_halStat, simHal_status])
      (by
        show ((sendAndReceive _ _ _ _ _).diagDetails 1).comStat = 0
        rw [sendAndReceive_comStat]
        show ((c2.com.diagDetails 1).comStat ||| 0) % 65536 = 0
        rw [(hdiag 1).1]
        rfl)
      (by
        unfold validatedDevStat
        rw [if_neg (by decide)]
        show ((sendAndReceive _ _ _ _ _).diagDetails 1).devStat &&& _ = 0
        rw [sendAndReceive_devStat]
        show (c2.com.diagDetails 1).devStat &&& _ = 0
        rw [(hdiag 1).2]
        exact Nat.zero_and _)
    obtain ⟨h1, h2, h3a, -, h5, h6, h7, h8⟩ := hv
    refine ⟨h1, h2, ?_, ?_, ?_⟩
    · rw [h3a]
      show (sendAndReceive _ _ _ _ _).dev = _
      rw [sendAndReceive_dev]
      show ((simHal false).spiDriver_SpiWriteAndRead c2.com.dev _ 8).2.2 = _
      rw [hdata]
    · intro j hj
      rw [h5 (j + 1) (by omega), makeSpiPacket_payload _ _ _ _ _ j (by omega)]
      simp only [hj, if_true]
    · intro q
      by_cases hq : q = 1
      · subst hq
        refine ⟨h6, ?_⟩
        rw [h7]
        unfold validatedDevStat
        rw [if_neg (by decide)]
        show ((sendAndReceive _ _ _ _ _).diagDetails 1).devStat = 0
        rw [sendAndReceive_devStat]
        exact (hdiag 1).2
      · rw [h8 q hq]
        show ((sendAndReceive _ _ _ _ _).diagDetails q).comStat = 0
          ∧ ((sendAndReceive _ _ _ _ _).diagDetails q).devStat = 0
        rw [sendAndReceive_other _ _ _ _ _ _ hq]
        exact hdiag q
  · rw [spiCom_Read_packet2_long _ _ _ _ h3]
    have hw0 : makeSpiPacket STATUS_LONG 0 sizeXact
        (fun i => if i < MAX_PKT_PAYLOAD_WORDS then 0 else c2.com.payload i) c2.com.pktWords 0
        = headerWord STATUS_LONG 0 := makeSpiPacket_header _ _ _ _ _
    have hdata := simHal_data c2.com.dev
      (makeSpiPacket STATUS_LONG 0 sizeXact
        (fun i => if i < MAX_PKT_PAYLOAD_WORDS then 0 else c2.com.payload i) c2.com.pktWords)
      ((sizeXact + 2) * 2) ((sizeXact * 2) + 4)
      (by rw [hw0]; decide) (by rw [hw0]; exact headerWord_lt _ _) (by omega) (by omega)
    rw [hps, if_neg h3] at hdata
    have hv := checkResponse_valid xactNum 1 READ_DATA_RESP_LONG sizeXact sizeXact
      (fun i => if i < sizeXact then c2.com.dev.mem ((c2.com.dev.pendingOffset + i) % 65536)
        else 0) zeroBuf ((sizeXact + 2) * 2)
      { res := c2.res, misoWords := c2.misoWords,
        com := sendAndReceive (simHal false) 1 ((sizeXact + 2) * 2) ((sizeXact * 2) + 4)
          { diagDetails := c2.com.diagDetails
            pktWords := makeSpiPacket STATUS_LONG 0 sizeXact
              (fun i => if i < MAX_PKT_PAYLOAD_WORDS then 0 else c2.com.payload i)
              c2.com.pktWords
            payload := fun i => if i < MAX_PKT_PAYLOAD_WORDS then 0 else c2.com.payload i
            dev := c2.com.dev },
        trace := c2.trace } rfl
      (by
        show (sendAndReceive _ _ _ _ _).pktWords = _
        rw [sendAndReceive_pktWords]
        show ((simHal false).spiDriver_SpiWriteAndRead c2.com.dev _ _).2.1 = _
        rw [hdata])
      (by decide) (by omega) (by omega) (by omega)
      (by
        unfold expectedLengthOfBuf
        rw [if_neg (by decide)]
        omega)
      (fun j _ => by
        have := simData_lt c2.com.dev hmem j
        rw [hps] at this
        exact this)
      (by
        show 0 ≤ ((sendAndReceive _ _ _ _ _).diagDetails 1).halStat
        rw [sendAndReceive_halStat, simHal_status])
      (by
        show ((sendAndReceive _ _ _ _ _).diagDetails 1).comStat = 0
        rw [sendAndReceive_comStat]
        show ((c2.com.diagDetails 1).comStat ||| 0) % 65536 = 0
        rw [(hdiag 1).1]
        rfl)
      (by
        unfold validatedDevStat
        rw [if_neg (by decide)]
        show ((sendAndReceive _ _ _ _ _).diagDetails 1).devStat &&& _ = 0
        rw [sendAndReceive_devStat]
        show (c2.com.diagDetails 1).devStat &&& _ = 0
        rw [(hdiag 1).2]
        exact Nat.zero_and _)
    obtain ⟨h1, h2, h3a, -, h5, h6, h7, h8⟩ := hv
    refine ⟨h1, h2, ?_, ?_, ?_⟩
    · rw [h3a]
      show (sendAndReceive _ _ _ _ _).dev = _
      rw [sendAndReceive_dev]
      show ((simHal false).spiDriver_SpiWriteAndRead c2.com.dev _ _).2.2 = _
      rw [hdata]
    · intro j hj
      rw [h5 (j + 1) (by omega), makeSpiPacket_payload _ _ _ _ _ j (by omega)]
      simp only [hj, if_true]
    · intro q
      by_cases hq : q = 1
      · subst hq
        refine ⟨h6, ?_⟩
        rw [h7]
        unfold validatedDevStat
        rw [if_neg (by decide)]
        show ((sendAndReceive _ _ _ _ _).diagDetails 1).devStat = 0
        rw [sendAndReceive_devStat]
        exact (hdiag 1).2
      · rw [h8 q hq]
        show ((sendAndReceive _ _ _ _ _).diagDetails q).comStat = 0
          ∧ ((sendAndReceive _ _ _ _ _).diagDetails q).devStat = 0
        rw [sendAndReceive_other _ _ _ _ _ _ hq]
        exact hdiag q

theorem sizeXactOf_bounds (N n : Nat)
    (hn : n < N / MAX_RW_SIZE + numXactPartialOf (N % MAX_RW_SIZE)) :
    1 ≤ sizeXactOf (N / MAX_RW_SIZE) (numXactPartialOf (N % MAX_RW_SIZE)) (N % MAX_RW_SIZE)
        (n + 1)
    ∧ sizeXactOf (N / MAX_RW_SIZE) (numXactPartialOf (N % MAX_RW_SIZE)) (N % MAX_RW_SIZE)
        (n + 1) ≤ 256 := by
  unfold sizeXactOf numXactPartialOf MAX_RW_SIZE at *
  split_ifs at hn ⊢ <;> omega

theorem ptrAfter_of_lt (N n : Nat)
    (hn : n < N / MAX_RW_SIZE + numXactPartialOf (N % MAX_RW_SIZE)) :
    ptrAfter N n = 256 * n := by
  unfold ptrAfter numXactPartialOf MAX_RW_SIZE at *
  split_ifs at hn ⊢ <;> omega

theorem chunkPrefix_succ (offset N n : Nat) :
    chunkPrefix offset N (n + 1) = chunkPrefix offset N n
      ++ [((offset + MAX_RW_SIZE * n) % 65536,
          sizeXactOf (N / MAX_RW_SIZE) (numXactPartialOf (N % MAX_RW_SIZE)) (N % MAX_RW_SIZE)
            (n + 1))] := by
  unfold chunkPrefix
  rw [List.range_succ, List.map_append]
  rfl

/-- One iteration of the loop of `spiCom_Read` against the simulated device. -/
theorem spiCom_Read_body_sim (mem : Nat → Nat) (hmem : ∀ a, mem a < 65536) (offset N : Nat)
    (buf : WordBuf) (n : Nat) (st : ReadState SimDev)
    (hn : n < N / MAX_RW_SIZE + numXactPartialOf (N % MAX_RW_SIZE))
    (hres : st.res = SPI_DRV_FUNC_RES_OK) (hptr : st.rptr = ptrAfter N n)
    (hoff : st.offsetXact = (offset + 256 * n) % 65536)
    (hbuf : ∀ i, st.readWords i
      = if i < ptrAfter N n then mem ((offset + i) % 65536) else buf i)
    (hdev : st.com.dev.mem = mem) (hlog : st.com.dev.log = chunkPrefix offset N n)
    (hdiag : ∀ q, (st.com.diagDetails q).comStat = 0 ∧ (st.com.diagDetails q).devStat = 0) :
    ∃ st2, spiCom_Read_body (simHal false) (N / MAX_RW_SIZE)
        (numXactPartialOf (N % MAX_RW_SIZE)) (N % MAX_RW_SIZE) (n + 1) st = some st2
      ∧ st2.res = SPI_DRV_FUNC_RES_OK ∧ st2.rptr = ptrAfter N (n + 1)
      ∧ st2.offsetXact = (offset + 256 * (n + 1)) % 65536
      ∧ (∀ i, st2.readWords i
          = if i < ptrAfter N (n + 1) then mem ((offset + i) % 65536) else buf i)
      ∧ st2.com.dev.mem = mem ∧ st2.com.dev.log = chunkPrefix offset N (n + 1)
      ∧ (∀ q, (st2.com.diagDetails q).comStat = 0 ∧ (st2.com.diagDetails q).devStat = 0) := by
  have hsz := sizeXactOf_bounds N n hn
  have hp0 := ptrAfter_of_lt N n hn
  have hps := ptrAfter_succ N n hn
  generalize hS : sizeXactOf (N / MAX_RW_SIZE) (numXactPartialOf (N % MAX_RW_SIZE))
    (N % MAX_RW_SIZE) (n + 1) = S at hsz hps
  have hoff2 : st.offsetXact < 65536 := by
    rw [hoff]
    exact Nat.mod_lt _ (by norm_num)
  obtain ⟨a1, a2, a3, a4⟩ := spiCom_Read_packet1_sim (n + 1) S st hsz.2 hoff2 hdiag
  have hmem2 : ∀ a, (spiCom_Read_packet1 (simHal false) (n + 1) S st).com.dev.mem a < 65536 := by
    intro a
    rw [a3, hdev]
    exact hmem a
  obtain ⟨b1, b2, b3, b4, b5⟩ := spiCom_Read_packet2_sim (n + 1) S
    (spiCom_Read_packet1 (simHal false) (n + 1) S st) hsz.1 hsz.2 (by rw [a3]) hmem2 a4
  have hm : (spiCom_Read_exchanges (simHal false) (n + 1) S st).misoWords = true := b2
  have hbody := spiCom_Read_body_eq (simHal false) (N / MAX_RW_SIZE)
    (numXactPartialOf (N % MAX_RW_SIZE)) (N % MAX_RW_SIZE) (n + 1) st (by rw [hS]; exact hm)
  rw [hS] at hbody
  refine ⟨_, hbody, ?_, ?_, ?_, ?_, ?_, ?_, ?_⟩
  · show (spiCom_Read_exchanges (simHal false) (n + 1) S st).res = _
    show (spiCom_Read_packet2 _ _ _ _).res = _
    rw [b1, a1, hres]
  · show st.rptr + S = _
    rw [hptr, hps]
  · show (st.offsetXact + MAX_RW_SIZE) % 65536 = _
    rw [hoff]
    unfold MAX_RW_SIZE
    omega
  · intro i
    show memcpyWords st.readWords st.rptr
      (spiCom_Read_packet2 (simHal false) (n + 1) S
        (spiCom_Read_packet1 (simHal false) (n + 1) S st)).com.pktWords 1 S i = _
    rw [hps]
    by_cases hin : st.rptr ≤ i ∧ i < st.rptr + S
    · rw [memcpyWords_inside _ _ _ _ _ _ hin.1 hin.2, Nat.add_comm 1 (i - st.rptr),
        b4 (i - st.rptr) (by omega), a3, hdev]
      have hlt : i < ptrAfter N n + S := by omega
      rw [if_pos hlt]
      show mem ((st.offsetXact + (i - st.rptr)) % 65536) = _
      rw [hoff, hptr, hp0]
      congr 1
      omega
    · rw [memcpyWords_outside _ _ _ _ _ _ (by omega), hbuf i]
      by_cases h1 : i < ptrAfter N n
      · rw [if_pos h1, if_pos (by omega)]
      · rw [if_neg h1, if_neg (by omega)]
  · show (spiCom_Read_packet2 (simHal false) (n + 1) S _).com.dev.mem = _
    rw [b3, a3]
    exact hdev
  · show (spiCom_Read_packet2 (simHal false) (n + 1) S _).com.dev.log = _
    rw [b3, a3, chunkPrefix_succ, hS, hlog, hoff]
  · exact b5

/-- The loop of `spiCom_Read` against the simulated device, after `n` iterations. -/
theorem spiCom_Read_loop_sim (mem : Nat → Nat) (hmem : ∀ a, mem a < 65536) (offset N : Nat)
    (hoff : offset < 65536) (buf : WordBuf) (init : ReadState SimDev)
    (hres : init.res = SPI_DRV_FUNC_RES_OK) (hptr : init.rptr = 0)
    (hoffs : init.offsetXact = offset) (hbuf : init.readWords = buf)
    (hdev : init.com.dev.mem = mem) (hlog : init.com.dev.log = [])
    (hdiag : ∀ q, (init.com.diagDetails q).comStat = 0 ∧ (init.com.diagDetails q).devStat = 0)
    (n : Nat) (hn : n ≤ N / MAX_RW_SIZE + numXactPartialOf (N % MAX_RW_SIZE)) :
    ∃ st, spiCom_Read_loop (simHal false) (N / MAX_RW_SIZE)
        (numXactPartialOf (N % MAX_RW_SIZE)) (N % MAX_RW_SIZE) init n = some st
      ∧ st.res = SPI_DRV_FUNC_RES_OK ∧ st.rptr = ptrAfter N n
      ∧ st.offsetXact = (offset + 256 * n) % 65536
      ∧ (∀ i, st.readWords i = if i < ptrAfter N n then mem ((offset + i) % 65536) else buf i)
      ∧ st.com.dev.mem = mem ∧ st.com.dev.log = chunkPrefix offset N n
      ∧ (∀ q, (st.com.diagDetails q).comStat = 0 ∧ (st.com.diagDetails q).devStat = 0) := by
  induction n with
  | zero =>
    have hp : ptrAfter N 0 = 0 := by
      unfold ptrAfter
      simp
    refine ⟨init, rfl, hres, ?_, ?_, ?_, hdev, ?_, hdiag⟩
    · rw [hptr, hp]
    · rw [hoffs]
      exact (Nat.mod_eq_of_lt (by omega)).symm
    · intro i
      rw [hp, if_neg (Nat.not_lt_zero i), hbuf]
    · rw [hlog]
      rfl
  | succ n ih =>
    obtain ⟨st, hst, h1, h2, h3, h4, h5, h6, h7⟩ := ih (by omega)
    obtain ⟨st2, hb, g⟩ := spiCom_Read_body_sim mem hmem offset N buf n st (by omega)
      h1 h2 h3 h4 h5 h6 h7
    exact ⟨st2, (spiCom_Read_loop_succ _ _ _ _ init st n hst).trans hb, g⟩

theorem chunkPrefix_total (offset N : Nat) :
    chunkPrefix offset N (N / MAX_RW_SIZE + numXactPartialOf (N % MAX_RW_SIZE))
      = chunkList offset N := by
  have hfull : ∀ m, m ≤ N / MAX_RW_SIZE → chunkPrefix offset N m
      = (List.range m).map (fun k => ((offset + MAX_RW_SIZE * k) % 65536, MAX_RW_SIZE)) := by
    intro m hm
    unfold chunkPrefix
    apply List.map_congr_left
    intro k hk
    have hk2 : k < m := List.mem_range.mp hk
    have : sizeXactOf (N / MAX_RW_SIZE) (numXactPartialOf (N % MAX_RW_SIZE))
        (N % MAX_RW_SIZE) (k + 1) = MAX_RW_SIZE := by
      unfold sizeXactOf
      rw [if_neg (by omega)]
    rw [this]
  unfold chunkList
  by_cases hz : N % MAX_RW_SIZE ≠ 0
  · have hnp : numXactPartialOf (N % MAX_RW_SIZE) = 1 := by
      unfold numXactPartialOf
      rw [if_pos (by omega)]
    rw [if_pos hz, hnp, chunkPrefix_succ, hfull _ (le_refl _), hnp]
    congr 2
    unfold sizeXactOf
    rw [if_pos ⟨by omega, rfl⟩]
  · have hnp : numXactPartialOf (N % MAX_RW_SIZE) = 0 := by
      unfold numXactPartialOf
      rw [if_neg (by omega)]
    rw [if_neg hz, hnp, Nat.add_zero, hfull _ (le_refl _), List.append_nil]

/-- C5. Against the simulated device, `spiCom_Read(offset, N, buf)` returns
`SPI_DRV_FUNC_RES_OK` and leaves in the caller's buffer exactly what a single transfer of `N`
words gives (`buf[i] = mem[offset + i]` for `i < N`, the rest untouched), having issued
`N / 256` READ transactions of 256 words followed by one of `N % 256` words when that
remainder is not 0, transaction `k` being addressed at `offset + 256 k`. -/
theorem spiCom_Read_chunking (mem : Nat → Nat) (offset N : Nat) (buf pktWords payload : WordBuf)
    (hmem : ∀ a, mem a < 65536) (hoff : offset < 65536) :
    ∃ out, spiCom_Read (simHal false) offset N buf
          { diagDetails := clearDiagDetails, pktWords := pktWords, payload := payload,
            dev := simDev mem } = some out
      ∧ out.readWords = singleTransferRead mem offset N buf
      ∧ out.com.dev.log = chunkList offset N
      ∧ out.res = SPI_DRV_FUNC_RES_OK := by
  obtain ⟨st, hst, h1, -, -, h4, -, h6, -⟩ := spiCom_Read_loop_sim mem hmem offset N hoff buf
    { res := SPI_DRV_FUNC_RES_OK, misoWords := false, rptr := 0, offsetXact := offset,
      readWords := buf,
      com := { diagDetails := clearDiagDetails, pktWords := pktWords, payload := payload,
               dev := simDev mem },
      trace := [] }
    rfl rfl rfl rfl rfl rfl (fun _ => ⟨rfl, rfl⟩)
    (N / MAX_RW_SIZE + numXactPartialOf (N % MAX_RW_SIZE)) (le_refl _)
  refine ⟨st, hst, ?_, ?_, h1⟩
  · funext i
    rw [h4 i, ptrAfter_total]
    rfl
  · rw [h6, chunkPrefix_total]

/-- C5 (witness). A read of 258 words that starts two words below the end of the 16-bit
address space of a device whose word at address `a` is `a`. -/
theorem spiCom_Read_chunking_witness :
    (∀ a, (fun a => a % 65536) a < 65536) ∧ 0xFFFE < 65536
    ∧ ∃ out, spiCom_Read (simHal false) 0xFFFE 258 zeroBuf
          { diagDetails := clearDiagDetails, pktWords := zeroBuf, payload := zeroBuf,
            dev := simDev (fun a => a % 65536) } = some out
      ∧ out.readWords = singleTransferRead (fun a => a % 65536) 0xFFFE 258 zeroBuf
      ∧ out.com.dev.log = chunkList 0xFFFE 258
      ∧ out.res = SPI_DRV_FUNC_RES_OK :=
  ⟨fun a => Nat.mod_lt a (by norm_num), by norm_num,
    spiCom_Read_chunking (fun a => a % 65536) 0xFFFE 258 zeroBuf zeroBuf zeroBuf
      (fun a => Nat.mod_lt a (by norm_num)) (by norm_num)⟩

theorem compareSyncLayer_iff (r s : SyncLayerConfig_t) :
    compareSyncLayer r s = true ↔ SyncLayerMatch r s := by
  unfold compareSyncLayer SyncLayerMatch
  split_ifs with h1 h2 h3 h4 h5 h6
  · simp [h1]
  · simp [h2]
  · simp [h3]
  · simp [h4]
  · simp [h5]
  · simp only [true_iff, Bool.false_eq_true, false_iff]
    intro h
    exact h6.1 (h.2.2.2.2.2 h6.2)
  · simp only [true_iff]
    refine ⟨not_not.mp h1, not_not.mp h2, not_not.mp h3, not_not.mp h4, not_not.mp h5, ?_⟩
    intro hd
    by_contra hne
    exact h6 ⟨hne, hd⟩

theorem CompareSyncConfig_loop_true_iff (ref sync : SyncSceneConfig_t)
    (hr : ref.layer_count ≠ 0) (hs : sync.layer_count ≠ 0) (left : Nat) :
    ∀ ind, CompareSyncConfig_loop ref sync left ind = some true ↔
      ∀ n, ind ≤ n → n < ind + left →
        compareSyncLayer (ref.layer_cfg (n % ref.layer_count))
          (sync.layer_cfg (n % sync.layer_count)) = true := by
  induction left with
  | zero =>
    intro ind
    simp only [CompareSyncConfig_loop, true_iff]
    intro n h1 h2
    omega
  | succ k ih =>
    intro ind
    unfold CompareSyncConfig_loop
    rw [if_neg (by simp [hr, hs])]
    by_cases hc : compareSyncLayer (ref.layer_cfg (ind % ref.layer_count))
        (sync.layer_cfg (ind % sync.layer_count)) = true
    · rw [if_pos hc, ih]
      constructor
      · intro h n h1 h2
        by_cases hn : n = ind
        · subst hn
          exact hc
        · exact h n (by omega) (by omega)
      · intro h n h1 h2
        exact h n (by omega) (by omega)
    · rw [if_neg hc]
      constructor
      · intro h
        simp at h
      · intro h
        exact absurd (h ind (le_refl _) (by omega)) hc

theorem CompareSyncConfig_loop_cases (ref sync : SyncSceneConfig_t)
    (hr : ref.layer_count ≠ 0) (hs : sync.layer_count ≠ 0) (left : Nat) :
    ∀ ind, CompareSyncConfig_loop ref sync left ind = some true
      ∨ CompareSyncConfig_loop ref sync left ind = some false := by
  induction left with
  | zero =>
    intro ind
    left
    rfl
  | succ k ih =>
    intro ind
    unfold CompareSyncConfig_loop
    rw [if_neg (by simp [hr, hs])]
    split_ifs
    · exact ih _
    · right
      rfl

theorem CompareSyncConfig_cases (ref sync : SyncSceneConfig_t)
    (hr : ref.layer_count ≠ 0) (hs : sync.layer_count ≠ 0) :
    CompareSyncConfig ref sync = some true ∨ CompareSyncConfig ref sync = some false := by
  unfold CompareSyncConfig
  split_ifs
  · right; rfl
  · right; rfl
  · right; rfl
  · exact CompareSyncConfig_loop_cases ref sync hr hs _ _
  · exact CompareSyncConfig_loop_cases ref sync hr hs _ _

theorem max_layer_ind_eq (a b : Nat) : (if a > b then a else b) = max a b := by
  split_ifs <;> omega

theorem CompareSyncConfig_true_iff (ref sync : SyncSceneConfig_t)
    (hr : ref.layer_count ≠ 0) (hs : sync.layer_count ≠ 0) :
    CompareSyncConfig ref sync = some true ↔ SyncCompatible ref sync := by
  unfold CompareSyncConfig SyncCompatible
  simp only [max_layer_ind_eq]
  by_cases h1 : sync.slave_mode = 0
  · simp [h1]
  rw [if_neg h1]
  by_cases h2 : ref.recharge_led_en = sync.recharge_led_en
  swap
  · simp [h2]
  rw [if_neg (not_not.mpr h2)]
  by_cases h3 : ref.sync_mode = sync.sync_mode
  swap
  · simp [h3]
  rw [if_neg (not_not.mpr h3), CompareSyncConfig_loop_true_iff ref sync hr hs]
  simp only [compareSyncLayer_iff]
  constructor
  · intro h
    exact ⟨hr, hs, h1, h2, h3, fun n hn => h n (Nat.zero_le _) (by omega)⟩
  · intro h n _ hn
    exact h.2.2.2.2.2 n (by omega)

theorem CompareSyncConfig_accepted_nonzero (ref sync : SyncSceneConfig_t)
    (h : CompareSyncConfig ref sync = some true)
    (hpos : ref.layer_count ≠ 0 ∨ sync.layer_count ≠ 0) :
    ref.layer_count ≠ 0 ∧ sync.layer_count ≠ 0 := by
  by_contra hcon
  have hz : ref.layer_count = 0 ∨ sync.layer_count = 0 := by
    by_contra hh
    push_neg at hh
    exact hcon hh
  have hmax : ∃ k, (if ref.layer_count > sync.layer_count then ref.layer_count
      else sync.layer_count) = k + 1 := by
    refine ⟨(max ref.layer_count sync.layer_count) - 1, ?_⟩
    rw [max_layer_ind_eq]
    omega
  obtain ⟨k, hk⟩ := hmax
  unfold CompareSyncConfig at h
  simp only [hk] at h
  unfold CompareSyncConfig_loop at h
  rw [if_pos hz] at h
  split_ifs at h <;> simp at h

theorem SyncLayerMatch_get (f : SyncField) (r s : SyncLayerConfig_t) (h : SyncLayerMatch r s) :
    f.get r = f.get s := by
  obtain ⟨h1, h2, h3, h4, h5, _⟩ := h
  cases f
  · exact h1
  · exact h2
  · exact h3
  · exact h4
  · exact h5

theorem SyncField_get_set (f : SyncField) (l : SyncLayerConfig_t) (v : Nat) :
    f.get (f.set l v) = v := by
  cases f <;> rfl

theorem spiDriver_CheckSyncConfig_loop_ok (icIndex : Nat → Nat) (cfg : Nat → SyncSceneConfig_t)
    (left : Nat) :
    ∀ (ic : Nat) (ref_cfg : SyncSceneConfig_t) (reads : List Nat),
      (ic = 0 ∨ ref_cfg = cfg 0) →
      (∀ j, ic ≤ j → j < ic + left →
        icIndex j < MAX_IC_ID_NUMBER ∧ (0 < j → SyncCompatible (cfg 0) (cfg j))) →
      spiDriver_CheckSyncConfig_loop icIndex (fun k => (SPI_DRV_FUNC_RES_OK, cfg k)) left ic
        SPI_DRV_FUNC_RES_OK ref_cfg reads
        = some (SPI_DRV_FUNC_RES_OK, reads ++ List.range' ic left) := by
  induction left with
  | zero =>
    intro ic ref_cfg reads _ _
    simp [spiDriver_CheckSyncConfig_loop]
  | succ k ih =>
    intro ic ref_cfg reads href h
    have hic := h ic (le_refl _) (by omega)
    unfold spiDriver_CheckSyncConfig_loop
    rw [if_neg (by have := hic.1; omega)]
    by_cases h0 : ic = 0
    · rw [if_pos h0]
      simp only [show SPI_DRV_FUNC_RES_OK ||| SPI_DRV_FUNC_RES_OK = SPI_DRV_FUNC_RES_OK from rfl,
        ne_eq, not_true_eq_false, if_false]
      rw [ih (ic + 1) _ _ (Or.inr (by rw [h0])) (fun j h1 h2 => h j (by omega) (by omega))]
      simp [List.range'_succ]
    · rw [if_neg h0]
      simp only [show SPI_DRV_FUNC_RES_OK ||| SPI_DRV_FUNC_RES_OK = SPI_DRV_FUNC_RES_OK from rfl,
        ne_eq, not_true_eq_false, if_false]
      have hc := hic.2 (Nat.pos_of_ne_zero h0)
      have hr : ref_cfg = cfg 0 := href.resolve_left h0
      have hacc : CompareSyncConfig ref_cfg (cfg ic) = some true := by
        rw [hr]
        exact (CompareSyncConfig_true_iff _ _ hc.1 hc.2.1).mpr hc
      rw [hacc]
      simp only
      rw [ih (ic + 1) _ _ (Or.inr hr) (fun j h1 h2 => h j (by omega) (by omega))]
      simp [List.range'_succ]

/-- C18 (counterexample): two one-layer configurations with compatible scene-level settings and
identical averaging, trigger_period, sampling_mode, dark_frame_en and lsm_config are rejected by
`CompareSyncConfig`, because the reference layer uses the dark frame and the two dark_averaging
values differ. -/
theorem CompareSyncConfig_rejects_dark_averaging :
    darkRefConfig.layer_count ≠ 0 ∧ darkCmpConfig.layer_count ≠ 0
    ∧ darkCmpConfig.slave_mode ≠ 0
    ∧ darkRefConfig.recharge_led_en = darkCmpConfig.recharge_led_en
    ∧ darkRefConfig.sync_mode = darkCmpConfig.sync_mode
    ∧ (∀ n < max darkRefConfig.layer_count darkCmpConfig.layer_count,
        ∀ f : SyncField,
          f.get (darkRefConfig.layer_cfg (n % darkRefConfig.layer_count))
            = f.get (darkCmpConfig.layer_cfg (n % darkCmpConfig.layer_count)))
    ∧ CompareSyncConfig darkRefConfig darkCmpConfig = some false := by
  refine ⟨by decide, by decide, by decide, by decide, by decide, ?_, by decide⟩
  intro n hn f
  have h0 : n = 0 := by
    have : max darkRefConfig.layer_count darkCmpConfig.layer_count = 1 := by decide
    omega
  subst h0
  cases f <;> rfl

/-- C18 (amended): two configurations with non-zero layer counts, compatible scene-level
settings, and layers that at every compared step (indexed modulo each device's own layer count)
agree in averaging, trigger_period, sampling_mode, dark_frame_en, lsm_config and, where the
reference layer uses the dark frame, in dark_averaging, are accepted by `CompareSyncConfig`;
hence `spiDriver_CheckSyncConfig` returns OK after reading every device when all IC ids are
valid, all reads succeed and every device is compatible with device 0 in this sense. -/
theorem CompareSyncConfig_accepts_compatible :
    (∀ ref_config sync_config : SyncSceneConfig_t, SyncCompatible ref_config sync_config →
      CompareSyncConfig ref_config sync_config = some true)
    ∧ (∀ (icCount : Nat) (icIndex : Nat → Nat) (cfg : Nat → SyncSceneConfig_t)
        (ref_cfg : SyncSceneConfig_t),
        (∀ ic < icCount, icIndex ic < MAX_IC_ID_NUMBER) →
        (∀ ic, 0 < ic → ic < icCount → SyncCompatible (cfg 0) (cfg ic)) →
        spiDriver_CheckSyncConfig icCount icIndex (fun ic => (SPI_DRV_FUNC_RES_OK, cfg ic)) ref_cfg
          = some (SPI_DRV_FUNC_RES_OK, List.range icCount)) := by
  constructor
  · intro ref_config sync_config h
    exact (CompareSyncConfig_true_iff _ _ h.1 h.2.1).mpr h
  · intro icCount icIndex cfg ref_cfg hid hc
    unfold spiDriver_CheckSyncConfig
    split_ifs with h1
    · rw [spiDriver_CheckSyncConfig_loop_ok icIndex cfg icCount 0 ref_cfg [] (Or.inl rfl)
        (fun j _ h2 => ⟨hid j (by omega), fun hj => hc j hj (by omega)⟩)]
      simp [List.range_eq_range']
    · have : icCount = 0 := by omega
      subst this
      rfl

/-- C18 (witness): the two-layer master and the three-layer slave `A B` / `A B A` are compatible,
so `CompareSyncConfig` accepts them and `spiDriver_CheckSyncConfig` returns OK for the two
devices. -/
theorem CompareSyncConfig_accepts_compatible_witness :
    SyncCompatible twoLayerRef threeLayerCmp
    ∧ CompareSyncConfig twoLayerRef threeLayerCmp = some true
    ∧ spiDriver_CheckSyncConfig 2 (fun ic => ic)
        (fun ic => (SPI_DRV_FUNC_RES_OK, if ic = 0 then twoLayerRef else threeLayerCmp))
        darkRefConfig = some (SPI_DRV_FUNC_RES_OK, List.range 2) :=
  ⟨by decide, CompareSyncConfig_accepts_compatible.1 _ _ (by decide),
    CompareSyncConfig_accepts_compatible.2 2 (fun ic => ic)
      (fun ic => if ic = 0 then twoLayerRef else threeLayerCmp) darkRefConfig
      (by decide) (fun ic h0 h2 => by
        have h1 : ic = 1 := by omega
        subst h1
        decide)⟩

/-- C19: if `CompareSyncConfig` accepts a pair of configurations, then giving one of the fields
averaging, trigger_period, sampling_mode, dark_frame_en, lsm_config a different value in one
layer (index below the layer count of that device) of the reference device, or of the compared
device, makes `CompareSyncConfig` return false. -/
theorem CompareSyncConfig_rejects_changed_field (ref_config sync_config : SyncSceneConfig_t)
    (h : CompareSyncConfig ref_config sync_config = some true)
    (i : Nat) (f : SyncField) (v : Nat) :
    (i < ref_config.layer_count → v ≠ f.get (ref_config.layer_cfg i) →
      CompareSyncConfig (ref_config.setField i f v) sync_config = some false)
    ∧ (i < sync_config.layer_count → v ≠ f.get (sync_config.layer_cfg i) →
      CompareSyncConfig ref_config (sync_config.setField i f v) = some false) := by
  constructor
  · intro hi hv
    obtain ⟨hr, hs⟩ := CompareSyncConfig_accepted_nonzero _ _ h (Or.inl (by omega))
    have hc := (CompareSyncConfig_true_iff _ _ hr hs).mp h
    have hr2 : (ref_config.setField i f v).layer_count ≠ 0 := hr
    rcases CompareSyncConfig_cases (ref_config.setField i f v) sync_config hr2 hs with h2 | h2
    · exfalso
      have hc2 := (CompareSyncConfig_true_iff _ _ hr2 hs).mp h2
      have hlt : i < max ref_config.layer_count sync_config.layer_count := by
        have := le_max_left ref_config.layer_count sync_config.layer_count
        omega
      have m1 := SyncLayerMatch_get f _ _ (hc.2.2.2.2.2 i hlt)
      have m2 := SyncLayerMatch_get f _ _ (hc2.2.2.2.2.2 i hlt)
      have e1 : (ref_config.setField i f v).layer_count = ref_config.layer_count := rfl
      rw [e1, Nat.mod_eq_of_lt hi] at m2
      rw [Nat.mod_eq_of_lt hi] at m1
      have e2 : (ref_config.setField i f v).layer_cfg i = f.set (ref_config.layer_cfg i) v := by
        simp [SyncSceneConfig_t.setField]
      rw [e2, SyncField_get_set] at m2
      exact hv (m2.trans m1.symm)
    · exact h2
  · intro hi hv
    obtain ⟨hr, hs⟩ := CompareSyncConfig_accepted_nonzero _ _ h (Or.inr (by omega))
    have hc := (CompareSyncConfig_true_iff _ _ hr hs).mp h
    have hs2 : (sync_config.setField i f v).layer_count ≠ 0 := hs
    rcases CompareSyncConfig_cases ref_config (sync_config.setField i f v) hr hs2 with h2 | h2
    · exfalso
      have hc2 := (CompareSyncConfig_true_iff _ _ hr hs2).mp h2
      have hlt : i < max ref_config.layer_count sync_config.layer_count := by
        have := le_max_right ref_config.layer_count sync_config.layer_count
        omega
      have m1 := SyncLayerMatch_get f _ _ (hc.2.2.2.2.2 i hlt)
      have m2 := SyncLayerMatch_get f _ _ (hc2.2.2.2.2.2 i hlt)
      have e1 : (sync_config.setField i f v).layer_count = sync_config.layer_count := rfl
      rw [e1, Nat.mod_eq_of_lt hi] at m2
      rw [Nat.mod_eq_of_lt hi] at m1
      have e2 : (sync_config.setField i f v).layer_cfg i = f.set (sync_config.layer_cfg i) v := by
        simp [SyncSceneConfig_t.setField]
      rw [e2, SyncField_get_set] at m2
      exact hv (m2.symm.trans m1)
    · exact h2

/-- C19 (witness): the accepted pair `A B` / `A B A` is rejected after the averaging of layer 2
of the compared device is changed from 1 to 7, and after the averaging of layer 1 of the
reference device is changed from 2 to 7. -/
theorem CompareSyncConfig_rejects_changed_field_witness :
    CompareSyncConfig twoLayerRef threeLayerCmp = some true
    ∧ CompareSyncConfig (twoLayerRef.setField 1 SyncField.averaging 7) threeLayerCmp = some false
    ∧ CompareSyncConfig twoLayerRef (threeLayerCmp.setField 2 SyncField.averaging 7)
        = some false :=
  ⟨by decide,
    (CompareSyncConfig_rejects_changed_field twoLayerRef threeLayerCmp (by decide) 1
      SyncField.averaging 7).1 (by decide) (by decide),
    (CompareSyncConfig_rejects_changed_field twoLayerRef threeLayerCmp (by decide) 2
      SyncField.averaging 7).2 (by decide) (by decide)⟩

/-- C20 (code bug): `CompareSyncConfig` accepts the reference layers `A B` (Lref = 2) and the
compared layers `A B A` (Lcmp = 3), because its loop compares only the steps
n < max(Lref, Lcmp) = 3; at step n = 3 the reference layer 3 mod 2 = 1 and the compared layer
3 mod 3 = 0 differ in averaging. -/
theorem CompareSyncConfig_accepts_mismatch_at_later_step :
    twoLayerRef.layer_count = 2 ∧ threeLayerCmp.layer_count = 3
    ∧ CompareSyncConfig twoLayerRef threeLayerCmp = some true
    ∧ (twoLayerRef.layer_cfg (3 % twoLayerRef.layer_count)).averaging = 2
    ∧ (threeLayerCmp.layer_cfg (3 % threeLayerCmp.layer_count)).averaging = 1 := by
  decide

theorem forIc_succ {α : Type} (n : Nat) (body : Nat → α → α) (s : α) :
    forIc (n + 1) body s = body n (forIc n body s) := by
  simp [forIc, List.range_succ, List.foldl_append]

theorem forIc_zero {α : Type} (body : Nat → α → α) (s : α) : forIc 0 body s = s := rfl

theorem forIc_update_const {α : Type} (n : Nat) (v : α) (m : Nat → α) (k : Nat) :
    forIc n (fun ic m => Function.update m ic v) m k = if k < n then v else m k := by
  induction n with
  | zero => simp [forIc_zero]
  | succ j ih =>
    rw [forIc_succ]
    by_cases hk : k = j
    · subst hk
      simp
    · rw [Function.update_noteq hk, ih]
      by_cases h1 : k < j
      · simp [h1, Nat.lt_succ_of_lt h1]
      · have h2 : ¬ k < j + 1 := by omega
        simp [h1, h2]

theorem wireWords_congr (d1 d2 : WordBuf) (length : Nat) (h : ∀ i < length / 2, d1 i = d2 i) :
    wireWords d1 length = wireWords d2 length := by
  unfold wireWords
  apply List.map_congr_left
  intro i hi
  rw [h i (List.mem_range.mp hi)]

theorem makeSpiPacket_congr (ptype sizeField n : Nat) (p1 p2 w1 w2 : WordBuf)
    (hn : n + 1 < 65536) (hp : ∀ j < n, p1 j = p2 j) (i : Nat) (hi : i ≤ n + 1) :
    makeSpiPacket ptype sizeField n p1 w1 i = makeSpiPacket ptype sizeField n p2 w2 i := by
  have hlow : ∀ k, k ≤ n →
      makeSpiPacket ptype sizeField n p1 w1 k = makeSpiPacket ptype sizeField n p2 w2 k := by
    intro k hk
    by_cases h0 : k = 0
    · subst h0
      rw [makeSpiPacket_header, makeSpiPacket_header]
    · obtain ⟨j, rfl⟩ : ∃ j, k = j + 1 := ⟨k - 1, by omega⟩
      rw [makeSpiPacket_payload _ _ _ _ _ _ (by omega),
        makeSpiPacket_payload _ _ _ _ _ _ (by omega)]
      exact hp j (by omega)
  by_cases h1 : i = n + 1
  · subst h1
    rw [makeSpiPacket_crc _ _ _ _ _ hn, makeSpiPacket_crc _ _ _ _ _ hn]
    apply calcCrc_congr
    intro k hk
    exact hlow k (by omega)
  · exact hlow i (by omega)

theorem ReverseBytes16Words_congr (b1 b2 : WordBuf) (size i : Nat) (h : b1 i = b2 i) :
    ReverseBytes16Words b1 size i = ReverseBytes16Words b2 size i := by
  unfold ReverseBytes16Words
  simp only [h]

/-- The packet that `spiCom_SensorStop` puts on the wire, whatever the globals held before. -/
theorem spiCom_SensorStop_wire (payload pktWords : WordBuf) :
    wireWords (ReverseBytes16Words
      (makeSpiPacket FUNCTION 0 2
        (Function.update (Function.update payload 0 SENSOR_STOP) 1 0) pktWords) 8) 8
      = [8192, 5, 0, 57080] := by
  have h : wireWords (ReverseBytes16Words
      (makeSpiPacket FUNCTION 0 2 (payloadOf [5, 0]) zeroBuf) 8) 8 = [8192, 5, 0, 57080] := by
    decide
  rw [← h]
  apply wireWords_congr
  intro i hi
  apply ReverseBytes16Words_congr
  apply makeSpiPacket_congr _ _ _ _ _ _ _ (by norm_num) _ i (by omega)
  intro j hj
  have hj2 : j = 0 ∨ j = 1 := by omega
  rcases hj2 with rfl | rfl
  · rfl
  · rfl

/-- On the simulated bus `spiCom_SensorStop` succeeds and sends one packet, the FUNCTION
packet with the function id `SENSOR_STOP`, to the selected device. -/
theorem spiCom_SensorStop_stopHal (st : ComState StopDev) :
    (spiCom_SensorStop stopHal.toHal st).res = SPI_DRV_FUNC_RES_OK
    ∧ (spiCom_SensorStop stopHal.toHal st).com.dev
        = { sel := st.dev.sel, log := st.dev.log ++ [(st.dev.sel, [8192, 5, 0, 57080])] } := by
  unfold spiCom_SensorStop
  simp only []
  have hv := checkResponse_valid 1 0 STATUS_SHORT 2 2 zeroBuf zeroBuf 8
    { res := SPI_DRV_FUNC_RES_OK, misoWords := false,
      com := sendAndReceive stopHal.toHal 0 8 8
        { diagDetails := clearDiagDetails
          pktWords := makeSpiPacket FUNCTION 0 2
            (Function.update (Function.update st.payload 0 SENSOR_STOP) 1 0) st.pktWords
          payload := Function.update (Function.update st.payload 0 SENSOR_STOP) 1 0
          dev := st.dev },
      trace := [] } rfl
    (by
      rw [makeSpiPacket_status_sizeField STATUS_SHORT 2 0 2 zeroBuf zeroBuf (Or.inl rfl)]
      rfl)
    (by decide) (by decide) (by decide) (by decide) (by decide)
    (fun j _ => by simp [zeroBuf])
    (by
      simp only [sendAndReceive_halStat]
      exact le_refl _)
    (by
      simp only [sendAndReceive_comStat]
      have h1 : (spiCom_WaitForReady stopHal.toHal st.dev).1 = 0 := rfl
      have h2 : (clearDiagDetails 0).comStat = 0 := rfl
      rw [h1, h2]
      decide)
    (by
      unfold validatedDevStat
      rw [if_pos (Or.inl rfl)]
      decide)
  refine ⟨hv.1, ?_⟩
  rw [hv.2.2.1, sendAndReceive_dev]
  show StopDev.mk st.dev.sel (st.dev.log ++ [(st.dev.sel, wireWords _ 8)]) = _
  rw [spiCom_SensorStop_wire]

/-- C17: `spiDriver_StopContinuousModeInt(icIdx)` in a phase other than Finished returns
`SPI_DRV_FUNC_RES_FAIL_INPUT_DATA` (which is not OK) and leaves the driver state, the globals
and the state of every device as they were, on every HAL, so it sends nothing; in phase
Finished, on the recording bus, it succeeds, sends exactly one packet, the FUNCTION packet
with function id `SENSOR_STOP`, to the device with the id of `icIdx`, restores the selected
device, leaves the parameters unchanged and clears `continuousMode` when the scene has more
than one layer. -/
theorem spiDriver_StopContinuousModeInt_only_when_finished :
    (∀ (σ : Type) (hal : DevHal σ) (icIdx : Nat) (drv : SpiDriver_State_t) (com : ComState σ),
      (drv.params icIdx).contState ≠ CONT_MODE_STATE_FINISHED →
      spiDriver_StopContinuousModeInt hal icIdx drv com
        = (SPI_DRV_FUNC_RES_FAIL_INPUT_DATA, drv, com)
      ∧ (spiDriver_StopContinuousModeInt hal icIdx drv com).1 ≠ SPI_DRV_FUNC_RES_OK)
    ∧ (∀ (icIdx : Nat) (drv : SpiDriver_State_t) (com : ComState StopDev),
      (drv.params icIdx).contState = CONT_MODE_STATE_FINISHED →
      (spiDriver_StopContinuousModeInt stopHal icIdx drv com).1 = SPI_DRV_FUNC_RES_OK
      ∧ (spiDriver_StopContinuousModeInt stopHal icIdx drv com).2.2.dev
          = { sel := com.dev.sel,
              log := com.dev.log ++ [((drv.params icIdx).icIndex, [8192, 5, 0, 57080])] }
      ∧ (spiDriver_StopContinuousModeInt stopHal icIdx drv com).2.1.params = drv.params
      ∧ (spiDriver_StopContinuousModeInt stopHal icIdx drv com).2.1.continuousMode
          = (if (drv.params icIdx).sceneLayersAmount > 1 then false else drv.continuousMode)) := by
  constructor
  · intro σ hal icIdx drv com h
    have e : spiDriver_StopContinuousModeInt hal icIdx drv com
        = (SPI_DRV_FUNC_RES_FAIL_INPUT_DATA, drv, com) := by
      unfold spiDriver_StopContinuousModeInt
      rw [if_neg h]
    rw [e]
    exact ⟨rfl, show (4 : Nat) ≠ 0 by decide⟩
  · intro icIdx drv com h
    unfold spiDriver_StopContinuousModeInt
    rw [if_pos h]
    simp only []
    have hs := spiCom_SensorStop_stopHal
      { diagDetails := com.diagDetails, pktWords := com.pktWords, payload := com.payload,
        dev := (spiCom_SetDev stopHal (drv.params icIdx).icIndex com.dev).2 }
    refine ⟨?_, ?_, ?_, ?_⟩
    · rw [hs.1]
      rfl
    · rw [hs.2]
      rfl
    · split_ifs <;> rfl
    · split_ifs <;> rfl

/-- C17 (witness): for a device in phase Working nothing is sent and the result is
`SPI_DRV_FUNC_RES_FAIL_INPUT_DATA`; for a device with id 10 in phase Finished the SENSOR_STOP
packet is sent to device 10 and device 3 is selected again. -/
theorem spiDriver_StopContinuousModeInt_only_when_finished_witness :
    (spiDriver_StopContinuousModeInt stopHal 0 (driverStateOf 2 CONT_MODE_STATE_WORKING)
        (initCom { sel := 3, log := [] })).1 = SPI_DRV_FUNC_RES_FAIL_INPUT_DATA
    ∧ (spiDriver_StopContinuousModeInt stopHal 0 (driverStateOf 2 CONT_MODE_STATE_WORKING)
        (initCom { sel := 3, log := [] })).2.2.dev = { sel := 3, log := [] }
    ∧ (spiDriver_StopContinuousModeInt stopHal 0 (driverStateOf 2 CONT_MODE_STATE_FINISHED)
        (initCom { sel := 3, log := [] })).2.2.dev
        = { sel := 3, log := [(10, [8192, 5, 0, 57080])] } :=
  ⟨congrArg Prod.fst (spiDriver_StopContinuousModeInt_only_when_finished.1 StopDev stopHal 0
      (driverStateOf 2 CONT_MODE_STATE_WORKING) (initCom { sel := 3, log := [] })
      (by decide)).1,
    congrArg (fun r => r.2.2.dev) (spiDriver_StopContinuousModeInt_only_when_finished.1 StopDev
      stopHal 0 (driverStateOf 2 CONT_MODE_STATE_WORKING) (initCom { sel := 3, log := [] })
      (by decide)).1,
    (spiDriver_StopContinuousModeInt_only_when_finished.2 0
      (driverStateOf 2 CONT_MODE_STATE_FINISHED) (initCom { sel := 3, log := [] })
      (by decide)).2.1⟩

theorem ite_lt_succ {α : Type} (k j : Nat) (hk : k ≠ j) (P : Prop) [Decidable P] (a b : α) :
    (if k < j + 1 ∧ P then a else b) = if k < j ∧ P then a else b := by
  have h : k < j + 1 ↔ k < j := by omega
  simp only [h]

theorem zeroPendingCount_succ (n : Nat) (p : Nat → Nat) :
    zeroPendingCount (n + 1) p = zeroPendingCount n p + (if p n = 0 then 1 else 0) := by
  unfold zeroPendingCount
  rw [List.range_succ, List.filter_append, List.length_append]
  by_cases h : p n = 0 <;> simp [h]

/-- What the last loop of a data-ready event does to every variable. -/
theorem contModeExecute_idle_spec {σ : Type} (n : Nat) (s : ContModeState σ) :
    (∀ k, (contModeExecute_idle n s).contModeThread k
      = if k < n ∧ s.contModePendingSteps k = 0 then CONT_MODE_IDLE else s.contModeThread k)
    ∧ (∀ k, (contModeExecute_idle n s).contModePendingSteps k
      = if k < n ∧ s.contModePendingSteps k = 0 then CONT_MODE_MAX_PENDING
        else s.contModePendingSteps k)
    ∧ (∀ k, (contModeExecute_idle n s).spiDriver_currentState.params k
      = if k < n ∧ s.contModePendingSteps k = 0 then (s.spiDriver_currentState.params k).idled
        else s.spiDriver_currentState.params k)
    ∧ (contModeExecute_idle n s).spiDriver_currentState.continuousMode
      = s.spiDriver_currentState.continuousMode
    ∧ (contModeExecute_idle n s).lastRequest = s.lastRequest
    ∧ (contModeExecute_idle n s).looping = s.looping
    ∧ (contModeExecute_idle n s).com = s.com
    ∧ (contModeExecute_idle n s).out
      = s.out ++ List.replicate (zeroPendingCount n s.contModePendingSteps)
          (ContAction.msgsnd CONT_MODE_FEEDBACK CONT_MODE_IDLE) := by
  induction n with
  | zero =>
    simp [contModeExecute_idle, forIc_zero, zeroPendingCount]
  | succ j ih =>
    obtain ⟨h1, h2, h3, h4, h5, h6, h7, h8⟩ := ih
    have hstep : contModeExecute_idle (j + 1) s
        = (fun ic (s : ContModeState σ) =>
            if s.contModePendingSteps ic = 0 then
              ({ contModeThread := Function.update s.contModeThread ic CONT_MODE_IDLE
                 contModePendingSteps :=
                   Function.update s.contModePendingSteps ic CONT_MODE_MAX_PENDING
                 lastRequest := s.lastRequest
                 looping := s.looping
                 spiDriver_currentState :=
                   { params := Function.update s.spiDriver_currentState.params ic
                       (s.spiDriver_currentState.params ic).idled
                     continuousMode := s.spiDriver_currentState.continuousMode }
                 com := s.com
                 out := s.out ++ [ContAction.msgsnd CONT_MODE_FEEDBACK CONT_MODE_IDLE] } :
                ContModeState σ)
            else s) j (contModeExecute_idle j s) := by
      unfold contModeExecute_idle
      rw [forIc_succ]
      rfl
    have hpj : (contModeExecute_idle j s).contModePendingSteps j = s.contModePendingSteps j := by
      rw [h2 j]
      simp
    have hparj : (contModeExecute_idle j s).spiDriver_currentState.params j
        = s.spiDriver_currentState.params j := by
      rw [h3 j]
      simp
    rw [hstep, zeroPendingCount_succ]
    simp only [hpj]
    by_cases hz : s.contModePendingSteps j = 0
    · simp only [hz, if_true]
      refine ⟨?_, ?_, ?_, h4, h5, h6, h7, ?_⟩
      · intro k
        by_cases hk : k = j
        · subst hk
          simp [hz]
        · rw [Function.update_noteq hk, h1 k, ite_lt_succ k j hk]
      · intro k
        by_cases hk : k = j
        · subst hk
          simp [hz]
        · rw [Function.update_noteq hk, h2 k, ite_lt_succ k j hk]
      · intro k
        by_cases hk : k = j
        · subst hk
          simp [hz, hparj]
        · rw [Function.update_noteq hk, h3 k, ite_lt_succ k j hk]
      · rw [h8, List.append_assoc]
        congr 1
        rw [List.replicate_add]
        rfl
    · simp only [hz, if_false]
      refine ⟨?_, ?_, ?_, h4, h5, h6, h7, ?_⟩
      · intro k
        rw [h1 k]
        by_cases hk : k = j
        · subst hk
          simp [hz]
        · rw [ite_lt_succ k j hk]
      · intro k
        rw [h2 k]
        by_cases hk : k = j
        · subst hk
          simp [hz]
        · rw [ite_lt_succ k j hk]
      · intro k
        rw [h3 k]
        by_cases hk : k = j
        · subst hk
          simp [hz]
        · rw [ite_lt_succ k j hk]
      · rw [h8]
        simp

theorem contModeExecute_idle_eq {σ : Type} (n : Nat) (s : ContModeState σ) :
    contModeExecute_idle n s
      = { contModeThread := fun k =>
            if k < n ∧ s.contModePendingSteps k = 0 then CONT_MODE_IDLE else s.contModeThread k
          contModePendingSteps := fun k =>
            if k < n ∧ s.contModePendingSteps k = 0 then CONT_MODE_MAX_PENDING
            else s.contModePendingSteps k
          lastRequest := s.lastRequest
          looping := s.looping
          spiDriver_currentState :=
            { params := fun k =>
                if k < n ∧ s.contModePendingSteps k = 0 then
                  (s.spiDriver_currentState.params k).idled
                else s.spiDriver_currentState.params k
              continuousMode := s.spiDriver_currentState.continuousMode }
          com := s.com
          out := s.out ++ List.replicate (zeroPendingCount n s.contModePendingSteps)
            (ContAction.msgsnd CONT_MODE_FEEDBACK CONT_MODE_IDLE) } := by
  obtain ⟨h1, h2, h3, h4, h5, h6, h7, h8⟩ := contModeExecute_idle_spec n s
  generalize contModeExecute_idle n s = e at h1 h2 h3 h4 h5 h6 h7 h8
  obtain ⟨a, b, c, d, ⟨p, q⟩, f, g⟩ := e
  simp only at h1 h2 h3 h4 h5 h6 h7 h8
  have ha : a = _ := funext h1
  have hb : b = _ := funext h2
  have hp : p = _ := funext h3
  subst ha hb hp h4 h5 h6 h7 h8
  rfl

theorem OnlyStops_nil : OnlyStops [] := fun a ha => absurd ha (List.not_mem_nil a)

theorem OnlyStops_append (l1 l2 : List ContAction) (h1 : OnlyStops l1) (h2 : OnlyStops l2) :
    OnlyStops (l1 ++ l2) := by
  intro a ha
  rcases List.mem_append.mp ha with h | h
  · exact h1 a h
  · exact h2 a h

theorem OnlyStops_single (ic : Nat) : OnlyStops [ContAction.stopIssued ic] := by
  intro a ha
  exact ⟨ic, List.mem_singleton.mp ha⟩

theorem contModeExecute_stopOne_out {σ : Type} (hal : DevHal σ) (icIdx : Nat)
    (s : ContModeState σ) :
    ∃ l, (contModeExecute_stopOne hal icIdx s).out = s.out ++ l ∧ OnlyStops l := by
  unfold contModeExecute_stopOne
  simp only []
  by_cases h1 : (s.spiDriver_currentState.params icIdx).contState = CONT_MODE_STATE_FINISHED
  · rw [if_pos h1]
    by_cases h2 : (spiDriver_StopContinuousModeInt hal icIdx s.spiDriver_currentState s.com).1
        = SPI_DRV_FUNC_RES_OK
    · rw [if_pos h2]
      exact ⟨[ContAction.stopIssued icIdx], rfl, OnlyStops_single _⟩
    · rw [if_neg h2]
      exact ⟨[], (List.append_nil _).symm, OnlyStops_nil⟩
  · rw [if_neg h1]
    exact ⟨[], (List.append_nil _).symm, OnlyStops_nil⟩

theorem contModeExecute_stopAll_body_out {σ : Type} (hal : DevHal σ) (icIdx ic : Nat)
    (s : ContModeState σ) :
    ∃ l, (contModeExecute_stopAll_body hal icIdx ic s).out = s.out ++ l ∧ OnlyStops l := by
  unfold contModeExecute_stopAll_body
  simp only []
  by_cases h2 : (spiDriver_StopContinuousModeInt hal ic s.spiDriver_currentState s.com).1
      = SPI_DRV_FUNC_RES_OK
  · rw [if_pos h2]
    exact ⟨[ContAction.stopIssued ic], rfl, OnlyStops_single _⟩
  · rw [if_neg h2]
    exact ⟨[], (List.append_nil _).symm, OnlyStops_nil⟩

theorem contModeExecute_stopAll_out {σ : Type} (hal : DevHal σ) (icCount icIdx : Nat)
    (s : ContModeState σ) :
    ∃ l, (contModeExecute_stopAll hal icCount icIdx s).out = s.out ++ l ∧ OnlyStops l := by
  unfold contModeExecute_stopAll
  simp only []
  have hloop : ∀ n, ∃ l, (forIc n (contModeExecute_stopAll_body hal icIdx) s).out = s.out ++ l
      ∧ OnlyStops l := by
    intro n
    induction n with
    | zero => exact ⟨[], (List.append_nil _).symm, OnlyStops_nil⟩
    | succ j ih =>
      obtain ⟨l, hl, hs⟩ := ih
      rw [forIc_succ]
      obtain ⟨l2, hl2, hs2⟩ := contModeExecute_stopAll_body_out hal icIdx j
        (forIc j (contModeExecute_stopAll_body hal icIdx) s)
      refine ⟨l ++ l2, ?_, OnlyStops_append _ _ hs hs2⟩
      rw [hl2, hl, List.append_assoc]
  obtain ⟨l, hl, hs⟩ := hloop icCount
  generalize forIc icCount _ s = t at hl
  by_cases h1 : (t.spiDriver_currentState.params icIdx).sceneLayersAmount = 1
  · rw [if_pos h1]
    exact ⟨l, hl, hs⟩
  · rw [if_neg h1]
    exact ⟨l, hl, hs⟩

theorem contModeExecute_records_out {σ : Type} (cfg : ContModeCfg_t) (hal : DevHal σ)
    (icCount rbufCmd : Nat) (chipData : List spiDriver_ChipData_t) :
    ∀ (newRequest : Bool) (s : ContModeState σ),
      ∃ l, (contModeExecute_records cfg hal icCount rbufCmd chipData newRequest s).2.out
        = s.out ++ l ∧ OnlyStops l := by
  induction chipData with
  | nil =>
    intro nr s
    exact ⟨[], (List.append_nil _).symm, OnlyStops_nil⟩
  | cons rec rest ih =>
    intro nr s
    unfold contModeExecute_records
    simp only []
    split_ifs
    · exact ih _ _
    · exact ih _ _
    · obtain ⟨l1, h1, hs1⟩ := contModeExecute_stopOne_out hal
        (spiDriver_GetIcIndexById icCount s.spiDriver_currentState rec.chip_id) s
      obtain ⟨l2, h2, hs2⟩ := ih true (contModeExecute_stopOne hal
        (spiDriver_GetIcIndexById icCount s.spiDriver_currentState rec.chip_id) s)
      refine ⟨l1 ++ l2, ?_, OnlyStops_append _ _ hs1 hs2⟩
      rw [h2, h1, List.append_assoc]
    · exact contModeExecute_stopAll_out hal icCount _ s
    · exact ih _ _
    · exact ih _ _

/-- The loop over the records consults the configuration only for `useAsyncSequence`. -/
theorem contModeExecute_records_cfg {σ : Type} (cfg1 cfg2 : ContModeCfg_t) (hal : DevHal σ)
    (icCount rbufCmd : Nat) (chipData : List spiDriver_ChipData_t)
    (h : cfg1.useAsyncSequence = cfg2.useAsyncSequence) :
    ∀ (newRequest : Bool) (s : ContModeState σ),
      contModeExecute_records cfg1 hal icCount rbufCmd chipData newRequest s
        = contModeExecute_records cfg2 hal icCount rbufCmd chipData newRequest s := by
  induction chipData with
  | nil =>
    intro nr s
    rfl
  | cons rec rest ih =>
    intro nr s
    unfold contModeExecute_records
    simp only [h, ih]

theorem NoCalls_of_OnlyStops (l : List ContAction) (h : OnlyStops l) : NoCalls l :=
  fun a ha => Or.inl (h a ha)

theorem NoCalls_append (l1 l2 : List ContAction) (h1 : NoCalls l1) (h2 : NoCalls l2) :
    NoCalls (l1 ++ l2) := by
  intro a ha
  rcases List.mem_append.mp ha with h | h
  · exact h1 a h
  · exact h2 a h

theorem NoCalls_replicate (n t c : Nat) : NoCalls (List.replicate n (ContAction.msgsnd t c)) := by
  intro a ha
  exact Or.inr ⟨t, c, (List.mem_replicate.mp ha).2⟩

theorem NoCalls_request (b : Bool) (t c : Nat) :
    NoCalls (if b then [ContAction.msgsnd t c] else []) := by
  intro a ha
  cases b
  · exact absurd ha (List.not_mem_nil a)
  · exact Or.inr ⟨t, c, List.mem_singleton.mp ha⟩

/-- C14: at the end of every data-ready event, each configured device whose pending-steps
value is 0 (after the record loop and the callbacks) gets the mode `CONT_MODE_IDLE`, the
phase `CONT_MODE_STATE_IDLE` and the pending-steps value `CONT_MODE_MAX_PENDING`; for every
configured device whose value is not 0 the mode, the parameters with the phase and the value
are unchanged; and the messages sent are exactly one FEEDBACK message with command
`CONT_MODE_IDLE` per device whose value is 0. -/
theorem contModeExecute_idle_transition {σ : Type} (cfg : ContModeCfg_t) (hal : DevHal σ)
    (icCount rbufCmd : Nat) (chipData : List spiDriver_ChipData_t) (s : ContModeState σ) :
    (∀ ic < icCount,
      (contModeExecute_dataReady_callbacks cfg hal icCount rbufCmd chipData
        s).2.contModePendingSteps ic = 0 →
      (contModeExecute_dataReady cfg hal icCount rbufCmd chipData s).2.contModeThread ic
        = CONT_MODE_IDLE
      ∧ ((contModeExecute_dataReady cfg hal icCount rbufCmd chipData
          s).2.spiDriver_currentState.params ic).contState = CONT_MODE_STATE_IDLE
      ∧ (contModeExecute_dataReady cfg hal icCount rbufCmd chipData s).2.contModePendingSteps ic
        = CONT_MODE_MAX_PENDING)
    ∧ (∀ ic < icCount,
      (contModeExecute_dataReady_callbacks cfg hal icCount rbufCmd chipData
        s).2.contModePendingSteps ic ≠ 0 →
      (contModeExecute_dataReady cfg hal icCount rbufCmd chipData s).2.contModeThread ic
        = (contModeExecute_dataReady_callbacks cfg hal icCount rbufCmd chipData
            s).2.contModeThread ic
      ∧ (contModeExecute_dataReady cfg hal icCount rbufCmd chipData
          s).2.spiDriver_currentState.params ic
        = (contModeExecute_dataReady_callbacks cfg hal icCount rbufCmd chipData
            s).2.spiDriver_currentState.params ic
      ∧ (contModeExecute_dataReady cfg hal icCount rbufCmd chipData s).2.contModePendingSteps ic
        = (contModeExecute_dataReady_callbacks cfg hal icCount rbufCmd chipData
            s).2.contModePendingSteps ic)
    ∧ (contModeExecute_dataReady cfg hal icCount rbufCmd chipData s).2.out
        = (contModeExecute_dataReady_callbacks cfg hal icCount rbufCmd chipData s).2.out
          ++ List.replicate
            (zeroPendingCount icCount (contModeExecute_dataReady_callbacks cfg hal icCount
              rbufCmd chipData s).2.contModePendingSteps)
            (ContAction.msgsnd CONT_MODE_FEEDBACK CONT_MODE_IDLE) := by
  unfold contModeExecute_dataReady
  simp only []
  rw [contModeExecute_idle_eq]
  refine ⟨?_, ?_, rfl⟩
  · intro ic hic h0
    simp only [hic, h0, and_self, if_true]
    exact ⟨trivial, rfl, trivial⟩
  · intro ic hic h0
    simp only [h0, and_false, if_false]
    exact ⟨trivial, trivial, trivial⟩

set_option maxRecDepth 100000 in
/-- C14 (witness): with two working devices, device 0 with one pending step and device 1 with
none scheduled, the event ends with device 0 idle and reset to `CONT_MODE_MAX_PENDING`,
device 1 still working, and one FEEDBACK message. -/
theorem contModeExecute_idle_transition_witness :
    ((contModeExecute_dataReady (contCfg true) stopHal 2 CONT_MODE_WORK (batchOf 11)
        drainState).2.contModeThread 0 = CONT_MODE_IDLE
      ∧ ((contModeExecute_dataReady (contCfg true) stopHal 2 CONT_MODE_WORK (batchOf 11)
          drainState).2.spiDriver_currentState.params 0).contState = CONT_MODE_STATE_IDLE
      ∧ (contModeExecute_dataReady (contCfg true) stopHal 2 CONT_MODE_WORK (batchOf 11)
          drainState).2.contModePendingSteps 0 = CONT_MODE_MAX_PENDING)
    ∧ (contModeExecute_dataReady (contCfg true) stopHal 2 CONT_MODE_WORK (batchOf 11)
        drainState).2.contModeThread 1 = CONT_MODE_WORK
    ∧ (contModeExecute_dataReady (contCfg true) stopHal 2 CONT_MODE_WORK (batchOf 11)
        drainState).2.out
      = [ContAction.msgsnd CONT_MODE_REQUEST_DATA CONT_MODE_WORK,
          ContAction.udpCallback (batchOf 11), ContAction.callback (batchOf 11),
          ContAction.msgsnd CONT_MODE_FEEDBACK CONT_MODE_IDLE] :=
  ⟨(contModeExecute_idle_transition (contCfg true) stopHal 2 CONT_MODE_WORK (batchOf 11)
      drainState).1 0 (by decide) (by decide),
    ((contModeExecute_idle_transition (contCfg true) stopHal 2 CONT_MODE_WORK (batchOf 11)
      drainState).2.1 1 (by decide) (by decide)).1.trans (by decide),
    (contModeExecute_idle_transition (contCfg true) stopHal 2 CONT_MODE_WORK (batchOf 11)
      drainState).2.2.trans (by decide)⟩

/-- C12: every data-ready event calls the UDP forwarder once with the batch and then, when a
callback is registered, the callback exactly once with the same batch: whatever the state of
the devices is, the actions of the event are a list `pre` without calls (stop marks and the
data request), the call of the UDP forwarder, the call of the callback when one is registered,
and a list `post` without calls (the feedback messages). The value of `cbRes` is the
callback's result, or `CB_RET_OK` without a callback, and every variable other than the list
of actions is the same as in the event without a callback, whatever the callback returns. -/
theorem contModeExecute_dataReady_callback_once {σ : Type} (cfg : ContModeCfg_t)
    (hal : DevHal σ) (icCount rbufCmd : Nat) (chipData : List spiDriver_ChipData_t)
    (s : ContModeState σ) :
    ∃ pre post : List ContAction, NoCalls pre ∧ NoCalls post ∧
      ∀ cb : Option (List spiDriver_ChipData_t → Nat),
        (contModeExecute_dataReady (cfg.withCallback cb) hal icCount rbufCmd chipData s).2.out
          = s.out ++ pre ++ [ContAction.udpCallback chipData]
            ++ (match cb with
                | some _ => [ContAction.callback chipData]
                | none => [])
            ++ post
        ∧ (contModeExecute_dataReady (cfg.withCallback cb) hal icCount rbufCmd chipData s).1
          = (match cb with
             | some callback => callback chipData
             | none => CB_RET_OK)
        ∧ (contModeExecute_dataReady (cfg.withCallback cb) hal icCount rbufCmd chipData
            s).2.contModeThread
          = (contModeExecute_dataReady (cfg.withCallback none) hal icCount rbufCmd chipData
              s).2.contModeThread
        ∧ (contModeExecute_dataReady (cfg.withCallback cb) hal icCount rbufCmd chipData
            s).2.contModePendingSteps
          = (contModeExecute_dataReady (cfg.withCallback none) hal icCount rbufCmd chipData
              s).2.contModePendingSteps
        ∧ (contModeExecute_dataReady (cfg.withCallback cb) hal icCount rbufCmd chipData
            s).2.lastRequest
          = (contModeExecute_dataReady (cfg.withCallback none) hal icCount rbufCmd chipData
              s).2.lastRequest
        ∧ (contModeExecute_dataReady (cfg.withCallback cb) hal icCount rbufCmd chipData
            s).2.looping
          = (contModeExecute_dataReady (cfg.withCallback none) hal icCount rbufCmd chipData
              s).2.looping
        ∧ (contModeExecute_dataReady (cfg.withCallback cb) hal icCount rbufCmd chipData
            s).2.spiDriver_currentState
          = (contModeExecute_dataReady (cfg.withCallback none) hal icCount rbufCmd chipData
              s).2.spiDriver_currentState
        ∧ (contModeExecute_dataReady (cfg.withCallback cb) hal icCount rbufCmd chipData
            s).2.com
          = (contModeExecute_dataReady (cfg.withCallback none) hal icCount rbufCmd chipData
              s).2.com := by
  have hcfg : ∀ cb, contModeExecute_dataReady_records (cfg.withCallback cb) hal icCount rbufCmd
      chipData s
      = contModeExecute_dataReady_records (cfg.withCallback none) hal icCount rbufCmd chipData
          s := by
    intro cb
    unfold contModeExecute_dataReady_records
    exact contModeExecute_records_cfg (cfg.withCallback cb) (cfg.withCallback none) hal icCount
      rbufCmd chipData rfl _ _
  obtain ⟨l, hl, hs⟩ : ∃ l, (contModeExecute_dataReady_records (cfg.withCallback none) hal
      icCount rbufCmd chipData s).2.out = s.out ++ l ∧ OnlyStops l := by
    unfold contModeExecute_dataReady_records
    exact contModeExecute_records_out (cfg.withCallback none) hal icCount rbufCmd chipData
      false _
  generalize hR : contModeExecute_dataReady_records (cfg.withCallback none) hal icCount rbufCmd
    chipData s = R at hl
  refine ⟨l ++ (if R.1 then [ContAction.msgsnd CONT_MODE_REQUEST_DATA CONT_MODE_WORK] else []),
    List.replicate (zeroPendingCount icCount R.2.contModePendingSteps)
      (ContAction.msgsnd CONT_MODE_FEEDBACK CONT_MODE_IDLE),
    NoCalls_append _ _ (NoCalls_of_OnlyStops _ hs) (NoCalls_request _ _ _),
    NoCalls_replicate _ _ _, ?_⟩
  intro cb
  have hcb : ∀ c, (cfg.withCallback c).callback = c := fun _ => rfl
  unfold contModeExecute_dataReady contModeExecute_dataReady_callbacks
  simp only [hcfg, hR, hcb, contModeExecute_idle_eq, hl]
  cases cb with
  | none =>
    simp only [and_true]
    split_ifs <;> simp
  | some f =>
    simp only [and_true]
    split_ifs <;> simp

set_option maxRecDepth 100000 in
/-- C13 (counterexample): in the per-device mode, for one device whose scene has two layers, the
thread sends SENSOR_STOP once (in the first event after the Stop command) and then calls the
user callback three times, in that event and in the two following ones, before it sets the
device to `CONT_MODE_IDLE` and sends the feedback message. -/
theorem contModeExecute_three_callbacks_after_stop :
    (stopRun true 2).out
      = [ContAction.msgsnd CONT_MODE_REQUEST_DATA CONT_MODE_WORK,
          ContAction.msgsnd CONT_MODE_REQUEST_DATA CONT_MODE_WORK,
          ContAction.udpCallback (batchOf 10), ContAction.callback (batchOf 10),
          ContAction.stopIssued 0,
          ContAction.msgsnd CONT_MODE_REQUEST_DATA CONT_MODE_WORK,
          ContAction.udpCallback (batchOf 10), ContAction.callback (batchOf 10),
          ContAction.msgsnd CONT_MODE_REQUEST_DATA CONT_MODE_WORK,
          ContAction.udpCallback (batchOf 10), ContAction.callback (batchOf 10),
          ContAction.udpCallback (batchOf 10), ContAction.callback (batchOf 10),
          ContAction.msgsnd CONT_MODE_FEEDBACK CONT_MODE_IDLE]
    ∧ (stopRun true 2).com.dev.log = [(10, [8192, 5, 0, 57080])]
    ∧ callbackCount (afterStop 0 (stopRun true 2).out) = 3
    ∧ (stopRun true 2).contModeThread 0 = CONT_MODE_IDLE := by
  decide

/-- C15 (code bug): with the state machine in `CONT_MODE_IDLE`, no layer configurations in the
configuration and a failing `spiDriver_ReadSceneConfig`, `spiDriver_RunContinuousMode` returns
false although it has called `spiDriver_StartContinuousMode` and has sent the CTRL/WORK
message. In general the message is sent exactly when the mode of device 0 is
`CONT_MODE_IDLE`, and the result is true exactly when, in addition, layer configurations are
given or the read succeeds. -/
theorem spiDriver_RunContinuousMode_false_but_started :
    (spiDriver_RunContinuousMode failingReadSceneConfig recordedStartContinuousMode
        (fun _ => CONT_MODE_IDLE) (contCfg true) []).1 = false
    ∧ (spiDriver_RunContinuousMode failingReadSceneConfig recordedStartContinuousMode
        (fun _ => CONT_MODE_IDLE) (contCfg true) []).2.2.1 = [1, 2]
    ∧ (spiDriver_RunContinuousMode failingReadSceneConfig recordedStartContinuousMode
        (fun _ => CONT_MODE_IDLE) (contCfg true) []).2.2.2
        = [ContAction.msgsnd CONT_MODE_CTRL CONT_MODE_WORK]
    ∧ ∀ (ω : Type)
        (rd : ω → FuncResult_e × Option (List spiDriver_LayerConfig_t) × Nat × ω)
        (st : Option (List spiDriver_LayerConfig_t) → Nat → Option (List Nat) → Nat → ω →
          FuncResult_e × ω)
        (contModeThread : Nat → Nat) (cfg : ContModeCfg_t) (w : ω),
        (spiDriver_RunContinuousMode rd st contModeThread cfg w).2.2.2
          = (if contModeThread 0 = CONT_MODE_IDLE then
              [ContAction.msgsnd CONT_MODE_CTRL CONT_MODE_WORK] else [])
        ∧ ((spiDriver_RunContinuousMode rd st contModeThread cfg w).1 = true
          ↔ contModeThread 0 = CONT_MODE_IDLE
            ∧ ((cfg.layerConfigurations ≠ none ∧ cfg.layerConfigCount ≠ 0)
              ∨ (rd w).1 = SPI_DRV_FUNC_RES_OK)) := by
  refine ⟨by decide, by decide, by decide, ?_⟩
  intro ω rd st m cfg w
  unfold spiDriver_RunContinuousMode
  by_cases h1 : m 0 = CONT_MODE_IDLE
  · rw [if_pos h1, if_pos h1]
    by_cases h2 : cfg.layerConfigurations = none ∨ cfg.layerConfigCount = 0
    · rw [if_pos h2]
      simp only [decide_eq_true_eq, h1, true_and]
      constructor
      · intro h
        exact Or.inr h
      · intro h
        rcases h with h | h
        · rcases h2 with h2 | h2
          · exact absurd h2 h.1
          · exact absurd h2 h.2
        · exact h
    · rw [if_neg h2]
      simp only [h1, true_and]
      constructor
      · intro _
        left
        constructor
        · intro h
          exact h2 (Or.inl h)
        · intro h
          exact h2 (Or.inr h)
      · intro _
        trivial
  · rw [if_neg h1, if_neg h1]
    simp [h1]

theorem spiDriver_StopContinuousModeInt_params {σ : Type} (hal : DevHal σ) (ic : Nat)
    (drv : SpiDriver_State_t) (com : ComState σ) :
    (spiDriver_StopContinuousModeInt hal ic drv com).2.1.params = drv.params := by
  unfold spiDriver_StopContinuousModeInt
  simp only []
  by_cases h1 : (drv.params ic).contState = CONT_MODE_STATE_FINISHED
  · rw [if_pos h1]
    by_cases h2 : (drv.params ic).sceneLayersAmount > 1
    · simp only [h2, if_true]
    · simp only [h2, if_false]
  · rw [if_neg h1]

theorem AsyncRel_refl {σ : Type} (s : ContModeState σ) : AsyncRel s s :=
  ⟨rfl, rfl, rfl, fun _ => Or.inl ⟨rfl, rfl⟩⟩

theorem AsyncRel_trans {σ : Type} (s t u : ContModeState σ) (h1 : AsyncRel s t)
    (h2 : AsyncRel t u) : AsyncRel s u := by
  obtain ⟨a1, b1, c1, d1⟩ := h1
  obtain ⟨a2, b2, c2, d2⟩ := h2
  refine ⟨a2.trans a1, b2.trans b1, c2.trans c1, ?_⟩
  intro k
  rcases d1 k with ⟨e1, f1⟩ | ⟨e1, f1, g1⟩
  · rcases d2 k with ⟨e2, f2⟩ | ⟨e2, f2, g2⟩
    · exact Or.inl ⟨e2.trans e1, f2.trans f1⟩
    · right
      refine ⟨e1 ▸ e2, f2, ?_⟩
      rw [g2, a1]
  · rcases d2 k with ⟨e2, f2⟩ | ⟨e2, f2, g2⟩
    · right
      exact ⟨e1, e2.trans f1, f2.trans g1⟩
    · rw [f1] at e2
      exact absurd e2 (by decide)

theorem contModeExecute_stopOne_rel {σ : Type} (hal : DevHal σ) (icIdx : Nat)
    (s : ContModeState σ) (h : s.lastRequest icIdx = true) :
    AsyncRel s (contModeExecute_stopOne hal icIdx s) := by
  unfold contModeExecute_stopOne
  simp only []
  by_cases h1 : (s.spiDriver_currentState.params icIdx).contState = CONT_MODE_STATE_FINISHED
  · rw [if_pos h1]
    by_cases h2 : (spiDriver_StopContinuousModeInt hal icIdx s.spiDriver_currentState s.com).1
        = SPI_DRV_FUNC_RES_OK
    · rw [if_pos h2]
      refine ⟨spiDriver_StopContinuousModeInt_params _ _ _ _, rfl, rfl, ?_⟩
      intro k
      by_cases hk : k = icIdx
      · subst hk
        right
        refine ⟨h, ?_, ?_⟩
        · simp only [Function.update_same]
        · simp only [Function.update_same, spiDriver_StopContinuousModeInt_params]
          rfl
      · left
        simp only [Function.update_noteq hk]
        exact ⟨trivial, trivial⟩
    · rw [if_neg h2]
      exact ⟨spiDriver_StopContinuousModeInt_params _ _ _ _, rfl, rfl,
        fun _ => Or.inl ⟨rfl, rfl⟩⟩
  · rw [if_neg h1]
    exact AsyncRel_refl s

theorem contModeExecute_records_async {σ : Type} (cfg : ContModeCfg_t) (hal : DevHal σ)
    (icCount rbufCmd : Nat) (chipData : List spiDriver_ChipData_t)
    (hcfg : cfg.useAsyncSequence = true) :
    ∀ (newRequest : Bool) (s : ContModeState σ),
      AsyncRel s (contModeExecute_records cfg hal icCount rbufCmd chipData newRequest s).2 := by
  induction chipData with
  | nil =>
    intro nr s
    exact AsyncRel_refl s
  | cons rec rest ih =>
    intro nr s
    unfold contModeExecute_records
    simp only []
    split_ifs with h1 h2 h3 h4
    · exact ih _ _
    · exact ih _ _
    · exact AsyncRel_trans _ _ _
        (contModeExecute_stopOne_rel hal _ s (by simpa using h4)) (ih _ _)
    · exact ih _ _
    · exact ih _ _

theorem spiDriver_GetIcIndexById_lt (icCount : Nat) (drv : SpiDriver_State_t) (chip_id : Nat) :
    spiDriver_GetIcIndexById icCount drv chip_id < icCount
    ∨ spiDriver_GetIcIndexById icCount drv chip_id = MAX_IC_ID_NUMBER := by
  unfold spiDriver_GetIcIndexById
  simp only []
  split_ifs with h
  · right
    rfl
  · left
    omega

theorem contModeExecute_records_sync {σ : Type} (cfg : ContModeCfg_t) (hal : DevHal σ)
    (icCount rbufCmd : Nat) (chipData : List spiDriver_ChipData_t)
    (hcfg : cfg.useAsyncSequence = false) :
    ∀ (newRequest : Bool) (s : ContModeState σ),
      (contModeExecute_records cfg hal icCount rbufCmd chipData newRequest s).2 = s
      ∨ ∃ icIdx, icIdx < icCount ∧ s.lastRequest icIdx = true
          ∧ (contModeExecute_records cfg hal icCount rbufCmd chipData newRequest s).2
            = contModeExecute_stopAll hal icCount icIdx s := by
  induction chipData with
  | nil =>
    intro nr s
    left
    rfl
  | cons rec rest ih =>
    intro nr s
    unfold contModeExecute_records
    simp only []
    split_ifs with h1 h2 h3 h4 h5
    · exact ih _ _
    · exact ih _ _
    · rw [hcfg] at h5
      exact absurd h5 (by decide)
    · right
      refine ⟨_, ?_, by simpa using h4, rfl⟩
      rcases spiDriver_GetIcIndexById_lt icCount s.spiDriver_currentState rec.chip_id with h | h
      · exact h
      · exact absurd h (by omega)
    · exact ih _ _
    · exact ih _ _

theorem contModeExecute_stopAll_body_spec {σ : Type} (hal : DevHal σ) (icIdx ic : Nat)
    (s : ContModeState σ) :
    (contModeExecute_stopAll_body hal icIdx ic s).spiDriver_currentState.params
      = s.spiDriver_currentState.params
    ∧ (contModeExecute_stopAll_body hal icIdx ic s).contModeThread = s.contModeThread
    ∧ (contModeExecute_stopAll_body hal icIdx ic s).looping = s.looping
    ∧ (((contModeExecute_stopAll_body hal icIdx ic s).lastRequest
          = Function.update s.lastRequest ic false
        ∧ (contModeExecute_stopAll_body hal icIdx ic s).contModePendingSteps
          = Function.update s.contModePendingSteps ic
              (if (s.spiDriver_currentState.params icIdx).sceneLayersAmount = 1 then 2 else 1))
      ∨ ((contModeExecute_stopAll_body hal icIdx ic s).lastRequest = s.lastRequest
        ∧ (contModeExecute_stopAll_body hal icIdx ic s).contModePendingSteps
          = s.contModePendingSteps)) := by
  unfold contModeExecute_stopAll_body
  simp only []
  by_cases h2 : (spiDriver_StopContinuousModeInt hal ic s.spiDriver_currentState s.com).1
      = SPI_DRV_FUNC_RES_OK
  · rw [if_pos h2]
    refine ⟨spiDriver_StopContinuousModeInt_params _ _ _ _, rfl, rfl, Or.inl ⟨rfl, ?_⟩⟩
    simp only [spiDriver_StopContinuousModeInt_params]
  · rw [if_neg h2]
    exact ⟨spiDriver_StopContinuousModeInt_params _ _ _ _, rfl, rfl, Or.inr ⟨rfl, rfl⟩⟩

/-- What the loop over all devices of the synchronized stop does: every device below `n`
whose stop succeeded has its flag cleared and its value set, every other device keeps both. -/
theorem contModeExecute_stopAll_loop_spec {σ : Type} (hal : DevHal σ) (icIdx : Nat)
    (s : ContModeState σ) (n : Nat) :
    (forIc n (contModeExecute_stopAll_body hal icIdx) s).spiDriver_currentState.params
      = s.spiDriver_currentState.params
    ∧ (forIc n (contModeExecute_stopAll_body hal icIdx) s).contModeThread = s.contModeThread
    ∧ (forIc n (contModeExecute_stopAll_body hal icIdx) s).looping = s.looping
    ∧ ∀ k, (k < n
          ∧ (forIc n (contModeExecute_stopAll_body hal icIdx) s).lastRequest k = false
          ∧ (forIc n (contModeExecute_stopAll_body hal icIdx) s).contModePendingSteps k
            = (if (s.spiDriver_currentState.params icIdx).sceneLayersAmount = 1 then 2 else 1))
        ∨ ((forIc n (contModeExecute_stopAll_body hal icIdx) s).lastRequest k = s.lastRequest k
          ∧ (forIc n (contModeExecute_stopAll_body hal icIdx) s).contModePendingSteps k
            = s.contModePendingSteps k) := by
  induction n with
  | zero => exact ⟨rfl, rfl, rfl, fun _ => Or.inr ⟨rfl, rfl⟩⟩
  | succ j ih =>
    obtain ⟨a, b, c, d⟩ := ih
    rw [forIc_succ]
    obtain ⟨a2, b2, c2, d2⟩ := contModeExecute_stopAll_body_spec hal icIdx j
      (forIc j (contModeExecute_stopAll_body hal icIdx) s)
    refine ⟨a2.trans a, b2.trans b, c2.trans c, ?_⟩
    intro k
    rcases d2 with ⟨e, f⟩ | ⟨e, f⟩
    · rw [e, f, a]
      by_cases hk : k = j
      · subst hk
        left
        simp only [Function.update_same]
        exact ⟨Nat.lt_succ_self _, trivial, trivial⟩
      · simp only [Function.update_noteq hk]
        rcases d k with ⟨g1, g2, g3⟩ | ⟨g1, g2⟩
        · exact Or.inl ⟨Nat.lt_succ_of_lt g1, g2, g3⟩
        · exact Or.inr ⟨g1, g2⟩
    · rw [e, f]
      rcases d k with ⟨g1, g2, g3⟩ | ⟨g1, g2⟩
      · exact Or.inl ⟨Nat.lt_succ_of_lt g1, g2, g3⟩
      · exact Or.inr ⟨g1, g2⟩

theorem contModeExecute_decrement_spec (n : Nat) (p : Nat → Nat) :
    ∀ k, contModeExecute_decrement n p k
      = if k < n ∧ p k < CONT_MODE_MAX_PENDING ∧ 0 < p k then p k - 1 else p k := by
  unfold contModeExecute_decrement
  induction n with
  | zero =>
    intro k
    simp [forIc_zero]
  | succ j ih =>
    intro k
    rw [forIc_succ]
    generalize forIc j (fun ic p =>
        if p ic < CONT_MODE_MAX_PENDING then
          if p ic > 0 then Function.update p ic (p ic - 1) else p
        else p) p = q at ih
    have hj : q j = p j := by
      rw [ih j]
      simp
    simp only [hj]
    by_cases hk : k = j
    · subst hk
      by_cases h1 : p k < CONT_MODE_MAX_PENDING
      · by_cases h2 : p k > 0
        · simp [h1, h2]
        · simp [h1, h2, hj]
      · simp [h1, hj]
    · have hq : (if p j < CONT_MODE_MAX_PENDING then
          if p j > 0 then Function.update q j (p j - 1) else q else q) k = q k := by
        split_ifs
        · exact Function.update_noteq hk _ _
        · rfl
        · rfl
      rw [hq, ih k]
      have h : k < j + 1 ↔ k < j := by omega
      simp only [h]

theorem contModeExecute_stopAll_frame {σ : Type} (hal : DevHal σ) (n icIdx : Nat)
    (s : ContModeState σ) :
    (contModeExecute_stopAll hal n icIdx s).spiDriver_currentState.params
      = s.spiDriver_currentState.params
    ∧ (contModeExecute_stopAll hal n icIdx s).contModeThread = s.contModeThread
    ∧ (contModeExecute_stopAll hal n icIdx s).looping = s.looping := by
  obtain ⟨a, b, c, _⟩ := contModeExecute_stopAll_loop_spec hal icIdx s n
  unfold contModeExecute_stopAll
  simp only []
  split_ifs
  · exact ⟨a, b, c⟩
  · exact ⟨a, b, c⟩

/-- The synchronized stop triggered by a device whose scene does not have exactly one layer:
every device whose stop succeeded has its flag cleared and the pending-steps value 1. -/
theorem contModeExecute_stopAll_spec {σ : Type} (hal : DevHal σ) (n icIdx : Nat)
    (s : ContModeState σ)
    (hL : (s.spiDriver_currentState.params icIdx).sceneLayersAmount ≠ 1) (k : Nat) :
    (k < n ∧ (contModeExecute_stopAll hal n icIdx s).lastRequest k = false
        ∧ (contModeExecute_stopAll hal n icIdx s).contModePendingSteps k = 1)
    ∨ ((contModeExecute_stopAll hal n icIdx s).lastRequest k = s.lastRequest k
        ∧ (contModeExecute_stopAll hal n icIdx s).contModePendingSteps k
          = s.contModePendingSteps k) := by
  obtain ⟨a, _, _, d⟩ := contModeExecute_stopAll_loop_spec hal icIdx s n
  unfold contModeExecute_stopAll
  simp only []
  rw [a, if_neg hL]
  have h := d k
  rw [if_neg hL] at h
  exact h

/-- The record loop keeps the modes and the flag `looping`. -/
theorem contModeExecute_records_frame {σ : Type} (cfg : ContModeCfg_t) (hal : DevHal σ)
    (icCount rbufCmd : Nat) (chipData : List spiDriver_ChipData_t) (newRequest : Bool)
    (s : ContModeState σ) :
    (contModeExecute_records cfg hal icCount rbufCmd chipData newRequest s).2.contModeThread
      = s.contModeThread
    ∧ (contModeExecute_records cfg hal icCount rbufCmd chipData newRequest s).2.looping
      = s.looping
    ∧ (contModeExecute_records cfg hal icCount rbufCmd chipData newRequest
        s).2.spiDriver_currentState.params = s.spiDriver_currentState.params := by
  cases hcfg : cfg.useAsyncSequence with
  | true =>
    obtain ⟨a, b, c, _⟩ := contModeExecute_records_async cfg hal icCount rbufCmd chipData hcfg
      newRequest s
    exact ⟨b, c, a⟩
  | false =>
    rcases contModeExecute_records_sync cfg hal icCount rbufCmd chipData hcfg newRequest s
      with h | ⟨icIdx, _, _, h⟩
    · rw [h]
      exact ⟨rfl, rfl, rfl⟩
    · rw [h]
      obtain ⟨a, b, c⟩ := contModeExecute_stopAll_frame hal icCount icIdx s
      exact ⟨b, c, a⟩

/-- The variables after a data-ready event in terms of the state `R` after the record loop. -/
theorem contModeExecute_dataReady_fields {σ : Type} (cfg : ContModeCfg_t) (hal : DevHal σ)
    (n rbufCmd : Nat) (chipData : List spiDriver_ChipData_t) (u : ContModeState σ) :
    (contModeExecute_dataReady cfg hal n rbufCmd chipData u).2.lastRequest
      = (contModeExecute_dataReady_records cfg hal n rbufCmd chipData u).2.lastRequest
    ∧ (contModeExecute_dataReady cfg hal n rbufCmd chipData u).2.looping
      = (contModeExecute_dataReady_records cfg hal n rbufCmd chipData u).2.looping
    ∧ (∀ k, (contModeExecute_dataReady cfg hal n rbufCmd chipData u).2.contModePendingSteps k
      = if k < n ∧ (contModeExecute_dataReady_records cfg hal n rbufCmd chipData
            u).2.contModePendingSteps k = 0 then CONT_MODE_MAX_PENDING
        else (contModeExecute_dataReady_records cfg hal n rbufCmd chipData
            u).2.contModePendingSteps k)
    ∧ (∀ k, (contModeExecute_dataReady cfg hal n rbufCmd chipData u).2.contModeThread k
      = if k < n ∧ (contModeExecute_dataReady_records cfg hal n rbufCmd chipData
            u).2.contModePendingSteps k = 0 then CONT_MODE_IDLE
        else (contModeExecute_dataReady_records cfg hal n rbufCmd chipData
            u).2.contModeThread k)
    ∧ (∀ k, (contModeExecute_dataReady cfg hal n rbufCmd chipData
          u).2.spiDriver_currentState.params k
      = if k < n ∧ (contModeExecute_dataReady_records cfg hal n rbufCmd chipData
            u).2.contModePendingSteps k = 0 then
          ((contModeExecute_dataReady_records cfg hal n rbufCmd chipData
            u).2.spiDriver_currentState.params k).idled
        else (contModeExecute_dataReady_records cfg hal n rbufCmd chipData
            u).2.spiDriver_currentState.params k) := by
  unfold contModeExecute_dataReady contModeExecute_dataReady_callbacks
  simp only []
  rw [contModeExecute_idle_eq]
  exact ⟨rfl, rfl, fun _ => rfl, fun _ => rfl, fun _ => rfl⟩

theorem contModeExecute_dataReady_looping {σ : Type} (cfg : ContModeCfg_t) (hal : DevHal σ)
    (n rbufCmd : Nat) (chipData : List spiDriver_ChipData_t) (u : ContModeState σ) :
    (contModeExecute_dataReady cfg hal n rbufCmd chipData u).2.looping = u.looping := by
  rw [(contModeExecute_dataReady_fields cfg hal n rbufCmd chipData u).2.1]
  unfold contModeExecute_dataReady_records
  rw [(contModeExecute_records_frame cfg hal n rbufCmd chipData false _).2.1]

theorem contModeExecute_command_looping {σ : Type} (n cmd : Nat) (s : ContModeState σ) :
    (contModeExecute_command n cmd s).looping
      = if cmd = CONT_MODE_IDLE ∨ cmd = CONT_MODE_WORK ∨ cmd = CONT_MODE_STOP then s.looping
        else false := by
  unfold contModeExecute_command
  simp only []
  split_ifs <;> simp_all

theorem contModeExecute_command_terminating {σ : Type} (n cmd : Nat) (s : ContModeState σ)
    (h0 : cmd ≠ CONT_MODE_IDLE) (h1 : cmd ≠ CONT_MODE_WORK) (h2 : cmd ≠ CONT_MODE_STOP) :
    contModeExecute_command n cmd s
      = { contModeThread := forIc n (fun ic m => Function.update m ic cmd) s.contModeThread
          contModePendingSteps := s.contModePendingSteps
          lastRequest := s.lastRequest
          looping := false
          spiDriver_currentState := s.spiDriver_currentState
          com := s.com
          out := s.out } := by
  unfold contModeExecute_command
  simp only [h0, h1, h2, if_false]

theorem ContModeInput_terminates_iff (inp : ContModeInput) :
    inp.terminates = true ↔ ∃ cmd, inp.ctrl = some cmd ∧ cmd ≠ CONT_MODE_IDLE
      ∧ cmd ≠ CONT_MODE_WORK ∧ cmd ≠ CONT_MODE_STOP := by
  unfold ContModeInput.terminates
  cases inp.ctrl with
  | none => simp
  | some c => simp [and_assoc]

theorem contModeExecute_iteration_looping {σ : Type} (cfg : ContModeCfg_t) (hal : DevHal σ)
    (n : Nat) (inp : ContModeInput) (s : ContModeState σ) :
    (contModeExecute_iteration cfg hal n inp s).looping
      = if inp.terminates then false else s.looping := by
  obtain ⟨sh, ctrl, data⟩ := inp
  cases ctrl with
  | none =>
    have ht : ContModeInput.terminates { shared := sh, ctrl := none, data := data } = false :=
      rfl
    rw [ht]
    unfold contModeExecute_iteration
    simp only []
    by_cases h1 : ContModeWork n (s.withShared sh).contModeThread = true
    · rw [if_pos h1]
      cases data with
      | none => rfl
      | some rbuf =>
        simp only []
        rw [contModeExecute_dataReady_looping]
        rfl
    · rw [if_neg h1]
      rfl
  | some cmd =>
    have hit : contModeExecute_iteration cfg hal n
        { shared := sh, ctrl := some cmd, data := data } s
        = contModeExecute_command n cmd (s.withShared sh) := rfl
    rw [hit, contModeExecute_command_looping]
    have hw : (s.withShared sh).looping = s.looping := rfl
    rw [hw]
    by_cases h : cmd = CONT_MODE_IDLE ∨ cmd = CONT_MODE_WORK ∨ cmd = CONT_MODE_STOP
    · rw [if_pos h]
      have ht : ContModeInput.terminates { shared := sh, ctrl := some cmd, data := data }
          = false := by
        unfold ContModeInput.terminates
        rcases h with h | h | h <;> simp [h]
      rw [ht]
      rfl
    · rw [if_neg h]
      push_neg at h
      have ht : ContModeInput.terminates { shared := sh, ctrl := some cmd, data := data }
          = true := by
        unfold ContModeInput.terminates
        simp [h.1, h.2.1, h.2.2]
      rw [ht]
      rfl

theorem contModeExecute_loop_append {σ : Type} (cfg : ContModeCfg_t) (hal : DevHal σ) (n : Nat)
    (a b : List ContModeInput) :
    ∀ s : ContModeState σ, contModeExecute_loop cfg hal n (a ++ b) s
      = contModeExecute_loop cfg hal n b (contModeExecute_loop cfg hal n a s) := by
  induction a with
  | nil =>
    intro s
    rfl
  | cons x rest ih =>
    intro s
    simp only [List.cons_append, contModeExecute_loop]
    split_ifs with h
    · exact ih _
    · cases b with
      | nil => rfl
      | cons y r =>
        unfold contModeExecute_loop
        rw [if_neg h]

theorem contModeExecute_loop_running {σ : Type} (cfg : ContModeCfg_t) (hal : DevHal σ) (n : Nat)
    (inputs : List ContModeInput) (hin : ∀ i ∈ inputs, i.terminates = false) :
    ∀ s : ContModeState σ, s.looping = true →
      (contModeExecute_loop cfg hal n inputs s).looping = true := by
  induction inputs with
  | nil =>
    intro s hs
    exact hs
  | cons x rest ih =>
    intro s hs
    unfold contModeExecute_loop
    rw [if_pos hs]
    apply ih (fun i hi => hin i (List.mem_cons_of_mem _ hi))
    rw [contModeExecute_iteration_looping, hin x (List.mem_cons_self _ _)]
    exact hs

theorem contModeExecute_loop_stopped {σ : Type} (cfg : ContModeCfg_t) (hal : DevHal σ) (n : Nat)
    (inputs : List ContModeInput) (s : ContModeState σ) (hs : s.looping = false) :
    contModeExecute_loop cfg hal n inputs s = s := by
  cases inputs with
  | nil => rfl
  | cons x rest =>
    unfold contModeExecute_loop
    rw [hs]
    rfl

theorem forIc_update_twice {α : Type} (n : Nat) (v w : α) (m : Nat → α) :
    forIc n (fun ic m => Function.update m ic w) (forIc n (fun ic m => Function.update m ic v) m)
      = forIc n (fun ic m => Function.update m ic w) m := by
  funext k
  rw [forIc_update_const, forIc_update_const, forIc_update_const]
  split_ifs <;> rfl

/-- C16: in the command switch, a command terminates the loop (clears `looping`) exactly when
it is none of Idle, Work and Stop, so Exit, Error, NotInited and every value outside the
enumeration do and Idle, Work and Stop never do; an iteration without a command never
terminates the loop. When the thread receives inputs that do not terminate the loop and then
a terminating command, `contModeExecute` ends with `looping` cleared and every configured
device in the mode `CONT_MODE_NOT_INITED`, it consumes no later input, and the final state is
the same as for the Exit command; as long as no terminating command arrives the loop
keeps running. -/
theorem contModeExecute_termination {σ : Type} (cfg : ContModeCfg_t) (hal : DevHal σ)
    (icCount : Nat) (s0 : ContModeState σ) :
    (∀ (cmd : Nat) (s : ContModeState σ), s.looping = true →
      ((contModeExecute_command icCount cmd s).looping = false
        ↔ cmd ≠ CONT_MODE_IDLE ∧ cmd ≠ CONT_MODE_WORK ∧ cmd ≠ CONT_MODE_STOP))
    ∧ (∀ (inp : ContModeInput) (s : ContModeState σ), inp.ctrl = none →
      (contModeExecute_iteration cfg hal icCount inp s).looping = s.looping)
    ∧ (∀ (pre post : List ContModeInput) (inp : ContModeInput),
      (∀ i ∈ pre, i.terminates = false) → inp.terminates = true →
      (contModeExecute cfg hal icCount (pre ++ inp :: post) s0).looping = false
      ∧ (∀ ic < icCount,
          (contModeExecute cfg hal icCount (pre ++ inp :: post) s0).contModeThread ic
            = CONT_MODE_NOT_INITED)
      ∧ contModeExecute cfg hal icCount (pre ++ inp :: post) s0
          = contModeExecute cfg hal icCount
              (pre ++ [{ shared := inp.shared, ctrl := some CONT_MODE_EXIT, data := inp.data }])
              s0)
    ∧ (∀ inputs : List ContModeInput, (∀ i ∈ inputs, i.terminates = false) →
      (contModeExecute cfg hal icCount inputs s0).looping = true) := by
  refine ⟨?_, ?_, ?_, ?_⟩
  · intro cmd s hs
    rw [contModeExecute_command_looping, hs]
    by_cases h : cmd = CONT_MODE_IDLE ∨ cmd = CONT_MODE_WORK ∨ cmd = CONT_MODE_STOP
    · rw [if_pos h]
      constructor
      · intro hc
        exact absurd hc (by decide)
      · intro hc
        rcases h with h | h | h
        · exact absurd h hc.1
        · exact absurd h hc.2.1
        · exact absurd h hc.2.2
    · rw [if_neg h]
      push_neg at h
      exact ⟨fun _ => h, fun _ => rfl⟩
  · intro inp s hc
    rw [contModeExecute_iteration_looping]
    have : inp.terminates = false := by
      unfold ContModeInput.terminates
      rw [hc]
    rw [this]
    rfl
  · intro pre post inp hpre hinp
    obtain ⟨cmd, hc, h0, h1, h2⟩ := (ContModeInput_terminates_iff inp).mp hinp
    have key : ∀ (c : Nat) (rest : List ContModeInput), c ≠ CONT_MODE_IDLE →
        c ≠ CONT_MODE_WORK → c ≠ CONT_MODE_STOP →
        contModeExecute cfg hal icCount
          (pre ++ { shared := inp.shared, ctrl := some c, data := inp.data } :: rest) s0
          = { contModeThread :=
                forIc icCount (fun ic m => Function.update m ic CONT_MODE_NOT_INITED)
                  (contModeExecute_loop cfg hal icCount pre
                    { contModeThread := s0.contModeThread
                      contModePendingSteps :=
                        forIc icCount (fun ic p => Function.update p ic CONT_MODE_MAX_PENDING)
                          s0.contModePendingSteps
                      lastRequest := fun _ => false
                      looping := true
                      spiDriver_currentState := s0.spiDriver_currentState
                      com := s0.com
                      out := s0.out }).contModeThread
              contModePendingSteps := (contModeExecute_loop cfg hal icCount pre
                    { contModeThread := s0.contModeThread
                      contModePendingSteps :=
                        forIc icCount (fun ic p => Function.update p ic CONT_MODE_MAX_PENDING)
                          s0.contModePendingSteps
                      lastRequest := fun _ => false
                      looping := true
                      spiDriver_currentState := s0.spiDriver_currentState
                      com := s0.com
                      out := s0.out }).contModePendingSteps
              lastRequest := (contModeExecute_loop cfg hal icCount pre
                    { contModeThread := s0.contModeThread
                      contModePendingSteps :=
                        forIc icCount (fun ic p => Function.update p ic CONT_MODE_MAX_PENDING)
                          s0.contModePendingSteps
                      lastRequest := fun _ => false
                      looping := true
                      spiDriver_currentState := s0.spiDriver_currentState
                      com := s0.com
                      out := s0.out }).lastRequest
              looping := false
              spiDriver_currentState := inp.shared (contModeExecute_loop cfg hal icCount pre
                    { contModeThread := s0.contModeThread
                      contModePendingSteps :=
                        forIc icCount (fun ic p => Function.update p ic CONT_MODE_MAX_PENDING)
                          s0.contModePendingSteps
                      lastRequest := fun _ => false
                      looping := true
                      spiDriver_currentState := s0.spiDriver_currentState
                      com := s0.com
                      out := s0.out }).spiDriver_currentState
              com := (contModeExecute_loop cfg hal icCount pre
                    { contModeThread := s0.contModeThread
                      contModePendingSteps :=
                        forIc icCount (fun ic p => Function.update p ic CONT_MODE_MAX_PENDING)
                          s0.contModePendingSteps
                      lastRequest := fun _ => false
                      looping := true
                      spiDriver_currentState := s0.spiDriver_currentState
                      com := s0.com
                      out := s0.out }).com
              out := (contModeExecute_loop cfg hal icCount pre
                    { contModeThread := s0.contModeThread
                      contModePendingSteps :=
                        forIc icCount (fun ic p => Function.update p ic CONT_MODE_MAX_PENDING)
                          s0.contModePendingSteps
                      lastRequest := fun _ => false
                      looping := true
                      spiDriver_currentState := s0.spiDriver_currentState
                      com := s0.com
                      out := s0.out }).out } := by
      intro c rest c0 c1 c2
      unfold contModeExecute
      simp only []
      rw [contModeExecute_loop_append]
      have hrun := contModeExecute_loop_running cfg hal icCount pre hpre
        { contModeThread := s0.contModeThread
          contModePendingSteps :=
            forIc icCount (fun ic p => Function.update p ic CONT_MODE_MAX_PENDING)
              s0.contModePendingSteps
          lastRequest := fun _ => false
          looping := true
          spiDriver_currentState := s0.spiDriver_currentState
          com := s0.com
          out := s0.out } rfl
      generalize contModeExecute_loop cfg hal icCount pre _ = t at hrun ⊢
      unfold contModeExecute_loop
      rw [if_pos hrun]
      have hit : contModeExecute_iteration cfg hal icCount
          { shared := inp.shared, ctrl := some c, data := inp.data } t
          = contModeExecute_command icCount c (t.withShared inp.shared) := rfl
      rw [hit, contModeExecute_command_terminating _ _ _ c0 c1 c2,
        contModeExecute_loop_stopped _ _ _ _ _ rfl]
      simp only [Bool.false_eq_true, if_false, forIc_update_twice]
      rfl
    have hinp_eq : inp = { shared := inp.shared, ctrl := some cmd, data := inp.data } := by
      cases inp
      simp only at hc
      subst hc
      rfl
    have e1 := key cmd post h0 h1 h2
    rw [← hinp_eq] at e1
    have e2 := key CONT_MODE_EXIT [] (by decide) (by decide) (by decide)
    refine ⟨?_, ?_, ?_⟩
    · rw [e1]
    · intro ic hic
      rw [e1]
      simp only [forIc_update_const, hic, if_true]
    · rw [e1, e2]
  · intro inputs hin
    unfold contModeExecute
    simp only []
    have hrun := contModeExecute_loop_running cfg hal icCount inputs hin
      { contModeThread := s0.contModeThread
        contModePendingSteps :=
          forIc icCount (fun ic p => Function.update p ic CONT_MODE_MAX_PENDING)
            s0.contModePendingSteps
        lastRequest := fun _ => false
        looping := true
        spiDriver_currentState := s0.spiDriver_currentState
        com := s0.com
        out := s0.out } rfl
    rw [if_pos hrun]
    exact hrun

/-- C16 (witness): after the Work command and one batch, the Exit command, the Error command
and the value 9 each end the thread with device 0 in the mode `CONT_MODE_NOT_INITED`, while
after the Stop command the thread is still running with device 0 in the mode
`CONT_MODE_WORK`. -/
theorem contModeExecute_termination_witness :
    (contModeExecute (contCfg true) stopHal 1
        ([ctrlInput CONT_MODE_WORK, dataInput 10] ++ ctrlInput CONT_MODE_EXIT :: [dataInput 10])
        (initContMode (driverStateOf 2 CONT_MODE_STATE_STARTED)
          { sel := 3, log := [] })).contModeThread 0 = CONT_MODE_NOT_INITED
    ∧ (contModeExecute (contCfg true) stopHal 1
        ([ctrlInput CONT_MODE_WORK, dataInput 10] ++ ctrlInput CONT_MODE_ERROR :: [])
        (initContMode (driverStateOf 2 CONT_MODE_STATE_STARTED)
          { sel := 3, log := [] })).contModeThread 0 = CONT_MODE_NOT_INITED
    ∧ (contModeExecute (contCfg true) stopHal 1
        ([ctrlInput CONT_MODE_WORK, dataInput 10] ++ ctrlInput 9 :: [])
        (initContMode (driverStateOf 2 CONT_MODE_STATE_STARTED)
          { sel := 3, log := [] })).looping = false
    ∧ (contModeExecute (contCfg true) stopHal 1
        [ctrlInput CONT_MODE_WORK, dataInput 10, ctrlInput CONT_MODE_STOP]
        (initContMode (driverStateOf 2 CONT_MODE_STATE_STARTED)
          { sel := 3, log := [] })).looping = true
    ∧ (contModeExecute (contCfg true) stopHal 1
        [ctrlInput CONT_MODE_WORK, dataInput 10, ctrlInput CONT_MODE_STOP]
        (initContMode (driverStateOf 2 CONT_MODE_STATE_STARTED)
          { sel := 3, log := [] })).contModeThread 0 = CONT_MODE_WORK :=
  ⟨((contModeExecute_termination (contCfg true) stopHal 1
      (initContMode (driverStateOf 2 CONT_MODE_STATE_STARTED) { sel := 3, log := [] })).2.2.1
      [ctrlInput CONT_MODE_WORK, dataInput 10] [dataInput 10] (ctrlInput CONT_MODE_EXIT)
      (by decide) (by decide)).2.1 0 (by decide),
    ((contModeExecute_termination (contCfg true) stopHal 1
      (initContMode (driverStateOf 2 CONT_MODE_STATE_STARTED) { sel := 3, log := [] })).2.2.1
      [ctrlInput CONT_MODE_WORK, dataInput 10] [] (ctrlInput CONT_MODE_ERROR)
      (by decide) (by decide)).2.1 0 (by decide),
    ((contModeExecute_termination (contCfg true) stopHal 1
      (initContMode (driverStateOf 2 CONT_MODE_STATE_STARTED) { sel := 3, log := [] })).2.2.1
      [ctrlInput CONT_MODE_WORK, dataInput 10] [] (ctrlInput 9)
      (by decide) (by decide)).1,
    (contModeExecute_termination (contCfg true) stopHal 1
      (initContMode (driverStateOf 2 CONT_MODE_STATE_STARTED) { sel := 3, log := [] })).2.2.2
      [ctrlInput CONT_MODE_WORK, dataInput 10, ctrlInput CONT_MODE_STOP] (by decide),
    by decide⟩

theorem stopPending_eq (L : Nat) (h1 : 1 ≤ L) (h2 : L ≤ 32) : stopPending L = max L 2 := by
  unfold stopPending
  have : L % 65536 = L := Nat.mod_eq_of_lt (by omega)
  rw [this]
  split_ifs <;> omega

/-- One data-ready event while the pending steps of device `ic` run out. -/
theorem contModeExecute_drain_step {σ : Type} (cfg : ContModeCfg_t) (hal : DevHal σ)
    (n ic p rbufCmd : Nat) (chipData : List spiDriver_ChipData_t) (u : ContModeState σ)
    (hic : ic < n) (hp : u.contModePendingSteps ic = p) (hp0 : 0 < p)
    (hpm : p < CONT_MODE_MAX_PENDING) (hf : DrainFlags cfg n ic u) :
    DrainFlags cfg n ic (contModeExecute_dataReady cfg hal n rbufCmd chipData u).2
    ∧ (p = 1 →
        (contModeExecute_dataReady cfg hal n rbufCmd chipData u).2.contModeThread ic
          = CONT_MODE_IDLE
        ∧ ((contModeExecute_dataReady cfg hal n rbufCmd chipData
            u).2.spiDriver_currentState.params ic).contState = CONT_MODE_STATE_IDLE
        ∧ (contModeExecute_dataReady cfg hal n rbufCmd chipData u).2.contModePendingSteps ic
          = CONT_MODE_MAX_PENDING)
    ∧ (1 < p →
        (contModeExecute_dataReady cfg hal n rbufCmd chipData u).2.contModePendingSteps ic
          = p - 1
        ∧ (contModeExecute_dataReady cfg hal n rbufCmd chipData u).2.contModeThread ic
          = u.contModeThread ic) := by
  obtain ⟨f1, _, f3, f4, f5⟩ := contModeExecute_dataReady_fields cfg hal n rbufCmd chipData u
  have hdec : contModeExecute_decrement n u.contModePendingSteps ic = p - 1 := by
    rw [contModeExecute_decrement_spec, hp]
    simp [hic, hp0, hpm]
  have hR : DrainFlags cfg n ic (contModeExecute_dataReady_records cfg hal n rbufCmd chipData u).2
      ∧ (contModeExecute_dataReady_records cfg hal n rbufCmd chipData u).2.contModePendingSteps
          ic = p - 1
      ∧ (contModeExecute_dataReady_records cfg hal n rbufCmd chipData u).2.contModeThread
          = u.contModeThread := by
    unfold contModeExecute_dataReady_records
    rcases hf with ⟨ha, hl⟩ | ⟨ha, hl⟩
    · obtain ⟨_, b, _, d⟩ := contModeExecute_records_async cfg hal n rbufCmd chipData ha false
        { contModeThread := u.contModeThread
          contModePendingSteps := contModeExecute_decrement n u.contModePendingSteps
          lastRequest := u.lastRequest
          looping := u.looping
          spiDriver_currentState := u.spiDriver_currentState
          com := u.com
          out := u.out }
      simp only [] at b d
      rcases d ic with ⟨e1, e2⟩ | ⟨e, _, _⟩
      · exact ⟨Or.inl ⟨ha, e1.trans hl⟩, e2.trans hdec, b⟩
      · rw [hl] at e
        exact absurd e (by decide)
    · rcases contModeExecute_records_sync cfg hal n rbufCmd chipData ha false
        { contModeThread := u.contModeThread
          contModePendingSteps := contModeExecute_decrement n u.contModePendingSteps
          lastRequest := u.lastRequest
          looping := u.looping
          spiDriver_currentState := u.spiDriver_currentState
          com := u.com
          out := u.out } with h | ⟨icIdx, h1, h2, _⟩
      · rw [h]
        exact ⟨Or.inr ⟨ha, hl⟩, hdec, rfl⟩
      · simp only [] at h2
        rw [hl icIdx h1] at h2
        exact absurd h2 (by decide)
  obtain ⟨r1, r2, r3⟩ := hR
  refine ⟨?_, ?_, ?_⟩
  · unfold DrainFlags at r1 ⊢
    rw [f1]
    exact r1
  · intro h1
    have hz : (contModeExecute_dataReady_records cfg hal n rbufCmd chipData
        u).2.contModePendingSteps ic = 0 := by
      rw [r2, h1]
    refine ⟨?_, ?_, ?_⟩
    · rw [f4 ic, if_pos ⟨hic, hz⟩]
    · rw [f5 ic, if_pos ⟨hic, hz⟩]
      rfl
    · rw [f3 ic, if_pos ⟨hic, hz⟩]
  · intro h1
    have hz : ¬ (ic < n ∧ (contModeExecute_dataReady_records cfg hal n rbufCmd chipData
        u).2.contModePendingSteps ic = 0) := by
      rw [r2]
      omega
    refine ⟨?_, ?_⟩
    · rw [f3 ic, if_neg hz, r2]
    · rw [f4 ic, if_neg hz, r3]

/-- The pending steps of device `ic` run out in exactly `p` data-ready events. -/
theorem contModeExecute_drain_run {σ : Type} (cfg : ContModeCfg_t) (hal : DevHal σ)
    (n ic : Nat) (hic : ic < n)
    (evs : List ((SpiDriver_State_t → SpiDriver_State_t) × DataReady)) :
    ∀ (p : Nat) (u : ContModeState σ), u.contModePendingSteps ic = p → 0 < p →
      p < CONT_MODE_MAX_PENDING → DrainFlags cfg n ic u →
      (∀ j, j < p → j ≤ evs.length →
        (contModeExecute_events cfg hal n (evs.take j) u).contModePendingSteps ic = p - j
        ∧ (contModeExecute_events cfg hal n (evs.take j) u).contModeThread ic
          = u.contModeThread ic)
      ∧ (p ≤ evs.length →
        (contModeExecute_events cfg hal n (evs.take p) u).contModeThread ic = CONT_MODE_IDLE
        ∧ ((contModeExecute_events cfg hal n (evs.take p) u).spiDriver_currentState.params
            ic).contState = CONT_MODE_STATE_IDLE
        ∧ (contModeExecute_events cfg hal n (evs.take p) u).contModePendingSteps ic
          = CONT_MODE_MAX_PENDING) := by
  induction evs with
  | nil =>
    intro p u hp hp0 hpm hf
    constructor
    · intro j _ hj
      have : j = 0 := by simpa using hj
      subst this
      exact ⟨hp, rfl⟩
    · intro h
      simp at h
      omega
  | cons e rest ih =>
    intro p u hp hp0 hpm hf
    have hf2 : DrainFlags cfg n ic (u.withShared e.1) := hf
    have hstep := contModeExecute_drain_step cfg hal n ic p e.2.cmd e.2.chipData
      (u.withShared e.1) hic hp hp0 hpm hf2
    obtain ⟨s1, s2, s3⟩ := hstep
    constructor
    · intro j hj hjl
      cases j with
      | zero => exact ⟨hp, rfl⟩
      | succ i =>
        have hp1 : 1 < p := by omega
        obtain ⟨q1, q2⟩ := s3 hp1
        have hrec := (ih (p - 1) _ q1 (by omega) (by omega) s1).1 i (by omega)
          (by simpa using hjl)
        simp only [List.take_succ_cons, contModeExecute_events]
        refine ⟨?_, ?_⟩
        · rw [hrec.1]
          omega
        · rw [hrec.2, q2]
          rfl
    · intro hle
      by_cases hp1 : p = 1
      · subst hp1
        simp only [List.take_succ_cons, List.take_zero, contModeExecute_events]
        exact s2 rfl
      · have hp2 : 1 < p := by omega
        obtain ⟨q1, _⟩ := s3 hp2
        have hrec := (ih (p - 1) _ q1 (by omega) (by omega) s1).2 (by
          simp at hle
          omega)
        obtain ⟨p', rfl⟩ : ∃ p', p = p' + 1 := ⟨p - 1, by omega⟩
        simp only [List.take_succ_cons, contModeExecute_events]
        exact hrec

set_option maxRecDepth 100000 in
/-- C11 (counterexample): in the synchronized mode with one device whose scene has three
layers, the device is stopped in the first event after the Stop command and is idle at the
end of the next event: one event, not max(3, 2) = 3; with a scene of one layer it is also
one event, not two. -/
theorem contModeExecute_sync_stop_drains_in_one_event :
    (stopRunAfter false 3 0).lastRequest 0 = true
    ∧ (stopRunAfter false 3 1).lastRequest 0 = false
    ∧ (stopRunAfter false 3 1).out.getLast? = some (ContAction.callback (batchOf 10))
    ∧ (stopRunAfter false 3 1).com.dev.log = [(10, [8192, 5, 0, 57080])]
    ∧ (stopRunAfter false 3 1).contModeThread 0 = CONT_MODE_WORK
    ∧ (stopRunAfter false 3 2).contModeThread 0 = CONT_MODE_IDLE
    ∧ (stopRunAfter false 1 1).lastRequest 0 = false
    ∧ (stopRunAfter false 1 1).contModeThread 0 = CONT_MODE_WORK
    ∧ (stopRunAfter false 1 2).contModeThread 0 = CONT_MODE_IDLE := by
  decide

/-- C11 (amended): let the last-request flag of a configured device `ic` be set before a
data-ready event and clear after it (the event in which the device-level stop is issued and
succeeds). In the per-device mode, for a scene of L layers (1 <= L <= 32), and in the
synchronized mode, when no configured device has a scene of exactly one layer and all flags
are clear after the event, the pending-steps value of `ic` after the event is
`N = max(L, 2)` in the per-device mode and `N = 1` in the synchronized mode; in every sequence
of following data-ready events the value is `N - j` and the mode of `ic` unchanged after
`j < N` events, and at the end of the `N`-th event the device has the mode `CONT_MODE_IDLE`,
the phase `CONT_MODE_STATE_IDLE` and the value `CONT_MODE_MAX_PENDING`. -/
theorem contModeExecute_drain_after_stop {σ : Type} (cfg : ContModeCfg_t) (hal : DevHal σ)
    (icCount : Nat) (s : ContModeState σ) (ev : DataReady) (ic : Nat)
    (evs : List ((SpiDriver_State_t → SpiDriver_State_t) × DataReady))
    (hic : ic < icCount)
    (hlast : s.lastRequest ic = true)
    (hstop : (contModeExecute_dataReady cfg hal icCount ev.cmd ev.chipData s).2.lastRequest ic
      = false)
    (hmode : (cfg.useAsyncSequence = true
        ∧ 1 ≤ (s.spiDriver_currentState.params ic).sceneLayersAmount
        ∧ (s.spiDriver_currentState.params ic).sceneLayersAmount ≤ 32)
      ∨ (cfg.useAsyncSequence = false
        ∧ (∀ k < icCount, (s.spiDriver_currentState.params k).sceneLayersAmount ≠ 1)
        ∧ ∀ k < icCount,
            (contModeExecute_dataReady cfg hal icCount ev.cmd ev.chipData s).2.lastRequest k
              = false)) :
    (contModeExecute_dataReady cfg hal icCount ev.cmd ev.chipData s).2.contModePendingSteps ic
      = drainCount cfg.useAsyncSequence (s.spiDriver_currentState.params ic).sceneLayersAmount
    ∧ (∀ j, j < drainCount cfg.useAsyncSequence
          (s.spiDriver_currentState.params ic).sceneLayersAmount → j ≤ evs.length →
        (contModeExecute_events cfg hal icCount (evs.take j)
          (contModeExecute_dataReady cfg hal icCount ev.cmd ev.chipData
            s).2).contModePendingSteps ic
          = drainCount cfg.useAsyncSequence
              (s.spiDriver_currentState.params ic).sceneLayersAmount - j
        ∧ (contModeExecute_events cfg hal icCount (evs.take j)
          (contModeExecute_dataReady cfg hal icCount ev.cmd ev.chipData s).2).contModeThread ic
          = (contModeExecute_dataReady cfg hal icCount ev.cmd ev.chipData s).2.contModeThread
              ic)
    ∧ (drainCount cfg.useAsyncSequence (s.spiDriver_currentState.params ic).sceneLayersAmount
          ≤ evs.length →
        (contModeExecute_events cfg hal icCount
          (evs.take (drainCount cfg.useAsyncSequence
            (s.spiDriver_currentState.params ic).sceneLayersAmount))
          (contModeExecute_dataReady cfg hal icCount ev.cmd ev.chipData s).2).contModeThread ic
          = CONT_MODE_IDLE
        ∧ ((contModeExecute_events cfg hal icCount
          (evs.take (drainCount cfg.useAsyncSequence
            (s.spiDriver_currentState.params ic).sceneLayersAmount))
          (contModeExecute_dataReady cfg hal icCount ev.cmd ev.chipData
            s).2).spiDriver_currentState.params ic).contState = CONT_MODE_STATE_IDLE
        ∧ (contModeExecute_events cfg hal icCount
          (evs.take (drainCount cfg.useAsyncSequence
            (s.spiDriver_currentState.params ic).sceneLayersAmount))
          (contModeExecute_dataReady cfg hal icCount ev.cmd ev.chipData
            s).2).contModePendingSteps ic = CONT_MODE_MAX_PENDING) := by
  obtain ⟨f1, _, f3, _, _⟩ := contModeExecute_dataReady_fields cfg hal icCount ev.cmd
    ev.chipData s
  have hlr : (contModeExecute_dataReady_records cfg hal icCount ev.cmd ev.chipData
      s).2.lastRequest ic = false := by
    rw [← f1]
    exact hstop
  have hpend : (contModeExecute_dataReady_records cfg hal icCount ev.cmd ev.chipData
      s).2.contModePendingSteps ic
      = drainCount cfg.useAsyncSequence (s.spiDriver_currentState.params ic).sceneLayersAmount
      ∧ 0 < drainCount cfg.useAsyncSequence
          (s.spiDriver_currentState.params ic).sceneLayersAmount
      ∧ drainCount cfg.useAsyncSequence (s.spiDriver_currentState.params ic).sceneLayersAmount
          < CONT_MODE_MAX_PENDING := by
    unfold contModeExecute_dataReady_records at hlr ⊢
    rcases hmode with ⟨ha, hL1, hL2⟩ | ⟨ha, hL, _⟩
    · obtain ⟨_, _, _, d⟩ := contModeExecute_records_async cfg hal icCount ev.cmd ev.chipData ha
        false
        { contModeThread := s.contModeThread
          contModePendingSteps := contModeExecute_decrement icCount s.contModePendingSteps
          lastRequest := s.lastRequest
          looping := s.looping
          spiDriver_currentState := s.spiDriver_currentState
          com := s.com
          out := s.out }
      simp only [] at d
      have hd : drainCount cfg.useAsyncSequence
          (s.spiDriver_currentState.params ic).sceneLayersAmount
          = max (s.spiDriver_currentState.params ic).sceneLayersAmount 2 := by
        unfold drainCount
        rw [ha]
        rfl
      rcases d ic with ⟨e1, _⟩ | ⟨_, _, e3⟩
      · rw [hlr, hlast] at e1
        exact absurd e1 (by decide)
      · rw [e3, stopPending_eq _ hL1 hL2, hd]
        refine ⟨rfl, ?_, ?_⟩
        · omega
        · show max (s.spiDriver_currentState.params ic).sceneLayersAmount 2 < 100
          omega
    · have hd : drainCount cfg.useAsyncSequence
          (s.spiDriver_currentState.params ic).sceneLayersAmount = 1 := by
        unfold drainCount
        rw [ha]
        rfl
      rw [hd]
      refine ⟨?_, by decide, by decide⟩
      rcases contModeExecute_records_sync cfg hal icCount ev.cmd ev.chipData ha false
        { contModeThread := s.contModeThread
          contModePendingSteps := contModeExecute_decrement icCount s.contModePendingSteps
          lastRequest := s.lastRequest
          looping := s.looping
          spiDriver_currentState := s.spiDriver_currentState
          com := s.com
          out := s.out } with h | ⟨icIdx, h1, _, h3⟩
      · rw [h] at hlr
        simp only [] at hlr
        rw [hlast] at hlr
        exact absurd hlr (by decide)
      · rw [h3] at hlr ⊢
        rcases contModeExecute_stopAll_spec hal icCount icIdx
          { contModeThread := s.contModeThread
            contModePendingSteps := contModeExecute_decrement icCount s.contModePendingSteps
            lastRequest := s.lastRequest
            looping := s.looping
            spiDriver_currentState := s.spiDriver_currentState
            com := s.com
            out := s.out } (hL icIdx h1) ic
          with ⟨_, _, g3⟩ | ⟨g1, _⟩
        · exact g3
        · rw [hlr] at g1
          simp only [] at g1
          rw [hlast] at g1
          exact absurd g1 (by decide)
  obtain ⟨hp1, hp2, hp3⟩ := hpend
  have hpost : (contModeExecute_dataReady cfg hal icCount ev.cmd ev.chipData
      s).2.contModePendingSteps ic
      = drainCount cfg.useAsyncSequence
          (s.spiDriver_currentState.params ic).sceneLayersAmount := by
    rw [f3 ic, hp1, if_neg (by omega)]
  have hflags : DrainFlags cfg icCount ic
      (contModeExecute_dataReady cfg hal icCount ev.cmd ev.chipData s).2 := by
    rcases hmode with ⟨ha, _, _⟩ | ⟨ha, _, hall⟩
    · exact Or.inl ⟨ha, hstop⟩
    · exact Or.inr ⟨ha, hall⟩
  have hrun := contModeExecute_drain_run cfg hal icCount ic hic evs _ _ hpost hp2 hp3 hflags
  exact ⟨hpost, hrun.1, hrun.2⟩

set_option maxRecDepth 100000 in
/-- C11 (witness): two working devices with scenes of three layers, both finished and asked
to stop. In the per-device mode both are stopped in the event, device 0 then has
3 = max(3, 2) pending steps, is still working after two further events and idle after the
third; in the synchronized mode it has 1 pending step and is idle after one further event. -/
theorem contModeExecute_drain_after_stop_witness :
    ((contModeExecute_dataReady (contCfg true) stopHal 2 twoDeviceBatch.cmd
        twoDeviceBatch.chipData stopRequested).2.contModePendingSteps 0 = 3
      ∧ (contModeExecute_events (contCfg true) stopHal 2
          ((List.replicate 3 (id, twoDeviceBatch)).take 2)
          (contModeExecute_dataReady (contCfg true) stopHal 2 twoDeviceBatch.cmd
            twoDeviceBatch.chipData stopRequested).2).contModeThread 0 = CONT_MODE_WORK
      ∧ (contModeExecute_events (contCfg true) stopHal 2
          ((List.replicate 3 (id, twoDeviceBatch)).take 3)
          (contModeExecute_dataReady (contCfg true) stopHal 2 twoDeviceBatch.cmd
            twoDeviceBatch.chipData stopRequested).2).contModeThread 0 = CONT_MODE_IDLE)
    ∧ ((contModeExecute_dataReady (contCfg false) stopHal 2 twoDeviceBatch.cmd
        twoDeviceBatch.chipData stopRequested).2.contModePendingSteps 0 = 1
      ∧ (contModeExecute_events (contCfg false) stopHal 2
          ((List.replicate 3 (id, twoDeviceBatch)).take 1)
          (contModeExecute_dataReady (contCfg false) stopHal 2 twoDeviceBatch.cmd
            twoDeviceBatch.chipData stopRequested).2).contModeThread 0 = CONT_MODE_IDLE) :=
  ⟨⟨(contModeExecute_drain_after_stop (contCfg true) stopHal 2 stopRequested twoDeviceBatch 0
        (List.replicate 3 (id, twoDeviceBatch)) (by decide) (by decide) (by decide)
        (Or.inl ⟨by decide, by decide, by decide⟩)).1,
      ((contModeExecute_drain_after_stop (contCfg true) stopHal 2 stopRequested twoDeviceBatch 0
        (List.replicate 3 (id, twoDeviceBatch)) (by decide) (by decide) (by decide)
        (Or.inl ⟨by decide, by decide, by decide⟩)).2.1 2 (by decide) (by decide)).2.trans
        (by decide),
      ((contModeExecute_drain_after_stop (contCfg true) stopHal 2 stopRequested twoDeviceBatch 0
        (List.replicate 3 (id, twoDeviceBatch)) (by decide) (by decide) (by decide)
        (Or.inl ⟨by decide, by decide, by decide⟩)).2.2 (by decide)).1⟩,
    ⟨(contModeExecute_drain_after_stop (contCfg false) stopHal 2 stopRequested twoDeviceBatch 0
        (List.replicate 3 (id, twoDeviceBatch)) (by decide) (by decide) (by decide)
        (Or.inr ⟨by decide, by decide, by decide⟩)).1,
      ((contModeExecute_drain_after_stop (contCfg false) stopHal 2 stopRequested twoDeviceBatch 0
        (List.replicate 3 (id, twoDeviceBatch)) (by decide) (by decide) (by decide)
        (Or.inr ⟨by decide, by decide, by decide⟩)).2.2 (by decide)).1⟩⟩

theorem spiDriver_CheckSyncConfig_loop_succ (icIndex : Nat → Nat)
    (read : Nat → FuncResult_e × SyncSceneConfig_t) (left ic : Nat) (res : FuncResult_e)
    (ref_cfg : SyncSceneConfig_t) (reads : List Nat) :
    spiDriver_CheckSyncConfig_loop icIndex read (left + 1) ic res ref_cfg reads
      = if icIndex ic ≥ MAX_IC_ID_NUMBER then some (SPI_DRV_FUNC_RES_FAIL_INPUT_DATA, reads)
        else if ic = 0 then
          if res ||| (read ic).1 ≠ SPI_DRV_FUNC_RES_OK then
            some (res ||| (read ic).1, reads ++ [ic])
          else spiDriver_CheckSyncConfig_loop icIndex read left (ic + 1) (res ||| (read ic).1)
            (read ic).2 (reads ++ [ic])
        else
          if res ||| (read ic).1 ≠ SPI_DRV_FUNC_RES_OK then
            some (res ||| (read ic).1, reads ++ [ic])
          else match CompareSyncConfig ref_cfg (read ic).2 with
            | none => none
            | some false =>
              some (res ||| (read ic).1 ||| SPI_DRV_FUNC_RES_FAIL_INPUT_CFG, reads ++ [ic])
            | some true =>
              spiDriver_CheckSyncConfig_loop icIndex read left (ic + 1) (res ||| (read ic).1)
                ref_cfg (reads ++ [ic]) := rfl

/-- The loop of `spiDriver_CheckSyncConfig` passes over `m` devices without a problem. -/
theorem spiDriver_CheckSyncConfig_loop_fine (icIndex : Nat → Nat)
    (read : Nat → FuncResult_e × SyncSceneConfig_t) (m : Nat) :
    ∀ (rest ic : Nat) (ref_cfg : SyncSceneConfig_t) (reads : List Nat),
      (ic = 0 ∨ ref_cfg = (read 0).2) →
      (∀ j, ic ≤ j → j < ic + m → SyncDeviceFine icIndex read j) →
      spiDriver_CheckSyncConfig_loop icIndex read (m + rest) ic SPI_DRV_FUNC_RES_OK ref_cfg reads
        = spiDriver_CheckSyncConfig_loop icIndex read rest (ic + m) SPI_DRV_FUNC_RES_OK
            (if ic + m = 0 then ref_cfg else (read 0).2) (reads ++ List.range' ic m) := by
  induction m with
  | zero =>
    intro rest ic ref_cfg reads href _
    simp only [Nat.zero_add, Nat.add_zero, List.range'_zero, List.append_nil]
    rcases href with h | h
    · simp [h]
    · rw [← h]
      simp
  | succ k ih =>
    intro rest ic ref_cfg reads href h
    obtain ⟨f1, f2, f3⟩ := h ic (le_refl _) (by omega)
    have hstep : k + 1 + rest = (k + rest) + 1 := by omega
    rw [hstep, spiDriver_CheckSyncConfig_loop_succ]
    rw [if_neg (by omega)]
    have hor : SPI_DRV_FUNC_RES_OK ||| (read ic).1 = SPI_DRV_FUNC_RES_OK := by
      rw [f2]
      rfl
    by_cases h0 : ic = 0
    · rw [if_pos h0]
      simp only [hor, ne_eq, not_true_eq_false, if_false]
      rw [ih rest (ic + 1) _ _ (Or.inr (by rw [h0])) (fun j h1 h2 => h j (by omega) (by omega))]
      have e1 : ic + 1 + k = ic + (k + 1) := by omega
      rw [e1]
      simp [List.range'_succ]
    · rw [if_neg h0]
      simp only [hor, ne_eq, not_true_eq_false, if_false]
      have hr : ref_cfg = (read 0).2 := href.resolve_left h0
      rw [hr, f3 (Nat.pos_of_ne_zero h0)]
      simp only
      rw [ih rest (ic + 1) _ _ (Or.inr rfl) (fun j h1 h2 => h j (by omega) (by omega))]
      have e1 : ic + 1 + k = ic + (k + 1) := by omega
      rw [e1]
      simp [List.range'_succ]

/-- The function `spiDriver_CheckSyncConfig` up to device `k`, when the devices before `k` have
no problem: the loop is at device `k` with `res` still OK and the devices before `k` read. -/
theorem spiDriver_CheckSyncConfig_upto (icCount : Nat) (icIndex : Nat → Nat)
    (read : Nat → FuncResult_e × SyncSceneConfig_t) (ref_cfg : SyncSceneConfig_t) (k : Nat)
    (hk : k < icCount) (hpre : ∀ j < k, SyncDeviceFine icIndex read j) :
    spiDriver_CheckSyncConfig icCount icIndex read ref_cfg
      = spiDriver_CheckSyncConfig_loop icIndex read (icCount - k) k SPI_DRV_FUNC_RES_OK
          (if k = 0 then ref_cfg else (read 0).2) (List.range k) := by
  unfold spiDriver_CheckSyncConfig
  rw [if_pos (by omega)]
  have h := spiDriver_CheckSyncConfig_loop_fine icIndex read k (icCount - k) 0 ref_cfg []
    (Or.inl rfl) (fun j _ h2 => hpre j (by omega))
  have e : k + (icCount - k) = icCount := by omega
  rw [e] at h
  rw [h]
  simp [List.range_eq_range']

theorem spiDriver_CheckSyncConfig_all_fine (icCount : Nat) (icIndex : Nat → Nat)
    (read : Nat → FuncResult_e × SyncSceneConfig_t) (ref_cfg : SyncSceneConfig_t)
    (h : ∀ j < icCount, SyncDeviceFine icIndex read j) :
    spiDriver_CheckSyncConfig icCount icIndex read ref_cfg
      = some (SPI_DRV_FUNC_RES_OK, List.range icCount) := by
  unfold spiDriver_CheckSyncConfig
  split_ifs with h1
  · have h2 := spiDriver_CheckSyncConfig_loop_fine icIndex read icCount 0 0 ref_cfg []
      (Or.inl rfl) (fun j _ h2 => h j (by omega))
    simp only [Nat.add_zero, Nat.zero_add] at h2
    rw [h2]
    simp [spiDriver_CheckSyncConfig_loop, List.range_eq_range']
  · have : icCount = 0 := by omega
    subst this
    rfl

/-- The outcome of `spiDriver_CheckSyncConfig` when device `k` is the first one with a
problem. -/
theorem spiDriver_CheckSyncConfig_at_problem (icCount : Nat) (icIndex : Nat → Nat)
    (read : Nat → FuncResult_e × SyncSceneConfig_t) (ref_cfg : SyncSceneConfig_t) (k : Nat)
    (hk : k < icCount) (hpre : ∀ j < k, SyncDeviceFine icIndex read j) :
    (icIndex k ≥ MAX_IC_ID_NUMBER →
      spiDriver_CheckSyncConfig icCount icIndex read ref_cfg
        = some (SPI_DRV_FUNC_RES_FAIL_INPUT_DATA, List.range k))
    ∧ (icIndex k < MAX_IC_ID_NUMBER → (read k).1 ≠ SPI_DRV_FUNC_RES_OK →
      spiDriver_CheckSyncConfig icCount icIndex read ref_cfg
        = some ((read k).1, List.range (k + 1)))
    ∧ (icIndex k < MAX_IC_ID_NUMBER → (read k).1 = SPI_DRV_FUNC_RES_OK → 0 < k →
      CompareSyncConfig (read 0).2 (read k).2 = some false →
      spiDriver_CheckSyncConfig icCount icIndex read ref_cfg
        = some (SPI_DRV_FUNC_RES_FAIL_INPUT_CFG, List.range (k + 1)))
    ∧ (icIndex k < MAX_IC_ID_NUMBER → (read k).1 = SPI_DRV_FUNC_RES_OK → 0 < k →
      CompareSyncConfig (read 0).2 (read k).2 = none →
      spiDriver_CheckSyncConfig icCount icIndex read ref_cfg = none) := by
  rw [spiDriver_CheckSyncConfig_upto icCount icIndex read ref_cfg k hk hpre]
  obtain ⟨m, hm⟩ : ∃ m, icCount - k = m + 1 := ⟨icCount - k - 1, by omega⟩
  rw [hm, spiDriver_CheckSyncConfig_loop_succ]
  have hzero : ∀ x : Nat, SPI_DRV_FUNC_RES_OK ||| x = x := fun x => Nat.zero_or x
  refine ⟨?_, ?_, ?_, ?_⟩
  · intro h
    rw [if_pos h]
  · intro h1 h2
    rw [if_neg (by omega)]
    simp only [hzero]
    by_cases h0 : k = 0
    · rw [if_pos h0, if_pos h2, List.range_succ]
    · rw [if_neg h0, if_pos h2, List.range_succ]
  · intro h1 h2 h3 h4
    have hk0 : k ≠ 0 := by omega
    rw [if_neg (by omega), if_neg hk0]
    simp only [hzero, h2, ne_eq, not_true_eq_false, if_false, if_neg hk0, h4]
    rw [List.range_succ]
  · intro h1 h2 h3 h4
    have hk0 : k ≠ 0 := by omega
    rw [if_neg (by omega), if_neg hk0]
    simp only [hzero, h2, ne_eq, not_true_eq_false, if_false, if_neg hk0, h4]

/-- C21 (code bug): `spiDriver_CheckSyncConfig` returns OK for two devices that both report
the slave flag set, device 0 (the reference) included: the check of the reference's flag in
`CompareSyncConfig` is compiled out. -/
theorem spiDriver_CheckSyncConfig_accepts_slave_reference :
    (allSlaveRead 0).2.slave_mode = 1
    ∧ (allSlaveRead 1).2.slave_mode = 1
    ∧ CompareSyncConfig (allSlaveRead 0).2 (allSlaveRead 1).2 = some true
    ∧ spiDriver_CheckSyncConfig 2 (fun ic => ic) allSlaveRead darkRefConfig
        = some (SPI_DRV_FUNC_RES_OK, [0, 1]) := by
  decide

/-- C22: `spiDriver_CheckSyncConfig` examines the devices in index order. When device `k` is
the first with a problem, an IC id of `MAX_IC_ID_NUMBER` or more gives
`SPI_DRV_FUNC_RES_FAIL_INPUT_DATA` with the devices before `k` read, a failed read gives the
result of that read, and a configuration that `CompareSyncConfig` rejects against device 0
gives `SPI_DRV_FUNC_RES_FAIL_INPUT_CFG`, both with the devices up to `k` read and none after
it. The result is OK exactly when no device has a problem, and then all devices are read. -/
theorem spiDriver_CheckSyncConfig_first_problem (icCount : Nat) (icIndex : Nat → Nat)
    (read : Nat → FuncResult_e × SyncSceneConfig_t) (ref_cfg : SyncSceneConfig_t) :
    (∀ k, k < icCount → (∀ j < k, SyncDeviceFine icIndex read j) →
      (icIndex k ≥ MAX_IC_ID_NUMBER →
        spiDriver_CheckSyncConfig icCount icIndex read ref_cfg
          = some (SPI_DRV_FUNC_RES_FAIL_INPUT_DATA, List.range k))
      ∧ (icIndex k < MAX_IC_ID_NUMBER → (read k).1 ≠ SPI_DRV_FUNC_RES_OK →
        spiDriver_CheckSyncConfig icCount icIndex read ref_cfg
          = some ((read k).1, List.range (k + 1)))
      ∧ (icIndex k < MAX_IC_ID_NUMBER → (read k).1 = SPI_DRV_FUNC_RES_OK → 0 < k →
        CompareSyncConfig (read 0).2 (read k).2 = some false →
        spiDriver_CheckSyncConfig icCount icIndex read ref_cfg
          = some (SPI_DRV_FUNC_RES_FAIL_INPUT_CFG, List.range (k + 1))))
    ∧ ((∃ reads, spiDriver_CheckSyncConfig icCount icIndex read ref_cfg
          = some (SPI_DRV_FUNC_RES_OK, reads))
        ↔ ∀ k < icCount, SyncDeviceFine icIndex read k)
    ∧ ((∀ k < icCount, SyncDeviceFine icIndex read k) →
      spiDriver_CheckSyncConfig icCount icIndex read ref_cfg
        = some (SPI_DRV_FUNC_RES_OK, List.range icCount)) := by
  refine ⟨?_, ?_, spiDriver_CheckSyncConfig_all_fine icCount icIndex read ref_cfg⟩
  · intro k hk hpre
    obtain ⟨a, b, c, _⟩ := spiDriver_CheckSyncConfig_at_problem icCount icIndex read ref_cfg k
      hk hpre
    exact ⟨a, b, c⟩
  · constructor
    · rintro ⟨reads, hr⟩
      by_contra hne
      push_neg at hne
      have hex : ∃ k, k < icCount ∧ ¬ SyncDeviceFine icIndex read k := by
        obtain ⟨k, h1, h2⟩ := hne
        exact ⟨k, h1, h2⟩
      classical
      have hk := Nat.find_spec hex
      have hmin : ∀ j < Nat.find hex, SyncDeviceFine icIndex read j := by
        intro j hj
        by_contra hc
        exact Nat.find_min hex hj ⟨by omega, hc⟩
      obtain ⟨a, b, c, d⟩ := spiDriver_CheckSyncConfig_at_problem icCount icIndex read ref_cfg
        (Nat.find hex) hk.1 hmin
      generalize Nat.find hex = k at hk hmin a b c d
      by_cases h1 : icIndex k ≥ MAX_IC_ID_NUMBER
      · rw [a h1] at hr
        simp at hr
      · have h1' : icIndex k < MAX_IC_ID_NUMBER := by omega
        by_cases h2 : (read k).1 = SPI_DRV_FUNC_RES_OK
        · by_cases h3 : 0 < k
          · cases h4 : CompareSyncConfig (read 0).2 (read k).2 with
            | none =>
              rw [d h1' h2 h3 h4] at hr
              simp at hr
            | some v =>
              cases v with
              | false =>
                rw [c h1' h2 h3 h4] at hr
                simp at hr
              | true => exact hk.2 ⟨h1', h2, fun _ => h4⟩
          · exact hk.2 ⟨h1', h2, fun h => absurd h h3⟩
        · rw [b h1' h2] at hr
          simp only [Option.some.injEq, Prod.mk.injEq] at hr
          exact h2 hr.1
    · intro h
      exact ⟨_, spiDriver_CheckSyncConfig_all_fine icCount icIndex read ref_cfg h⟩

/-- C22 (witness): of four devices, device 2 is the first with a problem (its layers do not
match those of device 0): the result is `SPI_DRV_FUNC_RES_FAIL_INPUT_CFG` and device 3, whose
read would fail, is not read; with an IC id of 16 at device 1 the result is
`SPI_DRV_FUNC_RES_FAIL_INPUT_DATA` and only device 0 is read; the first two devices alone are
accepted. -/
theorem spiDriver_CheckSyncConfig_first_problem_witness :
    spiDriver_CheckSyncConfig 4 (fun ic => ic) mixedRead darkRefConfig
      = some (SPI_DRV_FUNC_RES_FAIL_INPUT_CFG, List.range (2 + 1))
    ∧ spiDriver_CheckSyncConfig 4 (fun ic => if ic = 1 then 16 else ic) mixedRead darkRefConfig
      = some (SPI_DRV_FUNC_RES_FAIL_INPUT_DATA, List.range 1)
    ∧ spiDriver_CheckSyncConfig 2 (fun ic => ic) mixedRead darkRefConfig
      = some (SPI_DRV_FUNC_RES_OK, List.range 2) :=
  ⟨((spiDriver_CheckSyncConfig_first_problem 4 (fun ic => ic) mixedRead darkRefConfig).1 2
      (by decide) (fun j hj => by
        have h : j = 0 ∨ j = 1 := by omega
        rcases h with rfl | rfl <;> decide)).2.2 (by decide) (by decide) (by decide)
      (by decide),
    ((spiDriver_CheckSyncConfig_first_problem 4 (fun ic => if ic = 1 then 16 else ic) mixedRead
      darkRefConfig).1 1 (by decide) (fun j hj => by
        have h : j = 0 := by omega
        subst h
        decide)).1 (by decide),
    (spiDriver_CheckSyncConfig_first_problem 2 (fun ic => ic) mixedRead darkRefConfig).2.2
      (fun k hk => by
        have h : k = 0 ∨ k = 1 := by omega
        rcases h with rfl | rfl <;> decide)⟩

theorem spiDriver_SetSyncIcOrder_params_loop (ids : WordBuf) (n : Nat)
    (params : Nat → SpiDriver_Params_t) (k : Nat) :
    forIc n (fun ic params =>
      Function.update params ic ((params ic).withIcIndex (ids ic))) params k
      = if k < n then (params k).withIcIndex (ids k) else params k := by
  induction n with
  | zero => simp [forIc_zero]
  | succ n ih =>
    rw [forIc_succ]
    by_cases hk : k = n
    · subst hk
      simp only [Function.update_same, lt_add_one, if_true]
      rw [ih]
      simp
    · rw [Function.update_noteq hk, ih]
      by_cases h1 : k < n
      · rw [if_pos h1, if_pos (by omega)]
      · rw [if_neg h1, if_neg (by omega)]

theorem spiDriver_SetSyncIcOrder_ok (ids : WordBuf) (icCount cfgIcCount : Nat)
    (drv : SpiDriver_State_t) (h : icCount < MAX_IC_ID_NUMBER) :
    (spiDriver_SetSyncIcOrder (some ids) icCount cfgIcCount drv).1 = SPI_DRV_FUNC_RES_OK
    ∧ (spiDriver_SetSyncIcOrder (some ids) icCount cfgIcCount drv).2.1 = icCount
    ∧ ∀ k, ((spiDriver_SetSyncIcOrder (some ids) icCount cfgIcCount drv).2.2.params k)
        = if k < icCount then (drv.params k).withIcIndex (ids k) else drv.params k := by
  have hs : (some ids).isSome = true ∨ icCount = 0 := Or.inl rfl
  unfold spiDriver_SetSyncIcOrder
  rw [if_pos hs, if_pos h]
  refine ⟨rfl, rfl, ?_⟩
  intro k
  exact spiDriver_SetSyncIcOrder_params_loop ids icCount drv.params k

theorem spiDriver_GetIcIndexById_loop_spec (icCount : Nat) (drv : SpiDriver_State_t)
    (chip_id : Nat) :
    ∀ left ic, icCount ≤ ic + left →
      ic ≤ spiDriver_GetIcIndexById_loop icCount drv chip_id left ic
      ∧ (∀ j, ic ≤ j → j < spiDriver_GetIcIndexById_loop icCount drv chip_id left ic →
          j < icCount ∧ (drv.params j).icIndex ≠ chip_id)
      ∧ (spiDriver_GetIcIndexById_loop icCount drv chip_id left ic < icCount →
          (drv.params (spiDriver_GetIcIndexById_loop icCount drv chip_id left ic)).icIndex
            = chip_id) := by
  intro left
  induction left with
  | zero =>
    intro ic h
    have e : spiDriver_GetIcIndexById_loop icCount drv chip_id 0 ic = ic := rfl
    rw [e]
    exact ⟨le_refl _, fun j h1 h2 => absurd h2 (by omega), fun h3 => absurd h3 (by omega)⟩
  | succ left ih =>
    intro ic h
    have e : spiDriver_GetIcIndexById_loop icCount drv chip_id (left + 1) ic
        = if ic < icCount ∧ (drv.params ic).icIndex ≠ chip_id then
            spiDriver_GetIcIndexById_loop icCount drv chip_id left (ic + 1)
          else ic := rfl
    rw [e]
    by_cases hc : ic < icCount ∧ (drv.params ic).icIndex ≠ chip_id
    · rw [if_pos hc]
      obtain ⟨a, b, c⟩ := ih (ic + 1) (by omega)
      refine ⟨by omega, ?_, c⟩
      intro j h1 h2
      by_cases hj : j = ic
      · subst hj
        exact hc
      · exact b j (by omega) h2
    · rw [if_neg hc]
      refine ⟨le_refl _, fun j h1 h2 => absurd h2 (by omega), ?_⟩
      intro h3
      by_contra h4
      exact hc ⟨h3, h4⟩

theorem spiDriver_GetIcIndexById_found (icCount : Nat) (drv : SpiDriver_State_t)
    (chip_id i : Nat) (hi : i < icCount) (hid : (drv.params i).icIndex = chip_id)
    (hmin : ∀ j < i, (drv.params j).icIndex ≠ chip_id) :
    spiDriver_GetIcIndexById icCount drv chip_id = i := by
  obtain ⟨_, b, c⟩ := spiDriver_GetIcIndexById_loop_spec icCount drv chip_id icCount 0 (by omega)
  unfold spiDriver_GetIcIndexById
  simp only []
  generalize spiDriver_GetIcIndexById_loop icCount drv chip_id icCount 0 = r at b c
  have h1 : r ≤ i := by
    by_contra hlt
    exact (b i (Nat.zero_le _) (by omega)).2 hid
  have h2 : r < icCount := by omega
  rw [if_neg (by omega)]
  by_contra hne
  exact hmin r (by omega) (c h2)

theorem spiDriver_GetIcIndexById_absent (icCount : Nat) (drv : SpiDriver_State_t)
    (chip_id : Nat) (h : ∀ i < icCount, (drv.params i).icIndex ≠ chip_id) :
    spiDriver_GetIcIndexById icCount drv chip_id = MAX_IC_ID_NUMBER := by
  obtain ⟨_, _, c⟩ := spiDriver_GetIcIndexById_loop_spec icCount drv chip_id icCount 0 (by omega)
  unfold spiDriver_GetIcIndexById
  simp only []
  generalize spiDriver_GetIcIndexById_loop icCount drv chip_id icCount 0 = r at c
  by_cases h2 : r < icCount
  · exact absurd (c h2) (h r h2)
  · rw [if_pos (by omega)]

/-- C25 (code bug): `spiDriver_SetSyncIcOrder` rejects an order of exactly
`MAX_IC_ID_NUMBER` (16) devices with `SPI_DRV_FUNC_RES_FAIL_INPUT_CFG` and leaves the device
count and the driver state as they were, although its message says that the number "cannot be
more than" 16 and the driver state has room for 16 devices; the result is OK exactly when the
pointer is not `NULL` or the count is 0, and the count is below 16. -/
theorem spiDriver_SetSyncIcOrder_rejects_max_count (cfgIcCount : Nat)
    (drv : SpiDriver_State_t) :
    spiDriver_SetSyncIcOrder (some sixteenIds) MAX_IC_ID_NUMBER cfgIcCount drv
      = (SPI_DRV_FUNC_RES_FAIL_INPUT_CFG, cfgIcCount, drv)
    ∧ ∀ (icIds : Option WordBuf) (icCount : Nat),
        (spiDriver_SetSyncIcOrder icIds icCount cfgIcCount drv).1
          = if (icIds.isSome ∨ icCount = 0) ∧ icCount < MAX_IC_ID_NUMBER
            then SPI_DRV_FUNC_RES_OK else SPI_DRV_FUNC_RES_FAIL_INPUT_CFG := by
  refine ⟨rfl, ?_⟩
  intro icIds icCount
  unfold spiDriver_SetSyncIcOrder
  by_cases h1 : icIds.isSome ∨ icCount = 0
  · by_cases h2 : icCount < MAX_IC_ID_NUMBER
    · rw [if_pos h1, if_pos h2, if_pos ⟨h1, h2⟩]
    · rw [if_pos h1, if_neg h2, if_neg (fun h => h2 h.2)]
  · rw [if_neg h1, if_neg (fun h => h1 h.1)]

/-- C26: `spiDriver_GetIcIndexById` returns the smallest index below the device count whose
IC id is the given one, and `MAX_IC_ID_NUMBER` when no configured device has that id; after a
successful `spiDriver_SetSyncIcOrder` with pairwise distinct ids, the index found for the id
of device `i` is `i`. -/
theorem spiDriver_GetIcIndexById_smallest_index (icCount : Nat) (drv : SpiDriver_State_t)
    (chip_id : Nat) :
    (∀ i, i < icCount → (drv.params i).icIndex = chip_id →
        (∀ j < i, (drv.params j).icIndex ≠ chip_id) →
        spiDriver_GetIcIndexById icCount drv chip_id = i)
    ∧ ((∀ i < icCount, (drv.params i).icIndex ≠ chip_id) →
        spiDriver_GetIcIndexById icCount drv chip_id = MAX_IC_ID_NUMBER)
    ∧ ∀ (icIds : WordBuf) (cfgIcCount : Nat),
        (spiDriver_SetSyncIcOrder (some icIds) icCount cfgIcCount drv).1 = SPI_DRV_FUNC_RES_OK →
        (∀ i j, i < icCount → j < icCount → icIds i = icIds j → i = j) →
        ∀ i < icCount,
          spiDriver_GetIcIndexById
            (spiDriver_SetSyncIcOrder (some icIds) icCount cfgIcCount drv).2.1
            (spiDriver_SetSyncIcOrder (some icIds) icCount cfgIcCount drv).2.2 (icIds i) = i := by
  refine ⟨fun i hi hid hmin => spiDriver_GetIcIndexById_found icCount drv chip_id i hi hid hmin,
    spiDriver_GetIcIndexById_absent icCount drv chip_id, ?_⟩
  intro icIds cfgIcCount hok hdist i hi
  have hlt : icCount < MAX_IC_ID_NUMBER := by
    by_contra hge
    have e : (spiDriver_SetSyncIcOrder (some icIds) icCount cfgIcCount drv).1
        = SPI_DRV_FUNC_RES_FAIL_INPUT_CFG := by
      have hs : (some icIds).isSome = true ∨ icCount = 0 := Or.inl rfl
      unfold spiDriver_SetSyncIcOrder
      rw [if_pos hs, if_neg hge]
    rw [e] at hok
    exact absurd hok (by decide)
  obtain ⟨_, hcount, hparams⟩ := spiDriver_SetSyncIcOrder_ok icIds icCount cfgIcCount drv hlt
  rw [hcount]
  apply spiDriver_GetIcIndexById_found
  · exact hi
  · rw [hparams i, if_pos hi]
    rfl
  · intro j hj hc
    rw [hparams j, if_pos (by omega)] at hc
    have e : j = i := hdist j i (by omega) hi hc
    omega

/-- C26 (witness): after the order `7, 3, 5` is set for three devices, the id 5 is found at
index 2, and the id 9 of no device gives `MAX_IC_ID_NUMBER`. -/
theorem spiDriver_GetIcIndexById_smallest_index_witness :
    spiDriver_GetIcIndexById
        (spiDriver_SetSyncIcOrder (some threeIds) 3 0 (driverStateOf 2 0)).2.1
        (spiDriver_SetSyncIcOrder (some threeIds) 3 0 (driverStateOf 2 0)).2.2 (threeIds 2) = 2
    ∧ spiDriver_GetIcIndexById 3
        (spiDriver_SetSyncIcOrder (some threeIds) 3 0 (driverStateOf 2 0)).2.2 9
        = MAX_IC_ID_NUMBER :=
  ⟨(spiDriver_GetIcIndexById_smallest_index 3 (driverStateOf 2 0) 0).2.2 threeIds 0
      (by decide)
      (fun i j hi hj =>
        (by decide : ∀ i < 3, ∀ j < 3, threeIds i = threeIds j → i = j) i hi j hj)
      2 (by decide),
    (spiDriver_GetIcIndexById_smallest_index 3
      (spiDriver_SetSyncIcOrder (some threeIds) 3 0 (driverStateOf 2 0)).2.2 9).2.1
      (by decide)⟩

theorem headerWord_exact (ptype sizeField : Nat) (ht : ptype < 16) (hs : sizeField < 4096) :
    headerWord ptype sizeField
      = if ptype = STATUS_SHORT ∨ ptype = STATUS_LONG then ptype <<< 12
        else (ptype <<< 12) ||| sizeField := by
  have h1 : ptype <<< 12 < 2 ^ 16 := by
    rw [Nat.shiftLeft_eq]
    omega
  have h2 : (ptype <<< 12) ||| sizeField < 2 ^ 16 :=
    Nat.or_lt_two_pow h1 (by omega)
  unfold headerWord
  by_cases h : ptype = STATUS_SHORT ∨ ptype = STATUS_LONG
  · rw [if_pos h, if_pos h]
    exact Nat.mod_eq_of_lt h1
  · rw [if_neg h, if_neg h]
    exact Nat.mod_eq_of_lt h2

/-- C27: for a packet type below 16, a size field below 4096 and a payload of at most 1208
words, `makeSpiPacket` writes the header word `(ptype << 12) | sizeField` for every type other
than STATUS_SHORT and STATUS_LONG and `ptype << 12` for those two, whatever the size field is;
it copies the payload unchanged into the words `1..sizePayload`; and word `sizePayload + 1` is
`calcCrc` over the `sizePayload + 1` words before it, which are the header and the payload and
nothing of the previous content of the buffer. -/
theorem makeSpiPacket_layout (ptype sizeField sizePayload : Nat) (payload pktWords : WordBuf)
    (ht : ptype < 16) (hs : sizeField < 4096) (hl : sizePayload ≤ MAX_PKT_PAYLOAD_WORDS) :
    (ptype ≠ STATUS_SHORT → ptype ≠ STATUS_LONG →
      makeSpiPacket ptype sizeField sizePayload payload pktWords 0
        = (ptype <<< 12) ||| sizeField)
    ∧ (ptype = STATUS_SHORT ∨ ptype = STATUS_LONG →
      makeSpiPacket ptype sizeField sizePayload payload pktWords 0 = ptype <<< 12)
    ∧ (∀ i < sizePayload,
      makeSpiPacket ptype sizeField sizePayload payload pktWords (i + 1) = payload i)
    ∧ makeSpiPacket ptype sizeField sizePayload payload pktWords (sizePayload + 1)
        = calcCrc (sizePayload + 1) (makeSpiPacket ptype sizeField sizePayload payload pktWords)
    ∧ makeSpiPacket ptype sizeField sizePayload payload pktWords (sizePayload + 1)
        = calcCrc (sizePayload + 1)
            (fun i => if i = 0 then
                (if ptype = STATUS_SHORT ∨ ptype = STATUS_LONG then ptype <<< 12
                  else (ptype <<< 12) ||| sizeField)
              else payload (i - 1)) := by
  have hn : sizePayload + 1 < 65536 := by
    have : MAX_PKT_PAYLOAD_WORDS = 1208 := rfl
    omega
  have hh := makeSpiPacket_header ptype sizeField sizePayload payload pktWords
  rw [headerWord_exact ptype sizeField ht hs] at hh
  have hp := makeSpiPacket_payload ptype sizeField sizePayload payload pktWords
  have hc := makeSpiPacket_crc ptype sizeField sizePayload payload pktWords hn
  refine ⟨?_, ?_, hp, hc, ?_⟩
  · intro h1 h2
    rw [hh, if_neg (by
      intro h
      rcases h with h | h
      · exact h1 h
      · exact h2 h)]
  · intro h
    rw [hh, if_pos h]
  · rw [hc]
    apply calcCrc_congr
    intro i hi
    by_cases h0 : i = 0
    · subst h0
      rw [hh]
      rfl
    · obtain ⟨j, rfl⟩ : ∃ j, i = j + 1 := ⟨i - 1, by omega⟩
      rw [hp j (by omega), if_neg (by omega)]
      rfl

/-- C27 (witness): the WRITE packet with the size field 3 and the payload `0x1234, 0x5678` and
the STATUS_LONG packet with the size field 3 and the same payload. -/
theorem makeSpiPacket_layout_witness :
    makeSpiPacket WRITE 3 2 (payloadOf [0x1234, 0x5678]) zeroBuf 0 = (WRITE <<< 12) ||| 3
    ∧ makeSpiPacket STATUS_LONG 3 2 (payloadOf [0x1234, 0x5678]) zeroBuf 0 = STATUS_LONG <<< 12
    ∧ makeSpiPacket WRITE 3 2 (payloadOf [0x1234, 0x5678]) zeroBuf (1 + 1)
        = payloadOf [0x1234, 0x5678] 1 :=
  ⟨(makeSpiPacket_layout WRITE 3 2 (payloadOf [0x1234, 0x5678]) zeroBuf (by decide) (by decide)
      (by decide)).1 (by decide) (by decide),
    (makeSpiPacket_layout STATUS_LONG 3 2 (payloadOf [0x1234, 0x5678]) zeroBuf (by decide)
      (by decide) (by decide)).2.1 (Or.inr rfl),
    (makeSpiPacket_layout WRITE 3 2 (payloadOf [0x1234, 0x5678]) zeroBuf (by decide) (by decide)
      (by decide)).2.2.1 1 (by decide)⟩

theorem contModeExecute_stopAll_values {σ : Type} (hal : DevHal σ) (n icIdx : Nat)
    (s : ContModeState σ) (k : Nat) :
    (contModeExecute_stopAll hal n icIdx s).contModePendingSteps k = s.contModePendingSteps k
    ∨ (contModeExecute_stopAll hal n icIdx s).contModePendingSteps k = 1
    ∨ (contModeExecute_stopAll hal n icIdx s).contModePendingSteps k = 2 := by
  obtain ⟨_, _, _, d⟩ := contModeExecute_stopAll_loop_spec hal icIdx s n
  have hloop : (forIc n (contModeExecute_stopAll_body hal icIdx) s).contModePendingSteps k
        = s.contModePendingSteps k
      ∨ (forIc n (contModeExecute_stopAll_body hal icIdx) s).contModePendingSteps k = 1
      ∨ (forIc n (contModeExecute_stopAll_body hal icIdx) s).contModePendingSteps k = 2 := by
    rcases d k with ⟨_, _, g⟩ | ⟨_, g⟩
    · by_cases hL : (s.spiDriver_currentState.params icIdx).sceneLayersAmount = 1
      · rw [if_pos hL] at g
        exact Or.inr (Or.inr g)
      · rw [if_neg hL] at g
        exact Or.inr (Or.inl g)
    · exact Or.inl g
  unfold contModeExecute_stopAll
  simp only []
  by_cases h1 : ((forIc n (contModeExecute_stopAll_body hal icIdx)
      s).spiDriver_currentState.params icIdx).sceneLayersAmount = 1
  · rw [if_pos h1]
    by_cases hk : k = icIdx
    · subst hk
      right
      left
      simp only [Function.update_same]
    · simp only [Function.update_noteq hk]
      exact hloop
  · rw [if_neg h1]
    exact hloop

theorem contModeExecute_records_values {σ : Type} (cfg : ContModeCfg_t) (hal : DevHal σ)
    (icCount rbufCmd : Nat) (chipData : List spiDriver_ChipData_t) (newRequest : Bool)
    (s : ContModeState σ) (k : Nat) :
    ((contModeExecute_records cfg hal icCount rbufCmd chipData newRequest
        s).2.contModePendingSteps k = s.contModePendingSteps k
      ∨ (contModeExecute_records cfg hal icCount rbufCmd chipData newRequest
        s).2.contModePendingSteps k
          = stopPending (s.spiDriver_currentState.params k).sceneLayersAmount
      ∨ (contModeExecute_records cfg hal icCount rbufCmd chipData newRequest
        s).2.contModePendingSteps k = 1
      ∨ (contModeExecute_records cfg hal icCount rbufCmd chipData newRequest
        s).2.contModePendingSteps k = 2)
    ∧ ((∀ ic, s.lastRequest ic = false) →
      (contModeExecute_records cfg hal icCount rbufCmd chipData newRequest
        s).2.contModePendingSteps k = s.contModePendingSteps k) := by
  cases hcfg : cfg.useAsyncSequence with
  | true =>
    obtain ⟨_, _, _, d⟩ := contModeExecute_records_async cfg hal icCount rbufCmd chipData hcfg
      newRequest s
    rcases d k with ⟨_, g⟩ | ⟨g1, _, g⟩
    · exact ⟨Or.inl g, fun _ => g⟩
    · refine ⟨Or.inr (Or.inl g), fun h => ?_⟩
      rw [h k] at g1
      exact absurd g1 (by decide)
  | false =>
    rcases contModeExecute_records_sync cfg hal icCount rbufCmd chipData hcfg newRequest s with
      g | ⟨icIdx, _, g1, g⟩
    · rw [g]
      exact ⟨Or.inl rfl, fun _ => rfl⟩
    · rw [g]
      refine ⟨?_, fun h => ?_⟩
      · rcases contModeExecute_stopAll_values hal icCount icIdx s k with a | a | a
        · exact Or.inl a
        · exact Or.inr (Or.inr (Or.inl a))
        · exact Or.inr (Or.inr (Or.inr a))
      · rw [h icIdx] at g1
        exact absurd g1 (by decide)

/-- C29: the first loop of a data-ready event decrements by one the pending-steps value of
every configured device whose value is greater than 0 and less than `CONT_MODE_MAX_PENDING`
and leaves every other value as it is. After that loop the event only assigns: the loop over
the records leaves a value as decremented or stores a stop value (the layer count as a
`uint16_t` raised to 2, or 1, or 2), and nothing at all when no last-request flag is set; the
last loop replaces a value of 0 of a configured device by `CONT_MODE_MAX_PENDING` and leaves
the others. -/
theorem contModeExecute_decrement_once {σ : Type} (cfg : ContModeCfg_t) (hal : DevHal σ)
    (icCount rbufCmd : Nat) (chipData : List spiDriver_ChipData_t) (s : ContModeState σ) :
    (∀ k, contModeExecute_decrement icCount s.contModePendingSteps k
      = if k < icCount ∧ 0 < s.contModePendingSteps k
            ∧ s.contModePendingSteps k < CONT_MODE_MAX_PENDING
        then s.contModePendingSteps k - 1 else s.contModePendingSteps k)
    ∧ (∀ k,
      (contModeExecute_dataReady_records cfg hal icCount rbufCmd chipData
          s).2.contModePendingSteps k
        = contModeExecute_decrement icCount s.contModePendingSteps k
      ∨ (contModeExecute_dataReady_records cfg hal icCount rbufCmd chipData
          s).2.contModePendingSteps k
        = stopPending (s.spiDriver_currentState.params k).sceneLayersAmount
      ∨ (contModeExecute_dataReady_records cfg hal icCount rbufCmd chipData
          s).2.contModePendingSteps k = 1
      ∨ (contModeExecute_dataReady_records cfg hal icCount rbufCmd chipData
          s).2.contModePendingSteps k = 2)
    ∧ (∀ k, (∀ ic, s.lastRequest ic = false) →
      (contModeExecute_dataReady_records cfg hal icCount rbufCmd chipData
          s).2.contModePendingSteps k
        = contModeExecute_decrement icCount s.contModePendingSteps k)
    ∧ (∀ k,
      (contModeExecute_dataReady cfg hal icCount rbufCmd chipData s).2.contModePendingSteps k
        = if k < icCount
              ∧ (contModeExecute_dataReady_records cfg hal icCount rbufCmd chipData
                  s).2.contModePendingSteps k = 0
          then CONT_MODE_MAX_PENDING
          else (contModeExecute_dataReady_records cfg hal icCount rbufCmd chipData
                  s).2.contModePendingSteps k) := by
  refine ⟨?_, ?_, ?_, ?_⟩
  · intro k
    rw [contModeExecute_decrement_spec]
    by_cases h : k < icCount ∧ s.contModePendingSteps k < CONT_MODE_MAX_PENDING
        ∧ 0 < s.contModePendingSteps k
    · rw [if_pos h, if_pos ⟨h.1, h.2.2, h.2.1⟩]
    · rw [if_neg h, if_neg (fun g => h ⟨g.1, g.2.2, g.2.1⟩)]
  · intro k
    exact (contModeExecute_records_values cfg hal icCount rbufCmd chipData false
      { contModeThread := s.contModeThread
        contModePendingSteps := contModeExecute_decrement icCount s.contModePendingSteps
        lastRequest := s.lastRequest
        looping := s.looping
        spiDriver_currentState := s.spiDriver_currentState
        com := s.com
        out := s.out } k).1
  · intro k h
    exact (contModeExecute_records_values cfg hal icCount rbufCmd chipData false
      { contModeThread := s.contModeThread
        contModePendingSteps := contModeExecute_decrement icCount s.contModePendingSteps
        lastRequest := s.lastRequest
        looping := s.looping
        spiDriver_currentState := s.spiDriver_currentState
        com := s.com
        out := s.out } k).2 h
  · exact (contModeExecute_dataReady_fields cfg hal icCount rbufCmd chipData s).2.2.1

/-- C29 (witness): of three devices with the values 5, 0 and `CONT_MODE_MAX_PENDING`, the
first loop of an event makes the first value 4 and keeps the other two, and the loop over the
records of a batch of device id 10 keeps the value 4. -/
theorem contModeExecute_decrement_once_witness :
    contModeExecute_decrement 3 pendingState.contModePendingSteps 0 = 4
    ∧ contModeExecute_decrement 3 pendingState.contModePendingSteps 1 = 0
    ∧ contModeExecute_decrement 3 pendingState.contModePendingSteps 2 = CONT_MODE_MAX_PENDING
    ∧ (contModeExecute_dataReady_records (contCfg true) stopHal 3 CONT_MODE_WORK (batchOf 10)
          pendingState).2.contModePendingSteps 0 = 4 :=
  ⟨((contModeExecute_decrement_once (contCfg true) stopHal 3 CONT_MODE_WORK (batchOf 10)
      pendingState).1 0).trans (by decide),
    ((contModeExecute_decrement_once (contCfg true) stopHal 3 CONT_MODE_WORK (batchOf 10)
      pendingState).1 1).trans (by decide),
    ((contModeExecute_decrement_once (contCfg true) stopHal 3 CONT_MODE_WORK (batchOf 10)
      pendingState).1 2).trans (by decide),
    ((contModeExecute_decrement_once (contCfg true) stopHal 3 CONT_MODE_WORK (batchOf 10)
      pendingState).2.2.1 0 (fun _ => rfl)).trans
      (((contModeExecute_decrement_once (contCfg true) stopHal 3 CONT_MODE_WORK (batchOf 10)
        pendingState).1 0).trans (by decide))⟩

theorem spiDriver_StopContinuousModeInt_stopHal_ok (icIdx : Nat) (drv : SpiDriver_State_t)
    (com : ComState StopDev) (h : (drv.params icIdx).contState = CONT_MODE_STATE_FINISHED) :
    (spiDriver_StopContinuousModeInt stopHal icIdx drv com).1 = SPI_DRV_FUNC_RES_OK := by
  unfold spiDriver_StopContinuousModeInt
  rw [if_pos h]
  simp only []
  have hs := spiCom_SensorStop_stopHal
    { diagDetails := com.diagDetails, pktWords := com.pktWords, payload := com.payload,
      dev := (spiCom_SetDev stopHal (drv.params icIdx).icIndex com.dev).2 }
  rw [hs.1]
  rfl

theorem contModeExecute_stopOne_ok {σ : Type} (hal : DevHal σ) (icIdx : Nat)
    (s : ContModeState σ)
    (hfin : (s.spiDriver_currentState.params icIdx).contState = CONT_MODE_STATE_FINISHED)
    (hok : (spiDriver_StopContinuousModeInt hal icIdx s.spiDriver_currentState s.com).1
      = SPI_DRV_FUNC_RES_OK) :
    (contModeExecute_stopOne hal icIdx s).contModePendingSteps
      = Function.update s.contModePendingSteps icIdx
          (stopPending (s.spiDriver_currentState.params icIdx).sceneLayersAmount)
    ∧ (contModeExecute_stopOne hal icIdx s).lastRequest
      = Function.update s.lastRequest icIdx false
    ∧ (contModeExecute_stopOne hal icIdx s).out = s.out ++ [ContAction.stopIssued icIdx] := by
  unfold contModeExecute_stopOne
  rw [if_pos hfin]
  simp only []
  rw [if_pos hok]
  refine ⟨?_, rfl, rfl⟩
  simp only [spiDriver_StopContinuousModeInt_params]
  rfl

theorem contModeExecute_records_cons_stopOne {σ : Type} (cfg : ContModeCfg_t) (hal : DevHal σ)
    (icCount : Nat) (chipDataIt : spiDriver_ChipData_t) (rest : List spiDriver_ChipData_t)
    (newRequest : Bool) (s : ContModeState σ) (icIdx : Nat)
    (hidx : spiDriver_GetIcIndexById icCount s.spiDriver_currentState chipDataIt.chip_id = icIdx)
    (hcfg : cfg.useAsyncSequence = true) (hlt : icIdx < MAX_IC_ID_NUMBER)
    (hidle : s.contModeThread icIdx ≠ CONT_MODE_IDLE) (hpend : s.contModePendingSteps icIdx ≠ 0)
    (hlast : s.lastRequest icIdx = true) :
    contModeExecute_records cfg hal icCount CONT_MODE_WORK (chipDataIt :: rest) newRequest s
      = contModeExecute_records cfg hal icCount CONT_MODE_WORK rest true
          (contModeExecute_stopOne hal icIdx s) := by
  have e : contModeExecute_records cfg hal icCount CONT_MODE_WORK (chipDataIt :: rest)
      newRequest s
      = if spiDriver_GetIcIndexById icCount s.spiDriver_currentState chipDataIt.chip_id
            ≥ MAX_IC_ID_NUMBER then
          contModeExecute_records cfg hal icCount CONT_MODE_WORK rest newRequest s
        else if CONT_MODE_WORK = CONT_MODE_WORK then
          if s.contModeThread (spiDriver_GetIcIndexById icCount s.spiDriver_currentState
                chipDataIt.chip_id) ≠ CONT_MODE_IDLE
              ∧ s.contModePendingSteps (spiDriver_GetIcIndexById icCount
                s.spiDriver_currentState chipDataIt.chip_id) ≠ 0 then
            if s.lastRequest (spiDriver_GetIcIndexById icCount s.spiDriver_currentState
                chipDataIt.chip_id) = false then
              contModeExecute_records cfg hal icCount CONT_MODE_WORK rest true s
            else if cfg.useAsyncSequence then
              contModeExecute_records cfg hal icCount CONT_MODE_WORK rest true
                (contModeExecute_stopOne hal (spiDriver_GetIcIndexById icCount
                  s.spiDriver_currentState chipDataIt.chip_id) s)
            else (true, contModeExecute_stopAll hal icCount (spiDriver_GetIcIndexById icCount
                  s.spiDriver_currentState chipDataIt.chip_id) s)
          else contModeExecute_records cfg hal icCount CONT_MODE_WORK rest newRequest s
        else contModeExecute_records cfg hal icCount CONT_MODE_WORK rest newRequest s := rfl
  rw [e, hidx, if_neg (by omega), if_pos rfl, if_pos ⟨hidle, hpend⟩, if_neg (by simp [hlast]),
    if_pos hcfg]

theorem stopPending_max (L : Nat) (h : L < 65536) : stopPending L = max L 2 := by
  unfold stopPending
  rw [Nat.mod_eq_of_lt h]
  by_cases h2 : L < 2
  · rw [if_pos h2]
    omega
  · rw [if_neg h2]
    omega

/-- C30: in the per-device branch (`useAsyncSequence` set), when the record at hand in a
data-ready message with the command `CONT_MODE_WORK` is of a configured device that is not
idle, has non-zero pending-steps, has its last-request flag set and is in phase Finished, and
the device-level stop returns OK, the thread goes on with the next record after it has set
the pending-steps of that device to `max(sceneLayersAmount, 2)`, cleared its last-request
flag, recorded the stop, and changed the pending-steps and the flag of no other device. The
layer count is one that the `uint16_t` pending-steps can hold, as the count of every scene
is: a scene has at most `LAYERS_ORDER_MAX = 32` layers. -/
theorem contModeExecute_records_stop_one {σ : Type} (cfg : ContModeCfg_t) (hal : DevHal σ)
    (icCount : Nat) (chipDataIt : spiDriver_ChipData_t) (rest : List spiDriver_ChipData_t)
    (newRequest : Bool) (s : ContModeState σ) (icIdx : Nat)
    (hidx : spiDriver_GetIcIndexById icCount s.spiDriver_currentState chipDataIt.chip_id = icIdx)
    (hcfg : cfg.useAsyncSequence = true) (hlt : icIdx < MAX_IC_ID_NUMBER)
    (hidle : s.contModeThread icIdx ≠ CONT_MODE_IDLE) (hpend : s.contModePendingSteps icIdx ≠ 0)
    (hlast : s.lastRequest icIdx = true)
    (hfin : (s.spiDriver_currentState.params icIdx).contState = CONT_MODE_STATE_FINISHED)
    (hok : (spiDriver_StopContinuousModeInt hal icIdx s.spiDriver_currentState s.com).1
      = SPI_DRV_FUNC_RES_OK)
    (hL : (s.spiDriver_currentState.params icIdx).sceneLayersAmount < 65536) :
    contModeExecute_records cfg hal icCount CONT_MODE_WORK (chipDataIt :: rest) newRequest s
      = contModeExecute_records cfg hal icCount CONT_MODE_WORK rest true
          (contModeExecute_stopOne hal icIdx s)
    ∧ (contModeExecute_stopOne hal icIdx s).contModePendingSteps icIdx
      = max (s.spiDriver_currentState.params icIdx).sceneLayersAmount 2
    ∧ (contModeExecute_stopOne hal icIdx s).lastRequest icIdx = false
    ∧ (contModeExecute_stopOne hal icIdx s).out = s.out ++ [ContAction.stopIssued icIdx]
    ∧ ∀ k, k ≠ icIdx →
      (contModeExecute_stopOne hal icIdx s).contModePendingSteps k = s.contModePendingSteps k
      ∧ (contModeExecute_stopOne hal icIdx s).lastRequest k = s.lastRequest k := by
  obtain ⟨a, b, c⟩ := contModeExecute_stopOne_ok hal icIdx s hfin hok
  refine ⟨contModeExecute_records_cons_stopOne cfg hal icCount chipDataIt rest newRequest s icIdx
    hidx hcfg hlt hidle hpend hlast, ?_, ?_, c, ?_⟩
  · rw [a, Function.update_same]
    exact stopPending_max _ hL
  · rw [b, Function.update_same]
  · intro k hk
    rw [a, b, Function.update_noteq hk, Function.update_noteq hk]
    exact ⟨rfl, rfl⟩

/-- C30 (witness): of two working devices with scenes of three layers in phase Finished and
with the last-request flag set, the record of the device with id 10 (index 0) stops that
device on the recording bus: its pending-steps value becomes 3 and its flag is cleared, and
device 1 keeps its value. -/
theorem contModeExecute_records_stop_one_witness :
    (contModeExecute_stopOne stopHal 0 stopRequested).contModePendingSteps 0 = max 3 2
    ∧ (contModeExecute_stopOne stopHal 0 stopRequested).lastRequest 0 = false
    ∧ (contModeExecute_stopOne stopHal 0 stopRequested).contModePendingSteps 1
        = CONT_MODE_MAX_PENDING :=
  ⟨(contModeExecute_records_stop_one (contCfg true) stopHal 2
      { data := [], samples := 0, metaData := [], dataFormat := 0,
        status := SPI_DRV_FUNC_RES_OK, chip_id := 10 } [] false stopRequested 0
      (by decide) rfl (by decide) (by decide) (by decide) rfl rfl
      (spiDriver_StopContinuousModeInt_stopHal_ok 0 stopRequested.spiDriver_currentState
        stopRequested.com rfl) (by decide)).2.1,
    (contModeExecute_records_stop_one (contCfg true) stopHal 2
      { data := [], samples := 0, metaData := [], dataFormat := 0,
        status := SPI_DRV_FUNC_RES_OK, chip_id := 10 } [] false stopRequested 0
      (by decide) rfl (by decide) (by decide) (by decide) rfl rfl
      (spiDriver_StopContinuousModeInt_stopHal_ok 0 stopRequested.spiDriver_currentState
        stopRequested.com rfl) (by decide)).2.2.1,
    ((contModeExecute_records_stop_one (contCfg true) stopHal 2
      { data := [], samples := 0, metaData := [], dataFormat := 0,
        status := SPI_DRV_FUNC_RES_OK, chip_id := 10 } [] false stopRequested 0
      (by decide) rfl (by decide) (by decide) (by decide) rfl rfl
      (spiDriver_StopContinuousModeInt_stopHal_ok 0 stopRequested.spiDriver_currentState
        stopRequested.com rfl) (by decide)).2.2.2.2 1 (by decide)).1⟩

theorem checkResponse_dev {σ : Type} (xactNum : Nat) (slot : Fin 2)
    (revSize expectedPtype xactSize : Nat) (c : Checked σ) :
    (checkResponse xactNum slot revSize expectedPtype xactSize c).com.dev = c.com.dev := by
  unfold checkResponse
  by_cases h : 0 ≤ (c.com.diagDetails slot).halStat
  · rw [if_pos h]
  · rw [if_neg h]

theorem checkResponse_trace {σ : Type} (xactNum : Nat) (slot : Fin 2)
    (revSize expectedPtype xactSize : Nat) (c : Checked σ) :
    ∃ e, (checkResponse xactNum slot revSize expectedPtype xactSize c).trace = c.trace ++ [e]
      ∧ e.xactNum = xactNum ∧ e.slot = slot ∧ e.checked
      ∧ e.halStat = (c.com.diagDetails slot).halStat
      ∧ (e.halStat < 0 →
        (checkResponse xactNum slot revSize expectedPtype xactSize c).res
          = c.res ||| SPI_DRV_FUNC_RES_FAIL_COMM)
      ∧ (0 ≤ e.halStat → ∃ v, e.validation = some v ∧
        (checkResponse xactNum slot revSize expectedPtype xactSize c).res = c.res ||| v) := by
  unfold checkResponse
  by_cases h : 0 ≤ (c.com.diagDetails slot).halStat
  · rw [if_pos h]
    exact ⟨_, rfl, rfl, rfl, fun _ => rfl, rfl, fun h2 => absurd h (by
      have h3 : (c.com.diagDetails slot).halStat < 0 := h2
      omega), fun _ => ⟨_, rfl, rfl⟩⟩
  · rw [if_neg h]
    exact ⟨_, rfl, rfl, rfl, fun h2 => absurd h2 h, rfl, fun _ => rfl, fun h2 => absurd h2 h⟩

theorem sendAndReceive_loggedHal {σ : Type} (hal : Hal σ) (slot : Fin 2) (revSize length : Nat)
    (st : ComState (σ × List (List Nat))) :
    (sendAndReceive (loggedHal hal) slot revSize length st).dev.2
      = st.dev.2 ++ [wireWords (ReverseBytes16Words st.pktWords revSize) length] := rfl

theorem wireWords_length (data : WordBuf) (length : Nat) :
    (wireWords data length).length = length / 2 := by
  simp [wireWords]

theorem wireWords_head (data : WordBuf) (length : Nat) (h : 2 ≤ length) :
    (wireWords data length).head? = some (bswap16 (data 0)) := by
  obtain ⟨k, hk⟩ : ∃ k, length / 2 = k + 1 := ⟨length / 2 - 1, by omega⟩
  unfold wireWords
  rw [hk, List.range_succ_eq_map]
  rfl

theorem wireWords_packet_head (ptype sizeField n : Nat) (payload pktWords : WordBuf)
    (revSize length : Nat) (hr : 2 ≤ revSize) (hr2 : revSize < 65536) (hl : 2 ≤ length) :
    (wireWords (ReverseBytes16Words (makeSpiPacket ptype sizeField n payload pktWords) revSize)
      length).head? = some (headerWord ptype sizeField) := by
  rw [wireWords_head _ _ hl, wire_decode _ _ 0 hr2 (by omega)
    (by
      rw [makeSpiPacket_header]
      exact headerWord_lt _ _), makeSpiPacket_header]

theorem spiCom_Read_packet1_logged {σ : Type} (hal : Hal σ) (xactNum sizeXact : Nat)
    (st : ReadState (σ × List (List Nat))) :
    (spiCom_Read_packet1 (loggedHal hal) xactNum sizeXact st).com.dev.2
      = st.com.dev.2 ++ [wireWords (ReverseBytes16Words (makeSpiPacket READ sizeXact 2
          (Function.update (Function.update st.com.payload 0 st.offsetXact) 1 0)
          st.com.pktWords) 8) 8]
    ∧ ∃ e, (spiCom_Read_packet1 (loggedHal hal) xactNum sizeXact st).trace = st.trace ++ [e]
        ∧ e.slot = 0 ∧ e.checked := by
  unfold spiCom_Read_packet1
  simp only []
  constructor
  · rw [checkResponse_dev]
    rfl
  · exact (checkResponse_trace xactNum 0 8 STATUS_SHORT 2 _).imp
      (fun e h => ⟨h.1, h.2.2.1, h.2.2.2.1⟩)

theorem spiCom_Read_packet2_logged {σ : Type} (hal : Hal σ) (xactNum sizeXact : Nat)
    (c2 : Checked (σ × List (List Nat))) (h2 : sizeXact ≤ MAX_RW_SIZE) :
    ∃ data e, (spiCom_Read_packet2 (loggedHal hal) xactNum sizeXact c2).com.dev.2
        = c2.com.dev.2 ++ [data]
      ∧ data.length = (if sizeXact < 3 then 4 else sizeXact + 2)
      ∧ data.head? = some (headerWord (if sizeXact < 3 then STATUS_SHORT else STATUS_LONG) 0)
      ∧ (spiCom_Read_packet2 (loggedHal hal) xactNum sizeXact c2).trace = c2.trace ++ [e]
      ∧ e.slot = 1 ∧ e.checked := by
  have hm : MAX_RW_SIZE = 256 := rfl
  unfold spiCom_Read_packet2
  by_cases h : sizeXact < 3
  · simp only [if_pos h]
    obtain ⟨e, he⟩ := checkResponse_trace xactNum 1 8 READ_DATA_RESP_SHORT sizeXact
      { res := c2.res, misoWords := c2.misoWords,
        com := sendAndReceive (loggedHal hal) 1 8 8
          { diagDetails := c2.com.diagDetails
            pktWords := makeSpiPacket STATUS_SHORT 0 2
              (Function.update (Function.update c2.com.payload 0 0) 1 0) c2.com.pktWords
            payload := Function.update (Function.update c2.com.payload 0 0) 1 0
            dev := c2.com.dev },
        trace := c2.trace }
    refine ⟨wireWords (ReverseBytes16Words (makeSpiPacket STATUS_SHORT 0 2
      (Function.update (Function.update c2.com.payload 0 0) 1 0) c2.com.pktWords) 8) 8, e,
      ?_, ?_, ?_, he.1, he.2.2.1, he.2.2.2.1⟩
    · rw [checkResponse_dev]
      exact sendAndReceive_loggedHal hal 1 _ _ _
    · rw [wireWords_length]
    · exact wireWords_packet_head _ _ _ _ _ _ _ (by omega) (by omega) (by omega)
  · simp only [if_neg h]
    obtain ⟨e, he⟩ := checkResponse_trace xactNum 1 ((sizeXact + 2) * 2) READ_DATA_RESP_LONG
      sizeXact
      { res := c2.res, misoWords := c2.misoWords,
        com := sendAndReceive (loggedHal hal) 1 ((sizeXact + 2) * 2) ((sizeXact * 2) + 4)
          { diagDetails := c2.com.diagDetails
            pktWords := makeSpiPacket STATUS_LONG 0 sizeXact
              (fun i => if i < MAX_PKT_PAYLOAD_WORDS then 0 else c2.com.payload i)
              c2.com.pktWords
            payload := fun i => if i < MAX_PKT_PAYLOAD_WORDS then 0 else c2.com.payload i
            dev := c2.com.dev },
        trace := c2.trace }
    refine ⟨wireWords (ReverseBytes16Words (makeSpiPacket STATUS_LONG 0 sizeXact
      (fun i => if i < MAX_PKT_PAYLOAD_WORDS then 0 else c2.com.payload i) c2.com.pktWords)
      ((sizeXact + 2) * 2)) ((sizeXact * 2) + 4), e, ?_, ?_, ?_, he.1, he.2.2.1, he.2.2.2.1⟩
    · rw [checkResponse_dev]
      exact sendAndReceive_loggedHal hal 1 _ _ _
    · rw [wireWords_length]
      omega
    · exact wireWords_packet_head _ _ _ _ _ _ _ (by omega) (by omega) (by omega)

theorem spiCom_Write_body_logged_two {σ : Type} (hal : Hal σ) (writeWords : WordBuf)
    (pkt1Type numXactFull numXactPartial sizeXactPartial xactNum : Nat)
    (st : WriteState (σ × List (List Nat)))
    (h1 : sizeXactOf numXactFull numXactPartial sizeXactPartial xactNum ≠ 1)
    (h2 : sizeXactOf numXactFull numXactPartial sizeXactPartial xactNum ≤ MAX_RW_SIZE) :
    ∃ cmd data e1 e2,
      (spiCom_Write_body (loggedHal hal) writeWords pkt1Type numXactFull numXactPartial
        sizeXactPartial xactNum st).com.dev.2 = st.com.dev.2 ++ [cmd, data]
      ∧ cmd.length = 4
      ∧ cmd.head? = some (headerWord pkt1Type
          (sizeXactOf numXactFull numXactPartial sizeXactPartial xactNum))
      ∧ data.length = sizeXactOf numXactFull numXactPartial sizeXactPartial xactNum + 2
      ∧ data.head? = some (headerWord WRITE_DATA_LONG
          (sizeXactOf numXactFull numXactPartial sizeXactPartial xactNum))
      ∧ (spiCom_Write_body (loggedHal hal) writeWords pkt1Type numXactFull numXactPartial
        sizeXactPartial xactNum st).trace = st.trace ++ [e1, e2]
      ∧ e1.slot = 0 ∧ e1.checked ∧ e2.slot = 1 ∧ e2.checked := by
  have hm : MAX_RW_SIZE = 256 := rfl
  unfold spiCom_Write_body
  simp only []
  rw [if_neg h1]
  generalize sizeXactOf numXactFull numXactPartial sizeXactPartial xactNum = sizeXact at h1 h2
  have hb : sizeXact * 2 % 65536 = sizeXact * 2 := by omega
  rw [hb]
  generalize hc2 : checkResponse xactNum 0 8 STATUS_SHORT 2
      { res := st.res, misoWords := st.misoWords,
        com := sendAndReceive (loggedHal hal) 0 8 8
          { diagDetails := st.com.diagDetails
            pktWords := makeSpiPacket pkt1Type sizeXact 2
              (Function.update (Function.update st.com.payload 0 st.offsetXact) 1 0)
              st.com.pktWords
            payload := Function.update (Function.update st.com.payload 0 st.offsetXact) 1 0
            dev := st.com.dev },
        trace := st.trace } = c2
  obtain ⟨e1, he1⟩ := checkResponse_trace xactNum 0 8 STATUS_SHORT 2
      { res := st.res, misoWords := st.misoWords,
        com := sendAndReceive (loggedHal hal) 0 8 8
          { diagDetails := st.com.diagDetails
            pktWords := makeSpiPacket pkt1Type sizeXact 2
              (Function.update (Function.update st.com.payload 0 st.offsetXact) 1 0)
              st.com.pktWords
            payload := Function.update (Function.update st.com.payload 0 st.offsetXact) 1 0
            dev := st.com.dev },
        trace := st.trace }
  have hd1 := checkResponse_dev xactNum 0 8 STATUS_SHORT 2
      { res := st.res, misoWords := st.misoWords,
        com := sendAndReceive (loggedHal hal) 0 8 8
          { diagDetails := st.com.diagDetails
            pktWords := makeSpiPacket pkt1Type sizeXact 2
              (Function.update (Function.update st.com.payload 0 st.offsetXact) 1 0)
              st.com.pktWords
            payload := Function.update (Function.update st.com.payload 0 st.offsetXact) 1 0
            dev := st.com.dev },
        trace := st.trace }
  rw [hc2] at he1 hd1
  obtain ⟨e2, he2⟩ := checkResponse_trace xactNum 1 (sizeXact * 2 + 4) STATUS_LONG sizeXact
      { res := c2.res, misoWords := c2.misoWords,
        com := sendAndReceive (loggedHal hal) 1 ((sizeXact + 2) * 2) (sizeXact * 2 + 4)
          { diagDetails := c2.com.diagDetails
            pktWords := makeSpiPacket WRITE_DATA_LONG sizeXact sizeXact
              (fun i => writeWords (st.ptrWriteWords + i)) c2.com.pktWords
            payload := c2.com.payload
            dev := c2.com.dev },
        trace := c2.trace }
  refine ⟨wireWords (ReverseBytes16Words (makeSpiPacket pkt1Type sizeXact 2
      (Function.update (Function.update st.com.payload 0 st.offsetXact) 1 0) st.com.pktWords)
      8) 8,
    wireWords (ReverseBytes16Words (makeSpiPacket WRITE_DATA_LONG sizeXact sizeXact
      (fun i => writeWords (st.ptrWriteWords + i)) c2.com.pktWords) ((sizeXact + 2) * 2))
      (sizeXact * 2 + 4),
    e1, e2, ?_, ?_, ?_, ?_, ?_, ?_, he1.2.2.1, he1.2.2.2.1, he2.2.2.1, he2.2.2.2.1⟩
  · rw [checkResponse_dev, sendAndReceive_loggedHal]
    simp only []
    rw [hd1, sendAndReceive_loggedHal, List.append_assoc]
    rfl
  · rw [wireWords_length]
  · exact wireWords_packet_head _ _ _ _ _ _ _ (by omega) (by omega) (by omega)
  · rw [wireWords_length]
    omega
  · exact wireWords_packet_head _ _ _ _ _ _ _ (by omega) (by omega) (by omega)
  · rw [he2.1]
    simp only []
    rw [he1.1, List.append_assoc]
    rfl

theorem spiCom_Write_body_logged_one {σ : Type} (hal : Hal σ) (writeWords : WordBuf)
    (pkt1Type numXactFull numXactPartial sizeXactPartial xactNum : Nat)
    (st : WriteState (σ × List (List Nat)))
    (h1 : sizeXactOf numXactFull numXactPartial sizeXactPartial xactNum = 1) :
    ∃ cmd,
      (spiCom_Write_body (loggedHal hal) writeWords pkt1Type numXactFull numXactPartial
        sizeXactPartial xactNum st).com.dev.2 = st.com.dev.2 ++ [cmd]
      ∧ cmd.length = 4
      ∧ cmd.head? = some (headerWord pkt1Type 1) := by
  unfold spiCom_Write_body
  simp only []
  rw [if_pos h1]
  refine ⟨wireWords (ReverseBytes16Words (makeSpiPacket pkt1Type 1 2
      (Function.update (Function.update st.com.payload 0 st.offsetXact) 1 (writeWords 0))
      st.com.pktWords) 8) 8, sendAndReceive_loggedHal hal 0 8 8 _, ?_, ?_⟩
  · rw [wireWords_length]
  · exact wireWords_packet_head _ _ _ _ _ _ _ (by omega) (by omega) (by omega)

set_option maxRecDepth 100000 in
/-- C28 (counterexample): a `spiCom_Write` of one word is one transaction of size 1 and it
exchanges one packet only, the WRITE command packet with the offset and the data word as its
payload; no data packet follows. The write of two words exchanges two packets. -/
theorem spiCom_Write_single_word_one_packet :
    (spiCom_Write recordingHal 0x1000 1 (fun i => i + 1) false (initCom [])).com.dev.map
        (fun p => p.take 3) = [[0x1001, 0x1000, 1]]
    ∧ (spiCom_Write recordingHal 0x1000 1 (fun i => i + 1) false (initCom [])).trace.length = 1
    ∧ (spiCom_Write recordingHal 0x1000 2 (fun i => i + 1) false (initCom [])).com.dev.map
        (fun p => p.take 1) = [[0x1002], [0x8002]] := by
  decide

/-- C28 (amended): every transaction of `spiCom_Read` of 0 to 256 words and every transaction
of `spiCom_Write` of a size other than 1 up to 256 words gives exactly two packets to the HAL:
first a command packet of four words (header, two payload words, CRC) of type READ, or of the
type WRITE or WRITE_PATCH of the call, with the transaction size as size field, then a data
packet (STATUS_SHORT of four words for a read of less than three words, STATUS_LONG of
`sizeXact + 2` words for a longer read, WRITE_DATA_LONG of `sizeXact + 2` words for a write);
each of the two exchanges is checked: its HAL status is tested and its response is passed to
`validatePkt` when the status is not negative. A write transaction of one word gives exactly
one packet to the HAL, the command packet with the size field 1. -/
theorem spiCom_transaction_packets {σ : Type} (hal : Hal σ) :
    (∀ (xactNum sizeXact : Nat) (st : ReadState (σ × List (List Nat))),
      sizeXact ≤ MAX_RW_SIZE →
      ∃ cmd data e1 e2,
        (spiCom_Read_exchanges (loggedHal hal) xactNum sizeXact st).com.dev.2
          = st.com.dev.2 ++ [cmd, data]
        ∧ cmd.length = 4
        ∧ cmd.head? = some (headerWord READ sizeXact)
        ∧ data.length = (if sizeXact < 3 then 4 else sizeXact + 2)
        ∧ data.head? = some (headerWord (if sizeXact < 3 then STATUS_SHORT else STATUS_LONG) 0)
        ∧ (spiCom_Read_exchanges (loggedHal hal) xactNum sizeXact st).trace
          = st.trace ++ [e1, e2]
        ∧ e1.slot = 0 ∧ e1.checked ∧ e2.slot = 1 ∧ e2.checked)
    ∧ (∀ (writeWords : WordBuf)
        (pkt1Type numXactFull numXactPartial sizeXactPartial xactNum : Nat)
        (st : WriteState (σ × List (List Nat))),
      sizeXactOf numXactFull numXactPartial sizeXactPartial xactNum ≠ 1 →
      sizeXactOf numXactFull numXactPartial sizeXactPartial xactNum ≤ MAX_RW_SIZE →
      ∃ cmd data e1 e2,
        (spiCom_Write_body (loggedHal hal) writeWords pkt1Type numXactFull numXactPartial
          sizeXactPartial xactNum st).com.dev.2 = st.com.dev.2 ++ [cmd, data]
        ∧ cmd.length = 4
        ∧ cmd.head? = some (headerWord pkt1Type
            (sizeXactOf numXactFull numXactPartial sizeXactPartial xactNum))
        ∧ data.length = sizeXactOf numXactFull numXactPartial sizeXactPartial xactNum + 2
        ∧ data.head? = some (headerWord WRITE_DATA_LONG
            (sizeXactOf numXactFull numXactPartial sizeXactPartial xactNum))
        ∧ (spiCom_Write_body (loggedHal hal) writeWords pkt1Type numXactFull numXactPartial
          sizeXactPartial xactNum st).trace = st.trace ++ [e1, e2]
        ∧ e1.slot = 0 ∧ e1.checked ∧ e2.slot = 1 ∧ e2.checked)
    ∧ (∀ (writeWords : WordBuf)
        (pkt1Type numXactFull numXactPartial sizeXactPartial xactNum : Nat)
        (st : WriteState (σ × List (List Nat))),
      sizeXactOf numXactFull numXactPartial sizeXactPartial xactNum = 1 →
      ∃ cmd,
        (spiCom_Write_body (loggedHal hal) writeWords pkt1Type numXactFull numXactPartial
          sizeXactPartial xactNum st).com.dev.2 = st.com.dev.2 ++ [cmd]
        ∧ cmd.length = 4
        ∧ cmd.head? = some (headerWord pkt1Type 1)) := by
  refine ⟨?_, ?_, ?_⟩
  · intro xactNum sizeXact st h2
    obtain ⟨hd1, e1, ht1, hs1, hc1⟩ := spiCom_Read_packet1_logged hal xactNum sizeXact st
    obtain ⟨data, e2, hd2, hl2, hh2, ht2, hs2, hc2⟩ := spiCom_Read_packet2_logged hal xactNum
      sizeXact (spiCom_Read_packet1 (loggedHal hal) xactNum sizeXact st) h2
    refine ⟨wireWords (ReverseBytes16Words (makeSpiPacket READ sizeXact 2
        (Function.update (Function.update st.com.payload 0 st.offsetXact) 1 0)
        st.com.pktWords) 8) 8, data, e1, e2, ?_, ?_, ?_, hl2, hh2, ?_, hs1, hc1, hs2, hc2⟩
    · unfold spiCom_Read_exchanges
      rw [hd2, hd1, List.append_assoc]
      rfl
    · rw [wireWords_length]
    · exact wireWords_packet_head _ _ _ _ _ _ _ (by omega) (by omega) (by omega)
    · unfold spiCom_Read_exchanges
      rw [ht2, ht1, List.append_assoc]
      rfl
  · intro writeWords pkt1Type numXactFull numXactPartial sizeXactPartial xactNum st h1 h2
    exact spiCom_Write_body_logged_two hal writeWords pkt1Type numXactFull numXactPartial
      sizeXactPartial xactNum st h1 h2
  · intro writeWords pkt1Type numXactFull numXactPartial sizeXactPartial xactNum st h1
    exact spiCom_Write_body_logged_one hal writeWords pkt1Type numXactFull numXactPartial
      sizeXactPartial xactNum st h1

/-- C28 (witness): the transaction of a read of 1 word, of a write of 2 words and of a write
of 1 word at the offset 0x1000 on the default HAL. -/
theorem spiCom_transaction_packets_witness :
    (∃ cmd data e1 e2,
        (spiCom_Read_exchanges (loggedHal defaultHal) 1 1 readStart).com.dev.2
          = readStart.com.dev.2 ++ [cmd, data]
        ∧ cmd.length = 4
        ∧ cmd.head? = some (headerWord READ 1)
        ∧ data.length = (if 1 < 3 then 4 else 1 + 2)
        ∧ data.head? = some (headerWord (if 1 < 3 then STATUS_SHORT else STATUS_LONG) 0)
        ∧ (spiCom_Read_exchanges (loggedHal defaultHal) 1 1 readStart).trace
          = readStart.trace ++ [e1, e2]
        ∧ e1.slot = 0 ∧ e1.checked ∧ e2.slot = 1 ∧ e2.checked)
    ∧ (∃ cmd data e1 e2,
        (spiCom_Write_body (loggedHal defaultHal) (fun i => i + 1) WRITE 0 1 2 1
          writeStart).com.dev.2 = writeStart.com.dev.2 ++ [cmd, data]
        ∧ cmd.length = 4
        ∧ cmd.head? = some (headerWord WRITE (sizeXactOf 0 1 2 1))
        ∧ data.length = sizeXactOf 0 1 2 1 + 2
        ∧ data.head? = some (headerWord WRITE_DATA_LONG (sizeXactOf 0 1 2 1))
        ∧ (spiCom_Write_body (loggedHal defaultHal) (fun i => i + 1) WRITE 0 1 2 1
          writeStart).trace = writeStart.trace ++ [e1, e2]
        ∧ e1.slot = 0 ∧ e1.checked ∧ e2.slot = 1 ∧ e2.checked)
    ∧ (∃ cmd,
        (spiCom_Write_body (loggedHal defaultHal) (fun i => i + 1) WRITE 0 1 1 1
          writeStart).com.dev.2 = writeStart.com.dev.2 ++ [cmd]
        ∧ cmd.length = 4
        ∧ cmd.head? = some (headerWord WRITE 1)) :=
  ⟨(spiCom_transaction_packets defaultHal).1 1 1 readStart (by decide),
    (spiCom_transaction_packets defaultHal).2.1 (fun i => i + 1) WRITE 0 1 2 1 writeStart
      (by decide) (by decide),
    (spiCom_transaction_packets defaultHal).2.2 (fun i => i + 1) WRITE 0 1 1 1 writeStart
      (by decide)⟩

theorem visitInOrder_eq_foldl {α : Type} (select : Nat → α → α)
    (op : Nat → α → FuncResult_e × α) (l : List Nat) :
    ∀ r, visitInOrder select op l r = l.foldl (fun r ic => op ic (select ic r.2)) r := by
  induction l with
  | nil =>
    intro r
    rfl
  | cons ic rest ih =>
    intro r
    exact ih _

theorem visitInOrder_append {α : Type} (select : Nat → α → α)
    (op : Nat → α → FuncResult_e × α) (l1 l2 : List Nat) (r : FuncResult_e × α) :
    visitInOrder select op (l1 ++ l2) r
      = visitInOrder select op l2 (visitInOrder select op l1 r) := by
  rw [visitInOrder_eq_foldl, visitInOrder_eq_foldl, visitInOrder_eq_foldl, List.foldl_append]

theorem range_reverse_eq_map (n : Nat) :
    (List.range n).reverse = (List.range n).map (fun ind => n - ind - 1) := by
  have e : (List.range n).reverse = (List.range' 0 n).reverse := by rw [List.range_eq_range']
  rw [e, List.reverse_range']
  apply List.map_congr_left
  intro i hi
  have h := List.mem_range.mp hi
  omega

theorem syncLoop_eq_visitInOrder {α : Type} (icCount : Nat) (select : Nat → α → α)
    (op : Nat → α → FuncResult_e × α) (s : α) :
    syncLoop icCount select op s
      = visitInOrder select op (List.range icCount).reverse (SPI_DRV_FUNC_RES_OK, s) := by
  rw [visitInOrder_eq_foldl, range_reverse_eq_map, List.foldl_map]
  rfl

theorem range_reverse_succ (n : Nat) :
    (List.range (n + 1)).reverse = n :: (List.range n).reverse := by
  rw [List.range_succ, List.reverse_append]
  rfl

/-- On the recording bus, a visit of the devices of the list `l` by a command that gives the
packets `pkts` to the selected device appends to the record the packets `pkts` for every
device of `l`, in the order of `l`, each with the id of its device. -/
theorem visitInOrder_stopHal_log {α : Type} (dev : α → StopDev) (ids : Nat → Nat)
    (pkts : List (List Nat)) (inv : α → Prop) (select : Nat → α → α)
    (op : Nat → α → FuncResult_e × α)
    (hinvSel : ∀ ic s, inv s → inv (select ic s))
    (hinvOp : ∀ ic s, inv s → inv (op ic s).2)
    (hsel : ∀ ic s, inv s → dev (select ic s) = { sel := ids ic, log := (dev s).log })
    (hop : ∀ ic s, dev (op ic s).2
      = { sel := (dev s).sel, log := (dev s).log ++ pkts.map (fun p => ((dev s).sel, p)) })
    (l : List Nat) :
    ∀ r : FuncResult_e × α, inv r.2 →
      (dev (visitInOrder select op l r).2).log
        = (dev r.2).log ++ (l.map (fun ic => pkts.map (fun p => (ids ic, p)))).flatten := by
  induction l with
  | nil =>
    intro r _
    simp [visitInOrder]
  | cons ic rest ih =>
    intro r hr
    have e : visitInOrder select op (ic :: rest) r
        = visitInOrder select op rest (op ic (select ic r.2)) := rfl
    rw [e, ih _ (hinvOp ic _ (hinvSel ic _ hr)), hop, hsel ic r.2 hr]
    simp [List.append_assoc]

theorem packet_wire (ptype sizeField a b : Nat) (payload pktWords : WordBuf) :
    wireWords (ReverseBytes16Words
      (makeSpiPacket ptype sizeField 2
        (Function.update (Function.update payload 0 a) 1 b) pktWords) 8) 8
      = wireWords (ReverseBytes16Words
          (makeSpiPacket ptype sizeField 2 (payloadOf [a, b]) zeroBuf) 8) 8 := by
  apply wireWords_congr
  intro i hi
  apply ReverseBytes16Words_congr
  apply makeSpiPacket_congr _ _ _ _ _ _ _ (by norm_num) _ i (by omega)
  intro j hj
  have hj2 : j = 0 ∨ j = 1 := by omega
  rcases hj2 with rfl | rfl
  · rfl
  · rfl

theorem spiCom_AcquSync_stopHal (st : ComState StopDev) :
    (spiCom_AcquSync stopHal.toHal st).com.dev
      = { sel := st.dev.sel,
          log := st.dev.log ++ [[8192, 3, 0, 27736]].map (fun p => (st.dev.sel, p)) } := by
  have h : wireWords (ReverseBytes16Words
      (makeSpiPacket FUNCTION 0 2 (payloadOf [ACQU_SYNC, 0]) zeroBuf) 8) 8
      = [8192, 3, 0, 27736] := by decide
  unfold spiCom_AcquSync
  simp only []
  rw [checkResponse_dev, sendAndReceive_dev]
  simp only []
  rw [← h, ← packet_wire FUNCTION 0 ACQU_SYNC 0 st.payload st.pktWords]
  rfl

theorem spiCom_Sync_stopHal (st : ComState StopDev) :
    (spiCom_Sync stopHal.toHal st).com.dev
      = { sel := st.dev.sel,
          log := st.dev.log ++ [[57344, 0, 0, 35640]].map (fun p => (st.dev.sel, p)) } := by
  have h : wireWords (ReverseBytes16Words
      (makeSpiPacket SYNC 0 2 (payloadOf [0, 0]) zeroBuf) 8) 8
      = [57344, 0, 0, 35640] := by decide
  unfold spiCom_Sync
  simp only []
  rw [checkResponse_dev, sendAndReceive_dev]
  simp only []
  rw [← h, ← packet_wire SYNC 0 0 0 st.payload st.pktWords]
  rfl

theorem spiCom_SensorStandby_stopHal (st : ComState StopDev) :
    (spiCom_SensorStandby stopHal.toHal st).com.dev
      = { sel := st.dev.sel,
          log := st.dev.log ++ [[8192, 6, 0, 34728]].map (fun p => (st.dev.sel, p)) } := by
  have h : wireWords (ReverseBytes16Words
      (makeSpiPacket FUNCTION 0 2 (payloadOf [SENSOR_STANDBY, 0]) zeroBuf) 8) 8
      = [8192, 6, 0, 34728] := by decide
  unfold spiCom_SensorStandby
  simp only []
  rw [checkResponse_dev, sendAndReceive_dev]
  simp only []
  rw [← h, ← packet_wire FUNCTION 0 SENSOR_STANDBY 0 st.payload st.pktWords]
  rfl

theorem spiCom_ApplyPatch_stopHal (st : ComState StopDev) :
    (spiCom_ApplyPatch stopHal.toHal st).com.dev
      = { sel := st.dev.sel,
          log := st.dev.log ++ [[8192, 7, 0, 45208]].map (fun p => (st.dev.sel, p)) } := by
  have h : wireWords (ReverseBytes16Words
      (makeSpiPacket FUNCTION 0 2 (payloadOf [APPLY_PATCH, 0]) zeroBuf) 8) 8
      = [8192, 7, 0, 45208] := by decide
  unfold spiCom_ApplyPatch
  simp only []
  rw [checkResponse_dev, sendAndReceive_dev]
  simp only []
  rw [← h, ← packet_wire FUNCTION 0 APPLY_PATCH 0 st.payload st.pktWords]
  rfl

theorem spiCom_SensorStop_stopHal_log (st : ComState StopDev) :
    (spiCom_SensorStop stopHal.toHal st).com.dev
      = { sel := st.dev.sel,
          log := st.dev.log ++ [[8192, 5, 0, 57080]].map (fun p => (st.dev.sel, p)) } :=
  (spiCom_SensorStop_stopHal st).2

theorem spiCom_SensorStart_stopHal (st : ComState StopDev) :
    (spiCom_SensorStart stopHal.toHal st).com.dev
      = { sel := st.dev.sel,
          log := st.dev.log ++ [[8192, 4, 0, 59848], [16384, 0, 0, 27152]].map
            (fun p => (st.dev.sel, p)) } := by
  have h1 : wireWords (ReverseBytes16Words
      (makeSpiPacket FUNCTION 0 2 (payloadOf [SENSOR_START, 0]) zeroBuf) 8) 8
      = [8192, 4, 0, 59848] := by decide
  have h2 : wireWords (ReverseBytes16Words
      (makeSpiPacket STATUS_SHORT 0 2 (payloadOf [0, 0]) zeroBuf) 8) 8
      = [16384, 0, 0, 27152] := by decide
  unfold spiCom_SensorStart
  simp only []
  rw [checkResponse_dev, sendAndReceive_dev]
  simp only []
  rw [checkResponse_dev, sendAndReceive_dev]
  simp only []
  rw [← h1, ← h2, ← packet_wire FUNCTION 0 SENSOR_START 0 st.payload st.pktWords,
    ← packet_wire STATUS_SHORT 0 0 0
      (checkResponse 1 0 8 STATUS_SHORT 2
        { res := SPI_DRV_FUNC_RES_OK, misoWords := false,
          com := sendAndReceive stopHal.toHal 0 8 8
            { diagDetails := clearDiagDetails
              pktWords := makeSpiPacket FUNCTION 0 2
                (Function.update (Function.update st.payload 0 SENSOR_START) 1 0) st.pktWords
              payload := Function.update (Function.update st.payload 0 SENSOR_START) 1 0
              dev := st.dev },
          trace := [] }).com.payload
      (checkResponse 1 0 8 STATUS_SHORT 2
        { res := SPI_DRV_FUNC_RES_OK, misoWords := false,
          com := sendAndReceive stopHal.toHal 0 8 8
            { diagDetails := clearDiagDetails
              pktWords := makeSpiPacket FUNCTION 0 2
                (Function.update (Function.update st.payload 0 SENSOR_START) 1 0) st.pktWords
              payload := Function.update (Function.update st.payload 0 SENSOR_START) 1 0
              dev := st.dev },
          trace := [] }).com.pktWords]
  simp [stopHal, spiCom_WaitForReady]

theorem spiCom_SetDev_stopHal (devId : Nat) (dev : StopDev) :
    spiCom_SetDev stopHal devId dev = (SPI_DRV_FUNC_RES_OK, { sel := devId, log := dev.log }) := by
  unfold spiCom_SetDev
  simp [stopHal]

theorem flatten_single_packet (ids : Nat → Nat) (p : List Nat) (l : List Nat) :
    (l.map (fun ic => [p].map (fun q => (ids ic, q)))).flatten = l.map (fun ic => (ids ic, p)) := by
  induction l with
  | nil => rfl
  | cons a rest ih =>
    have e : ∀ ic, [p].map (fun q => (ids ic, q)) = [(ids ic, p)] := fun _ => rfl
    simp only [e] at ih
    simp only [List.map_cons, List.flatten_cons, e, ih]
    rfl

theorem selectDev_stopHal (devId : Nat) (com : ComState StopDev) :
    (com.selectDev stopHal devId).dev = { sel := devId, log := com.dev.log } := by
  unfold ComState.selectDev
  simp only [spiCom_SetDev_stopHal]

theorem syncLoop_stopHal_log (drv : SpiDriver_State_t) (pkts : List (List Nat))
    (op : ComState StopDev → FuncResult_e × ComState StopDev)
    (hop : ∀ com, (op com).2.dev
      = { sel := com.dev.sel, log := com.dev.log ++ pkts.map (fun p => (com.dev.sel, p)) })
    (icCount : Nat) (com : ComState StopDev) :
    (syncLoop icCount (fun ic com => com.selectDev stopHal (drv.params ic).icIndex)
        (fun _ com => op com) com).2.dev.log
      = com.dev.log ++ ((List.range icCount).reverse.map
          (fun ic => pkts.map (fun p => ((drv.params ic).icIndex, p)))).flatten := by
  rw [syncLoop_eq_visitInOrder]
  exact visitInOrder_stopHal_log (fun c : ComState StopDev => c.dev)
    (fun ic => (drv.params ic).icIndex) pkts (fun _ => True)
    (fun ic com => com.selectDev stopHal (drv.params ic).icIndex) (fun _ com => op com)
    (fun _ _ _ => trivial) (fun _ _ _ => trivial)
    (fun ic s _ => selectDev_stopHal _ s) (fun _ s => hop s) _ (SPI_DRV_FUNC_RES_OK, com) trivial

theorem resetCurrentLayer_icIndex (drv : SpiDriver_State_t) (ic k : Nat) :
    ((drv.resetCurrentLayer ic).params k).icIndex = (drv.params k).icIndex := by
  unfold SpiDriver_State_t.resetCurrentLayer
  by_cases h : k = ic
  · subst h
    simp only [Function.update_same]
  · simp only [Function.update_noteq h]

theorem spiCom_SensorSyncStart_stopHal_log (icCount : Nat) (drv : SpiDriver_State_t)
    (com : ComState StopDev) (h : 1 < icCount) :
    (spiCom_SensorSyncStart stopHal icCount (drv, com)).2.2.dev.log
      = com.dev.log ++ ((List.range icCount).reverse.map
          (fun ic => [((drv.params ic).icIndex, [8192, 4, 0, 59848]),
            ((drv.params ic).icIndex, [16384, 0, 0, 27152])])).flatten := by
  unfold spiCom_SensorSyncStart
  rw [if_pos h, syncLoop_eq_visitInOrder]
  exact visitInOrder_stopHal_log (fun s : SpiDriver_State_t × ComState StopDev => s.2.dev)
    (fun ic => (drv.params ic).icIndex) [[8192, 4, 0, 59848], [16384, 0, 0, 27152]]
    (fun s => ∀ k, (s.1.params k).icIndex = (drv.params k).icIndex)
    (fun ic s => (s.1, s.2.selectDev stopHal (s.1.params ic).icIndex))
    (fun ic s =>
        ((spiCom_SensorStart stopHal.toHal s.2).res,
          s.1.resetCurrentLayer ic, (spiCom_SensorStart stopHal.toHal s.2).com))
    (fun _ _ hs => hs)
    (fun ic s hs k => (resetCurrentLayer_icIndex s.1 ic k).trans (hs k))
    (fun ic s hs => by
      simp only [selectDev_stopHal, hs ic])
    (fun _ s => spiCom_SensorStart_stopHal s.2) _ (SPI_DRV_FUNC_RES_OK, (drv, com))
    (fun _ => rfl)

/-- C23: with more than one configured device, each of the eight broadcast functions (set by
name, write patch, apply patch, sensor start, sensor stop, standby, ACQU_SYNC, SYNC) visits
the devices with the indices `icCount - 1` down to 0 in this order: it selects the device of
the index and then runs the operation on it, and returns the result of the operation on
index 0. The list of the indices visited has every index below `icCount` exactly once, starts
with `icCount - 1` and ends with 0. On the recording bus the packets of apply patch, sensor
start, sensor stop and standby reach the devices in that order, each device once. -/
theorem syncBroadcast_reverse_order {σ : Type} (hal : DevHal σ) (icCount : Nat)
    (drv : SpiDriver_State_t) (h : 1 < icCount) :
    (∀ (spiDriver_SetByName : ComState σ → FuncResult_e × ComState σ) (com : ComState σ),
      spiDriver_SetSyncByName hal icCount drv spiDriver_SetByName com
        = visitInOrder (fun ic com => com.selectDev hal (drv.params ic).icIndex)
            (fun _ com => spiDriver_SetByName com) (List.range icCount).reverse
            (SPI_DRV_FUNC_RES_OK, com))
    ∧ (∀ (offset size : Nat) (s : ComState σ × WordBuf),
      spiCom_WriteSyncPatch hal icCount drv offset size s
        = visitInOrder (fun ic s => (s.1.selectDev hal (drv.params ic).icIndex, s.2))
            (fun _ s =>
              ((spiCom_WritePatch hal.toHal offset size s.2 s.1).1,
                (spiCom_WritePatch hal.toHal offset size s.2 s.1).2.1.com,
                (spiCom_WritePatch hal.toHal offset size s.2 s.1).2.2))
            (List.range icCount).reverse (SPI_DRV_FUNC_RES_OK, s))
    ∧ (∀ com : ComState σ,
      spiCom_ApplySyncPatch hal icCount drv com
        = visitInOrder (fun ic com => com.selectDev hal (drv.params ic).icIndex)
            (fun _ com => (spiCom_ApplyPatch hal.toHal com).result)
            (List.range icCount).reverse (SPI_DRV_FUNC_RES_OK, com))
    ∧ (∀ com : ComState σ,
      spiCom_SensorSyncStart hal icCount (drv, com)
        = visitInOrder (fun ic s => (s.1, s.2.selectDev hal (s.1.params ic).icIndex))
            (fun ic s =>
              ((spiCom_SensorStart hal.toHal s.2).res,
                s.1.resetCurrentLayer ic, (spiCom_SensorStart hal.toHal s.2).com))
            (List.range icCount).reverse (SPI_DRV_FUNC_RES_OK, (drv, com)))
    ∧ (∀ com : ComState σ,
      spiCom_SensorSyncStop hal icCount drv com
        = visitInOrder (fun ic com => com.selectDev hal (drv.params ic).icIndex)
            (fun _ com => (spiCom_SensorStop hal.toHal com).result)
            (List.range icCount).reverse (SPI_DRV_FUNC_RES_OK, com))
    ∧ (∀ com : ComState σ,
      spiCom_SensorSyncStandby hal icCount drv com
        = visitInOrder (fun ic com => com.selectDev hal (drv.params ic).icIndex)
            (fun _ com => (spiCom_SensorStandby hal.toHal com).result)
            (List.range icCount).reverse (SPI_DRV_FUNC_RES_OK, com))
    ∧ (∀ com : ComState σ,
      spiCom_AcquSyncSync hal icCount drv com
        = visitInOrder (fun ic com => com.selectDev hal (drv.params ic).icIndex)
            (fun _ com => (spiCom_AcquSync hal.toHal com).result)
            (List.range icCount).reverse (SPI_DRV_FUNC_RES_OK, com))
    ∧ (∀ com : ComState σ,
      spiCom_SyncSync hal icCount drv com
        = visitInOrder (fun ic com => com.selectDev hal (drv.params ic).icIndex)
            (fun _ com => (spiCom_Sync hal.toHal com).result)
            (List.range icCount).reverse (SPI_DRV_FUNC_RES_OK, com))
    ∧ ((List.range icCount).reverse.Nodup
      ∧ (∀ ic, ic ∈ (List.range icCount).reverse ↔ ic < icCount)
      ∧ (List.range icCount).reverse.head? = some (icCount - 1)
      ∧ (List.range icCount).reverse.getLast? = some 0)
    ∧ (∀ com : ComState StopDev,
      (spiCom_ApplySyncPatch stopHal icCount drv com).2.dev.log
        = com.dev.log ++ (List.range icCount).reverse.map
            (fun ic => ((drv.params ic).icIndex, [8192, 7, 0, 45208])))
    ∧ (∀ com : ComState StopDev,
      (spiCom_SensorSyncStart stopHal icCount (drv, com)).2.2.dev.log
        = com.dev.log ++ ((List.range icCount).reverse.map
            (fun ic => [((drv.params ic).icIndex, [8192, 4, 0, 59848]),
              ((drv.params ic).icIndex, [16384, 0, 0, 27152])])).flatten)
    ∧ (∀ com : ComState StopDev,
      (spiCom_SensorSyncStop stopHal icCount drv com).2.dev.log
        = com.dev.log ++ (List.range icCount).reverse.map
            (fun ic => ((drv.params ic).icIndex, [8192, 5, 0, 57080])))
    ∧ (∀ com : ComState StopDev,
      (spiCom_SensorSyncStandby stopHal icCount drv com).2.dev.log
        = com.dev.log ++ (List.range icCount).reverse.map
            (fun ic => ((drv.params ic).icIndex, [8192, 6, 0, 34728]))) := by
  refine ⟨?_, ?_, ?_, ?_, ?_, ?_, ?_, ?_, ⟨?_, ?_, ?_, ?_⟩, ?_, ?_, ?_, ?_⟩
  · intro f com
    unfold spiDriver_SetSyncByName
    rw [if_pos h, syncLoop_eq_visitInOrder]
  · intro offset size s
    unfold spiCom_WriteSyncPatch
    rw [if_pos h, syncLoop_eq_visitInOrder]
  · intro com
    unfold spiCom_ApplySyncPatch
    rw [if_pos h, syncLoop_eq_visitInOrder]
  · intro com
    unfold spiCom_SensorSyncStart
    rw [if_pos h, syncLoop_eq_visitInOrder]
  · intro com
    unfold spiCom_SensorSyncStop
    rw [if_pos h, syncLoop_eq_visitInOrder]
  · intro com
    unfold spiCom_SensorSyncStandby
    rw [if_pos h, syncLoop_eq_visitInOrder]
  · intro com
    unfold spiCom_AcquSyncSync
    rw [if_pos h, syncLoop_eq_visitInOrder]
  · intro com
    unfold spiCom_SyncSync
    rw [if_pos h, syncLoop_eq_visitInOrder]
  · exact List.nodup_reverse.mpr (List.nodup_range icCount)
  · intro ic
    rw [List.mem_reverse, List.mem_range]
  · obtain ⟨n, rfl⟩ : ∃ n, icCount = n + 1 := ⟨icCount - 1, by omega⟩
    rw [range_reverse_succ]
    rfl
  · obtain ⟨n, rfl⟩ : ∃ n, icCount = n + 1 := ⟨icCount - 1, by omega⟩
    rw [List.getLast?_reverse, List.range_succ_eq_map]
    rfl
  · intro com
    unfold spiCom_ApplySyncPatch
    rw [if_pos h, syncLoop_stopHal_log drv [[8192, 7, 0, 45208]] _
      (fun c => spiCom_ApplyPatch_stopHal c), flatten_single_packet]
  · intro com
    exact spiCom_SensorSyncStart_stopHal_log icCount drv com h
  · intro com
    unfold spiCom_SensorSyncStop
    rw [if_pos h, syncLoop_stopHal_log drv [[8192, 5, 0, 57080]] _
      (fun c => spiCom_SensorStop_stopHal_log c), flatten_single_packet]
  · intro com
    unfold spiCom_SensorSyncStandby
    rw [if_pos h, syncLoop_stopHal_log drv [[8192, 6, 0, 34728]] _
      (fun c => spiCom_SensorStandby_stopHal c), flatten_single_packet]

set_option maxRecDepth 100000 in
/-- C23 (witness): three devices with the ids 10, 11, 12 at the indices 0, 1, 2 on the
recording bus: the stop packets reach the devices 12, 11, 10 in this order, and so do the
two packets of the start. -/
theorem syncBroadcast_reverse_order_witness :
    (spiCom_SensorSyncStop stopHal 3 (driverStateOf 2 CONT_MODE_STATE_WORKING)
        (initCom { sel := 0, log := [] })).2.dev.log
      = [(12, [8192, 5, 0, 57080]), (11, [8192, 5, 0, 57080]), (10, [8192, 5, 0, 57080])]
    ∧ (spiCom_SensorSyncStart stopHal 3
        (driverStateOf 2 CONT_MODE_STATE_WORKING, initCom { sel := 0, log := [] })).2.2.dev.log
      = [(12, [8192, 4, 0, 59848]), (12, [16384, 0, 0, 27152]),
         (11, [8192, 4, 0, 59848]), (11, [16384, 0, 0, 27152]),
         (10, [8192, 4, 0, 59848]), (10, [16384, 0, 0, 27152])] :=
  ⟨((syncBroadcast_reverse_order stopHal 3 (driverStateOf 2 CONT_MODE_STATE_WORKING)
      (by decide)).2.2.2.2.2.2.2.2.2.2.2.1 (initCom { sel := 0, log := [] })).trans (by decide),
    ((syncBroadcast_reverse_order stopHal 3 (driverStateOf 2 CONT_MODE_STATE_WORKING)
      (by decide)).2.2.2.2.2.2.2.2.2.2.1 (initCom { sel := 0, log := [] })).trans (by decide)⟩

theorem spiDriver_SyncPinWaitForReady_stopHal_log (n : Nat) (drv : SpiDriver_State_t)
    (dev : StopDev) :
    (spiDriver_SyncPinWaitForReady stopHal n drv dev).2.log = dev.log := by
  unfold spiDriver_SyncPinWaitForReady
  induction n with
  | zero => rfl
  | succ j ih =>
    rw [forIc_succ]
    simp only []
    split_ifs
    · exact ih
    · exact ih
    · exact ih

theorem spiCom_WaitSyncForReady_stopHal_log (n : Nat) (drv : SpiDriver_State_t)
    (dev : StopDev) :
    (spiCom_WaitSyncForReady stopHal n drv dev).2.log = dev.log := by
  unfold spiCom_WaitSyncForReady
  by_cases h : n > 1
  · rw [if_pos h, syncLoop_eq_visitInOrder]
    have e := visitInOrder_stopHal_log (fun d : StopDev => d)
      (fun ic => (drv.params ic).icIndex) [] (fun _ => True)
      (fun ic dev => (spiCom_SetDev stopHal (drv.params ic).icIndex dev).2)
      (fun _ dev => spiCom_WaitForReady stopHal.toHal dev)
      (fun _ _ _ => trivial) (fun _ _ _ => trivial)
      (fun ic s _ => by
        show (spiCom_SetDev stopHal (drv.params ic).icIndex s).2 = _
        rw [spiCom_SetDev_stopHal])
      (fun _ s => by
        obtain ⟨a, b⟩ := s
        simp [spiCom_WaitForReady, stopHal])
      (List.range n).reverse (SPI_DRV_FUNC_RES_OK, dev) trivial
    rw [e]
    simp
  · rw [if_neg h]
    rfl

theorem spiDriver_MakeSync_setDev_stopHal (icCount devId : Nat) (s : MakeSyncState StopDev)
    (h : 2 ≤ icCount) :
    (spiDriver_MakeSync_setDev stopHal icCount devId s).com.dev
      = { sel := devId, log := s.com.dev.log } := by
  unfold spiDriver_MakeSync_setDev
  rw [if_pos h]
  exact selectDev_stopHal devId s.com

theorem spiDriver_MakeSync_body_stopHal (icCount : Nat) (drv : SpiDriver_State_t)
    (lightControl : Bool) (nth_part ind : Nat) (s : MakeSyncState StopDev) (h : 2 ≤ icCount) :
    (spiDriver_MakeSync_body stopHal icCount drv lightControl nth_part ind s).com.dev.log
      = s.com.dev.log ++
        (if makeSyncActive drv nth_part (icCount - 1 - ind) = true then
          [((drv.params (icCount - 1 - ind)).icIndex, [8192, 3, 0, 27736]),
            ((drv.params (icCount - 1 - ind)).icIndex, [57344, 0, 0, 35640])]
        else []) := by
  unfold spiDriver_MakeSync_body
  simp only []
  by_cases h1 : (drv.params (icCount - 1 - ind)).contState ≠ CONT_MODE_STATE_IDLE
  · rw [if_pos h1]
    by_cases h2 : (drv.params (icCount - 1 - ind)).sceneCurrentLayer
        ≠ ((drv.params (icCount - 1 - ind)).sceneLayersAmount + 4294967295) % 4294967296
        ∨ drv.continuousMode = true
    · rw [if_pos h2]
      by_cases h3 : (drv.params (icCount - 1 - ind)).sceneSyncMode = ACQU_SYNC_FRAME
          ∨ ((drv.params (icCount - 1 - ind)).sceneSyncMode = ACQU_SYNC_LAYER ∧ nth_part = 0)
      · rw [if_pos h3]
        have hact : makeSyncActive drv nth_part (icCount - 1 - ind) = true := by
          unfold makeSyncActive
          simp only [Bool.and_eq_true, Bool.or_eq_true, decide_eq_true_eq]
          exact ⟨⟨h1, h2⟩, h3⟩
        rw [if_pos hact, spiCom_Sync_stopHal]
        simp only []
        rw [spiDriver_MakeSync_setDev_stopHal _ _ _ h]
        simp only []
        cases lightControl
        · simp only [Bool.false_eq_true, if_false]
          rw [spiCom_AcquSync_stopHal]
          simp only []
          rw [spiDriver_MakeSync_setDev_stopHal _ _ _ h]
          simp only []
          rw [spiDriver_SyncPinWaitForReady_stopHal_log,
            spiDriver_MakeSync_setDev_stopHal _ _ _ h]
          simp
        · simp only [if_true]
          rw [spiCom_WaitSyncForReady_stopHal_log, spiCom_AcquSync_stopHal]
          simp only []
          rw [spiDriver_MakeSync_setDev_stopHal _ _ _ h]
          simp only []
          rw [spiDriver_SyncPinWaitForReady_stopHal_log,
            spiDriver_MakeSync_setDev_stopHal _ _ _ h]
          simp
      · rw [if_neg h3]
        have hact : ¬ makeSyncActive drv nth_part (icCount - 1 - ind) = true := by
          unfold makeSyncActive
          simp only [Bool.and_eq_true, Bool.or_eq_true, decide_eq_true_eq]
          exact fun g => h3 g.2
        rw [if_neg hact, spiDriver_MakeSync_setDev_stopHal _ _ _ h]
        simp
    · rw [if_neg h2]
      have hact : ¬ makeSyncActive drv nth_part (icCount - 1 - ind) = true := by
        unfold makeSyncActive
        simp only [Bool.and_eq_true, Bool.or_eq_true, decide_eq_true_eq]
        exact fun g => h2 g.1.2
      rw [if_neg hact, spiDriver_MakeSync_setDev_stopHal _ _ _ h]
      simp
  · rw [if_neg h1]
    have hact : ¬ makeSyncActive drv nth_part (icCount - 1 - ind) = true := by
      unfold makeSyncActive
      simp only [Bool.and_eq_true, Bool.or_eq_true, decide_eq_true_eq]
      exact fun g => h1 g.1.1
    rw [if_neg hact]
    simp

theorem spiDriver_MakeSync_loop_stopHal (icCount : Nat) (drv : SpiDriver_State_t)
    (lightControl : Bool) (nth_part : Nat) (s : MakeSyncState StopDev) (h : 2 ≤ icCount) :
    ∀ n, (forIc n (spiDriver_MakeSync_body stopHal icCount drv lightControl nth_part)
        s).com.dev.log
      = s.com.dev.log ++ (((List.range n).map (fun ind => icCount - ind - 1)).map
          (fun ic => if makeSyncActive drv nth_part ic = true then
            [((drv.params ic).icIndex, [8192, 3, 0, 27736]),
              ((drv.params ic).icIndex, [57344, 0, 0, 35640])]
          else [])).flatten := by
  intro n
  induction n with
  | zero => simp [forIc_zero]
  | succ j ih =>
    rw [forIc_succ, spiDriver_MakeSync_body_stopHal _ _ _ _ _ _ h, ih, List.range_succ]
    have e : icCount - 1 - j = icCount - j - 1 := by omega
    simp [List.append_assoc, e]

set_option maxRecDepth 100000 in
/-- C24 (counterexample): after the order `7, 3` has been set, the device stored at the last
index is the one with id 3, and on the recording bus its SYNC and ACQU_SYNC packets are the
first ones, before those of the device with id 7, in `spiCom_SyncSync`, in
`spiCom_AcquSyncSync` and in `spiDriver_MakeSync`. -/
theorem spiCom_SyncSync_last_index_first :
    (spiDriver_SetSyncIcOrder (some threeIds) 2 0
        (driverStateOf 2 CONT_MODE_STATE_WORKING)).1 = SPI_DRV_FUNC_RES_OK
    ∧ (orderedState.params 1).icIndex = 3
    ∧ (spiCom_SyncSync stopHal 2 orderedState (initCom { sel := 0, log := [] })).2.dev.log
      = [(3, [57344, 0, 0, 35640]), (7, [57344, 0, 0, 35640])]
    ∧ (spiCom_AcquSyncSync stopHal 2 orderedState (initCom { sel := 0, log := [] })).2.dev.log
      = [(3, [8192, 3, 0, 27736]), (7, [8192, 3, 0, 27736])]
    ∧ (spiDriver_MakeSync stopHal 2 orderedState false 0
        (initCom { sel := 0, log := [] })).com.dev.log
      = [(3, [8192, 3, 0, 27736]), (3, [57344, 0, 0, 35640]),
         (7, [8192, 3, 0, 27736]), (7, [57344, 0, 0, 35640])] := by
  decide

/-- C24 (amended): with two or more devices, on the recording bus, `spiCom_AcquSyncSync` and
`spiCom_SyncSync` send the ACQU_SYNC and the SYNC packet to the devices of the indices
`icCount - 1` down to 0 in this order, and `spiDriver_MakeSync` sends the ACQU_SYNC packet and
then the SYNC packet of every device that takes part, in the same order of the devices: the
commands of the device stored at index 0, the first of the order, are issued after those of
all other devices, and those of the device at the last index are issued first. -/
theorem syncCommands_first_index_last (icCount : Nat) (drv : SpiDriver_State_t)
    (h : 2 ≤ icCount) :
    (∀ com : ComState StopDev,
      (spiCom_AcquSyncSync stopHal icCount drv com).2.dev.log
        = com.dev.log ++ (List.range icCount).reverse.map
            (fun ic => ((drv.params ic).icIndex, [8192, 3, 0, 27736])))
    ∧ (∀ com : ComState StopDev,
      (spiCom_SyncSync stopHal icCount drv com).2.dev.log
        = com.dev.log ++ (List.range icCount).reverse.map
            (fun ic => ((drv.params ic).icIndex, [57344, 0, 0, 35640])))
    ∧ (∀ (lightControl : Bool) (nth_part : Nat) (com : ComState StopDev),
      (spiDriver_MakeSync stopHal icCount drv lightControl nth_part com).com.dev.log
        = com.dev.log ++ ((List.range icCount).reverse.map
            (fun ic => if makeSyncActive drv nth_part ic = true then
              [((drv.params ic).icIndex, [8192, 3, 0, 27736]),
                ((drv.params ic).icIndex, [57344, 0, 0, 35640])]
            else [])).flatten)
    ∧ (List.range icCount).reverse.head? = some (icCount - 1)
    ∧ (List.range icCount).reverse.getLast? = some 0 := by
  refine ⟨?_, ?_, ?_, ?_, ?_⟩
  · intro com
    unfold spiCom_AcquSyncSync
    rw [if_pos (by omega), syncLoop_stopHal_log drv [[8192, 3, 0, 27736]] _
      (fun c => spiCom_AcquSync_stopHal c), flatten_single_packet]
  · intro com
    unfold spiCom_SyncSync
    rw [if_pos (by omega), syncLoop_stopHal_log drv [[57344, 0, 0, 35640]] _
      (fun c => spiCom_Sync_stopHal c), flatten_single_packet]
  · intro lightControl nth_part com
    unfold spiDriver_MakeSync
    rw [spiDriver_MakeSync_loop_stopHal icCount drv lightControl nth_part _ h icCount,
      range_reverse_eq_map]
  · obtain ⟨n, rfl⟩ : ∃ n, icCount = n + 1 := ⟨icCount - 1, by omega⟩
    rw [range_reverse_succ]
    rfl
  · obtain ⟨n, rfl⟩ : ∃ n, icCount = n + 1 := ⟨icCount - 1, by omega⟩
    rw [List.getLast?_reverse, List.range_succ_eq_map]
    rfl

set_option maxRecDepth 100000 in
/-- C24 (witness): after the order `7, 3` has been set, the SYNC packets, the ACQU_SYNC
packets and the packets of `spiDriver_MakeSync` reach the device with id 7, the first of the
order, after those of the device with id 3. -/
theorem syncCommands_first_index_last_witness :
    (spiCom_AcquSyncSync stopHal 2 orderedState (initCom { sel := 0, log := [] })).2.dev.log
      = [(3, [8192, 3, 0, 27736]), (7, [8192, 3, 0, 27736])]
    ∧ (spiCom_SyncSync stopHal 2 orderedState (initCom { sel := 0, log := [] })).2.dev.log
      = [(3, [57344, 0, 0, 35640]), (7, [57344, 0, 0, 35640])]
    ∧ (spiDriver_MakeSync stopHal 2 orderedState true 0
        (initCom { sel := 0, log := [] })).com.dev.log
      = [(3, [8192, 3, 0, 27736]), (3, [57344, 0, 0, 35640]),
         (7, [8192, 3, 0, 27736]), (7, [57344, 0, 0, 35640])] :=
  ⟨((syncCommands_first_index_last 2 orderedState (by decide)).1
      (initCom { sel := 0, log := [] })).trans (by decide),
    ((syncCommands_first_index_last 2 orderedState (by decide)).2.1
      (initCom { sel := 0, log := [] })).trans (by decide),
    ((syncCommands_first_index_last 2 orderedState (by decide)).2.2.1 true 0
      (initCom { sel := 0, log := [] })).trans (by decide)⟩

set_option maxRecDepth 100000 in
/-- C31 (failing input): in the synchronized branch, with scenes of one layer and every
device-level stop succeeding, the stop-all path leaves a single device with the pending-steps
value 1 and not 2, and leaves two devices with different values, 1 for the device of the
record that triggered the stop and 2 for the other; with scenes of three layers both devices
get the value 1. -/
theorem contModeExecute_stopAll_one_layer_not_uniform :
    ((oneLayerStopRequested.spiDriver_currentState.params 0).sceneLayersAmount = 1
      ∧ (contModeExecute_dataReady_records (contCfg false) stopHal 1 CONT_MODE_WORK (batchOf 10)
          oneLayerStopRequested).2.out = [ContAction.stopIssued 0]
      ∧ (contModeExecute_dataReady_records (contCfg false) stopHal 1 CONT_MODE_WORK (batchOf 10)
          oneLayerStopRequested).2.contModePendingSteps 0 = 1)
    ∧ ((contModeExecute_dataReady_records (contCfg false) stopHal 2 CONT_MODE_WORK (batchOf 10)
          oneLayerStopRequested).2.out = [ContAction.stopIssued 0, ContAction.stopIssued 1]
      ∧ (contModeExecute_dataReady_records (contCfg false) stopHal 2 CONT_MODE_WORK (batchOf 10)
          oneLayerStopRequested).2.contModePendingSteps 0 = 1
      ∧ (contModeExecute_dataReady_records (contCfg false) stopHal 2 CONT_MODE_WORK (batchOf 10)
          oneLayerStopRequested).2.contModePendingSteps 1 = 2)
    ∧ ((contModeExecute_dataReady_records (contCfg false) stopHal 2 CONT_MODE_WORK (batchOf 10)
          stopRequested).2.out = [ContAction.stopIssued 0, ContAction.stopIssued 1]
      ∧ (contModeExecute_dataReady_records (contCfg false) stopHal 2 CONT_MODE_WORK (batchOf 10)
          stopRequested).2.contModePendingSteps 0 = 1
      ∧ (contModeExecute_dataReady_records (contCfg false) stopHal 2 CONT_MODE_WORK (batchOf 10)
          stopRequested).2.contModePendingSteps 1 = 1) := by
  decide

/-- C32: a Stop command sets the last-request flag of every configured device and the mode
`CONT_MODE_WORK` (which is not `CONT_MODE_STOP`) of every configured device, and changes
nothing else: no message is sent and no stop is recorded, the globals of the transport and
the state of the devices are as before (nothing is sent to a device), and the pending-steps
values, the driver state and `looping` are unchanged. An iteration of the loop that receives
the Stop command does exactly this, after the changes of the other threads. -/
theorem contModeExecute_command_stop {σ : Type} (icCount : Nat) (s : ContModeState σ) :
    (∀ k, (contModeExecute_command icCount CONT_MODE_STOP s).lastRequest k
      = if k < icCount then true else s.lastRequest k)
    ∧ (∀ k, (contModeExecute_command icCount CONT_MODE_STOP s).contModeThread k
      = if k < icCount then CONT_MODE_WORK else s.contModeThread k)
    ∧ CONT_MODE_WORK ≠ CONT_MODE_STOP
    ∧ (contModeExecute_command icCount CONT_MODE_STOP s).out = s.out
    ∧ (contModeExecute_command icCount CONT_MODE_STOP s).com = s.com
    ∧ (contModeExecute_command icCount CONT_MODE_STOP s).contModePendingSteps
      = s.contModePendingSteps
    ∧ (contModeExecute_command icCount CONT_MODE_STOP s).spiDriver_currentState
      = s.spiDriver_currentState
    ∧ (contModeExecute_command icCount CONT_MODE_STOP s).looping = s.looping
    ∧ ∀ (cfg : ContModeCfg_t) (hal : DevHal σ)
        (shared : SpiDriver_State_t → SpiDriver_State_t) (data : Option DataReady),
        contModeExecute_iteration cfg hal icCount
          { shared := shared, ctrl := some CONT_MODE_STOP, data := data } s
        = contModeExecute_command icCount CONT_MODE_STOP (s.withShared shared) := by
  have e : contModeExecute_command icCount CONT_MODE_STOP s
      = { contModeThread :=
            forIc icCount (fun ic m => Function.update m ic CONT_MODE_WORK) s.contModeThread
          contModePendingSteps := s.contModePendingSteps
          lastRequest := forIc icCount (fun ic l => Function.update l ic true) s.lastRequest
          looping := s.looping
          spiDriver_currentState := s.spiDriver_currentState
          com := s.com
          out := s.out } := by
    unfold contModeExecute_command
    simp only [show ¬ (CONT_MODE_STOP = CONT_MODE_IDLE) by decide,
      show ¬ (CONT_MODE_STOP = CONT_MODE_WORK) by decide, if_false, if_true]
  rw [e]
  refine ⟨?_, ?_, by decide, rfl, rfl, rfl, rfl, rfl, ?_⟩
  · intro k
    exact forIc_update_const icCount true s.lastRequest k
  · intro k
    exact forIc_update_const icCount CONT_MODE_WORK s.contModeThread k
  · intro cfg hal shared data
    rfl

theorem and_65534 (n : Nat) (h : n < 65536) : n &&& 65534 = n - n % 2 := by
  apply Nat.eq_of_testBit_eq
  intro i
  rw [Nat.testBit_and]
  have h65534 : (65534 : Nat) = 2 ^ 16 - (1 + 1) := by norm_num
  by_cases hi : i = 0
  · subst hi
    have e1 : Nat.testBit 65534 0 = false := by decide
    rw [e1, Bool.and_false]
    symm
    rw [Nat.testBit_zero]
    have : (n - n % 2) % 2 = 0 := by omega
    simp [this]
  · obtain ⟨j, rfl⟩ : ∃ j, i = j + 1 := ⟨i - 1, by omega⟩
    have e2 : (n - n % 2).testBit (j + 1) = n.testBit (j + 1) := by
      rw [Nat.testBit_succ, Nat.testBit_succ]
      congr 1
      omega
    rw [e2]
    by_cases hj : j + 1 < 16
    · have e1 : Nat.testBit 65534 (j + 1) = true := by
        have : j + 1 = 1 ∨ j + 1 = 2 ∨ j + 1 = 3 ∨ j + 1 = 4 ∨ j + 1 = 5 ∨ j + 1 = 6
            ∨ j + 1 = 7 ∨ j + 1 = 8 ∨ j + 1 = 9 ∨ j + 1 = 10 ∨ j + 1 = 11 ∨ j + 1 = 12
            ∨ j + 1 = 13 ∨ j + 1 = 14 ∨ j + 1 = 15 := by omega
        rcases this with h | h | h | h | h | h | h | h | h | h | h | h | h | h | h <;>
          rw [h] <;> decide
      rw [e1, Bool.and_true]
    · have e3 : n.testBit (j + 1) = false :=
        Nat.testBit_lt_two_pow (lt_of_lt_of_le h (by
          have : 2 ^ 16 ≤ 2 ^ (j + 1) := Nat.pow_le_pow_right (by norm_num) (by omega)
          simpa using this))
      rw [e3, Bool.false_and]

/-- The bytes after the loop of `ReverseBytes16` that starts at the even counter `ind`. -/
theorem ReverseBytes16_loop_spec (size : Nat) (hs : size ≤ 65534) (hse : size % 2 = 0) :
    ∀ (left ind : Nat) (buffer : ByteBuf), ind % 2 = 0 → ind ≤ size → size < ind + 2 * left + 1 →
      ∀ i, ReverseBytes16_loop size left ind buffer i
        = if ind ≤ i ∧ i < size then (if i % 2 = 0 then buffer (i + 1) else buffer (i - 1))
          else buffer i := by
  intro left
  induction left with
  | zero =>
    intro ind buffer _ h1 h2 i
    have e : ReverseBytes16_loop size 0 ind buffer = buffer := rfl
    have hn : ¬ (ind ≤ i ∧ i < size) := by omega
    rw [e, if_neg hn]
  | succ left ih =>
    intro ind buffer he h1 h2 i
    have e : ReverseBytes16_loop size (left + 1) ind buffer
        = if ind < size then
            ReverseBytes16_loop size left ((ind + 2) % 65536)
              (Function.update (Function.update buffer ind (buffer (ind + 1))) (ind + 1)
                (buffer ind))
          else buffer := rfl
    rw [e]
    by_cases hlt : ind < size
    · rw [if_pos hlt]
      have hm : (ind + 2) % 65536 = ind + 2 := by omega
      rw [hm, ih (ind + 2) _ (by omega) (by omega) (by omega) i]
      by_cases hi : ind + 2 ≤ i ∧ i < size
      · have hi2 : ind ≤ i ∧ i < size := by omega
        rw [if_pos hi, if_pos hi2]
        have n1 : i + 1 ≠ ind + 1 := by omega
        have n2 : i + 1 ≠ ind := by omega
        by_cases hev : i % 2 = 0
        · rw [if_pos hev, if_pos hev, Function.update_noteq n1, Function.update_noteq n2]
        · have n3 : i - 1 ≠ ind + 1 := by omega
          have n4 : i - 1 ≠ ind := by omega
          rw [if_neg hev, if_neg hev, Function.update_noteq n3, Function.update_noteq n4]
      · rw [if_neg hi]
        by_cases h0 : i = ind
        · subst h0
          have n1 : i ≠ i + 1 := by omega
          have hi2 : i ≤ i ∧ i < size := by omega
          rw [Function.update_noteq n1, Function.update_same, if_pos hi2, if_pos he]
        · by_cases h1' : i = ind + 1
          · subst h1'
            have hi2 : ind ≤ ind + 1 ∧ ind + 1 < size := by omega
            have hodd : ¬ ((ind + 1) % 2 = 0) := by omega
            rw [Function.update_same, if_pos hi2, if_neg hodd]
            rfl
          · have hi2 : ¬ (ind ≤ i ∧ i < size) := by omega
            rw [Function.update_noteq h1', Function.update_noteq h0, if_neg hi2]
    · have hi2 : ¬ (ind ≤ i ∧ i < size) := by omega
      rw [if_neg hlt, if_neg hi2]

theorem ReverseBytes16_spec (buffer : ByteBuf) (size : Nat) (i : Nat) :
    ReverseBytes16 buffer size i
      = if i < 2 * ((size % 65536) / 2) then
          (if i % 2 = 0 then buffer (i + 1) else buffer (i - 1))
        else buffer i := by
  have hlt : size % 65536 < 65536 := Nat.mod_lt _ (by norm_num)
  unfold ReverseBytes16
  rw [and_65534 _ hlt,
    ReverseBytes16_loop_spec (size % 65536 - size % 65536 % 2) (by omega) (by omega) 32768 0
      buffer rfl (Nat.zero_le _) (by omega) i]
  by_cases h : i < 2 * ((size % 65536) / 2)
  · have h2 : 0 ≤ i ∧ i < size % 65536 - size % 65536 % 2 := by omega
    rw [if_pos h, if_pos h2]
  · have h2 : ¬ (0 ≤ i ∧ i < size % 65536 - size % 65536 % 2) := by omega
    rw [if_neg h, if_neg h2]

/-- C36: `ReverseBytes16(buffer, size)` exchanges the two bytes of each of the first
`floor(size / 2)` 16-bit words of the buffer and changes no other byte, so with an odd size
the last byte stays; applied twice with the same size it gives the buffer back; and on the
words that the bytes make up it is the exchange of the two bytes of each of these words, which
is the conversion that the transport applies to a packet before an exchange and to the
response after it. -/
theorem ReverseBytes16_swaps_words (buffer : ByteBuf) (size : Nat) (hs : size < 65536) :
    (∀ k, k < size / 2 →
      ReverseBytes16 buffer size (2 * k) = buffer (2 * k + 1)
      ∧ ReverseBytes16 buffer size (2 * k + 1) = buffer (2 * k))
    ∧ (∀ i, 2 * (size / 2) ≤ i → ReverseBytes16 buffer size i = buffer i)
    ∧ ReverseBytes16 (ReverseBytes16 buffer size) size = buffer
    ∧ ((∀ i, buffer i < 256) →
      wordsOfBytes (ReverseBytes16 buffer size) = ReverseBytes16Words (wordsOfBytes buffer) size)
    := by
  have hm : size % 65536 = size := Nat.mod_eq_of_lt hs
  have hspec : ∀ (b : ByteBuf) (i : Nat), ReverseBytes16 b size i
      = if i < 2 * (size / 2) then (if i % 2 = 0 then b (i + 1) else b (i - 1)) else b i := by
    intro b i
    rw [ReverseBytes16_spec, hm]
  refine ⟨?_, ?_, ?_, ?_⟩
  · intro k hk
    have c1 : 2 * k < 2 * (size / 2) := by omega
    have c2 : 2 * k + 1 < 2 * (size / 2) := by omega
    have c3 : (2 * k) % 2 = 0 := by omega
    have c4 : ¬ ((2 * k + 1) % 2 = 0) := by omega
    constructor
    · rw [hspec, if_pos c1, if_pos c3]
    · rw [hspec, if_pos c2, if_neg c4]
      rfl
  · intro i hi
    have c1 : ¬ (i < 2 * (size / 2)) := by omega
    rw [hspec, if_neg c1]
  · funext i
    rw [hspec]
    by_cases h : i < 2 * (size / 2)
    · rw [if_pos h]
      by_cases hev : i % 2 = 0
      · have c1 : i + 1 < 2 * (size / 2) := by omega
        have c2 : ¬ ((i + 1) % 2 = 0) := by omega
        rw [if_pos hev, hspec, if_pos c1, if_neg c2]
        rfl
      · have c1 : i - 1 < 2 * (size / 2) := by omega
        have c2 : (i - 1) % 2 = 0 := by omega
        have c3 : i - 1 + 1 = i := by omega
        rw [if_neg hev, hspec, if_pos c1, if_pos c2, c3]
    · rw [if_neg h, hspec, if_neg h]
  · intro hb
    funext i
    unfold wordsOfBytes ReverseBytes16Words bswap16
    simp only [hm]
    rw [hspec, hspec]
    have h1 := hb (2 * i)
    have h2 := hb (2 * i + 1)
    have c3 : (2 * i) % 2 = 0 := by omega
    have c4 : ¬ ((2 * i + 1) % 2 = 0) := by omega
    have e : 2 * i + 1 - 1 = 2 * i := by omega
    by_cases h : 2 * i < size - size % 2
    · have c1 : 2 * i < 2 * (size / 2) := by omega
      have c2 : 2 * i + 1 < 2 * (size / 2) := by omega
      rw [if_pos c1, if_pos c2, if_pos c3, if_neg c4, if_pos h, e]
      omega
    · have c1 : ¬ (2 * i < 2 * (size / 2)) := by omega
      have c2 : ¬ (2 * i + 1 < 2 * (size / 2)) := by omega
      rw [if_neg c1, if_neg c2, if_neg h]

/-- C36 (witness): on the bytes `1, 2, 3, 4, 5, 6, …` with the size 5 the first two words are
swapped and the fifth byte stays, and a second call gives the buffer back. -/
theorem ReverseBytes16_swaps_words_witness :
    (ReverseBytes16 countingBytes 5 (2 * 1) = countingBytes (2 * 1 + 1)
      ∧ ReverseBytes16 countingBytes 5 (2 * 1 + 1) = countingBytes (2 * 1))
    ∧ ReverseBytes16 countingBytes 5 4 = countingBytes 4
    ∧ ReverseBytes16 (ReverseBytes16 countingBytes 5) 5 = countingBytes :=
  ⟨(ReverseBytes16_swaps_words countingBytes 5 (by decide)).1 1 (by decide),
    (ReverseBytes16_swaps_words countingBytes 5 (by decide)).2.1 4 (by decide),
    (ReverseBytes16_swaps_words countingBytes 5 (by decide)).2.2.1⟩

theorem rev_offset_eq (f : FwFieldInfo_t) (h1 : f.bitOffset + f.bitSize ≤ 8 * f.byteSize)
    (h2 : 8 * f.byteSize ≤ 32) : f.rev_offset = 8 * f.byteSize - f.bitOffset - f.bitSize := by
  unfold FwFieldInfo_t.rev_offset
  omega

/-- The field mask `((1 << s) - 1) << o` fits in 32 bits when the field does. -/
theorem fieldMask_lt (s o : Nat) (h : o + s ≤ 32) : ((1 <<< s) - 1) <<< o < 4294967296 := by
  rw [Nat.one_shiftLeft, Nat.shiftLeft_eq]
  have h1 : (2 ^ s - 1) * 2 ^ o < 2 ^ s * 2 ^ o :=
    Nat.mul_lt_mul_of_pos_right (Nat.sub_lt (Nat.two_pow_pos s) Nat.one_pos) (Nat.two_pow_pos o)
  have h2 : 2 ^ s * 2 ^ o ≤ 2 ^ 32 := by
    rw [← Nat.pow_add]
    exact Nat.pow_le_pow_right (by norm_num) (by omega)
  have h3 : (2 : Nat) ^ 32 = 4294967296 := by norm_num
  omega

theorem fieldMask_testBit (s o i : Nat) :
    (((1 <<< s) - 1) <<< o).testBit i = (decide (o ≤ i) && decide (i - o < s)) := by
  rw [Nat.testBit_shiftLeft, Nat.one_shiftLeft, Nat.testBit_two_pow_sub_one]

theorem setBits_testBit (o s v x : Nat) (hos : o + s ≤ 32) (hv : v < 4294967296) (i : Nat) :
    ((v &&& (4294967295 - (((1 <<< s) - 1) <<< o) % 4294967296))
        ||| (((x <<< o) % 4294967296) &&& ((((1 <<< s) - 1) <<< o) % 4294967296))).testBit i
      = if o ≤ i ∧ i < o + s then x.testBit (i - o) else v.testBit i := by
  have hm := fieldMask_lt s o hos
  have e32 : (4294967296 : Nat) = 2 ^ 32 := by norm_num
  have en : 4294967295 - ((1 <<< s) - 1) <<< o = 2 ^ 32 - (((1 <<< s) - 1) <<< o + 1) := by
    rw [← e32]
    omega
  rw [Nat.mod_eq_of_lt hm, en, Nat.testBit_or, Nat.testBit_and, Nat.testBit_and,
    Nat.testBit_two_pow_sub_succ (by rw [← e32]; exact hm), fieldMask_testBit, e32,
    Nat.testBit_mod_two_pow, Nat.testBit_shiftLeft]
  by_cases h1 : o ≤ i
  · by_cases h2 : i - o < s
    · have h3 : i < 32 := by omega
      have h4 : o ≤ i ∧ i < o + s := by omega
      rw [if_pos h4]
      simp [h1, h2, h3]
    · have h4 : ¬ (o ≤ i ∧ i < o + s) := by omega
      rw [if_neg h4]
      by_cases h3 : i < 32
      · simp [h1, h2, h3]
      · have hf : v.testBit i = false :=
          Nat.testBit_lt_two_pow (lt_of_lt_of_le (by rw [← e32]; exact hv)
            (Nat.pow_le_pow_right (by norm_num) (by omega)))
        simp [h1, h2, h3, hf]
  · have h4 : ¬ (o ≤ i ∧ i < o + s) := by omega
    rw [if_neg h4]
    by_cases h3 : i < 32
    · simp [h1, h3]
    · have hf : v.testBit i = false :=
        Nat.testBit_lt_two_pow (lt_of_lt_of_le (by rw [← e32]; exact hv)
          (Nat.pow_le_pow_right (by norm_num) (by omega)))
      simp [h1, h3, hf]

/-- The bits of the result of `spiDriver_SetBitByVar`: inside the field the bits of the new
value, outside the bits of the old one. -/
theorem spiDriver_SetBitByVar_testBit (f : FwFieldInfo_t) (v x : Nat)
    (h1 : f.bitOffset + f.bitSize ≤ 8 * f.byteSize) (h2 : 8 * f.byteSize ≤ 32)
    (hv : v < 4294967296) (i : Nat) :
    (spiDriver_SetBitByVar f v x).testBit i
      = if f.rev_offset ≤ i ∧ i < f.rev_offset + f.bitSize then x.testBit (i - f.rev_offset)
        else v.testBit i := by
  have ho := rev_offset_eq f h1 h2
  exact setBits_testBit f.rev_offset f.bitSize v x (by omega) hv i

/-- C38: for a bit-field descriptor with `1 ≤ bitSize < 32` and
`bitOffset + bitSize ≤ 8 * byteSize ≤ 32`, a 32-bit value `v` and a new value `x` (of 32 bits
or of any size), reading the field
with `spiDriver_GetBitByVar` from the result of `spiDriver_SetBitByVar(f, v, x)` gives
`x mod 2^bitSize`, and the result of `spiDriver_SetBitByVar` has the bits of `v` everywhere
outside the `bitSize` bits that start at bit `8 * byteSize - bitOffset - bitSize`; the result is
a 32-bit value. -/
theorem spiDriver_SetBitByVar_GetBitByVar (f : FwFieldInfo_t) (v x : Nat)
    (hs1 : 1 ≤ f.bitSize) (hs2 : f.bitSize < 32)
    (h1 : f.bitOffset + f.bitSize ≤ 8 * f.byteSize) (h2 : 8 * f.byteSize ≤ 32)
    (hv : v < 4294967296) :
    spiDriver_GetBitByVar f (spiDriver_SetBitByVar f v x) = x % 2 ^ f.bitSize
    ∧ (∀ i, (i < 8 * f.byteSize - f.bitOffset - f.bitSize
          ∨ 8 * f.byteSize - f.bitOffset - f.bitSize + f.bitSize ≤ i) →
        (spiDriver_SetBitByVar f v x).testBit i = v.testBit i)
    ∧ spiDriver_SetBitByVar f v x < 4294967296 := by
  have ho := rev_offset_eq f h1 h2
  have hbits := spiDriver_SetBitByVar_testBit f v x h1 h2 hv
  refine ⟨?_, ?_, ?_⟩
  · apply Nat.eq_of_testBit_eq
    intro j
    have e1 : spiDriver_GetBitByVar f (spiDriver_SetBitByVar f v x)
        = (spiDriver_SetBitByVar f v x >>> f.rev_offset)
          &&& (((1 <<< f.bitSize) - 1) % 4294967296) := rfl
    have hlt : (1 <<< f.bitSize) - 1 < 4294967296 := by
      have := fieldMask_lt f.bitSize 0 (by omega)
      simpa using this
    rw [e1, Nat.mod_eq_of_lt hlt, Nat.testBit_and, Nat.testBit_shiftRight, hbits,
      Nat.one_shiftLeft, Nat.testBit_two_pow_sub_one, Nat.testBit_mod_two_pow]
    by_cases hj : j < f.bitSize
    · have c : f.rev_offset ≤ f.rev_offset + j ∧ f.rev_offset + j < f.rev_offset + f.bitSize := by
        omega
      have e2 : f.rev_offset + j - f.rev_offset = j := by omega
      rw [if_pos c, e2]
      simp [hj]
    · simp [hj]
  · intro i hi
    have c : ¬ (f.rev_offset ≤ i ∧ i < f.rev_offset + f.bitSize) := by omega
    rw [hbits, if_neg c]
  · apply Nat.lt_of_testBit 32
    · rw [hbits]
      have c : ¬ (f.rev_offset ≤ 32 ∧ 32 < f.rev_offset + f.bitSize) := by omega
      rw [if_neg c]
      have hv2 : v < 2 ^ 32 := by
        norm_num
        exact hv
      exact Nat.testBit_lt_two_pow hv2
    · decide
    · intro j hj
      have c : ¬ (f.rev_offset ≤ j ∧ j < f.rev_offset + f.bitSize) := by omega
      have hv2 : v < 2 ^ 32 := by
        norm_num
        exact hv
      have hle : 2 ^ 32 ≤ 2 ^ j := Nat.pow_le_pow_right (by norm_num) (by omega)
      have hf : v.testBit j = false := Nat.testBit_lt_two_pow (lt_of_lt_of_le hv2 hle)
      have hg : Nat.testBit 4294967296 j = false := by
        have e32 : (4294967296 : Nat) = 2 ^ 32 := by norm_num
        rw [e32, Nat.testBit_two_pow]
        simp
        omega
      rw [hbits, if_neg c, hf, hg]

/-- C38 (witness): the field `threeBitField` (bits 11 to 13 of a two-byte variable), the old
value `0xFFFF` and the new value 13, whose three low bits are 5. -/
theorem spiDriver_SetBitByVar_GetBitByVar_witness :
    spiDriver_GetBitByVar threeBitField (spiDriver_SetBitByVar threeBitField 65535 13)
      = 13 % 2 ^ threeBitField.bitSize
    ∧ spiDriver_SetBitByVar threeBitField 65535 13 = 61439 :=
  ⟨(spiDriver_SetBitByVar_GetBitByVar threeBitField 65535 13 (by decide) (by decide)
      (by decide) (by decide) (by decide)).1, by decide⟩

/-- A loop of `qsearch` that is given more iterations than the distance of its boards plus
one returns. -/
theorem qsearch_loop_returns (db : FwDatabase) (hash : Nat) :
    ∀ (left l r : Nat), l ≤ r → r < 2147483648 → r - l + 2 ≤ left →
      (qsearch_loop db hash left l r).isSome = true := by
  intro left
  induction left with
  | zero =>
    intro l r _ _ h
    omega
  | succ left ih =>
    intro l r hlr hr h
    unfold qsearch_loop
    simp only []
    split_ifs with h1 h2 h3 h4
    · rfl
    · rfl
    · rfl
    · have e1 : (r + 4294967296 - l) % 4294967296 = r - l := by omega
      have e2 : (r + l) % 4294967296 = r + l := by omega
      rw [e1] at h3
      rw [e2]
      exact ih l ((r + l) / 2) (by omega) (by omega) (by omega)
    · have e1 : (r + 4294967296 - l) % 4294967296 = r - l := by omega
      have e2 : (r + l) % 4294967296 = r + l := by omega
      rw [e1] at h3
      rw [e2]
      exact ih ((r + l) / 2) r (by omega) (by omega) (by omega)

/-- A field index that the loop of `qsearch` returns is the index of a field with the hash
that was searched. -/
theorem qsearch_loop_hash (db : FwDatabase) (hash : Nat) :
    ∀ (left l r : Nat) (ind : Int), qsearch_loop db hash left l r = some ind → 0 ≤ ind →
      (db.fwFields ind.toNat).fldNameHash = hash := by
  intro left
  induction left with
  | zero =>
    intro l r ind h
    exact absurd h (by simp [qsearch_loop])
  | succ left ih =>
    intro l r ind h h0
    unfold qsearch_loop at h
    simp only [] at h
    split_ifs at h with h1 h2 h3 h4
    · cases h
      exact h1.symm
    · cases h
      exact h2.symm
    · cases h
      omega
    · exact ih _ _ ind h h0
    · exact ih _ _ ind h h0

/-- The search of `GetFwVariableByName` ends for every database of 1 to 65535 fields and every
name, and a field that it returns is a field whose stored hash is the hash of the name; the
name of the field is not looked at. -/
theorem GetFwVariableByName_returns_by_hash (db : FwDatabase) (name : List Nat)
    (h1 : 0 < db.fwFieldsCount) (h2 : db.fwFieldsCount < 65536) :
    ∃ r, GetFwVariableByName db (some name) = some r
      ∧ ∀ f, r = some f → f.fldNameHash = GetHashDjb2 name := by
  have e : GetFwVariableByName db (some name)
      = match qsearch db (GetHashDjb2 name) with
        | none => none
        | some ind => if ind ≥ 0 then some (some (db.fwFields ind.toNat)) else some none := by
    unfold GetFwVariableByName
    simp only []
    rw [if_pos h1]
  have hq : ∃ ind, qsearch db (GetHashDjb2 name) = some ind
      ∧ (0 ≤ ind → (db.fwFields ind.toNat).fldNameHash = GetHashDjb2 name) := by
    unfold qsearch
    simp only []
    split_ifs with hc
    · have hr : (db.fwFieldsCount + 4294967295) % 4294967296 = db.fwFieldsCount - 1 := by omega
      rw [hr]
      have hs := qsearch_loop_returns db (GetHashDjb2 name) (db.fwFieldsCount + 1) 0
        (db.fwFieldsCount - 1) (Nat.zero_le _) (by omega) (by omega)
      obtain ⟨ind, hind⟩ := Option.isSome_iff_exists.mp hs
      exact ⟨ind, hind, qsearch_loop_hash db _ _ _ _ ind hind⟩
    · exact ⟨-1, rfl, fun h => absurd h (by decide)⟩
  obtain ⟨ind, hind, hh⟩ := hq
  rw [e, hind]
  by_cases h0 : ind ≥ 0
  · refine ⟨some (db.fwFields ind.toNat), ?_, ?_⟩
    · simp only [if_pos h0]
    · intro f hf
      cases hf
      exact hh h0
  · refine ⟨none, ?_, ?_⟩
    · simp only [if_neg h0]
    · intro f hf
      cases hf

set_option maxRecDepth 100000 in
/-- C37 (failing input): in the database `smallDatabase` of the variables `"Az"`, `"a"` and
`"zz"`, whose hashes are pairwise distinct and whose index is sorted by hash,
`GetFwVariableByName("BY")` does not return `NULL`: `"BY"` is the name of no field, but its
DJB2 hash 5862176 is the hash of `"Az"`, and the function returns the field `"Az"`. The names
of the database are found, and the name `"b"`, whose hash no field has, gives `NULL`. -/
theorem GetFwVariableByName_returns_on_hash_collision :
    GetHashDjb2 [66, 89] = 5862176 ∧ GetHashDjb2 [65, 122] = 5862176
    ∧ (∀ i, i < 3 → (smallDatabase.fwFields i).fldName ≠ [66, 89])
    ∧ (∀ i, i < 2 → (smallDatabase.fwFields (smallDatabase.fwNameIdx i)).fldNameHash
        < (smallDatabase.fwFields (smallDatabase.fwNameIdx (i + 1))).fldNameHash)
    ∧ (GetFwVariableByName smallDatabase (some [66, 89])).map (Option.map FwFieldInfo_t.fldName)
        = some (some [65, 122])
    ∧ (GetFwVariableByName smallDatabase (some [66, 89])).map (Option.map FwFieldInfo_t.fldAddr)
        = some (some 100)
    ∧ (GetFwVariableByName smallDatabase (some [65, 122])).map
        (Option.map FwFieldInfo_t.fldName) = some (some [65, 122])
    ∧ (GetFwVariableByName smallDatabase (some [97])).map (Option.map FwFieldInfo_t.fldName)
        = some (some [97])
    ∧ (GetFwVariableByName smallDatabase (some [122, 122])).map
        (Option.map FwFieldInfo_t.fldName) = some (some [122, 122])
    ∧ (GetFwVariableByName smallDatabase (some [98])).map (Option.map FwFieldInfo_t.fldName)
        = some none := by
  decide

set_option maxRecDepth 100000 in
/-- C39 (failing input): two devices on the bus `brokenHal`, on which every transfer to the
device with the id 11 (index 1, visited first) fails and the device with the id 10 (index 0,
visited last) answers correctly. Each operation fails on the device 11 with
`SPI_DRV_FUNC_RES_FAIL_COMM`, each broadcast function addresses the device 11 and then the
device 10, and each of `spiCom_SensorSyncStart`, `spiCom_SensorSyncStop`,
`spiCom_AcquSyncSync`, `spiCom_SyncSync`, `spiCom_ApplySyncPatch` and
`spiDriver_SetSyncByName` returns `SPI_DRV_FUNC_RES_OK`. -/
theorem syncBroadcast_returns_last_result :
    ((spiCom_SensorStart brokenHal.toHal selected11).res = SPI_DRV_FUNC_RES_FAIL_COMM
      ∧ (spiCom_SensorStop brokenHal.toHal selected11).res = SPI_DRV_FUNC_RES_FAIL_COMM
      ∧ (spiCom_AcquSync brokenHal.toHal selected11).res = SPI_DRV_FUNC_RES_FAIL_COMM
      ∧ (spiCom_Sync brokenHal.toHal selected11).res = SPI_DRV_FUNC_RES_FAIL_COMM
      ∧ (spiCom_ApplyPatch brokenHal.toHal selected11).res = SPI_DRV_FUNC_RES_FAIL_COMM
      ∧ (setByNameBroken selected11).1 = SPI_DRV_FUNC_RES_FAIL_COMM)
    ∧ ((spiCom_SensorSyncStart brokenHal 2
          (driverStateOf 1 0, initCom { sel := 0, log := [] })).2.2.dev.log.map Prod.fst
        = [11, 11, 10, 10]
      ∧ (spiCom_SensorSyncStop brokenHal 2 (driverStateOf 1 0)
          (initCom { sel := 0, log := [] })).2.dev.log.map Prod.fst = [11, 10]
      ∧ (spiCom_AcquSyncSync brokenHal 2 (driverStateOf 1 0)
          (initCom { sel := 0, log := [] })).2.dev.log.map Prod.fst = [11, 10]
      ∧ (spiCom_SyncSync brokenHal 2 (driverStateOf 1 0)
          (initCom { sel := 0, log := [] })).2.dev.log.map Prod.fst = [11, 10]
      ∧ (spiCom_ApplySyncPatch brokenHal 2 (driverStateOf 1 0)
          (initCom { sel := 0, log := [] })).2.dev.log.map Prod.fst = [11, 10])
    ∧ (spiCom_SensorSyncStart brokenHal 2
        (driverStateOf 1 0, initCom { sel := 0, log := [] })).1 = SPI_DRV_FUNC_RES_OK
    ∧ (spiCom_SensorSyncStop brokenHal 2 (driverStateOf 1 0)
        (initCom { sel := 0, log := [] })).1 = SPI_DRV_FUNC_RES_OK
    ∧ (spiCom_AcquSyncSync brokenHal 2 (driverStateOf 1 0)
        (initCom { sel := 0, log := [] })).1 = SPI_DRV_FUNC_RES_OK
    ∧ (spiCom_SyncSync brokenHal 2 (driverStateOf 1 0)
        (initCom { sel := 0, log := [] })).1 = SPI_DRV_FUNC_RES_OK
    ∧ (spiCom_ApplySyncPatch brokenHal 2 (driverStateOf 1 0)
        (initCom { sel := 0, log := [] })).1 = SPI_DRV_FUNC_RES_OK
    ∧ (spiDriver_SetSyncByName brokenHal 2 (driverStateOf 1 0) setByNameBroken
        (initCom { sel := 0, log := [] })).1 = SPI_DRV_FUNC_RES_OK := by
  decide

set_option maxRecDepth 100000 in
/-- C40 (failing input): two devices in slave mode with equal scene flags, of which the first
reports a `scene_layers_amount` of 2 and the second of 0. `ReadSyncConfig` succeeds on both
and stores the layer counts 2 and 0, and `CompareSyncConfig` on this pair (in either order)
takes a remainder modulo zero in its first iteration: it returns no verdict, and neither does
`spiDriver_CheckSyncConfig`. With the amount 0 on both devices the loop is not entered and
the verdict is `true`. -/
theorem CompareSyncConfig_zero_layer_count :
    (ReadSyncConfig SPI_DRV_FUNC_RES_OK (slaveReporting 2) 0 blankSyncConfig).map
        (fun r => (r.1, r.2.layer_count, r.2.slave_mode)) = some (SPI_DRV_FUNC_RES_OK, 2, 1)
    ∧ (ReadSyncConfig SPI_DRV_FUNC_RES_OK (slaveReporting 0) 0 blankSyncConfig).map
        (fun r => (r.1, r.2.layer_count, r.2.slave_mode)) = some (SPI_DRV_FUNC_RES_OK, 0, 1)
    ∧ (∀ ic, ic < 2 →
        (ReadSyncConfig SPI_DRV_FUNC_RES_OK (slaveReporting (if ic = 0 then 2 else 0)) 0
          blankSyncConfig).isSome = true
        ∧ (readTwoAndNone ic).1 = SPI_DRV_FUNC_RES_OK
        ∧ (readTwoAndNone ic).2.layer_count = (if ic = 0 then 2 else 0))
    ∧ CompareSyncConfig (readTwoAndNone 0).2 (readTwoAndNone 1).2 = none
    ∧ CompareSyncConfig (readTwoAndNone 1).2 (readTwoAndNone 0).2 = none
    ∧ spiDriver_CheckSyncConfig 2 (fun ic => ic) readTwoAndNone blankSyncConfig = none
    ∧ CompareSyncConfig (readTwoAndNone 1).2 (readTwoAndNone 1).2 = some true := by
  decide

theorem forIc_one {α : Type} (body : Nat → α → α) (s : α) : forIc 1 body s = body 0 s := rfl

/-- With one record to append, `spiDriver_AppendChipData` puts one record at the end of the
array. -/
theorem spiDriver_AppendChipData_one (params : SpiDriver_Params_t)
    (chipDataArray : List spiDriver_ChipData_t) (dataFormat : Nat) (data : WordBuf)
    (layerInd : Nat) (metaData : WordBuf) (status : Nat → FuncResult_e) :
    spiDriver_AppendChipData params chipDataArray dataFormat data layerInd metaData status 1
      = chipDataArray ++
        [{ data := (List.range (chipDataSize dataFormat / 2)).map data
           samples := (params.layers layerInd).nSamples
           metaData := (List.range 8).map metaData
           dataFormat := dataFormat
           status := status 0
           chip_id := params.icIndex }] := by
  unfold spiDriver_AppendChipData
  rw [forIc_one]
  unfold spiDriver_AppendChipData_body
  simp only [Nat.zero_add, Nat.add_zero]

/-- For one device `spiDriver_CombineTraces` faults exactly when the layer has no samples. -/
theorem spiDriver_CombineTraces_one (params : SpiDriver_Params_t)
    (evenTraceData oddTraceData traceData : WordBuf) (layerInd : Nat) :
    spiDriver_CombineTraces params evenTraceData oddTraceData traceData layerInd 1
      = if (params.layers layerInd).nSamples = 0 then none
        else some (forIc (N_CHANNELS / 2)
          (spiDriver_CombineTraces_body (params.layers layerInd).nSamples evenTraceData
            oddTraceData) (0, traceData)).2 := by
  unfold spiDriver_CombineTraces
  rw [forIc_one]
  simp only [Option.bind_some, Nat.add_zero]
  split_ifs <;> rfl

theorem tickMakeSync_frame {σ : Type} (hal : DevHal σ) (icCount : Nat) (lightControl : Bool)
    (icInd nth_part : Nat) (s : StepState σ) :
    (tickMakeSync hal icCount lightControl icInd nth_part s).spiDriver_currentState
        = s.spiDriver_currentState
    ∧ (tickMakeSync hal icCount lightControl icInd nth_part s).chipData = s.chipData
    ∧ (tickMakeSync hal icCount lightControl icInd nth_part s).ticked = s.ticked := by
  unfold tickMakeSync
  split_ifs <;> exact ⟨rfl, rfl, rfl⟩

theorem spiCom_GetRaw_isSome {σ : Type} (hal : Hal σ) (layersAndSamples : Nat)
    (trace rawMetaData : WordBuf) (com : ComState σ) :
    (spiCom_GetRaw hal layersAndSamples trace rawMetaData com).isSome = true
      ↔ 8 ≤ layersAndSamples % 65536 := by
  unfold spiCom_GetRaw
  simp only []
  split_ifs with h
  · simp [h]
  · simp [h]

theorem spiCom_GetEcho_isSome {σ : Type} (hal : Hal σ) (echoByte : Nat)
    (EchoesData echoMetaData : WordBuf) (com : ComState σ) :
    (spiCom_GetEcho hal echoByte EchoesData echoMetaData com).isSome = true
      ↔ 8 ≤ echoByte % 65536 := by
  unfold spiCom_GetEcho
  simp only []
  split_ifs with h
  · simp [h]
  · simp [h]

/-- What a trace tick does to the state: it appends two records and leaves
`spiDriver_currentState` and the list of ticked devices as they are. -/
theorem spiDriver_GetSingleTrace_spec {σ : Type} (hal : DevHal σ) (icCount : Nat)
    (lightControl : Bool) (heap : TickHeap) (icInd : Nat) (s : StepState σ)
    (res : FuncResult_e) (s' : StepState σ)
    (h : spiDriver_GetSingleTrace hal icCount lightControl heap icInd s = some (res, s')) :
    ∃ (com1 com2 : ComState σ) (even odd : DataState σ) (traceData : WordBuf),
      spiCom_GetRaw hal.toHal
          (((s.spiDriver_currentState.params icInd).layers
            (s.spiDriver_currentState.params icInd).sceneCurrentLayer).nSamples + 8)
          heap.evenTraceData heap.evenEchoMetadata com1 = some even
      ∧ spiCom_GetRaw hal.toHal
          (((s.spiDriver_currentState.params icInd).layers
            (s.spiDriver_currentState.params icInd).sceneCurrentLayer).nSamples + 8)
          heap.oddTraceData heap.oddEchoMetadata com2 = some odd
      ∧ spiDriver_CombineTraces (s.spiDriver_currentState.params icInd) even.data odd.data
          heap.traceData (s.spiDriver_currentState.params icInd).sceneCurrentLayer 1
          = some traceData
      ∧ s'.chipData = s.chipData ++
          [{ data := (List.range (chipDataSize CHIP_DATA_TRACE / 2)).map traceData
             samples := ((s.spiDriver_currentState.params icInd).layers
               (s.spiDriver_currentState.params icInd).sceneCurrentLayer).nSamples
             metaData := (List.range 8).map even.metaData
             dataFormat := CHIP_DATA_TRACE
             status := Function.update heap.evenStatus
               (s.spiDriver_currentState.params icInd).icIndex even.res 0
             chip_id := (s.spiDriver_currentState.params icInd).icIndex },
           { data := []
             samples := ((s.spiDriver_currentState.params icInd).layers 0).nSamples
             metaData := (List.range 8).map odd.metaData
             dataFormat := CHIP_DATA_META_ONLY
             status := Function.update heap.oddStatus
               (s.spiDriver_currentState.params icInd).icIndex odd.res 0
             chip_id := (s.spiDriver_currentState.params icInd).icIndex }]
      ∧ s'.spiDriver_currentState = s.spiDriver_currentState
      ∧ s'.ticked = s.ticked
      ∧ (icCount < 2 → res = SPI_DRV_FUNC_RES_OK)
      ∧ (∃ d1 d2 : σ, res = (SPI_DRV_FUNC_RES_OK
          ||| (spiCom_SetDev hal (s.spiDriver_currentState.params icInd).icIndex d1).1)
          ||| (spiCom_SetDev hal (s.spiDriver_currentState.params icInd).icIndex d2).1
        ∨ res = SPI_DRV_FUNC_RES_OK) := by
  unfold spiDriver_GetSingleTrace at h
  simp only [] at h
  obtain ⟨even, he, h⟩ := Option.bind_eq_some.mp h
  obtain ⟨odd, ho, h⟩ := Option.bind_eq_some.mp h
  obtain ⟨traceData, ht, h⟩ := Option.bind_eq_some.mp h
  simp only [Option.some.injEq, Prod.mk.injEq] at h
  obtain ⟨hres, hs⟩ := h
  refine ⟨_, _, even, odd, traceData, he, ho, ht, ?_, ?_, ?_, ?_, ?_⟩
  · rw [← hs]
    simp only [StepState.withChipData, spiDriver_AppendChipData_one, StepState.withCom,
      (tickMakeSync_frame _ _ _ _ _ _).2.1, List.append_assoc, List.singleton_append]
    have e0 : chipDataSize CHIP_DATA_META_ONLY / 2 = 0 := by decide
    rw [e0]
    rfl
  · rw [← hs]
    simp only [StepState.withChipData, StepState.withCom,
      (tickMakeSync_frame _ _ _ _ _ _).1]
  · rw [← hs]
    simp only [StepState.withChipData, StepState.withCom,
      (tickMakeSync_frame _ _ _ _ _ _).2.2]
  · intro hlt
    rw [← hres]
    unfold tickSetDev
    have hn : ¬ (icCount ≥ 2) := by omega
    simp only [if_neg hn]
  · rw [← hres]
    unfold tickSetDev
    by_cases hn : icCount ≥ 2
    · simp only [if_pos hn]
      exact ⟨_, _, Or.inl rfl⟩
    · simp only [if_neg hn]
      exact ⟨s.com.dev, s.com.dev, Or.inr trivial⟩

/-- What an echo tick does to the state: it appends one record in the echo format of the
layer and leaves `spiDriver_currentState` and the list of ticked devices as they are. -/
theorem spiDriver_GetSingleEcho_spec {σ : Type} (hal : DevHal σ) (icCount : Nat)
    (lightControl : Bool) (heap : TickHeap) (icInd : Nat) (s : StepState σ)
    (res : FuncResult_e) (s' : StepState σ)
    (h : spiDriver_GetSingleEcho hal icCount lightControl heap icInd s = some (res, s')) :
    ∃ (com1 : ComState σ) (echo : DataState σ),
      spiCom_GetEcho hal.toHal
          ((s.spiDriver_currentState.params icInd).layers
            (s.spiDriver_currentState.params icInd).sceneCurrentLayer).nSamples
          heap.echoesData heap.echoMetadata com1 = some echo
      ∧ s'.chipData = s.chipData ++
          [{ data := (List.range (chipDataSize ((s.spiDriver_currentState.params icInd).layers
                (s.spiDriver_currentState.params icInd).sceneCurrentLayer).format / 2)).map
                echo.data
             samples := ((s.spiDriver_currentState.params icInd).layers
               (s.spiDriver_currentState.params icInd).sceneCurrentLayer).nSamples
             metaData := (List.range 8).map echo.metaData
             dataFormat := ((s.spiDriver_currentState.params icInd).layers
               (s.spiDriver_currentState.params icInd).sceneCurrentLayer).format
             status := Function.update heap.echoStatus
               (s.spiDriver_currentState.params icInd).icIndex echo.res 0
             chip_id := (s.spiDriver_currentState.params icInd).icIndex }]
      ∧ s'.spiDriver_currentState = s.spiDriver_currentState
      ∧ s'.ticked = s.ticked
      ∧ (icCount < 2 → res = SPI_DRV_FUNC_RES_OK)
      ∧ (∃ d1 : σ, res = SPI_DRV_FUNC_RES_OK
          ||| (spiCom_SetDev hal (s.spiDriver_currentState.params icInd).icIndex d1).1
        ∨ res = SPI_DRV_FUNC_RES_OK) := by
  unfold spiDriver_GetSingleEcho at h
  simp only [] at h
  obtain ⟨echo, he, h⟩ := Option.bind_eq_some.mp h
  simp only [Option.some.injEq, Prod.mk.injEq] at h
  obtain ⟨hres, hs⟩ := h
  refine ⟨_, echo, he, ?_, ?_, ?_, ?_, ?_⟩
  · rw [← hs]
    simp only [StepState.withChipData, spiDriver_AppendChipData_one, StepState.withCom,
      (tickMakeSync_frame _ _ _ _ _ _).2.1]
  · rw [← hs]
    simp only [StepState.withChipData, StepState.withCom,
      (tickMakeSync_frame _ _ _ _ _ _).1]
  · rw [← hs]
    simp only [StepState.withChipData, StepState.withCom,
      (tickMakeSync_frame _ _ _ _ _ _).2.2]
  · intro hlt
    rw [← hres]
    unfold tickSetDev
    have hn : ¬ (icCount ≥ 2) := by omega
    simp only [if_neg hn]
  · rw [← hres]
    unfold tickSetDev
    by_cases hn : icCount ≥ 2
    · simp only [if_pos hn]
      exact ⟨_, Or.inl rfl⟩
    · simp only [if_neg hn]
      exact ⟨s.com.dev, Or.inr trivial⟩

/-- A trace tick returns exactly when the layer has samples and the request of `nSamples + 8`
words is one of at least 8 words as a `uint16_t`. -/
theorem spiDriver_GetSingleTrace_isSome {σ : Type} (hal : DevHal σ) (icCount : Nat)
    (lightControl : Bool) (heap : TickHeap) (icInd : Nat) (s : StepState σ) :
    (spiDriver_GetSingleTrace hal icCount lightControl heap icInd s).isSome = true
      ↔ (((s.spiDriver_currentState.params icInd).layers
            (s.spiDriver_currentState.params icInd).sceneCurrentLayer).nSamples ≠ 0
        ∧ 8 ≤ (((s.spiDriver_currentState.params icInd).layers
            (s.spiDriver_currentState.params icInd).sceneCurrentLayer).nSamples + 8) % 65536) := by
  unfold spiDriver_GetSingleTrace
  simp only []
  constructor
  · intro h
    obtain ⟨r, hr⟩ := Option.isSome_iff_exists.mp h
    obtain ⟨even, he, h1⟩ := Option.bind_eq_some.mp hr
    obtain ⟨odd, _, h2⟩ := Option.bind_eq_some.mp h1
    obtain ⟨traceData, ht, _⟩ := Option.bind_eq_some.mp h2
    refine ⟨?_, ?_⟩
    · intro h0
      rw [spiDriver_CombineTraces_one, if_pos h0] at ht
      exact absurd ht (by simp)
    · exact (spiCom_GetRaw_isSome _ _ _ _ _).mp (Option.isSome_iff_exists.mpr ⟨even, he⟩)
  · intro ⟨h0, h8⟩
    obtain ⟨even, he⟩ := Option.isSome_iff_exists.mp
      ((spiCom_GetRaw_isSome hal.toHal _ heap.evenTraceData heap.evenEchoMetadata
        (tickSetDev hal icCount (s.spiDriver_currentState.params icInd).icIndex
          (SPI_DRV_FUNC_RES_OK, s.com)).2).mpr h8)
    rw [he, Option.some_bind]
    obtain ⟨odd, ho⟩ := Option.isSome_iff_exists.mp
      ((spiCom_GetRaw_isSome hal.toHal _ heap.oddTraceData heap.oddEchoMetadata
        (tickSetDev hal icCount (s.spiDriver_currentState.params icInd).icIndex
          ((tickSetDev hal icCount (s.spiDriver_currentState.params icInd).icIndex
            (SPI_DRV_FUNC_RES_OK, s.com)).1,
            (tickMakeSync hal icCount lightControl icInd 0
              (s.withCom even.com)).com)).2).mpr h8)
    rw [ho, Option.some_bind, spiDriver_CombineTraces_one, if_neg h0, Option.some_bind]
    rfl

/-- An echo tick returns exactly when the request of `nSamples` words is one of at least 8
words as a `uint16_t`. -/
theorem spiDriver_GetSingleEcho_isSome {σ : Type} (hal : DevHal σ) (icCount : Nat)
    (lightControl : Bool) (heap : TickHeap) (icInd : Nat) (s : StepState σ) :
    (spiDriver_GetSingleEcho hal icCount lightControl heap icInd s).isSome = true
      ↔ 8 ≤ ((s.spiDriver_currentState.params icInd).layers
            (s.spiDriver_currentState.params icInd).sceneCurrentLayer).nSamples % 65536 := by
  unfold spiDriver_GetSingleEcho
  simp only []
  constructor
  · intro h
    obtain ⟨r, hr⟩ := Option.isSome_iff_exists.mp h
    obtain ⟨echo, he, _⟩ := Option.bind_eq_some.mp hr
    exact (spiCom_GetEcho_isSome _ _ _ _ _).mp (Option.isSome_iff_exists.mpr ⟨echo, he⟩)
  · intro h8
    obtain ⟨echo, he⟩ := Option.isSome_iff_exists.mp
      ((spiCom_GetEcho_isSome hal.toHal _ heap.echoesData heap.echoMetadata
        (tickSetDev hal icCount (s.spiDriver_currentState.params icInd).icIndex
          (SPI_DRV_FUNC_RES_OK,
            (tickMakeSync hal icCount lightControl icInd 1
              (tickMakeSync hal icCount lightControl icInd 0 s)).com)).2).mpr h8)
    rw [he, Option.some_bind]
    rfl

theorem startWorking_fields (p : SpiDriver_Params_t) :
    p.startWorking.icIndex = p.icIndex ∧ p.startWorking.layers = p.layers
    ∧ p.startWorking.sceneCurrentLayer = p.sceneCurrentLayer
    ∧ p.startWorking.sceneLayersAmount = p.sceneLayersAmount
    ∧ p.startWorking.sceneSyncMode = p.sceneSyncMode
    ∧ p.startWorking.sceneParam = p.sceneParam := by
  unfold SpiDriver_Params_t.startWorking
  split_ifs <;> exact ⟨rfl, rfl, rfl, rfl, rfl, rfl⟩

theorem startWorking_working (p : SpiDriver_Params_t) :
    p.startWorking.contState = CONT_MODE_STATE_WORKING
      ↔ (p.contState = CONT_MODE_STATE_STARTED ∨ p.contState = CONT_MODE_STATE_WORKING
        ∨ p.contState = CONT_MODE_STATE_FINISHED) := by
  unfold SpiDriver_Params_t.startWorking
  split_ifs with h
  · simp only [SpiDriver_Params_t.withContState, true_iff]
    rcases h with h | h
    · exact Or.inl h
    · exact Or.inr (Or.inr h)
  · constructor
    · intro hw
      exact Or.inr (Or.inl hw)
    · rintro (h1 | h1 | h1)
      · exact absurd (Or.inl h1) h
      · exact h1
      · exact absurd (Or.inr h1) h

theorem startWorking_idem (p : SpiDriver_Params_t) :
    p.startWorking.startWorking = p.startWorking := by
  by_cases h : p.contState = CONT_MODE_STATE_STARTED ∨ p.contState = CONT_MODE_STATE_FINISHED
  · have e : p.startWorking = p.withContState CONT_MODE_STATE_WORKING := by
      unfold SpiDriver_Params_t.startWorking
      rw [if_pos h]
    rw [e]
    unfold SpiDriver_Params_t.startWorking
    rw [if_neg]
    simp [SpiDriver_Params_t.withContState]
  · have e : p.startWorking = p := by
      unfold SpiDriver_Params_t.startWorking
      rw [if_neg h]
    rw [e, e]

theorem startWorking_of_not_active (p : SpiDriver_Params_t)
    (h : ¬ (p.contState = CONT_MODE_STATE_STARTED ∨ p.contState = CONT_MODE_STATE_WORKING
        ∨ p.contState = CONT_MODE_STATE_FINISHED)) : p.startWorking = p := by
  unfold SpiDriver_Params_t.startWorking
  rw [if_neg]
  rintro (h1 | h1)
  · exact h (Or.inl h1)
  · exact h (Or.inr (Or.inr h1))

theorem setParams_params_same {σ : Type} (s : StepState σ) (ic : Nat) (p : SpiDriver_Params_t) :
    (s.setParams ic p).spiDriver_currentState.params ic = p := by
  unfold StepState.setParams
  simp only [Function.update_same]

theorem setParams_params_other {σ : Type} (s : StepState σ) (ic j : Nat)
    (p : SpiDriver_Params_t) (h : j ≠ ic) :
    (s.setParams ic p).spiDriver_currentState.params j = s.spiDriver_currentState.params j := by
  unfold StepState.setParams
  simp only [Function.update_noteq h]

theorem setParams_self {σ : Type} (s : StepState σ) (ic : Nat) :
    s.setParams ic (s.spiDriver_currentState.params ic) = s := by
  unfold StepState.setParams
  simp only [Function.update_eq_self]

theorem setParams_setParams {σ : Type} (s : StepState σ) (ic : Nat)
    (p q : SpiDriver_Params_t) : (s.setParams ic p).setParams ic q = s.setParams ic q := by
  unfold StepState.setParams
  simp only [Function.update_idem]

/-- The tick of `spiDriver_MakeSingleTick` for an active device: it is the trace tick or the
echo tick on the state in which the device is Working, when the cursor is inside the array
of layers. -/
theorem spiDriver_MakeSingleTick_active {σ : Type} (hal : DevHal σ) (icCount : Nat)
    (lightControl : Bool) (heap : TickHeap) (icIdx : Nat) (s : StepState σ)
    (hact : tickActive s.spiDriver_currentState icIdx) :
    spiDriver_MakeSingleTick hal icCount lightControl heap icIdx s
      = if (s.spiDriver_currentState.params icIdx).sceneCurrentLayer < LAYERS_ORDER_MAX then
          if (currentLayer s.spiDriver_currentState icIdx).isTrace = true then
            spiDriver_GetSingleTrace hal icCount lightControl heap icIdx
              (s.setParams icIdx (s.spiDriver_currentState.params icIdx).startWorking)
          else
            spiDriver_GetSingleEcho hal icCount lightControl heap icIdx
              (s.setParams icIdx (s.spiDriver_currentState.params icIdx).startWorking)
        else none := by
  unfold spiDriver_MakeSingleTick
  simp only []
  have hw := (startWorking_working (s.spiDriver_currentState.params icIdx)).mpr hact
  rw [setParams_params_same, if_pos hw]
  rfl

theorem spiDriver_CombineTraces_layers (p q : SpiDriver_Params_t) (h : p.layers = q.layers)
    (evenTraceData oddTraceData traceData : WordBuf) (layerInd icCount : Nat) :
    spiDriver_CombineTraces p evenTraceData oddTraceData traceData layerInd icCount
      = spiDriver_CombineTraces q evenTraceData oddTraceData traceData layerInd icCount := by
  unfold spiDriver_CombineTraces
  rw [h]

/-- The tick of an active device returns exactly when `tickDefined` holds. -/
theorem spiDriver_MakeSingleTick_isSome {σ : Type} (hal : DevHal σ) (icCount : Nat)
    (lightControl : Bool) (heap : TickHeap) (icIdx : Nat) (s : StepState σ)
    (hact : tickActive s.spiDriver_currentState icIdx) :
    (spiDriver_MakeSingleTick hal icCount lightControl heap icIdx s).isSome = true
      ↔ tickDefined s.spiDriver_currentState icIdx := by
  rw [spiDriver_MakeSingleTick_active hal icCount lightControl heap icIdx s hact]
  unfold tickDefined
  obtain ⟨_, f2, f3, _⟩ := startWorking_fields (s.spiDriver_currentState.params icIdx)
  by_cases hcur : (s.spiDriver_currentState.params icIdx).sceneCurrentLayer < LAYERS_ORDER_MAX
  · rw [if_pos hcur]
    by_cases htr : (currentLayer s.spiDriver_currentState icIdx).isTrace = true
    · rw [if_pos htr, if_pos htr, spiDriver_GetSingleTrace_isSome, setParams_params_same, f2, f3]
      exact ⟨fun h => ⟨hcur, h⟩, fun h => h.2⟩
    · rw [if_neg htr, if_neg htr, spiDriver_GetSingleEcho_isSome, setParams_params_same, f2, f3]
      exact ⟨fun h => ⟨hcur, h⟩, fun h => h.2⟩
  · rw [if_neg hcur]
    exact ⟨fun h => absurd h (by simp), fun h => absurd h.1 hcur⟩

/-- C35: one tick (`spiDriver_MakeSingleTick`) for a device in the phase Started, Working or
Finished returns exactly when `tickDefined` holds, and then: for a trace-mode layer it
appends exactly two records to the batch, first a `CHIP_DATA_TRACE` record whose data are the
10048 words of the buffer in which `spiDriver_CombineTraces` has combined the two halves
fetched with `spiCom_GetRaw`, and whose metadata are the first `Metadata_t` (eight words) of
the even half, then a `CHIP_DATA_META_ONLY` record with no data and the first `Metadata_t` of
the odd half; for an echo-mode layer it appends exactly one record in the echo format of the
layer, with the data and the first `Metadata_t` fetched with `spiCom_GetEcho`. Every new
record has the `icIndex` of the device as `chip_id`, and the records that were in the batch
stay in front, unchanged. -/
theorem spiDriver_MakeSingleTick_records {σ : Type} (hal : DevHal σ) (icCount : Nat)
    (lightControl : Bool) (heap : TickHeap) (icIdx : Nat) (s : StepState σ)
    (hact : tickActive s.spiDriver_currentState icIdx) :
    ((spiDriver_MakeSingleTick hal icCount lightControl heap icIdx s).isSome = true
      ↔ tickDefined s.spiDriver_currentState icIdx)
    ∧ ∀ (res : FuncResult_e) (s' : StepState σ),
      spiDriver_MakeSingleTick hal icCount lightControl heap icIdx s = some (res, s') →
      ((currentLayer s.spiDriver_currentState icIdx).isTrace = true →
        ∃ (com1 com2 : ComState σ) (even odd : DataState σ) (traceData : WordBuf),
          spiCom_GetRaw hal.toHal ((currentLayer s.spiDriver_currentState icIdx).nSamples + 8)
            heap.evenTraceData heap.evenEchoMetadata com1 = some even
          ∧ spiCom_GetRaw hal.toHal ((currentLayer s.spiDriver_currentState icIdx).nSamples + 8)
            heap.oddTraceData heap.oddEchoMetadata com2 = some odd
          ∧ spiDriver_CombineTraces (s.spiDriver_currentState.params icIdx) even.data odd.data
            heap.traceData (s.spiDriver_currentState.params icIdx).sceneCurrentLayer 1
            = some traceData
          ∧ s'.chipData = s.chipData ++
            [{ data := (List.range 10048).map traceData
               samples := (currentLayer s.spiDriver_currentState icIdx).nSamples
               metaData := (List.range 8).map even.metaData
               dataFormat := CHIP_DATA_TRACE
               status := Function.update heap.evenStatus
                 (s.spiDriver_currentState.params icIdx).icIndex even.res 0
               chip_id := (s.spiDriver_currentState.params icIdx).icIndex },
             { data := []
               samples := ((s.spiDriver_currentState.params icIdx).layers 0).nSamples
               metaData := (List.range 8).map odd.metaData
               dataFormat := CHIP_DATA_META_ONLY
               status := Function.update heap.oddStatus
                 (s.spiDriver_currentState.params icIdx).icIndex odd.res 0
               chip_id := (s.spiDriver_currentState.params icIdx).icIndex }])
      ∧ ((currentLayer s.spiDriver_currentState icIdx).isTrace = false →
        ∃ (com1 : ComState σ) (echo : DataState σ),
          spiCom_GetEcho hal.toHal (currentLayer s.spiDriver_currentState icIdx).nSamples
            heap.echoesData heap.echoMetadata com1 = some echo
          ∧ s'.chipData = s.chipData ++
            [{ data := (List.range
                 (chipDataSize (currentLayer s.spiDriver_currentState icIdx).format / 2)).map
                 echo.data
               samples := (currentLayer s.spiDriver_currentState icIdx).nSamples
               metaData := (List.range 8).map echo.metaData
               dataFormat := (currentLayer s.spiDriver_currentState icIdx).format
               status := Function.update heap.echoStatus
                 (s.spiDriver_currentState.params icIdx).icIndex echo.res 0
               chip_id := (s.spiDriver_currentState.params icIdx).icIndex }]) := by
  refine ⟨spiDriver_MakeSingleTick_isSome hal icCount lightControl heap icIdx s hact, ?_⟩
  intro res s' h
  rw [spiDriver_MakeSingleTick_active hal icCount lightControl heap icIdx s hact] at h
  obtain ⟨f1, f2, f3, _⟩ := startWorking_fields (s.spiDriver_currentState.params icIdx)
  by_cases hcur : (s.spiDriver_currentState.params icIdx).sceneCurrentLayer < LAYERS_ORDER_MAX
  · rw [if_pos hcur] at h
    constructor
    · intro htr
      rw [if_pos htr] at h
      obtain ⟨com1, com2, even, odd, traceData, h1, h2, h3, h4, _⟩ :=
        spiDriver_GetSingleTrace_spec hal icCount lightControl heap icIdx _ res s' h
      rw [setParams_params_same, f2, f3] at h1 h2
      rw [setParams_params_same, f3,
        spiDriver_CombineTraces_layers _ (s.spiDriver_currentState.params icIdx) f2] at h3
      rw [setParams_params_same, f1, f2, f3] at h4
      exact ⟨com1, com2, even, odd, traceData, h1, h2, h3, h4⟩
    · intro htr
      have htr2 : ¬ ((currentLayer s.spiDriver_currentState icIdx).isTrace = true) := by
        rw [htr]
        decide
      rw [if_neg htr2] at h
      obtain ⟨com1, echo, h1, h4, _⟩ :=
        spiDriver_GetSingleEcho_spec hal icCount lightControl heap icIdx _ res s' h
      rw [setParams_params_same, f2, f3] at h1
      rw [setParams_params_same, f1, f2, f3] at h4
      exact ⟨com1, echo, h1, h4⟩
  · rw [if_neg hcur] at h
    exact absurd h (by simp)

set_option maxRecDepth 100000 in
/-- C35 (witness): on the bus `stopHal` and the devices `threeDevices 1`, the tick of the
device 0 (id 10, at a trace layer) returns and appends a trace record and a metadata record
of the device 10, and the tick of the device 2 (id 12, at an echo layer in the format
`FMT_ECHO_SHORT`) returns and appends one record of this format of the device 12. -/
theorem spiDriver_MakeSingleTick_records_witness :
    ((spiDriver_MakeSingleTick stopHal 3 false zeroHeap 0
        (stepStart { sel := 0, log := [] })).isSome = true
      ∧ (spiDriver_MakeSingleTick stopHal 3 false zeroHeap 2
        (stepStart { sel := 0, log := [] })).isSome = true)
    ∧ (spiDriver_MakeSingleTick stopHal 3 false zeroHeap 0
        (stepStart { sel := 0, log := [] })).map
          (fun r => r.2.chipData.map (fun c => (c.dataFormat, c.chip_id, c.samples)))
        = some [(CHIP_DATA_TRACE, 10, 10), (CHIP_DATA_META_ONLY, 10, 10)]
    ∧ (spiDriver_MakeSingleTick stopHal 3 false zeroHeap 2
        (stepStart { sel := 0, log := [] })).map
          (fun r => r.2.chipData.map (fun c => (c.dataFormat, c.chip_id, c.samples)))
        = some [(FMT_ECHO_SHORT, 12, 16)] :=
  ⟨⟨(spiDriver_MakeSingleTick_records stopHal 3 false zeroHeap 0
        (stepStart { sel := 0, log := [] }) (by decide)).1.mpr (by decide),
    (spiDriver_MakeSingleTick_records stopHal 3 false zeroHeap 2
        (stepStart { sel := 0, log := [] }) (by decide)).1.mpr (by decide)⟩,
    by decide, by decide⟩

theorem some_getD_of_isSome {α : Type} (o : Option α) (d : α) (h : o.isSome = true) :
    o = some (o.getD d) := by
  cases o with
  | none => exact absurd h (by simp)
  | some a => rfl

/-- The body of the loop of `spiDriver_getSingleSyncStep` for a device that is not in the
phase Started, Working or Finished changes nothing. -/
theorem spiDriver_getSingleSyncStep_body_skip {σ : Type} (hal : DevHal σ) (icCount : Nat)
    (lightControl : Bool) (heap : TickHeap) (ic : Nat) (s : StepState σ)
    (hact : ¬ tickActive s.spiDriver_currentState ic) :
    spiDriver_getSingleSyncStep_body hal icCount lightControl heap ic s
      = some (SPI_DRV_FUNC_RES_OK, s) := by
  unfold spiDriver_getSingleSyncStep_body
  simp only []
  rw [startWorking_of_not_active _ hact, setParams_self, if_neg]
  intro hw
  exact hact (Or.inr (Or.inl hw))

/-- The body of the loop of `spiDriver_getSingleSyncStep` for a device in the phase Started,
Working or Finished: the tick on the state in which the device is Working, then the step of
the cursor. -/
theorem spiDriver_getSingleSyncStep_body_active {σ : Type} (hal : DevHal σ) (icCount : Nat)
    (lightControl : Bool) (heap : TickHeap) (ic : Nat) (s : StepState σ)
    (hact : tickActive s.spiDriver_currentState ic)
    (res : FuncResult_e) (s' : StepState σ)
    (h : spiDriver_getSingleSyncStep_body hal icCount lightControl heap ic s = some (res, s')) :
    tickDefined s.spiDriver_currentState ic
    ∧ s'.spiDriver_currentState.params
        = Function.update s.spiDriver_currentState.params ic
          (s.spiDriver_currentState.params ic).startWorking.nextLayer
    ∧ s'.spiDriver_currentState.continuousMode = s.spiDriver_currentState.continuousMode
    ∧ s'.ticked = s.ticked ++ [ic]
    ∧ (∃ recs : List spiDriver_ChipData_t, s'.chipData = s.chipData ++ recs
        ∧ recs.map (fun c => c.chip_id)
          = List.replicate (tickRecords (currentLayer s.spiDriver_currentState ic))
            (s.spiDriver_currentState.params ic).icIndex)
    ∧ (icCount < 2 → res = SPI_DRV_FUNC_RES_OK)
    ∧ ((∀ (d : σ) (devId : Nat), (spiCom_SetDev hal devId d).1 = SPI_DRV_FUNC_RES_OK) →
        res = SPI_DRV_FUNC_RES_OK) := by
  have hw := (startWorking_working (s.spiDriver_currentState.params ic)).mpr hact
  obtain ⟨f1, f2, f3, _⟩ := startWorking_fields (s.spiDriver_currentState.params ic)
  unfold spiDriver_getSingleSyncStep_body at h
  simp only [] at h
  rw [setParams_params_same, if_pos hw] at h
  obtain ⟨t, ht, hts⟩ := Option.map_eq_some'.mp h
  simp only [Prod.mk.injEq] at hts
  obtain ⟨hres, hs'⟩ := hts
  have hact1 : tickActive (s.setParams ic
      (s.spiDriver_currentState.params ic).startWorking).spiDriver_currentState ic := by
    unfold tickActive
    rw [setParams_params_same]
    exact Or.inr (Or.inl hw)
  have hdef1 := (spiDriver_MakeSingleTick_isSome hal icCount lightControl heap ic _ hact1).mp
    (Option.isSome_iff_exists.mpr ⟨t, ht⟩)
  have hdef : tickDefined s.spiDriver_currentState ic := by
    unfold tickDefined currentLayer at hdef1 ⊢
    rw [setParams_params_same, f2, f3] at hdef1
    exact hdef1
  rw [spiDriver_MakeSingleTick_active hal icCount lightControl heap ic _ hact1,
    setParams_params_same, startWorking_idem, setParams_setParams, f3, if_pos hdef.1] at ht
  have hcl : currentLayer (s.setParams ic
      (s.spiDriver_currentState.params ic).startWorking).spiDriver_currentState ic
      = currentLayer s.spiDriver_currentState ic := by
    unfold currentLayer
    rw [setParams_params_same, f2, f3]
  rw [hcl] at ht
  have key : t.2.spiDriver_currentState = (s.setParams ic
        (s.spiDriver_currentState.params ic).startWorking).spiDriver_currentState
      ∧ t.2.ticked = s.ticked
      ∧ (∃ recs : List spiDriver_ChipData_t, t.2.chipData = s.chipData ++ recs
        ∧ recs.map (fun c => c.chip_id)
          = List.replicate (tickRecords (currentLayer s.spiDriver_currentState ic))
            (s.spiDriver_currentState.params ic).icIndex)
      ∧ (icCount < 2 → t.1 = SPI_DRV_FUNC_RES_OK)
      ∧ ((∀ (d : σ) (devId : Nat), (spiCom_SetDev hal devId d).1 = SPI_DRV_FUNC_RES_OK) →
          t.1 = SPI_DRV_FUNC_RES_OK) := by
    by_cases htr : (currentLayer s.spiDriver_currentState ic).isTrace = true
    · rw [if_pos htr] at ht
      obtain ⟨_, _, even, odd, traceData, _, _, _, h4, h5, h6, h7, h8⟩ :=
        spiDriver_GetSingleTrace_spec hal icCount lightControl heap ic _ t.1 t.2 ht
      refine ⟨h5, h6, ⟨_, h4, ?_⟩, h7, ?_⟩
      · rw [setParams_params_same, f1]
        unfold tickRecords
        rw [if_pos htr]
        rfl
      · intro hsel
        obtain ⟨d1, d2, h8 | h8⟩ := h8
        · rw [h8, hsel d1, hsel d2]
          rfl
        · exact h8
    · rw [if_neg htr] at ht
      obtain ⟨_, echo, _, h4, h5, h6, h7, h8⟩ :=
        spiDriver_GetSingleEcho_spec hal icCount lightControl heap ic _ t.1 t.2 ht
      refine ⟨h5, h6, ⟨_, h4, ?_⟩, h7, ?_⟩
      · rw [setParams_params_same, f1]
        unfold tickRecords
        rw [if_neg htr]
        rfl
      · intro hsel
        obtain ⟨d1, h8 | h8⟩ := h8
        · rw [h8, hsel d1]
          rfl
        · exact h8
  obtain ⟨k1, k2, k3, k4, k5⟩ := key
  refine ⟨hdef, ?_, ?_, ?_, ?_, ?_, ?_⟩
  · rw [← hs']
    simp only [StepState.setParams, k1, Function.update_same, Function.update_idem]
  · rw [← hs']
    simp only [StepState.setParams, k1]
  · rw [← hs']
    simp only [k2]
  · rw [← hs']
    exact k3
  · intro hlt
    rw [← hres]
    exact k4 hlt
  · intro hsel
    rw [← hres]
    exact k5 hsel

/-- The body of the loop of `spiDriver_getSingleSyncStep` returns for an active device whose
tick is defined. -/
theorem spiDriver_getSingleSyncStep_body_isSome {σ : Type} (hal : DevHal σ) (icCount : Nat)
    (lightControl : Bool) (heap : TickHeap) (ic : Nat) (s : StepState σ)
    (hdef : tickActive s.spiDriver_currentState ic → tickDefined s.spiDriver_currentState ic) :
    (spiDriver_getSingleSyncStep_body hal icCount lightControl heap ic s).isSome = true := by
  by_cases hact : tickActive s.spiDriver_currentState ic
  · have hw := (startWorking_working (s.spiDriver_currentState.params ic)).mpr hact
    obtain ⟨f1, f2, f3, _⟩ := startWorking_fields (s.spiDriver_currentState.params ic)
    have hact1 : tickActive (s.setParams ic
        (s.spiDriver_currentState.params ic).startWorking).spiDriver_currentState ic := by
      unfold tickActive
      rw [setParams_params_same]
      exact Or.inr (Or.inl hw)
    have hdef1 : tickDefined (s.setParams ic
        (s.spiDriver_currentState.params ic).startWorking).spiDriver_currentState ic := by
      have := hdef hact
      unfold tickDefined currentLayer at this ⊢
      rw [setParams_params_same, f2, f3]
      exact this
    have ht := (spiDriver_MakeSingleTick_isSome hal icCount lightControl heap ic _ hact1).mpr
      hdef1
    unfold spiDriver_getSingleSyncStep_body
    simp only []
    rw [setParams_params_same, if_pos hw, Option.isSome_map']
    exact ht
  · rw [spiDriver_getSingleSyncStep_body_skip hal icCount lightControl heap ic s hact]
    rfl

theorem tickActive_congr (d1 d2 : SpiDriver_State_t) (ic : Nat)
    (h : d1.params ic = d2.params ic) : tickActive d1 ic ↔ tickActive d2 ic := by
  unfold tickActive
  rw [h]

theorem currentLayer_congr (d1 d2 : SpiDriver_State_t) (ic : Nat)
    (h : d1.params ic = d2.params ic) : currentLayer d1 ic = currentLayer d2 ic := by
  unfold currentLayer
  rw [h]

theorem tickDefined_congr (d1 d2 : SpiDriver_State_t) (ic : Nat)
    (h : d1.params ic = d2.params ic) : tickDefined d1 ic ↔ tickDefined d2 ic := by
  unfold tickDefined currentLayer
  rw [h]

/-- The state of the loop of `spiDriver_getSingleSyncStep` after the devices `0 .. n-1`: the
devices ticked so far are active devices in index order without a gap, they have made one
step of the cursor each, the other devices are as they were, and the batch has grown by the
records of the ticked devices. -/
theorem spiDriver_getSingleSyncStep_loop {σ : Type} (hal : DevHal σ) (icCount : Nat)
    (lightControl : Bool) (heap : Nat → TickHeap) (s : StepState σ) :
    ∀ (n : Nat) (res : FuncResult_e) (sn : StepState σ),
      forIc n (fun ic (r : Option (FuncResult_e × StepState σ)) =>
        r.bind (fun t =>
          if t.1 = SPI_DRV_FUNC_RES_OK then
            spiDriver_getSingleSyncStep_body hal icCount lightControl (heap ic) ic t.2
          else some t)) (some (SPI_DRV_FUNC_RES_OK, s)) = some (res, sn) →
      ∃ new : List Nat,
        sn.ticked = s.ticked ++ new
        ∧ (∀ j, j ∈ new → j < n ∧ tickActive s.spiDriver_currentState j
            ∧ tickDefined s.spiDriver_currentState j)
        ∧ (∀ j, j ∈ new → sn.spiDriver_currentState.params j
            = (s.spiDriver_currentState.params j).startWorking.nextLayer)
        ∧ (∀ j, j ∉ new → sn.spiDriver_currentState.params j
            = s.spiDriver_currentState.params j)
        ∧ sn.spiDriver_currentState.continuousMode = s.spiDriver_currentState.continuousMode
        ∧ (res = SPI_DRV_FUNC_RES_OK →
            ∀ j, j < n → tickActive s.spiDriver_currentState j → j ∈ new)
        ∧ (∀ j, j ∈ new → ∀ i, i < j → tickActive s.spiDriver_currentState i → i ∈ new)
        ∧ (∃ recs : List spiDriver_ChipData_t, sn.chipData = s.chipData ++ recs
            ∧ recs.map (fun c => c.chip_id)
              = (new.map (fun j =>
                  List.replicate (tickRecords (currentLayer s.spiDriver_currentState j))
                    (s.spiDriver_currentState.params j).icIndex)).flatten)
        ∧ ((icCount < 2
              ∨ ∀ (d : σ) (devId : Nat), (spiCom_SetDev hal devId d).1 = SPI_DRV_FUNC_RES_OK) →
            res = SPI_DRV_FUNC_RES_OK) := by
  intro n
  induction n with
  | zero =>
    intro res sn h
    rw [forIc_zero] at h
    simp only [Option.some.injEq, Prod.mk.injEq] at h
    obtain ⟨h1, h2⟩ := h
    subst h1
    subst h2
    refine ⟨[], by simp, ?_, ?_, ?_, rfl, ?_, ?_, ⟨[], by simp, rfl⟩, fun _ => rfl⟩
    · intro j hj
      exact absurd hj (List.not_mem_nil j)
    · intro j hj
      exact absurd hj (List.not_mem_nil j)
    · intro j _
      rfl
    · intro _ j hj
      exact absurd hj (Nat.not_lt_zero j)
    · intro j hj
      exact absurd hj (List.not_mem_nil j)
  | succ n ih =>
    intro res sn h
    rw [forIc_succ] at h
    obtain ⟨t, ht, hb⟩ := Option.bind_eq_some.mp h
    obtain ⟨new, i1, i2, i3, i4, i5, i6, i7, ⟨recs, i8, i9⟩, i10⟩ := ih t.1 t.2 ht
    have hn : n ∉ new := fun hmem => Nat.lt_irrefl n (i2 n hmem).1
    have hpn := i4 n hn
    by_cases hok : t.1 = SPI_DRV_FUNC_RES_OK
    · rw [if_pos hok] at hb
      by_cases hact : tickActive t.2.spiDriver_currentState n
      · have hact0 : tickActive s.spiDriver_currentState n :=
          (tickActive_congr _ _ n hpn).mp hact
        obtain ⟨b1, b2, b3, b4, ⟨recs2, b5, b6⟩, b7, b8⟩ :=
          spiDriver_getSingleSyncStep_body_active hal icCount lightControl (heap n) n t.2 hact
            res sn hb
        have hdef0 : tickDefined s.spiDriver_currentState n :=
          (tickDefined_congr _ _ n hpn).mp b1
        refine ⟨new ++ [n], ?_, ?_, ?_, ?_, ?_, ?_, ?_, ⟨recs ++ recs2, ?_, ?_⟩, ?_⟩
        · rw [b4, i1, List.append_assoc]
        · intro j hj
          rcases List.mem_append.mp hj with hj | hj
          · exact ⟨Nat.lt_succ_of_lt (i2 j hj).1, (i2 j hj).2⟩
          · rw [List.mem_singleton] at hj
            subst hj
            exact ⟨Nat.lt_succ_self _, hact0, hdef0⟩
        · intro j hj
          rw [b2]
          rcases List.mem_append.mp hj with hj | hj
          · have hne : j ≠ n := fun e => hn (e ▸ hj)
            rw [Function.update_noteq hne]
            exact i3 j hj
          · rw [List.mem_singleton] at hj
            subst hj
            rw [Function.update_same, hpn]
        · intro j hj
          have hj1 : j ∉ new := fun hmem => hj (List.mem_append.mpr (Or.inl hmem))
          have hne : j ≠ n := fun e => hj (List.mem_append.mpr (Or.inr (by rw [e]; simp)))
          rw [b2, Function.update_noteq hne]
          exact i4 j hj1
        · rw [b3, i5]
        · intro _ j hj hja
          rcases Nat.lt_succ_iff_lt_or_eq.mp hj with hlt | heq
          · exact List.mem_append.mpr (Or.inl (i6 hok j hlt hja))
          · exact List.mem_append.mpr (Or.inr (by rw [heq]; simp))
        · intro j hj i hi hia
          rcases List.mem_append.mp hj with hj | hj
          · exact List.mem_append.mpr (Or.inl (i7 j hj i hi hia))
          · rw [List.mem_singleton] at hj
            subst hj
            exact List.mem_append.mpr (Or.inl (i6 hok i hi hia))
        · rw [b5, i8, List.append_assoc]
        · rw [List.map_append, List.map_append, List.flatten_append, i9, b6,
            currentLayer_congr _ _ n hpn, hpn]
          simp
        · intro hsel
          rcases hsel with hsel | hsel
          · exact b7 hsel
          · exact b8 hsel
      · rw [spiDriver_getSingleSyncStep_body_skip hal icCount lightControl (heap n) n t.2 hact]
          at hb
        simp only [Option.some.injEq, Prod.mk.injEq] at hb
        obtain ⟨hb1, hb2⟩ := hb
        subst hb1
        subst hb2
        have hact0 : ¬ tickActive s.spiDriver_currentState n := fun h0 =>
          hact ((tickActive_congr _ _ n hpn).mpr h0)
        refine ⟨new, i1, ?_, i3, i4, i5, ?_, i7, ⟨recs, i8, i9⟩, fun _ => rfl⟩
        · intro j hj
          exact ⟨Nat.lt_succ_of_lt (i2 j hj).1, (i2 j hj).2⟩
        · intro _ j hj hja
          rcases Nat.lt_succ_iff_lt_or_eq.mp hj with hlt | heq
          · exact i6 hok j hlt hja
          · rw [heq] at hja
            exact absurd hja hact0
    · rw [if_neg hok] at hb
      simp only [Option.some.injEq] at hb
      subst hb
      refine ⟨new, i1, ?_, i3, i4, i5, ?_, i7, ⟨recs, i8, i9⟩, i10⟩
      · intro j hj
        exact ⟨Nat.lt_succ_of_lt (i2 j hj).1, (i2 j hj).2⟩
      · intro h0
        exact absurd h0 hok

/-- The loop of `spiDriver_getSingleSyncStep` returns when the tick of every active device
among the first `n` is defined. -/
theorem spiDriver_getSingleSyncStep_loop_isSome {σ : Type} (hal : DevHal σ) (icCount : Nat)
    (lightControl : Bool) (heap : Nat → TickHeap) (s : StepState σ) :
    ∀ (n : Nat), (∀ j, j < n → tickActive s.spiDriver_currentState j →
        tickDefined s.spiDriver_currentState j) →
      (forIc n (fun ic (r : Option (FuncResult_e × StepState σ)) =>
        r.bind (fun t =>
          if t.1 = SPI_DRV_FUNC_RES_OK then
            spiDriver_getSingleSyncStep_body hal icCount lightControl (heap ic) ic t.2
          else some t)) (some (SPI_DRV_FUNC_RES_OK, s))).isSome = true := by
  intro n
  induction n with
  | zero =>
    intro _
    rfl
  | succ n ih =>
    intro hdef
    obtain ⟨t, ht⟩ := Option.isSome_iff_exists.mp
      (ih (fun j hj => hdef j (Nat.lt_succ_of_lt hj)))
    obtain ⟨new, _, i2, _, i4, _⟩ :=
      spiDriver_getSingleSyncStep_loop hal icCount lightControl heap s n t.1 t.2 ht
    have hn : n ∉ new := fun hmem => Nat.lt_irrefl n (i2 n hmem).1
    have hpn := i4 n hn
    rw [forIc_succ, ht, Option.some_bind]
    by_cases hok : t.1 = SPI_DRV_FUNC_RES_OK
    · rw [if_pos hok]
      apply spiDriver_getSingleSyncStep_body_isSome
      intro hact
      exact (tickDefined_congr _ _ n hpn).mpr
        (hdef n (Nat.lt_succ_self n) ((tickActive_congr _ _ n hpn).mp hact))
    · rw [if_neg hok]
      rfl

/-- The step of the cursor after a tick, for a device in the phase Started, Working or
Finished whose cursor is below its layer count and below 65535. -/
theorem nextLayer_startWorking (p : SpiDriver_Params_t)
    (hact : p.contState = CONT_MODE_STATE_STARTED ∨ p.contState = CONT_MODE_STATE_WORKING
      ∨ p.contState = CONT_MODE_STATE_FINISHED)
    (hL : p.sceneCurrentLayer < p.sceneLayersAmount) (h16 : p.sceneCurrentLayer + 1 < 65536) :
    p.startWorking.nextLayer.sceneCurrentLayer
        = (if p.sceneCurrentLayer + 1 = p.sceneLayersAmount then 0 else p.sceneCurrentLayer + 1)
    ∧ p.startWorking.nextLayer.contState
        = (if p.sceneCurrentLayer + 1 = p.sceneLayersAmount then CONT_MODE_STATE_FINISHED
          else CONT_MODE_STATE_WORKING)
    ∧ p.startWorking.nextLayer.sceneLayersAmount = p.sceneLayersAmount
    ∧ p.startWorking.nextLayer.icIndex = p.icIndex
    ∧ p.startWorking.nextLayer.layers = p.layers := by
  have hw := (startWorking_working p).mpr hact
  obtain ⟨f1, f2, f3, f4, _⟩ := startWorking_fields p
  have hm : (p.sceneCurrentLayer + 1) % 65536 = p.sceneCurrentLayer + 1 := Nat.mod_eq_of_lt h16
  unfold SpiDriver_Params_t.nextLayer
  simp only [SpiDriver_Params_t.withCurrentLayer, SpiDriver_Params_t.withContState, f1, f2, f3,
    f4, hm, hw]
  by_cases he : p.sceneCurrentLayer + 1 = p.sceneLayersAmount
  · have hge : p.sceneCurrentLayer + 1 ≥ p.sceneLayersAmount := by omega
    rw [if_pos hge, if_pos he, if_pos he]
    exact ⟨rfl, rfl, rfl, rfl, rfl⟩
  · have hge : ¬ (p.sceneCurrentLayer + 1 ≥ p.sceneLayersAmount) := by omega
    rw [if_neg hge, if_neg he, if_neg he]
    exact ⟨rfl, rfl, rfl, rfl, rfl⟩

/-- C33: `spiDriver_getSingleSyncStep` returns when the tick of every device in the phase
Started, Working or Finished is defined, and when it returns, every device that it has ticked
and whose layer cursor was below its layer count on entry has its cursor incremented by one
or, when that reaches the layer count, reset to 0 with the phase Finished; so afterwards the
cursor is again below the (unchanged) layer count, and the phase is Finished exactly when the
cursor is 0 and Working otherwise. -/
theorem spiDriver_getSingleSyncStep_cursor {σ : Type} (hal : DevHal σ) (icCount : Nat)
    (lightControl : Bool) (heap : Nat → TickHeap) (s : StepState σ) (hs : s.ticked = []) :
    ((∀ j, j < icCount → tickActive s.spiDriver_currentState j →
        tickDefined s.spiDriver_currentState j) →
      (spiDriver_getSingleSyncStep hal icCount lightControl heap s).isSome = true)
    ∧ ∀ (res : FuncResult_e) (s' : StepState σ),
      spiDriver_getSingleSyncStep hal icCount lightControl heap s = some (res, s') →
      ∀ ic, ic ∈ s'.ticked →
        (s.spiDriver_currentState.params ic).sceneCurrentLayer
          < (s.spiDriver_currentState.params ic).sceneLayersAmount →
        (s'.spiDriver_currentState.params ic).sceneCurrentLayer
            = (if (s.spiDriver_currentState.params ic).sceneCurrentLayer + 1
                  = (s.spiDriver_currentState.params ic).sceneLayersAmount then 0
              else (s.spiDriver_currentState.params ic).sceneCurrentLayer + 1)
        ∧ (s'.spiDriver_currentState.params ic).contState
            = (if (s.spiDriver_currentState.params ic).sceneCurrentLayer + 1
                  = (s.spiDriver_currentState.params ic).sceneLayersAmount
              then CONT_MODE_STATE_FINISHED else CONT_MODE_STATE_WORKING)
        ∧ (s'.spiDriver_currentState.params ic).sceneLayersAmount
            = (s.spiDriver_currentState.params ic).sceneLayersAmount
        ∧ (s'.spiDriver_currentState.params ic).sceneCurrentLayer
            < (s'.spiDriver_currentState.params ic).sceneLayersAmount
        ∧ ((s'.spiDriver_currentState.params ic).contState = CONT_MODE_STATE_FINISHED
            ↔ (s'.spiDriver_currentState.params ic).sceneCurrentLayer = 0)
        ∧ ((s'.spiDriver_currentState.params ic).sceneCurrentLayer ≠ 0 →
            (s'.spiDriver_currentState.params ic).contState = CONT_MODE_STATE_WORKING) := by
  refine ⟨spiDriver_getSingleSyncStep_loop_isSome hal icCount lightControl heap s icCount, ?_⟩
  intro res s' h ic hic hL
  obtain ⟨new, i1, i2, i3, _⟩ :=
    spiDriver_getSingleSyncStep_loop hal icCount lightControl heap s icCount res s' h
  rw [hs, List.nil_append] at i1
  rw [i1] at hic
  obtain ⟨_, hact, hdef⟩ := i2 ic hic
  have h16 : (s.spiDriver_currentState.params ic).sceneCurrentLayer + 1 < 65536 := by
    have := hdef.1
    unfold LAYERS_ORDER_MAX at this
    omega
  obtain ⟨n1, n2, n3, _⟩ :=
    nextLayer_startWorking (s.spiDriver_currentState.params ic) hact hL h16
  rw [i3 ic hic, n1, n2, n3]
  by_cases he : (s.spiDriver_currentState.params ic).sceneCurrentLayer + 1
      = (s.spiDriver_currentState.params ic).sceneLayersAmount
  · rw [if_pos he, if_pos he]
    refine ⟨rfl, rfl, rfl, by omega, ⟨fun _ => rfl, fun _ => rfl⟩, fun h0 => absurd rfl h0⟩
  · rw [if_neg he, if_neg he]
    refine ⟨rfl, rfl, rfl, by omega, ⟨fun h0 => absurd h0 (by decide), fun h0 => ?_⟩,
      fun _ => rfl⟩
    omega

set_option maxRecDepth 100000 in
/-- C33 (witness): the step on the bus `stopHal` from `stepStart` returns and ticks the
devices 0 and 2. The device 0, at the layer 0 of two, goes on to the layer 1 and is Working;
the device 2, at the layer 1 of two, goes back to the layer 0 and is Finished. -/
theorem spiDriver_getSingleSyncStep_cursor_witness :
    (spiDriver_getSingleSyncStep stopHal 3 false (fun _ => zeroHeap)
      (stepStart { sel := 0, log := [] })).isSome = true
    ∧ (stepResult stopHal).2.ticked = [0, 2]
    ∧ (((stepResult stopHal).2.spiDriver_currentState.params 0).sceneCurrentLayer = 1
      ∧ ((stepResult stopHal).2.spiDriver_currentState.params 0).contState
        = CONT_MODE_STATE_WORKING)
    ∧ (((stepResult stopHal).2.spiDriver_currentState.params 2).sceneCurrentLayer = 0
      ∧ ((stepResult stopHal).2.spiDriver_currentState.params 2).contState
        = CONT_MODE_STATE_FINISHED) :=
  have hsome := (spiDriver_getSingleSyncStep_cursor stopHal 3 false (fun _ => zeroHeap)
    (stepStart { sel := 0, log := [] }) rfl).1 (by decide)
  have hres := some_getD_of_isSome _
    (SPI_DRV_FUNC_RES_OK, stepStart { sel := 0, log := [] }) hsome
  have h0 := (spiDriver_getSingleSyncStep_cursor stopHal 3 false (fun _ => zeroHeap)
    (stepStart { sel := 0, log := [] }) rfl).2 (stepResult stopHal).1 (stepResult stopHal).2
    hres 0 (by decide) (by decide)
  have h2 := (spiDriver_getSingleSyncStep_cursor stopHal 3 false (fun _ => zeroHeap)
    (stepStart { sel := 0, log := [] }) rfl).2 (stepResult stopHal).1 (stepResult stopHal).2
    hres 2 (by decide) (by decide)
  ⟨hsome, by decide, ⟨h0.1, h0.2.1⟩, ⟨h2.1, h2.2.1⟩⟩

/-- The step of the cursor after a tick, for a device in the phase Started, Working or
Finished: the `uint16_t` cursor is incremented and, when it has reached the layer count, set
to 0 with the phase Finished; the other parameters stay. -/
theorem nextLayer_startWorking_fields (p : SpiDriver_Params_t)
    (hact : p.contState = CONT_MODE_STATE_STARTED ∨ p.contState = CONT_MODE_STATE_WORKING
      ∨ p.contState = CONT_MODE_STATE_FINISHED) :
    p.startWorking.nextLayer.sceneCurrentLayer
        = (if (p.sceneCurrentLayer + 1) % 65536 ≥ p.sceneLayersAmount then 0
          else (p.sceneCurrentLayer + 1) % 65536)
    ∧ p.startWorking.nextLayer.contState
        = (if (p.sceneCurrentLayer + 1) % 65536 ≥ p.sceneLayersAmount
          then CONT_MODE_STATE_FINISHED else CONT_MODE_STATE_WORKING)
    ∧ p.startWorking.nextLayer.sceneLayersAmount = p.sceneLayersAmount
    ∧ p.startWorking.nextLayer.icIndex = p.icIndex
    ∧ p.startWorking.nextLayer.layers = p.layers := by
  have hw := (startWorking_working p).mpr hact
  obtain ⟨f1, f2, f3, f4, _⟩ := startWorking_fields p
  unfold SpiDriver_Params_t.nextLayer
  simp only [SpiDriver_Params_t.withCurrentLayer, SpiDriver_Params_t.withContState, f1, f2, f3,
    f4, hw]
  by_cases he : (p.sceneCurrentLayer + 1) % 65536 ≥ p.sceneLayersAmount
  · rw [if_pos he, if_pos he, if_pos he]
    exact ⟨rfl, rfl, rfl, rfl, rfl⟩
  · rw [if_neg he, if_neg he, if_neg he]
    exact ⟨rfl, rfl, rfl, rfl, rfl⟩

/-- The function `spiCom_SetDev` succeeds when the two HAL functions it calls do. -/
theorem spiCom_SetDev_ok {σ : Type} (hal : DevHal σ)
    (hspi : ∀ (d : σ) (devId : Nat), (hal.spiDriver_SpiSetDev d devId).1 = SPI_DRV_FUNC_RES_OK)
    (hpin : ∀ (d : σ) (devId : Nat), (hal.spiDriver_PinSetDev d devId).1 = SPI_DRV_FUNC_RES_OK)
    (d : σ) (devId : Nat) : (spiCom_SetDev hal devId d).1 = SPI_DRV_FUNC_RES_OK := by
  unfold spiCom_SetDev
  simp only []
  rw [hspi, hpin]
  rfl

/-- The loop of `spiDriver_getSingleSyncStep` when every device selection succeeds: after
the devices `0 .. n-1` the result is OK and the devices ticked are the active ones among
them, in index order. -/
theorem spiDriver_getSingleSyncStep_loop_ticked {σ : Type} (hal : DevHal σ) (icCount : Nat)
    (lightControl : Bool) (heap : Nat → TickHeap) (s : StepState σ)
    (hsel : ∀ (d : σ) (devId : Nat), (spiCom_SetDev hal devId d).1 = SPI_DRV_FUNC_RES_OK) :
    ∀ (n : Nat) (res : FuncResult_e) (sn : StepState σ),
      forIc n (fun ic (r : Option (FuncResult_e × StepState σ)) =>
        r.bind (fun t =>
          if t.1 = SPI_DRV_FUNC_RES_OK then
            spiDriver_getSingleSyncStep_body hal icCount lightControl (heap ic) ic t.2
          else some t)) (some (SPI_DRV_FUNC_RES_OK, s)) = some (res, sn) →
      res = SPI_DRV_FUNC_RES_OK
      ∧ sn.ticked = s.ticked
          ++ (List.range n).filter (fun j => decide (tickActive s.spiDriver_currentState j))
    := by
  intro n
  induction n with
  | zero =>
    intro res sn h
    rw [forIc_zero] at h
    simp only [Option.some.injEq, Prod.mk.injEq] at h
    obtain ⟨h1, h2⟩ := h
    subst h1
    subst h2
    exact ⟨rfl, by simp⟩
  | succ n ih =>
    intro res sn h
    have hres := (spiDriver_getSingleSyncStep_loop hal icCount lightControl heap s (n + 1)
      res sn h).choose_spec.2.2.2.2.2.2.2.2 (Or.inr hsel)
    refine ⟨hres, ?_⟩
    rw [forIc_succ] at h
    obtain ⟨t, ht, hb⟩ := Option.bind_eq_some.mp h
    obtain ⟨hok, htick⟩ := ih t.1 t.2 ht
    obtain ⟨new, i1, i2, _, i4, _⟩ :=
      spiDriver_getSingleSyncStep_loop hal icCount lightControl heap s n t.1 t.2 ht
    have hn : n ∉ new := fun hmem => Nat.lt_irrefl n (i2 n hmem).1
    have hpn := i4 n hn
    rw [if_pos hok] at hb
    rw [List.range_succ, List.filter_append]
    by_cases hact : tickActive t.2.spiDriver_currentState n
    · have hact0 : tickActive s.spiDriver_currentState n :=
        (tickActive_congr _ _ n hpn).mp hact
      obtain ⟨_, _, _, b4, _⟩ :=
        spiDriver_getSingleSyncStep_body_active hal icCount lightControl (heap n) n t.2 hact
          res sn hb
      rw [b4, htick, List.append_assoc]
      simp [hact0]
    · have hact0 : ¬ tickActive s.spiDriver_currentState n := fun h0 =>
        hact ((tickActive_congr _ _ n hpn).mpr h0)
      rw [spiDriver_getSingleSyncStep_body_skip hal icCount lightControl (heap n) n t.2 hact]
        at hb
      simp only [Option.some.injEq, Prod.mk.injEq] at hb
      rw [← hb.2, htick]
      simp [hact0]

/-- C34: on a HAL whose device selection succeeds, as `spiDriver_SpiSetDev` and
`spiDriver_PinSetDev` are documented to do, and whatever the transfers return, one call of
`spiDriver_getSingleSyncStep` returns when the tick of every device in the phase Started,
Working or Finished is defined, and when it returns, the result is `SPI_DRV_FUNC_RES_OK`
and: the ticked devices are exactly the configured devices that were in one of these phases
on entry, in index order; each of them has made exactly one step of its layer cursor (the
cursor incremented, or set to 0 with the phase Finished when it has reached the layer count,
the phase Working otherwise); every other device, in particular every device that is Idle on
entry, has its parameters, with the phase and the layer cursor, unchanged; and the batch
grows by the records of the ticked devices only, two or one for each, in order, so no record
is appended for an idle device. -/
theorem spiDriver_getSingleSyncStep_advances {σ : Type} (hal : DevHal σ) (icCount : Nat)
    (lightControl : Bool) (heap : Nat → TickHeap) (s : StepState σ) (hs : s.ticked = [])
    (hspi : ∀ (d : σ) (devId : Nat), (hal.spiDriver_SpiSetDev d devId).1 = SPI_DRV_FUNC_RES_OK)
    (hpin : ∀ (d : σ) (devId : Nat), (hal.spiDriver_PinSetDev d devId).1 = SPI_DRV_FUNC_RES_OK)
    :
    ((∀ j, j < icCount → tickActive s.spiDriver_currentState j →
        tickDefined s.spiDriver_currentState j) →
      (spiDriver_getSingleSyncStep hal icCount lightControl heap s).isSome = true)
    ∧ ∀ (res : FuncResult_e) (s' : StepState σ),
      spiDriver_getSingleSyncStep hal icCount lightControl heap s = some (res, s') →
      res = SPI_DRV_FUNC_RES_OK
      ∧ s'.ticked
        = (List.range icCount).filter (fun j => decide (tickActive s.spiDriver_currentState j))
      ∧ (∀ ic, ic < icCount → tickActive s.spiDriver_currentState ic →
          ic ∈ s'.ticked
          ∧ s'.spiDriver_currentState.params ic
            = (s.spiDriver_currentState.params ic).startWorking.nextLayer
          ∧ (s'.spiDriver_currentState.params ic).sceneCurrentLayer
            = (if ((s.spiDriver_currentState.params ic).sceneCurrentLayer + 1) % 65536
                  ≥ (s.spiDriver_currentState.params ic).sceneLayersAmount then 0
              else ((s.spiDriver_currentState.params ic).sceneCurrentLayer + 1) % 65536)
          ∧ (s'.spiDriver_currentState.params ic).contState
            = (if ((s.spiDriver_currentState.params ic).sceneCurrentLayer + 1) % 65536
                  ≥ (s.spiDriver_currentState.params ic).sceneLayersAmount
              then CONT_MODE_STATE_FINISHED else CONT_MODE_STATE_WORKING))
      ∧ (∀ ic, (s.spiDriver_currentState.params ic).contState = CONT_MODE_STATE_IDLE →
          ic ∉ s'.ticked
          ∧ s'.spiDriver_currentState.params ic = s.spiDriver_currentState.params ic)
      ∧ (∀ ic, ic ∉ s'.ticked →
          s'.spiDriver_currentState.params ic = s.spiDriver_currentState.params ic)
      ∧ ∃ recs : List spiDriver_ChipData_t, s'.chipData = s.chipData ++ recs
          ∧ recs.map (fun c => c.chip_id)
            = (s'.ticked.map (fun j =>
                List.replicate (tickRecords (currentLayer s.spiDriver_currentState j))
                  (s.spiDriver_currentState.params j).icIndex)).flatten := by
  have hsel := spiCom_SetDev_ok hal hspi hpin
  refine ⟨spiDriver_getSingleSyncStep_loop_isSome hal icCount lightControl heap s icCount, ?_⟩
  intro res s' h
  obtain ⟨new, i1, i2, i3, i4, _, i6, _, i8, _⟩ :=
    spiDriver_getSingleSyncStep_loop hal icCount lightControl heap s icCount res s' h
  obtain ⟨hok, htick⟩ :=
    spiDriver_getSingleSyncStep_loop_ticked hal icCount lightControl heap s hsel icCount res s' h
  rw [hs, List.nil_append] at i1 htick
  rw [← htick, i1]
  have hidle : ∀ ic, (s.spiDriver_currentState.params ic).contState = CONT_MODE_STATE_IDLE →
      ic ∉ new := by
    intro ic h0 hmem
    have hact := (i2 ic hmem).2.1
    unfold tickActive at hact
    rw [h0] at hact
    exact absurd hact (by decide)
  refine ⟨hok, rfl, ?_, fun ic h0 => ⟨hidle ic h0, i4 ic (hidle ic h0)⟩, i4, i8⟩
  intro ic hic hact
  have hmem := i6 hok ic hic hact
  obtain ⟨n1, n2, _⟩ := nextLayer_startWorking_fields (s.spiDriver_currentState.params ic) hact
  refine ⟨hmem, i3 ic hmem, ?_, ?_⟩
  · rw [i3 ic hmem, n1]
  · rw [i3 ic hmem, n2]

set_option maxRecDepth 100000 in
/-- C34 (witness): on the bus `stopHal`, on which every selection succeeds and every data
transfer is answered by a status packet that is no data response, the step from `stepStart`
returns `SPI_DRV_FUNC_RES_OK` and ticks the two Working devices 0 and 2: the device 0 goes
from the layer 0 to the layer 1, the device 2 from the layer 1 back to the layer 0 of its two
layers; the idle device 1 keeps its parameters, and the batch gets two records of the
device 10 and one of the device 12. -/
theorem spiDriver_getSingleSyncStep_advances_witness :
    (spiDriver_getSingleSyncStep stopHal 3 false (fun _ => zeroHeap)
      (stepStart { sel := 0, log := [] })).isSome = true
    ∧ (stepResult stopHal).1 = SPI_DRV_FUNC_RES_OK
    ∧ (stepResult stopHal).2.ticked = [0, 2]
    ∧ ((stepResult stopHal).2.spiDriver_currentState.params 0).sceneCurrentLayer = 1
    ∧ ((stepResult stopHal).2.spiDriver_currentState.params 2).sceneCurrentLayer = 0
    ∧ (1 ∉ (stepResult stopHal).2.ticked
      ∧ (stepResult stopHal).2.spiDriver_currentState.params 1
        = (stepStart { sel := 0, log := [] }).spiDriver_currentState.params 1)
    ∧ (stepResult stopHal).2.chipData.map (fun c => (c.chip_id, c.dataFormat))
      = [(10, CHIP_DATA_TRACE), (10, CHIP_DATA_META_ONLY), (12, FMT_ECHO_SHORT)] :=
  have hsome := (spiDriver_getSingleSyncStep_advances stopHal 3 false (fun _ => zeroHeap)
    (stepStart { sel := 0, log := [] }) rfl (fun _ _ => rfl) (fun _ _ => rfl)).1 (by decide)
  have hres := some_getD_of_isSome _
    (SPI_DRV_FUNC_RES_OK, stepStart { sel := 0, log := [] }) hsome
  have hall := (spiDriver_getSingleSyncStep_advances stopHal 3 false (fun _ => zeroHeap)
    (stepStart { sel := 0, log := [] }) rfl (fun _ _ => rfl) (fun _ _ => rfl)).2
    (stepResult stopHal).1 (stepResult stopHal).2 hres
  ⟨hsome, hall.1, hall.2.1.trans (by decide),
    (hall.2.2.1 0 (by decide) (by decide)).2.2.1.trans (by decide),
    (hall.2.2.1 2 (by decide) (by decide)).2.2.1.trans (by decide),
    hall.2.2.2.1 1 rfl, by decide⟩

/-- The two exchanges of one transaction of `spiCom_Read` add two entries to the trace, the
first for the slot 0 and the second for the slot 1 of the transaction. -/
theorem spiCom_Read_exchanges_trace {σ : Type} (hal : Hal σ) (xactNum sizeXact : Nat)
    (st : ReadState σ) :
    ∃ e1 e2, (spiCom_Read_exchanges hal xactNum sizeXact st).trace = st.trace ++ [e1, e2]
      ∧ e1.xactNum = xactNum ∧ e1.slot = 0 ∧ e2.xactNum = xactNum ∧ e2.slot = 1 := by
  have h1 : ∃ e1, (spiCom_Read_packet1 hal xactNum sizeXact st).trace = st.trace ++ [e1]
      ∧ e1.xactNum = xactNum ∧ e1.slot = 0 := by
    unfold spiCom_Read_packet1
    simp only []
    exact (checkResponse_trace xactNum 0 8 STATUS_SHORT 2 _).imp
      (fun e h => ⟨h.1, h.2.1, h.2.2.1⟩)
  have h2 : ∀ c2 : Checked σ, ∃ e2, (spiCom_Read_packet2 hal xactNum sizeXact c2).trace
      = c2.trace ++ [e2] ∧ e2.xactNum = xactNum ∧ e2.slot = 1 := by
    intro c2
    unfold spiCom_Read_packet2
    by_cases h : sizeXact < 3
    · simp only [if_pos h]
      exact (checkResponse_trace xactNum 1 8 READ_DATA_RESP_SHORT sizeXact _).imp
        (fun e h => ⟨h.1, h.2.1, h.2.2.1⟩)
    · simp only [if_neg h]
      exact (checkResponse_trace xactNum 1 ((sizeXact + 2) * 2) READ_DATA_RESP_LONG
        sizeXact _).imp (fun e h => ⟨h.1, h.2.1, h.2.2.1⟩)
  obtain ⟨e1, t1, a1, b1⟩ := h1
  obtain ⟨e2, t2, a2, b2⟩ := h2 (spiCom_Read_packet1 hal xactNum sizeXact st)
  refine ⟨e1, e2, ?_, a1, b1, a2, b2⟩
  unfold spiCom_Read_exchanges
  rw [t2, t1, List.append_assoc]
  rfl

/-- The trace of the loop of `spiCom_Read` over a transport that delivers every response: two
exchanges, of the slots 0 and 1, for each of the transactions `1 .. n`. -/
theorem spiCom_Read_loop_trace {σ : Type} (hal : Hal σ) (N : Nat) (init : ReadState σ)
    (hhal : ∀ s d l, 0 ≤ (hal.spiDriver_SpiWriteAndRead s d l).1) (n : Nat) :
    ∃ st, spiCom_Read_loop hal (N / MAX_RW_SIZE) (numXactPartialOf (N % MAX_RW_SIZE))
        (N % MAX_RW_SIZE) init n = some st
      ∧ st.trace.map (fun e => (e.xactNum, e.slot))
        = init.trace.map (fun e => (e.xactNum, e.slot))
          ++ ((List.range n).map (fun k => [(k + 1, (0 : Fin 2)), (k + 1, (1 : Fin 2))])).flatten
    := by
  induction n with
  | zero => exact ⟨init, rfl, by simp⟩
  | succ n ih =>
    obtain ⟨st, hst, htr⟩ := ih
    have hm := spiCom_Read_exchanges_misoWords hal (n + 1)
      (sizeXactOf (N / MAX_RW_SIZE) (numXactPartialOf (N % MAX_RW_SIZE)) (N % MAX_RW_SIZE)
        (n + 1)) st hhal
    obtain ⟨e1, e2, ht, a1, b1, a2, b2⟩ := spiCom_Read_exchanges_trace hal (n + 1)
      (sizeXactOf (N / MAX_RW_SIZE) (numXactPartialOf (N % MAX_RW_SIZE)) (N % MAX_RW_SIZE)
        (n + 1)) st
    refine ⟨_, (spiCom_Read_loop_succ hal _ _ _ init st n hst).trans
      (spiCom_Read_body_eq hal _ _ _ (n + 1) st hm), ?_⟩
    show List.map (fun e => (e.xactNum, e.slot)) (spiCom_Read_exchanges hal (n + 1)
      (sizeXactOf (N / MAX_RW_SIZE) (numXactPartialOf (N % MAX_RW_SIZE)) (N % MAX_RW_SIZE)
        (n + 1)) st).trace = _
    rw [ht, List.map_append, htr, List.range_succ, List.map_append, List.flatten_append,
      List.append_assoc]
    simp only [List.map_cons, List.map_nil, List.flatten_cons, List.flatten_nil,
      List.append_nil, a1, b1, a2, b2]

/-- C7: over a transport that delivers every response, that is whose
`spiDriver_SpiWriteAndRead` returns a status that is not negative as every value of
`FuncResult_e` is, `spiCom_Read` returns; its result is `SPI_DRV_FUNC_RES_OK` or
`SPI_DRV_FUNC_RES_FAIL_COMM`; it is `SPI_DRV_FUNC_RES_OK` exactly when every packet exchange
has a non-negative HAL status and a response that passes `validatePkt`; and the exchanges are
the two exchanges, of the slots 0 and 1, of each of the
`N / 256 + (1 if N mod 256 > 0)` transactions, in order. -/
theorem spiCom_Read_ok_iff_exchanges_pass {σ : Type} (hal : Hal σ) (offset N : Nat)
    (readWords : WordBuf) (st : ComState σ)
    (hhal : ∀ s d l, 0 ≤ (hal.spiDriver_SpiWriteAndRead s d l).1) :
    ∃ out, spiCom_Read hal offset N readWords st = some out
      ∧ (out.res = SPI_DRV_FUNC_RES_OK ∨ out.res = SPI_DRV_FUNC_RES_FAIL_COMM)
      ∧ (out.res = SPI_DRV_FUNC_RES_OK ↔ ∀ e ∈ out.trace, e.passed)
      ∧ out.trace.map (fun e => (e.xactNum, e.slot))
        = ((List.range (N / MAX_RW_SIZE + numXactPartialOf (N % MAX_RW_SIZE))).map
            (fun k => [(k + 1, (0 : Fin 2)), (k + 1, (1 : Fin 2))])).flatten := by
  obtain ⟨out, hout, hinv, _, _⟩ := spiCom_Read_loop_inv hal N
    { res := SPI_DRV_FUNC_RES_OK, misoWords := false, rptr := 0, offsetXact := offset,
      readWords := readWords,
      com := { diagDetails := clearDiagDetails, pktWords := st.pktWords,
               payload := st.payload, dev := st.dev },
      trace := [] }
    hhal TraceInv_nil rfl (N / MAX_RW_SIZE + numXactPartialOf (N % MAX_RW_SIZE)) (le_refl _)
  obtain ⟨out2, hout2, htr⟩ := spiCom_Read_loop_trace hal N
    { res := SPI_DRV_FUNC_RES_OK, misoWords := false, rptr := 0, offsetXact := offset,
      readWords := readWords,
      com := { diagDetails := clearDiagDetails, pktWords := st.pktWords,
               payload := st.payload, dev := st.dev },
      trace := [] }
    hhal (N / MAX_RW_SIZE + numXactPartialOf (N % MAX_RW_SIZE))
  have e : out2 = out := Option.some.inj (hout2.symm.trans hout)
  rw [e] at htr
  refine ⟨out, hout, hinv.1, hinv.2, ?_⟩
  rw [htr]
  rfl

set_option maxRecDepth 100000 in
/-- C7 (witness): a read of 300 words from the simulated device, whose transport returns the
status 0: with sound responses the four exchanges of the two transactions pass and the result
is `SPI_DRV_FUNC_RES_OK`; with a corrupted CRC in every data response the result of a read of
one word is `SPI_DRV_FUNC_RES_FAIL_COMM`. -/
theorem spiCom_Read_ok_iff_exchanges_pass_witness :
    (∃ out, spiCom_Read (simHal false) 0x1000 300 zeroBuf (initCom (simDev (fun i => i)))
          = some out
        ∧ (out.res = SPI_DRV_FUNC_RES_OK ∨ out.res = SPI_DRV_FUNC_RES_FAIL_COMM)
        ∧ (out.res = SPI_DRV_FUNC_RES_OK ↔ ∀ e ∈ out.trace, e.passed)
        ∧ out.trace.map (fun e => (e.xactNum, e.slot))
          = [(1, (0 : Fin 2)), (1, (1 : Fin 2)), (2, (0 : Fin 2)), (2, (1 : Fin 2))])
    ∧ (spiCom_Read (simHal true) 0x1000 1 zeroBuf (initCom (simDev (fun _ => 0xBEEF)))).map
        (fun s => s.res) = some SPI_DRV_FUNC_RES_FAIL_COMM :=
  ⟨spiCom_Read_ok_iff_exchanges_pass (simHal false) 0x1000 300 zeroBuf
      (initCom (simDev (fun i => i)))
      (fun s d l => le_of_eq (simHal_status false s d l).symm),
    by decide⟩

theorem callbackCount_append (a b : List ContAction) :
    callbackCount (a ++ b) = callbackCount a + callbackCount b := by
  unfold callbackCount
  rw [List.filter_append, List.length_append]

theorem callbackCount_NoCalls (l : List ContAction) (h : NoCalls l) : callbackCount l = 0 := by
  unfold callbackCount
  rw [List.length_eq_zero, List.filter_eq_nil_iff]
  intro a ha
  rcases h a ha with ⟨ic, rfl⟩ | ⟨t, c, rfl⟩
  · simp
  · simp

/-- The per-device stop clears a last-request flag only where it leaves a stop mark. -/
theorem contModeExecute_stopOne_marks {σ : Type} (hal : DevHal σ) (icIdx : Nat)
    (s : ContModeState σ) :
    ∃ l, (contModeExecute_stopOne hal icIdx s).out = s.out ++ l ∧ OnlyStops l
      ∧ ∀ k, (contModeExecute_stopOne hal icIdx s).lastRequest k ≠ s.lastRequest k →
          ContAction.stopIssued k ∈ l := by
  unfold contModeExecute_stopOne
  simp only []
  by_cases h1 : (s.spiDriver_currentState.params icIdx).contState = CONT_MODE_STATE_FINISHED
  · rw [if_pos h1]
    by_cases h2 : (spiDriver_StopContinuousModeInt hal icIdx s.spiDriver_currentState s.com).1
        = SPI_DRV_FUNC_RES_OK
    · rw [if_pos h2]
      refine ⟨[ContAction.stopIssued icIdx], rfl, OnlyStops_single _, ?_⟩
      intro k hk
      by_cases hki : k = icIdx
      · rw [hki]
        exact List.mem_singleton.mpr rfl
      · exact absurd (Function.update_noteq hki _ _) hk
    · rw [if_neg h2]
      exact ⟨[], (List.append_nil _).symm, OnlyStops_nil, fun k hk => absurd rfl hk⟩
  · rw [if_neg h1]
    exact ⟨[], (List.append_nil _).symm, OnlyStops_nil, fun k hk => absurd rfl hk⟩

theorem contModeExecute_stopAll_body_marks {σ : Type} (hal : DevHal σ) (icIdx ic : Nat)
    (s : ContModeState σ) :
    ∃ l, (contModeExecute_stopAll_body hal icIdx ic s).out = s.out ++ l ∧ OnlyStops l
      ∧ ∀ k, (contModeExecute_stopAll_body hal icIdx ic s).lastRequest k ≠ s.lastRequest k →
          ContAction.stopIssued k ∈ l := by
  unfold contModeExecute_stopAll_body
  simp only []
  by_cases h2 : (spiDriver_StopContinuousModeInt hal ic s.spiDriver_currentState s.com).1
      = SPI_DRV_FUNC_RES_OK
  · rw [if_pos h2]
    refine ⟨[ContAction.stopIssued ic], rfl, OnlyStops_single _, ?_⟩
    intro k hk
    by_cases hki : k = ic
    · rw [hki]
      exact List.mem_singleton.mpr rfl
    · exact absurd (Function.update_noteq hki _ _) hk
  · rw [if_neg h2]
    exact ⟨[], (List.append_nil _).symm, OnlyStops_nil, fun k hk => absurd rfl hk⟩

theorem contModeExecute_stopAll_marks {σ : Type} (hal : DevHal σ) (icCount icIdx : Nat)
    (s : ContModeState σ) :
    ∃ l, (contModeExecute_stopAll hal icCount icIdx s).out = s.out ++ l ∧ OnlyStops l
      ∧ ∀ k, (contModeExecute_stopAll hal icCount icIdx s).lastRequest k ≠ s.lastRequest k →
          ContAction.stopIssued k ∈ l := by
  unfold contModeExecute_stopAll
  simp only []
  have hloop : ∀ n, ∃ l, (forIc n (contModeExecute_stopAll_body hal icIdx) s).out = s.out ++ l
      ∧ OnlyStops l
      ∧ ∀ k, (forIc n (contModeExecute_stopAll_body hal icIdx) s).lastRequest k
            ≠ s.lastRequest k → ContAction.stopIssued k ∈ l := by
    intro n
    induction n with
    | zero => exact ⟨[], (List.append_nil _).symm, OnlyStops_nil, fun k hk => absurd rfl hk⟩
    | succ j ih =>
      obtain ⟨l, hl, hs, hm⟩ := ih
      rw [forIc_succ]
      obtain ⟨l2, hl2, hs2, hm2⟩ := contModeExecute_stopAll_body_marks hal icIdx j
        (forIc j (contModeExecute_stopAll_body hal icIdx) s)
      refine ⟨l ++ l2, ?_, OnlyStops_append _ _ hs hs2, ?_⟩
      · rw [hl2, hl, List.append_assoc]
      · intro k hk
        by_cases hmid : (forIc j (contModeExecute_stopAll_body hal icIdx) s).lastRequest k
            = s.lastRequest k
        · rw [← hmid] at hk
          exact List.mem_append_right _ (hm2 k hk)
        · exact List.mem_append_left _ (hm k hmid)
  obtain ⟨l, hl, hs, hm⟩ := hloop icCount
  generalize forIc icCount _ s = t at hl hm
  by_cases h1 : (t.spiDriver_currentState.params icIdx).sceneLayersAmount = 1
  · rw [if_pos h1]
    exact ⟨l, hl, hs, hm⟩
  · rw [if_neg h1]
    exact ⟨l, hl, hs, hm⟩

/-- The loop over the records of a batch appends only stop marks to the actions, and a
last-request flag that it changes is the flag of a device whose stop mark it appends. -/
theorem contModeExecute_records_marks {σ : Type} (cfg : ContModeCfg_t) (hal : DevHal σ)
    (icCount rbufCmd : Nat) (chipData : List spiDriver_ChipData_t) :
    ∀ (newRequest : Bool) (s : ContModeState σ),
      ∃ l, (contModeExecute_records cfg hal icCount rbufCmd chipData newRequest s).2.out
          = s.out ++ l ∧ OnlyStops l
        ∧ ∀ k, (contModeExecute_records cfg hal icCount rbufCmd chipData newRequest
              s).2.lastRequest k ≠ s.lastRequest k → ContAction.stopIssued k ∈ l := by
  induction chipData with
  | nil =>
    intro nr s
    exact ⟨[], (List.append_nil _).symm, OnlyStops_nil, fun k hk => absurd rfl hk⟩
  | cons rec rest ih =>
    intro nr s
    unfold contModeExecute_records
    simp only []
    split_ifs
    · exact ih _ _
    · exact ih _ _
    · obtain ⟨l1, h1, hs1, hm1⟩ := contModeExecute_stopOne_marks hal
        (spiDriver_GetIcIndexById icCount s.spiDriver_currentState rec.chip_id) s
      obtain ⟨l2, h2, hs2, hm2⟩ := ih true (contModeExecute_stopOne hal
        (spiDriver_GetIcIndexById icCount s.spiDriver_currentState rec.chip_id) s)
      refine ⟨l1 ++ l2, ?_, OnlyStops_append _ _ hs1 hs2, ?_⟩
      · rw [h2, h1, List.append_assoc]
      · intro k hk
        by_cases hmid : (contModeExecute_stopOne hal
            (spiDriver_GetIcIndexById icCount s.spiDriver_currentState rec.chip_id)
            s).lastRequest k = s.lastRequest k
        · rw [← hmid] at hk
          exact List.mem_append_right _ (hm2 k hk)
        · exact List.mem_append_left _ (hm1 k hmid)
    · exact contModeExecute_stopAll_marks hal icCount _ s
    · exact ih _ _
    · exact ih _ _

/-- The actions of one data-ready event with a registered callback: the stop marks of the
record loop, which hold the mark of every device whose last-request flag the event changes,
and then actions with exactly one call of the callback. -/
theorem contModeExecute_dataReady_marks {σ : Type} (cfg : ContModeCfg_t) (hal : DevHal σ)
    (icCount rbufCmd : Nat) (chipData : List spiDriver_ChipData_t) (u : ContModeState σ)
    (cb : List spiDriver_ChipData_t → Nat) (hcb : cfg.callback = some cb) :
    ∃ l m, (contModeExecute_dataReady cfg hal icCount rbufCmd chipData u).2.out
        = u.out ++ l ++ m
      ∧ OnlyStops l ∧ callbackCount m = 1
      ∧ ∀ k, (contModeExecute_dataReady cfg hal icCount rbufCmd chipData u).2.lastRequest k
            ≠ u.lastRequest k → ContAction.stopIssued k ∈ l := by
  obtain ⟨f1, _⟩ := contModeExecute_dataReady_fields cfg hal icCount rbufCmd chipData u
  obtain ⟨l, hl, hs, hm⟩ : ∃ l, (contModeExecute_dataReady_records cfg hal icCount rbufCmd
      chipData u).2.out = u.out ++ l ∧ OnlyStops l
      ∧ ∀ k, (contModeExecute_dataReady_records cfg hal icCount rbufCmd chipData
            u).2.lastRequest k ≠ u.lastRequest k → ContAction.stopIssued k ∈ l := by
    unfold contModeExecute_dataReady_records
    exact contModeExecute_records_marks cfg hal icCount rbufCmd chipData false _
  rw [← f1] at hm
  generalize hR : contModeExecute_dataReady_records cfg hal icCount rbufCmd chipData u = R
    at hl
  refine ⟨l, (if R.1 then [ContAction.msgsnd CONT_MODE_REQUEST_DATA CONT_MODE_WORK] else [])
    ++ [ContAction.udpCallback chipData, ContAction.callback chipData]
    ++ List.replicate (zeroPendingCount icCount R.2.contModePendingSteps)
      (ContAction.msgsnd CONT_MODE_FEEDBACK CONT_MODE_IDLE), ?_, hs, ?_, hm⟩
  · unfold contModeExecute_dataReady contModeExecute_dataReady_callbacks
    simp only [hR, hcb, contModeExecute_idle_eq, hl]
    split_ifs <;> simp
  · rw [callbackCount_append, callbackCount_append,
      callbackCount_NoCalls _ (NoCalls_request _ _ _),
      callbackCount_NoCalls _ (NoCalls_replicate _ _ _)]
    rfl

/-- Every data-ready event of a sequence calls a registered callback once. -/
theorem contModeExecute_events_callbacks {σ : Type} (cfg : ContModeCfg_t) (hal : DevHal σ)
    (icCount : Nat) (cb : List spiDriver_ChipData_t → Nat) (hcb : cfg.callback = some cb)
    (evs : List ((SpiDriver_State_t → SpiDriver_State_t) × DataReady)) :
    ∀ (u : ContModeState σ),
      ∃ m, (contModeExecute_events cfg hal icCount evs u).out = u.out ++ m
        ∧ callbackCount m = evs.length := by
  induction evs with
  | nil =>
    intro u
    exact ⟨[], (List.append_nil _).symm, rfl⟩
  | cons e rest ih =>
    intro u
    obtain ⟨l, m, h1, hs, hc, _⟩ := contModeExecute_dataReady_marks cfg hal icCount e.2.cmd
      e.2.chipData (u.withShared e.1) cb hcb
    obtain ⟨m2, h2, hc2⟩ := ih (contModeExecute_dataReady cfg hal icCount e.2.cmd e.2.chipData
      (u.withShared e.1)).2
    refine ⟨l ++ m ++ m2, ?_, ?_⟩
    · simp only [contModeExecute_events]
      rw [h2, h1]
      simp only [ContModeState.withShared, List.append_assoc]
    · rw [callbackCount_append, callbackCount_append,
        callbackCount_NoCalls _ (NoCalls_of_OnlyStops _ hs), hc, hc2, List.length_cons]
      omega

/-- The pending-steps value of a device after the data-ready event that stops it, with the
conditions under which it then runs out undisturbed. -/
theorem contModeExecute_stop_event_pending {σ : Type} (cfg : ContModeCfg_t) (hal : DevHal σ)
    (icCount : Nat) (s : ContModeState σ) (ev : DataReady) (ic : Nat)
    (hlast : s.lastRequest ic = true)
    (hstop : (contModeExecute_dataReady cfg hal icCount ev.cmd ev.chipData s).2.lastRequest ic
      = false)
    (hmode : (cfg.useAsyncSequence = true
        ∧ 1 ≤ (s.spiDriver_currentState.params ic).sceneLayersAmount
        ∧ (s.spiDriver_currentState.params ic).sceneLayersAmount ≤ 32)
      ∨ (cfg.useAsyncSequence = false
        ∧ (∀ k < icCount, (s.spiDriver_currentState.params k).sceneLayersAmount ≠ 1)
        ∧ ∀ k < icCount,
            (contModeExecute_dataReady cfg hal icCount ev.cmd ev.chipData s).2.lastRequest k
              = false)) :
    (contModeExecute_dataReady cfg hal icCount ev.cmd ev.chipData s).2.contModePendingSteps ic
      = drainCount cfg.useAsyncSequence (s.spiDriver_currentState.params ic).sceneLayersAmount
    ∧ 0 < drainCount cfg.useAsyncSequence
        (s.spiDriver_currentState.params ic).sceneLayersAmount
    ∧ drainCount cfg.useAsyncSequence (s.spiDriver_currentState.params ic).sceneLayersAmount
        < CONT_MODE_MAX_PENDING
    ∧ DrainFlags cfg icCount ic
        (contModeExecute_dataReady cfg hal icCount ev.cmd ev.chipData s).2
    ∧ (contModeExecute_dataReady cfg hal icCount ev.cmd ev.chipData s).2.contModeThread ic
      = s.contModeThread ic := by
  obtain ⟨f1, _, f3, f4, _⟩ := contModeExecute_dataReady_fields cfg hal icCount ev.cmd
    ev.chipData s
  have hlr : (contModeExecute_dataReady_records cfg hal icCount ev.cmd ev.chipData
      s).2.lastRequest ic = false := by
    rw [← f1]
    exact hstop
  have hthread : (contModeExecute_dataReady_records cfg hal icCount ev.cmd ev.chipData
      s).2.contModeThread = s.contModeThread := by
    unfold contModeExecute_dataReady_records
    exact (contModeExecute_records_frame cfg hal icCount ev.cmd ev.chipData false _).1
  have hpend : (contModeExecute_dataReady_records cfg hal icCount ev.cmd ev.chipData
      s).2.contModePendingSteps ic
      = drainCount cfg.useAsyncSequence (s.spiDriver_currentState.params ic).sceneLayersAmount
      ∧ 0 < drainCount cfg.useAsyncSequence
          (s.spiDriver_currentState.params ic).sceneLayersAmount
      ∧ drainCount cfg.useAsyncSequence (s.spiDriver_currentState.params ic).sceneLayersAmount
          < CONT_MODE_MAX_PENDING := by
    unfold contModeExecute_dataReady_records at hlr ⊢
    rcases hmode with ⟨ha, hL1, hL2⟩ | ⟨ha, hL, _⟩
    · obtain ⟨_, _, _, d⟩ := contModeExecute_records_async cfg hal icCount ev.cmd ev.chipData ha
        false
        { contModeThread := s.contModeThread
          contModePendingSteps := contModeExecute_decrement icCount s.contModePendingSteps
          lastRequest := s.lastRequest
          looping := s.looping
          spiDriver_currentState := s.spiDriver_currentState
          com := s.com
          out := s.out }
      simp only [] at d
      have hd : drainCount cfg.useAsyncSequence
          (s.spiDriver_currentState.params ic).sceneLayersAmount
          = max (s.spiDriver_currentState.params ic).sceneLayersAmount 2 := by
        unfold drainCount
        rw [ha]
        rfl
      rcases d ic with ⟨e1, _⟩ | ⟨_, _, e3⟩
      · rw [hlr, hlast] at e1
        exact absurd e1 (by decide)
      · rw [e3, stopPending_eq _ hL1 hL2, hd]
        refine ⟨rfl, ?_, ?_⟩
        · omega
        · show max (s.spiDriver_currentState.params ic).sceneLayersAmount 2 < 100
          omega
    · have hd : drainCount cfg.useAsyncSequence
          (s.spiDriver_currentState.params ic).sceneLayersAmount = 1 := by
        unfold drainCount
        rw [ha]
        rfl
      rw [hd]
      refine ⟨?_, by decide, by decide⟩
      rcases contModeExecute_records_sync cfg hal icCount ev.cmd ev.chipData ha false
        { contModeThread := s.contModeThread
          contModePendingSteps := contModeExecute_decrement icCount s.contModePendingSteps
          lastRequest := s.lastRequest
          looping := s.looping
          spiDriver_currentState := s.spiDriver_currentState
          com := s.com
          out := s.out } with h | ⟨icIdx, h1, _, h3⟩
      · rw [h] at hlr
        simp only [] at hlr
        rw [hlast] at hlr
        exact absurd hlr (by decide)
      · rw [h3] at hlr ⊢
        rcases contModeExecute_stopAll_spec hal icCount icIdx
          { contModeThread := s.contModeThread
            contModePendingSteps := contModeExecute_decrement icCount s.contModePendingSteps
            lastRequest := s.lastRequest
            looping := s.looping
            spiDriver_currentState := s.spiDriver_currentState
            com := s.com
            out := s.out } (hL icIdx h1) ic
          with ⟨_, _, g3⟩ | ⟨g1, _⟩
        · exact g3
        · rw [hlr] at g1
          simp only [] at g1
          rw [hlast] at g1
          exact absurd g1 (by decide)
  obtain ⟨hp1, hp2, hp3⟩ := hpend
  have hnz : ¬ (ic < icCount ∧ (contModeExecute_dataReady_records cfg hal icCount ev.cmd
      ev.chipData s).2.contModePendingSteps ic = 0) := by
    rw [hp1]
    omega
  refine ⟨?_, hp2, hp3, ?_, ?_⟩
  · rw [f3 ic, if_neg hnz, hp1]
  · rcases hmode with ⟨ha, _, _⟩ | ⟨ha, _, hall⟩
    · exact Or.inl ⟨ha, hstop⟩
    · exact Or.inr ⟨ha, hall⟩
  · rw [f4 ic, if_neg hnz, hthread]

/-- C13 (amended): let a callback be registered and let the last-request flag of a
configured device `ic` be set before a data-ready event and clear after it. Then the
device-level stop of `ic` is issued in the record loop of this event (its stop mark is among
the actions of the event), and the actions of the event after the mark hold exactly one call
of the callback. In the per-device mode, for a scene of L layers (1 <= L <= 32), let
`N = max(L, 2)`; in the synchronized mode, when no configured device has a scene of exactly
one layer and all flags are clear after the event, let `N = 1`. In every sequence of
following data-ready events, the first `j` of them call the callback exactly `j` times, the
mode of `ic` is after `j < N` events still its mode from before the stop, and at the end of
the `N`-th event the device has the mode `CONT_MODE_IDLE`: between the stop and the switch to
idle the callback is called `1 + N` times, that is `1 + max(L, 2)`, at least 3, in the
per-device mode and 2 in the synchronized mode. -/
theorem contModeExecute_callbacks_after_stop {σ : Type} (cfg : ContModeCfg_t) (hal : DevHal σ)
    (icCount : Nat) (s : ContModeState σ) (ev : DataReady) (ic : Nat)
    (evs : List ((SpiDriver_State_t → SpiDriver_State_t) × DataReady))
    (cb : List spiDriver_ChipData_t → Nat)
    (hcb : cfg.callback = some cb)
    (hic : ic < icCount)
    (hlast : s.lastRequest ic = true)
    (hstop : (contModeExecute_dataReady cfg hal icCount ev.cmd ev.chipData s).2.lastRequest ic
      = false)
    (hmode : (cfg.useAsyncSequence = true
        ∧ 1 ≤ (s.spiDriver_currentState.params ic).sceneLayersAmount
        ∧ (s.spiDriver_currentState.params ic).sceneLayersAmount ≤ 32)
      ∨ (cfg.useAsyncSequence = false
        ∧ (∀ k < icCount, (s.spiDriver_currentState.params k).sceneLayersAmount ≠ 1)
        ∧ ∀ k < icCount,
            (contModeExecute_dataReady cfg hal icCount ev.cmd ev.chipData s).2.lastRequest k
              = false)) :
    (∃ l1 l2, (contModeExecute_dataReady cfg hal icCount ev.cmd ev.chipData s).2.out
        = s.out ++ l1 ++ ContAction.stopIssued ic :: l2
      ∧ OnlyStops l1 ∧ callbackCount l2 = 1)
    ∧ (∀ j, j ≤ evs.length →
        ∃ m, (contModeExecute_events cfg hal icCount (evs.take j)
            (contModeExecute_dataReady cfg hal icCount ev.cmd ev.chipData s).2).out
          = (contModeExecute_dataReady cfg hal icCount ev.cmd ev.chipData s).2.out ++ m
          ∧ callbackCount m = j)
    ∧ (∀ j, j < drainCount cfg.useAsyncSequence
          (s.spiDriver_currentState.params ic).sceneLayersAmount → j ≤ evs.length →
        (contModeExecute_events cfg hal icCount (evs.take j)
          (contModeExecute_dataReady cfg hal icCount ev.cmd ev.chipData s).2).contModeThread ic
          = s.contModeThread ic)
    ∧ (drainCount cfg.useAsyncSequence (s.spiDriver_currentState.params ic).sceneLayersAmount
          ≤ evs.length →
        (contModeExecute_events cfg hal icCount
          (evs.take (drainCount cfg.useAsyncSequence
            (s.spiDriver_currentState.params ic).sceneLayersAmount))
          (contModeExecute_dataReady cfg hal icCount ev.cmd ev.chipData s).2).contModeThread ic
          = CONT_MODE_IDLE)
    ∧ drainCount cfg.useAsyncSequence (s.spiDriver_currentState.params ic).sceneLayersAmount
      = (if cfg.useAsyncSequence = true then
          max (s.spiDriver_currentState.params ic).sceneLayersAmount 2 else 1) := by
  obtain ⟨hpost, hp2, hp3, hflags, hthread⟩ :=
    contModeExecute_stop_event_pending cfg hal icCount s ev ic hlast hstop hmode
  have hrun := contModeExecute_drain_run cfg hal icCount ic hic evs _ _ hpost hp2 hp3 hflags
  refine ⟨?_, ?_, ?_, ?_, ?_⟩
  · obtain ⟨l, m, h1, hs, hc, hm⟩ := contModeExecute_dataReady_marks cfg hal icCount ev.cmd
      ev.chipData s cb hcb
    have hne : (contModeExecute_dataReady cfg hal icCount ev.cmd ev.chipData s).2.lastRequest ic
        ≠ s.lastRequest ic := by
      rw [hstop, hlast]
      decide
    obtain ⟨l1, l2, hl⟩ := List.append_of_mem (hm ic hne)
    refine ⟨l1, l2 ++ m, ?_, ?_, ?_⟩
    · rw [h1, hl]
      simp only [List.append_assoc, List.cons_append]
    · intro a ha
      exact hs a (by
        rw [hl]
        exact List.mem_append_left _ ha)
    · have hl2 : NoCalls l2 := by
        intro a ha
        exact Or.inl (hs a (by
          rw [hl]
          exact List.mem_append_right _ (List.mem_cons_of_mem _ ha)))
      rw [callbackCount_append, callbackCount_NoCalls _ hl2, hc]
  · intro j hj
    obtain ⟨m, h1, h2⟩ := contModeExecute_events_callbacks cfg hal icCount cb hcb (evs.take j)
      (contModeExecute_dataReady cfg hal icCount ev.cmd ev.chipData s).2
    refine ⟨m, h1, ?_⟩
    rw [h2, List.length_take]
    omega
  · intro j hj hjl
    rw [(hrun.1 j hj hjl).2, hthread]
  · intro hle
    exact (hrun.2 hle).1
  · unfold drainCount
    cases cfg.useAsyncSequence <;> rfl

set_option maxRecDepth 100000 in
/-- C13 (witness): two working devices with scenes of three layers, both finished and asked
to stop, with the callback `stopCallback`. In the per-device mode the stop of device 0 is
issued in the event and followed there by one call of the callback, the three following
events call it three times, the device is still working after two of them and idle after the
third: 4 = 1 + max(3, 2) calls after the stop. In the synchronized mode the device is idle
after one further event: 2 calls after the stop. -/
theorem contModeExecute_callbacks_after_stop_witness :
    ((∃ l1 l2, (contModeExecute_dataReady (contCfg true) stopHal 2 twoDeviceBatch.cmd
          twoDeviceBatch.chipData stopRequested).2.out
          = stopRequested.out ++ l1 ++ ContAction.stopIssued 0 :: l2
        ∧ OnlyStops l1 ∧ callbackCount l2 = 1)
      ∧ (∃ m, (contModeExecute_events (contCfg true) stopHal 2
            ((List.replicate 3 (id, twoDeviceBatch)).take 3)
            (contModeExecute_dataReady (contCfg true) stopHal 2 twoDeviceBatch.cmd
              twoDeviceBatch.chipData stopRequested).2).out
          = (contModeExecute_dataReady (contCfg true) stopHal 2 twoDeviceBatch.cmd
              twoDeviceBatch.chipData stopRequested).2.out ++ m
          ∧ callbackCount m = 3)
      ∧ (contModeExecute_events (contCfg true) stopHal 2
          ((List.replicate 3 (id, twoDeviceBatch)).take 2)
          (contModeExecute_dataReady (contCfg true) stopHal 2 twoDeviceBatch.cmd
            twoDeviceBatch.chipData stopRequested).2).contModeThread 0 = CONT_MODE_WORK
      ∧ (contModeExecute_events (contCfg true) stopHal 2
          ((List.replicate 3 (id, twoDeviceBatch)).take 3)
          (contModeExecute_dataReady (contCfg true) stopHal 2 twoDeviceBatch.cmd
            twoDeviceBatch.chipData stopRequested).2).contModeThread 0 = CONT_MODE_IDLE
      ∧ callbackCount (afterStop 0 (contModeExecute_events (contCfg true) stopHal 2
          ((List.replicate 3 (id, twoDeviceBatch)).take 3)
          (contModeExecute_dataReady (contCfg true) stopHal 2 twoDeviceBatch.cmd
            twoDeviceBatch.chipData stopRequested).2).out) = 4)
    ∧ ((∃ m, (contModeExecute_events (contCfg false) stopHal 2
            ((List.replicate 3 (id, twoDeviceBatch)).take 1)
            (contModeExecute_dataReady (contCfg false) stopHal 2 twoDeviceBatch.cmd
              twoDeviceBatch.chipData stopRequested).2).out
          = (contModeExecute_dataReady (contCfg false) stopHal 2 twoDeviceBatch.cmd
              twoDeviceBatch.chipData stopRequested).2.out ++ m
          ∧ callbackCount m = 1)
      ∧ (contModeExecute_events (contCfg false) stopHal 2
          ((List.replicate 3 (id, twoDeviceBatch)).take 1)
          (contModeExecute_dataReady (contCfg false) stopHal 2 twoDeviceBatch.cmd
            twoDeviceBatch.chipData stopRequested).2).contModeThread 0 = CONT_MODE_IDLE
      ∧ callbackCount (afterStop 0 (contModeExecute_events (contCfg false) stopHal 2
          ((List.replicate 3 (id, twoDeviceBatch)).take 1)
          (contModeExecute_dataReady (contCfg false) stopHal 2 twoDeviceBatch.cmd
            twoDeviceBatch.chipData stopRequested).2).out) = 2) :=
  have hasync := contModeExecute_callbacks_after_stop (contCfg true) stopHal 2 stopRequested
    twoDeviceBatch 0 (List.replicate 3 (id, twoDeviceBatch)) stopCallback rfl (by decide)
    (by decide) (by decide) (Or.inl ⟨by decide, by decide, by decide⟩)
  have hsync := contModeExecute_callbacks_after_stop (contCfg false) stopHal 2 stopRequested
    twoDeviceBatch 0 (List.replicate 3 (id, twoDeviceBatch)) stopCallback rfl (by decide)
    (by decide) (by decide) (Or.inr ⟨by decide, by decide, by decide⟩)
  ⟨⟨hasync.1, hasync.2.1 3 (by decide),
      (hasync.2.2.1 2 (by decide) (by decide)).trans (by decide),
      hasync.2.2.2.1 (by decide), by decide⟩,
    ⟨hsync.2.1 1 (by decide), hsync.2.2.2.1 (by decide), by decide⟩⟩

end Mlx75322
